import Mathlib

/-!
# grblCR (CoastRunner CR1 firmware, ATmega328P): realtime executor and limits

A shallow embedding of the parts of `protocol.c`, `system.c`, `limits.c` and
`spindle_control.c` that the checked properties talk about.

Conventions of the embedding:

* `uint8_t` words are natural numbers combined with the bitwise operators;
  `x &= ~mask` on an 8-bit word is `x &&& (255 ^^^ mask)`.
* `float` values that are only compared are `CFloat` (rationals plus NaN and
  the two infinities, compared as IEEE-754 does); `float` values that are
  computed with are rationals (exact arithmetic).
* Calls into modules whose source is not part of `src/` (stepper, planner,
  g-code parser, report printer) are recorded, in order, in `Machine.trace`.
* The volatile flag word `sys_rt_exec_state` is only re-read inside waiting
  loops; what the interrupt handlers OR into it between two polls is given by
  an environment `env : Nat → Nat` indexed by `Machine.clock`.
-/

namespace GrblCR

/-! ## Bit helpers (`nuts_bolts.h`) -/

/-- Modelled from the spec: `nuts_bolts.h` is not among the sources; `bit(n)` is
the single-bit mask `1 << n`, the way `protocol.c` and `settings.h` use it. -/
def bit (n : Nat) : Nat := 1 <<< n

/-- Modelled from the spec: macro `bit_true(x,mask)`, i.e. `x |= mask`. -/
@[simp] def bit_true (x mask : Nat) : Nat := x ||| mask

/-- Modelled from the spec: macro `bit_false(x,mask)`, i.e. `x &= ~mask` on an
8-bit word. -/
@[simp] def bit_false (x mask : Nat) : Nat := x &&& (255 ^^^ mask)

/-- Modelled from the spec: macro `bit_istrue(x,mask)`, i.e. `(x & mask) != 0`. -/
@[simp] def bit_istrue (x mask : Nat) : Bool := (x &&& mask) != 0

/-- Modelled from the spec: macro `bit_isfalse(x,mask)`, i.e. `(x & mask) == 0`. -/
@[simp] def bit_isfalse (x mask : Nat) : Bool := (x &&& mask) == 0

/-- Modelled from the spec: `N_AXIS` of `nuts_bolts.h`; the controller has three
linear axes X, Y, Z (indices 0, 1, 2). -/
def N_AXIS : Nat := 3

/-! ## Floating point values that are only compared -/

/-- A C `float` as far as comparisons see it: NaN, the infinities, or a finite
value (a rational; `+0.0` and `-0.0` compare equal and are both `fin 0`). -/
inductive CFloat where
  | nan : CFloat
  | ninf : CFloat
  | fin (q : ℚ) : CFloat
  | pinf : CFloat
  deriving DecidableEq

/-- IEEE-754 `a < b`: false as soon as one operand is NaN. -/
def CFloat.lt : CFloat → CFloat → Bool
  | .nan, _ => false
  | _, .nan => false
  | .ninf, .ninf => false
  | .ninf, _ => true
  | _, .ninf => false
  | .pinf, _ => false
  | .fin _, .pinf => true
  | .fin a, .fin b => decide (a < b)

/-- IEEE-754 `a > b`. -/
def CFloat.gt (a b : CFloat) : Bool := CFloat.lt b a

/-! ## `system.c`: travel limits -/

/-- `system_check_travel_limits(target)` (system.c 300-308): the `for` loop over
the axes returns `true` at the first axis whose target is above zero or below
`settings.max_travel[idx]`, and `false` when it runs to the end. -/
def system_check_travel_limits (max_travel : Nat → CFloat) (target : Nat → CFloat) : Bool :=
  (List.range N_AXIS).any fun idx =>
    (target idx).gt (.fin 0) || (target idx).lt (max_travel idx)

/-! ## Constants of headers that are not among the sources -/

/-- Names of the `STATE_*` bit flags of `sys.state` (`STATE_IDLE` is not a flag:
it is the value zero). -/
inductive StateFlag where
  | ALARM | CHECK_MODE | HOMING | CYCLE | HOLD | JOG | SLEEP
  deriving DecidableEq, Fintype

/-- Names of the `EXEC_*` bit flags of `sys_rt_exec_state`. -/
inductive ExecFlag where
  | STATUS_REPORT | CYCLE_START | CYCLE_STOP | FEED_HOLD | RESET | MOTION_CANCEL | SLEEP
  deriving DecidableEq, Fintype

/-- Names of the `SUSPEND_*` bit flags of `sys.suspend`. -/
inductive SuspendFlag where
  | HOLD_COMPLETE | RESTART_RETRACT | RETRACT_COMPLETE | INITIATE_RESTORE
  | RESTORE_COMPLETE | MOTION_CANCEL | JOG_CANCEL
  deriving DecidableEq, Fintype

/-- Names of the `STEP_CONTROL_*` bit flags of `sys.step_control`. -/
inductive StepControlFlag where
  | EXECUTE_HOLD | EXECUTE_SYS_MOTION | UPDATE_SPINDLE_PWM
  deriving DecidableEq, Fintype

/-- Names of the `SPINDLE_STOP_OVR_*` bit flags of `sys.spindle_stop_ovr`. -/
inductive SpindleStopFlag where
  | ENABLED | INITIATE | RESTORE | RESTORE_CYCLE
  deriving DecidableEq, Fintype

/-- Names of the bit flags of `sys_rt_exec_motion_override`. -/
inductive MotionOvrFlag where
  | FEED_OVR_RESET | FEED_OVR_COARSE_PLUS | FEED_OVR_COARSE_MINUS | FEED_OVR_FINE_PLUS
  | FEED_OVR_FINE_MINUS | RAPID_OVR_RESET | RAPID_OVR_MEDIUM | RAPID_OVR_LOW
  deriving DecidableEq, Fintype

/-- Names of the bit flags of `sys_rt_exec_accessory_override`. -/
inductive AccessoryOvrFlag where
  | SPINDLE_OVR_RESET | SPINDLE_OVR_COARSE_PLUS | SPINDLE_OVR_COARSE_MINUS
  | SPINDLE_OVR_FINE_PLUS | SPINDLE_OVR_FINE_MINUS | SPINDLE_OVR_STOP
  deriving DecidableEq, Fintype

/-- Modelled from the spec: `system.h`, `planner.h` and `spindle_control.h` are
not among the sources, so the values they give to the flags are parameters.
Every flag of the five `sys` / realtime words is a single bit `bit(n)`; the
record holds the bit number `n` of each flag. The planner condition flags and
the spindle state codes are plain values. -/
structure SystemH where
  state : StateFlag → Nat
  exec : ExecFlag → Nat
  suspend : SuspendFlag → Nat
  step_control : StepControlFlag → Nat
  spindle_stop : SpindleStopFlag → Nat
  motion_ovr : MotionOvrFlag → Nat
  accessory_ovr : AccessoryOvrFlag → Nat
  PL_COND_FLAG_SPINDLE_CW : Nat
  PL_COND_FLAG_SPINDLE_CCW : Nat
  PL_COND_SPINDLE_MASK : Nat
  SPINDLE_DISABLE : Nat
  SPINDLE_ENABLE_CW : Nat

/-- The header is well formed: within each word the flags sit on pairwise
different bits, and every bit number is one of an 8-bit word. -/
structure SystemH.WF (K : SystemH) : Prop where
  state_inj : Function.Injective K.state
  state_lt : ∀ f, K.state f < 8
  exec_inj : Function.Injective K.exec
  exec_lt : ∀ f, K.exec f < 8
  suspend_inj : Function.Injective K.suspend
  suspend_lt : ∀ f, K.suspend f < 8
  step_control_inj : Function.Injective K.step_control
  step_control_lt : ∀ f, K.step_control f < 8
  spindle_stop_inj : Function.Injective K.spindle_stop
  spindle_stop_lt : ∀ f, K.spindle_stop f < 8
  motion_ovr_inj : Function.Injective K.motion_ovr
  motion_ovr_lt : ∀ f, K.motion_ovr f < 8
  accessory_ovr_inj : Function.Injective K.accessory_ovr
  accessory_ovr_lt : ∀ f, K.accessory_ovr f < 8

/-- `STATE_IDLE`: the value zero (system.c 83 tests `if (sys.state)` for
"not idle"). -/
@[simp] def STATE_IDLE : Nat := 0
/-- `SUSPEND_DISABLE`: the value zero (`while (sys.suspend)` in protocol.c 444). -/
@[simp] def SUSPEND_DISABLE : Nat := 0
/-- `STEP_CONTROL_NORMAL_OP`: no step-control flag set. -/
@[simp] def STEP_CONTROL_NORMAL_OP : Nat := 0
/-- `SPINDLE_STOP_OVR_DISABLED`: no spindle-stop flag set (protocol.c 502). -/
@[simp] def SPINDLE_STOP_OVR_DISABLED : Nat := 0

namespace SystemH
variable (K : SystemH)

@[simp] def STATE_ALARM : Nat := bit (K.state .ALARM)
@[simp] def STATE_CHECK_MODE : Nat := bit (K.state .CHECK_MODE)
@[simp] def STATE_HOMING : Nat := bit (K.state .HOMING)
@[simp] def STATE_CYCLE : Nat := bit (K.state .CYCLE)
@[simp] def STATE_HOLD : Nat := bit (K.state .HOLD)
@[simp] def STATE_JOG : Nat := bit (K.state .JOG)
@[simp] def STATE_SLEEP : Nat := bit (K.state .SLEEP)

@[simp] def EXEC_STATUS_REPORT : Nat := bit (K.exec .STATUS_REPORT)
@[simp] def EXEC_CYCLE_START : Nat := bit (K.exec .CYCLE_START)
@[simp] def EXEC_CYCLE_STOP : Nat := bit (K.exec .CYCLE_STOP)
@[simp] def EXEC_FEED_HOLD : Nat := bit (K.exec .FEED_HOLD)
@[simp] def EXEC_RESET : Nat := bit (K.exec .RESET)
@[simp] def EXEC_MOTION_CANCEL : Nat := bit (K.exec .MOTION_CANCEL)
@[simp] def EXEC_SLEEP : Nat := bit (K.exec .SLEEP)

@[simp] def SUSPEND_HOLD_COMPLETE : Nat := bit (K.suspend .HOLD_COMPLETE)
@[simp] def SUSPEND_RESTART_RETRACT : Nat := bit (K.suspend .RESTART_RETRACT)
@[simp] def SUSPEND_RETRACT_COMPLETE : Nat := bit (K.suspend .RETRACT_COMPLETE)
@[simp] def SUSPEND_INITIATE_RESTORE : Nat := bit (K.suspend .INITIATE_RESTORE)
@[simp] def SUSPEND_RESTORE_COMPLETE : Nat := bit (K.suspend .RESTORE_COMPLETE)
@[simp] def SUSPEND_MOTION_CANCEL : Nat := bit (K.suspend .MOTION_CANCEL)
@[simp] def SUSPEND_JOG_CANCEL : Nat := bit (K.suspend .JOG_CANCEL)

@[simp] def STEP_CONTROL_EXECUTE_HOLD : Nat := bit (K.step_control .EXECUTE_HOLD)
@[simp] def STEP_CONTROL_EXECUTE_SYS_MOTION : Nat := bit (K.step_control .EXECUTE_SYS_MOTION)
@[simp] def STEP_CONTROL_UPDATE_SPINDLE_PWM : Nat := bit (K.step_control .UPDATE_SPINDLE_PWM)

@[simp] def SPINDLE_STOP_OVR_ENABLED : Nat := bit (K.spindle_stop .ENABLED)
@[simp] def SPINDLE_STOP_OVR_INITIATE : Nat := bit (K.spindle_stop .INITIATE)
@[simp] def SPINDLE_STOP_OVR_RESTORE : Nat := bit (K.spindle_stop .RESTORE)
@[simp] def SPINDLE_STOP_OVR_RESTORE_CYCLE : Nat := bit (K.spindle_stop .RESTORE_CYCLE)

@[simp] def EXEC_FEED_OVR_RESET : Nat := bit (K.motion_ovr .FEED_OVR_RESET)
@[simp] def EXEC_FEED_OVR_COARSE_PLUS : Nat := bit (K.motion_ovr .FEED_OVR_COARSE_PLUS)
@[simp] def EXEC_FEED_OVR_COARSE_MINUS : Nat := bit (K.motion_ovr .FEED_OVR_COARSE_MINUS)
@[simp] def EXEC_FEED_OVR_FINE_PLUS : Nat := bit (K.motion_ovr .FEED_OVR_FINE_PLUS)
@[simp] def EXEC_FEED_OVR_FINE_MINUS : Nat := bit (K.motion_ovr .FEED_OVR_FINE_MINUS)
@[simp] def EXEC_RAPID_OVR_RESET : Nat := bit (K.motion_ovr .RAPID_OVR_RESET)
@[simp] def EXEC_RAPID_OVR_MEDIUM : Nat := bit (K.motion_ovr .RAPID_OVR_MEDIUM)
@[simp] def EXEC_RAPID_OVR_LOW : Nat := bit (K.motion_ovr .RAPID_OVR_LOW)

@[simp] def EXEC_SPINDLE_OVR_RESET : Nat := bit (K.accessory_ovr .SPINDLE_OVR_RESET)
@[simp] def EXEC_SPINDLE_OVR_COARSE_PLUS : Nat := bit (K.accessory_ovr .SPINDLE_OVR_COARSE_PLUS)
@[simp] def EXEC_SPINDLE_OVR_COARSE_MINUS : Nat := bit (K.accessory_ovr .SPINDLE_OVR_COARSE_MINUS)
@[simp] def EXEC_SPINDLE_OVR_FINE_PLUS : Nat := bit (K.accessory_ovr .SPINDLE_OVR_FINE_PLUS)
@[simp] def EXEC_SPINDLE_OVR_FINE_MINUS : Nat := bit (K.accessory_ovr .SPINDLE_OVR_FINE_MINUS)
@[simp] def EXEC_SPINDLE_OVR_STOP : Nat := bit (K.accessory_ovr .SPINDLE_OVR_STOP)

end SystemH

/-- The flag layout of Grbl 1.1 (`system.h`, `planner.h`, `spindle_control.h`
of the upstream project), used to instantiate the parameters on concrete
inputs. -/
def grbl11 : SystemH where
  state := fun
    | .ALARM => 0 | .CHECK_MODE => 1 | .HOMING => 2 | .CYCLE => 3
    | .HOLD => 4 | .JOG => 5 | .SLEEP => 7
  exec := fun
    | .STATUS_REPORT => 0 | .CYCLE_START => 1 | .CYCLE_STOP => 2 | .FEED_HOLD => 3
    | .RESET => 4 | .MOTION_CANCEL => 6 | .SLEEP => 7
  suspend := fun
    | .HOLD_COMPLETE => 0 | .RESTART_RETRACT => 1 | .RETRACT_COMPLETE => 2
    | .INITIATE_RESTORE => 3 | .RESTORE_COMPLETE => 4 | .MOTION_CANCEL => 6
    | .JOG_CANCEL => 7
  step_control := fun
    | .EXECUTE_HOLD => 1 | .EXECUTE_SYS_MOTION => 2 | .UPDATE_SPINDLE_PWM => 3
  spindle_stop := fun
    | .ENABLED => 0 | .INITIATE => 1 | .RESTORE => 2 | .RESTORE_CYCLE => 3
  motion_ovr := fun
    | .FEED_OVR_RESET => 0 | .FEED_OVR_COARSE_PLUS => 1 | .FEED_OVR_COARSE_MINUS => 2
    | .FEED_OVR_FINE_PLUS => 3 | .FEED_OVR_FINE_MINUS => 4 | .RAPID_OVR_RESET => 5
    | .RAPID_OVR_MEDIUM => 6 | .RAPID_OVR_LOW => 7
  accessory_ovr := fun
    | .SPINDLE_OVR_RESET => 0 | .SPINDLE_OVR_COARSE_PLUS => 1
    | .SPINDLE_OVR_COARSE_MINUS => 2 | .SPINDLE_OVR_FINE_PLUS => 3
    | .SPINDLE_OVR_FINE_MINUS => 4 | .SPINDLE_OVR_STOP => 5
  PL_COND_FLAG_SPINDLE_CW := 16
  PL_COND_FLAG_SPINDLE_CCW := 32
  PL_COND_SPINDLE_MASK := 48
  SPINDLE_DISABLE := 0
  SPINDLE_ENABLE_CW := 16

/-- Modelled from the spec: the alarm codes of section 6 ("Alarm codes:
HARD_LIMIT (1), SOFT_LIMIT (2), ABORT_CYCLE (3), ... HOMING_FAIL_APPROACH (8)"). -/
def EXEC_ALARM_HARD_LIMIT : Nat := 1
/-- Modelled from the spec: alarm code SOFT_LIMIT (2). -/
def EXEC_ALARM_SOFT_LIMIT : Nat := 2
/-- Modelled from the spec: alarm code ABORT_CYCLE (3). -/
def EXEC_ALARM_ABORT_CYCLE : Nat := 3
/-- Modelled from the spec: alarm code HOMING_FAIL_RESET (6). -/
def EXEC_ALARM_HOMING_FAIL_RESET : Nat := 6
/-- Modelled from the spec: alarm code HOMING_FAIL_PULLOFF (7). -/
def EXEC_ALARM_HOMING_FAIL_PULLOFF : Nat := 7
/-- Modelled from the spec: alarm code HOMING_FAIL_APPROACH (8). -/
def EXEC_ALARM_HOMING_FAIL_APPROACH : Nat := 8

/-! ## `config.h` and `cpu_map.h` -/

def DEFAULT_FEED_OVERRIDE : Nat := 100
def MAX_FEED_RATE_OVERRIDE : Nat := 200
def MIN_FEED_RATE_OVERRIDE : Nat := 10
def FEED_OVERRIDE_COARSE_INCREMENT : Nat := 10
def FEED_OVERRIDE_FINE_INCREMENT : Nat := 1
def DEFAULT_RAPID_OVERRIDE : Nat := 100
def RAPID_OVERRIDE_MEDIUM : Nat := 50
def RAPID_OVERRIDE_LOW : Nat := 25
def DEFAULT_SPINDLE_SPEED_OVERRIDE : Nat := 100
def MAX_SPINDLE_SPEED_OVERRIDE : Nat := 200
def MIN_SPINDLE_SPEED_OVERRIDE : Nat := 10
def SPINDLE_OVERRIDE_COARSE_INCREMENT : Nat := 10
def SPINDLE_OVERRIDE_FINE_INCREMENT : Nat := 1
def REPORT_WCO_REFRESH_BUSY_COUNT : Nat := 30
def REPORT_WCO_REFRESH_IDLE_COUNT : Nat := 10

def SPINDLE_DIRECTION_BIT : Nat := 5
def SPINDLE_HALL_DISABLE_BIT : Nat := 3
def SPINDLE_HALL_DISABLE_MASK : Nat := 1 <<< SPINDLE_HALL_DISABLE_BIT
def SPINDLE_PWM_MAX_VALUE : Nat := 255
def SPINDLE_PWM_MIN_VALUE : Nat := 1
def SPINDLE_PWM_OFF_VALUE : Nat := 0
/-- `SPINDLE_COMB_BIT` is `COM2A1`, bit 7 of `TCCR2A` on the ATmega328P
(the value comes from the AVR device header). -/
def SPINDLE_COMB_BIT : Nat := 7

/-! ## Machine state -/

/-- The fields of `system_t sys` that the embedded functions read or write. -/
structure system_t where
  state : Nat
  abort : Bool
  suspend : Nat
  soft_limit : Bool
  step_control : Nat
  homing_axis_lock : Nat
  f_override : Nat
  r_override : Nat
  spindle_speed_ovr : Nat
  spindle_stop_ovr : Nat
  report_ovr_counter : Nat
  report_wco_counter : Nat
  spindle_speed : ℚ
  deriving DecidableEq

/-- The fields of `settings_t settings` used by the spindle (settings.h 130-131). -/
structure settings_t where
  rpm_max : ℚ
  rpm_min : ℚ
  deriving DecidableEq

/-- The I/O registers written by `spindle_control.c`: `SPINDLE_DIRECTION_PORT`
is `PORTB`, `SPINDLE_HALL_DISABLE_DDR` is `DDRC`, `SPINDLE_TCCRA_REGISTER` is
`TCCR2A`, `SPINDLE_OCR_REGISTER` is `OCR2A`. -/
structure Regs where
  PORTB : Nat
  DDRC : Nat
  TCCR2A : Nat
  OCR2A : Nat
  deriving DecidableEq

/-- The part of the planner head block that `protocol_exec_rt_suspend` reads. -/
structure plan_block_t where
  condition : Nat
  spindle_speed : ℚ
  deriving DecidableEq

/-- Feedback messages passed to `report_feedback_message`. -/
inductive Message where
  | CRITICAL_EVENT | ALARM_LOCK | ALARM_UNLOCK | ENABLED | DISABLED
  | SLEEP_MODE | SPINDLE_RESTORE | RESTORE_DEFAULTS
  deriving DecidableEq

/-- Modelled from the spec: the status codes of `report.h`, which is not among
the sources (spec section 6: "Status codes are surfaced to the serial
stream"). They are kept symbolic; `STATUS_OK` is the code zero, the one that
`if(line_errors)` in protocol.c 90 takes for "no error". Codes that only the
g-code parser or the settings module return are `other`. -/
inductive Status where
  | OK | INVALID_STATEMENT | SETTING_DISABLED | SETTING_READ_FAIL | IDLE_ERROR
  | SYSTEM_GC_LOCK | OVERFLOW
  | other (code : Nat)
  deriving DecidableEq

/-- Modelled from the spec: the argument of `mc_homing_cycle` (the constants
`HOMING_CYCLE_ALL`, `HOMING_CYCLE_X`, ... of `motion_control.h`, which is not
among the sources). -/
inductive HomingCycle where
  | ALL | X | Y | Z
  deriving DecidableEq

/-- A call that leaves the embedded code: into the stepper, planner, g-code,
motion control and settings modules (not among the sources) or to a printing
routine of `report.c`. Calls of `spindle_set_state` and `mc_reset` are recorded
as well, with their arguments. Of the `plan_line_data_t` passed to
`plan_buffer_line` only `feed_rate` is recorded: limits.c passes the same
`condition` in every call and nothing else. -/
inductive Call where
  | report_alarm_message (alarm_code : Nat)
  | report_feedback_message (message_code : Message)
  | report_realtime_status
  | st_update_plan_block_parameters
  | st_prep_buffer
  | st_wake_up
  | st_go_idle
  | st_reset
  | st_set_power_level (level : Char)
  | plan_cycle_reinitialize
  | plan_reset
  | plan_sync_position
  | plan_update_velocity_profile_parameters
  | gc_sync_position
  | mc_reset
  | spindle_set_state (state : Nat) (rpm : ℚ)
  | plan_buffer_line (target : List ℚ) (feed_rate : ℚ)
  | delay_ms (ms : Nat)
  | report_status_message (status_code : Status)
  | report_echo_line_received (line : List Char)
  | report_execute_startup_message (line : List Char) (status_code : Status)
  | report_grbl_help
  | report_grbl_settings
  | report_gcode_modes
  | report_ngc_parameters
  | report_read_EEPROM
  | report_manf_notes
  | report_build_info
  | report_startup_line (n : Nat) (line : List Char)
  | gc_execute_line (line : List Char)
  | mc_homing_cycle (cycle_mask : HomingCycle)
  | mc_autolevel_X
  | mc_X_is_level
  | settings_store_manf_notes (line : List Char)
  | settings_store_build_info (line : List Char)
  | settings_restore (restore_flag : Nat)
  | settings_store_startup_line (n : ℤ) (line : List Char)
  | settings_store_global_setting (parameter value : ℚ)
  deriving DecidableEq

/-- Everything the embedded functions read or write: `sys`, the four volatile
realtime words, the spindle part of the parser state, settings and registers,
the head of the planner queue (`plan_get_current_block()`, `none` for `NULL`),
the trace of outgoing calls and the poll counter of the environment. -/
structure Machine where
  sys : system_t
  sys_rt_exec_state : Nat
  sys_rt_exec_alarm : Nat
  sys_rt_exec_motion_override : Nat
  sys_rt_exec_accessory_override : Nat
  gc_modal_spindle : Nat
  gc_spindle_speed : ℚ
  settings : settings_t
  pwm_gradient : ℚ
  regs : Regs
  plan_block : Option plan_block_t
  trace : List Call
  clock : Nat
  deriving DecidableEq

/-- How a call that may wait in a loop ends: it returned to its caller, or it
is still inside a waiting loop when the observation (the fuel) ends. Both carry
the machine state reached. -/
inductive Run where
  | returned (m : Machine)
  | blocked (m : Machine)
  deriving DecidableEq

/-- The machine state a run ended in. -/
def Run.machine : Run → Machine
  | .returned m => m
  | .blocked m => m

/-- Record an outgoing call. -/
@[simp] def call (c : Call) (m : Machine) : Machine := { m with trace := m.trace ++ [c] }

@[simp] def set_state (v : Nat) (m : Machine) : Machine := { m with sys := { m.sys with state := v } }
@[simp] def set_suspend (v : Nat) (m : Machine) : Machine := { m with sys := { m.sys with suspend := v } }
@[simp] def set_step_control (v : Nat) (m : Machine) : Machine :=
  { m with sys := { m.sys with step_control := v } }
@[simp] def set_spindle_stop_ovr (v : Nat) (m : Machine) : Machine :=
  { m with sys := { m.sys with spindle_stop_ovr := v } }
@[simp] def set_abort (v : Bool) (m : Machine) : Machine := { m with sys := { m.sys with abort := v } }
@[simp] def set_report_ovr_counter (v : Nat) (m : Machine) : Machine :=
  { m with sys := { m.sys with report_ovr_counter := v } }
@[simp] def set_spindle_speed (v : ℚ) (m : Machine) : Machine :=
  { m with sys := { m.sys with spindle_speed := v } }

/-- Write `sys.soft_limit`. -/
@[simp] def set_soft_limit (b : Bool) (m : Machine) : Machine :=
  { m with sys := { m.sys with soft_limit := b } }

/-- What the interrupt handlers did since the previous poll: they OR the bits
`env m.clock` into `sys_rt_exec_state` (spec section 3: "ISRs only OR bits in"). -/
@[simp] def isr_arrive (env : Nat → Nat) (m : Machine) : Machine :=
  { m with sys_rt_exec_state := m.sys_rt_exec_state ||| env m.clock, clock := m.clock + 1 }

/-! ## `system.c`: realtime flag handlers (312-366) -/

@[simp] def system_set_exec_state_flag (mask : Nat) (m : Machine) : Machine :=
  { m with sys_rt_exec_state := m.sys_rt_exec_state ||| mask }

@[simp] def system_clear_exec_state_flag (mask : Nat) (m : Machine) : Machine :=
  { m with sys_rt_exec_state := m.sys_rt_exec_state &&& (255 ^^^ mask) }

@[simp] def system_set_exec_alarm (code : Nat) (m : Machine) : Machine :=
  { m with sys_rt_exec_alarm := code }

@[simp] def system_clear_exec_alarm (m : Machine) : Machine :=
  { m with sys_rt_exec_alarm := 0 }

@[simp] def system_clear_exec_motion_overrides (m : Machine) : Machine :=
  { m with sys_rt_exec_motion_override := 0 }

@[simp] def system_clear_exec_accessory_overrides (m : Machine) : Machine :=
  { m with sys_rt_exec_accessory_override := 0 }

/-- The calls recorded between the machine state `m` and the later state `m'`. -/
def calls_since (m m' : Machine) : List Call := m'.trace.drop m.trace.length

/-! ## Modules that are not among the sources -/

/-- Modelled from the spec: `plan_get_current_block()` (spec 4.1: "head of
queue, or none") reads the head of the planner queue. -/
@[simp] def plan_get_current_block (m : Machine) : Option plan_block_t := m.plan_block

/-- Modelled from the spec: `plan_reset()` of the planner (spec 4.1), which
empties the planner queue. -/
@[simp] def plan_reset (m : Machine) : Machine := { call .plan_reset m with plan_block := none }

/-! ## `spindle_control.c` -/

/-- `spindle_stop()` (spindle_control.c 56-71). -/
def spindle_stop (m : Machine) : Machine :=
  let r := m.regs
  let r := { r with PORTB := r.PORTB ||| (1 <<< SPINDLE_DIRECTION_BIT) }
  let r := { r with PORTB := r.PORTB &&& (255 ^^^ (1 <<< SPINDLE_DIRECTION_BIT)) }
  let r := { r with TCCR2A := r.TCCR2A &&& (255 ^^^ (1 <<< SPINDLE_COMB_BIT)) }
  let r := { r with DDRC := r.DDRC ||| SPINDLE_HALL_DISABLE_MASK }
  { m with regs := r }

/-- `spindle_set_speed(pwm_value)` (spindle_control.c 75-84). -/
def spindle_set_speed (pwm_value : Nat) (m : Machine) : Machine :=
  let r := m.regs
  let r := { r with DDRC := r.DDRC &&& (255 ^^^ SPINDLE_HALL_DISABLE_MASK) }
  let r := { r with OCR2A := pwm_value }
  let r :=
    if pwm_value = SPINDLE_PWM_OFF_VALUE then
      { r with TCCR2A := r.TCCR2A &&& (255 ^^^ (1 <<< SPINDLE_COMB_BIT)) }
    else
      { r with TCCR2A := r.TCCR2A ||| (1 <<< SPINDLE_COMB_BIT) }
  { m with regs := r }

/-- `spindle_compute_pwm_value(rpm)` (spindle_control.c 87-112), over exact
arithmetic; the conversion of the computed value to `uint8_t` keeps its low
eight bits. Returns the new machine (`sys.spindle_speed` is written) and the
PWM value. -/
def spindle_compute_pwm_value (rpm : ℚ) (m : Machine) : Machine × Nat :=
  let rpm := rpm * ((1 / 100 : ℚ) * (m.sys.spindle_speed_ovr : ℚ))
  if m.settings.rpm_min ≥ m.settings.rpm_max ∨ rpm ≥ m.settings.rpm_max then
    (set_spindle_speed m.settings.rpm_max m, SPINDLE_PWM_MAX_VALUE)
  else if rpm ≤ m.settings.rpm_min then
    if rpm = 0 then
      (set_spindle_speed 0 m, SPINDLE_PWM_OFF_VALUE)
    else
      (set_spindle_speed m.settings.rpm_min m, SPINDLE_PWM_MIN_VALUE)
  else
    (set_spindle_speed rpm m,
      ((⌊(rpm - m.settings.rpm_min) * m.pwm_gradient⌋ + (SPINDLE_PWM_MIN_VALUE : ℤ)) % 256).toNat)

/-- `spindle_set_state(state, rpm)` (spindle_control.c 117-138). -/
def spindle_set_state (K : SystemH) (state : Nat) (rpm : ℚ) (m : Machine) : Machine :=
  let m := call (.spindle_set_state state rpm) m
  if m.sys.abort then m
  else
    let m := { m with regs := { m.regs with PORTB := m.regs.PORTB ||| (1 <<< SPINDLE_DIRECTION_BIT) } }
    let m := { m with regs :=
      { m.regs with PORTB := m.regs.PORTB &&& (255 ^^^ (1 <<< SPINDLE_DIRECTION_BIT)) } }
    let m :=
      if state = K.SPINDLE_DISABLE then
        spindle_stop (set_spindle_speed 0 m)
      else
        let m :=
          if state = K.SPINDLE_ENABLE_CW then
            { m with regs :=
              { m.regs with PORTB := m.regs.PORTB &&& (255 ^^^ (1 <<< SPINDLE_DIRECTION_BIT)) } }
          else
            { m with regs :=
              { m.regs with PORTB := m.regs.PORTB ||| (1 <<< SPINDLE_DIRECTION_BIT) } }
        spindle_set_speed (spindle_compute_pwm_value rpm m).2 (spindle_compute_pwm_value rpm m).1
    set_report_ovr_counter 0 m

/-! ## `report.c` -/

/-- `report_realtime_status()` (report.c 509-638) as far as it writes `sys`:
with `REPORT_FIELD_WORK_COORD_OFFSET` defined and `REPORT_FIELD_OVERRIDES` not
defined (config.h 179-180) it updates the two report counters; the printing is
recorded in the trace. -/
def report_realtime_status (K : SystemH) (m : Machine) : Machine :=
  let m := call .report_realtime_status m
  if m.sys.report_wco_counter > 0 then
    { m with sys := { m.sys with report_wco_counter := m.sys.report_wco_counter - 1 } }
  else
    let m :=
      if m.sys.state &&& (K.STATE_HOMING ||| K.STATE_CYCLE ||| K.STATE_HOLD ||| K.STATE_JOG) ≠ 0 then
        { m with sys := { m.sys with report_wco_counter := REPORT_WCO_REFRESH_BUSY_COUNT - 1 } }
      else
        { m with sys := { m.sys with report_wco_counter := REPORT_WCO_REFRESH_IDLE_COUNT - 1 } }
    if m.sys.report_ovr_counter = 0 then set_report_ovr_counter 1 m else m

/-! ## `protocol.c`: the realtime executor -/

/-- One pass through the body of the alarm loop (protocol.c 229-238), run on
the flags as they are after the interrupt handlers delivered `env`: a pending
status report is answered with the critical-event message and cleared. -/
def alarm_loop_body (K : SystemH) (env : Nat → Nat) (m : Machine) : Machine :=
  let m := isr_arrive env m
  if bit_istrue m.sys_rt_exec_state K.EXEC_STATUS_REPORT then
    system_clear_exec_state_flag K.EXEC_STATUS_REPORT
      (call (.report_feedback_message .CRITICAL_EVENT) m)
  else m

/-- The loop of protocol.c 228-239: `do { ... } while
(bit_isfalse(sys_rt_exec_state,EXEC_RESET))`. One unit of fuel is one pass.
The flag is `true` when the loop was left, `false` when the fuel ended inside
it. -/
def alarm_loop (K : SystemH) (env : Nat → Nat) : Nat → Machine → Machine × Bool
  | 0, m => (m, false)
  | fuel + 1, m =>
    let m := alarm_loop_body K env m
    if bit_isfalse m.sys_rt_exec_state K.EXEC_RESET then alarm_loop K env fuel m
    else (m, true)

/-- Protocol.c 254-257: status report. -/
def rt_status_report (K : SystemH) (rt_exec : Nat) (m : Machine) : Machine :=
  if rt_exec &&& K.EXEC_STATUS_REPORT ≠ 0 then
    system_clear_exec_state_flag K.EXEC_STATUS_REPORT (report_realtime_status K m)
  else m

/-- Protocol.c 261-302: motion cancel, feed hold and sleep. -/
def rt_hold (K : SystemH) (rt_exec : Nat) (m : Machine) : Machine :=
  if rt_exec &&& (K.EXEC_MOTION_CANCEL ||| K.EXEC_FEED_HOLD ||| K.EXEC_SLEEP) ≠ 0 then
    let m :=
      if ¬ (m.sys.state &&& (K.STATE_ALARM ||| K.STATE_CHECK_MODE) ≠ 0) then
        let m :=
          if m.sys.state &&& (K.STATE_CYCLE ||| K.STATE_JOG) ≠ 0 then
            if ¬ (m.sys.suspend &&& (K.SUSPEND_MOTION_CANCEL ||| K.SUSPEND_JOG_CANCEL) ≠ 0) then
              let m := call .st_update_plan_block_parameters m
              let m := set_step_control K.STEP_CONTROL_EXECUTE_HOLD m
              if m.sys.state = K.STATE_JOG then
                if ¬ (rt_exec &&& K.EXEC_SLEEP ≠ 0) then
                  set_suspend (m.sys.suspend ||| K.SUSPEND_JOG_CANCEL) m
                else m
              else m
            else m
          else m
        let m := if m.sys.state = STATE_IDLE then set_suspend K.SUSPEND_HOLD_COMPLETE m else m
        let m :=
          if rt_exec &&& K.EXEC_MOTION_CANCEL ≠ 0 then
            if ¬ (m.sys.state &&& K.STATE_JOG ≠ 0) then
              set_suspend (m.sys.suspend ||| K.SUSPEND_MOTION_CANCEL) m
            else m
          else m
        if rt_exec &&& K.EXEC_FEED_HOLD ≠ 0 then
          if ¬ (m.sys.state &&& (K.STATE_JOG ||| K.STATE_SLEEP) ≠ 0) then
            set_state K.STATE_HOLD m
          else m
        else m
      else m
    let m :=
      if rt_exec &&& K.EXEC_SLEEP ≠ 0 then
        let m :=
          if m.sys.state = K.STATE_ALARM then
            set_suspend
              (m.sys.suspend ||| (K.SUSPEND_RETRACT_COMPLETE ||| K.SUSPEND_HOLD_COMPLETE)) m
          else m
        set_state K.STATE_SLEEP m
      else m
    system_clear_exec_state_flag (K.EXEC_MOTION_CANCEL ||| K.EXEC_FEED_HOLD ||| K.EXEC_SLEEP) m
  else m

/-- Protocol.c 305-329: cycle start. -/
def rt_cycle_start (K : SystemH) (rt_exec : Nat) (m : Machine) : Machine :=
  if rt_exec &&& K.EXEC_CYCLE_START ≠ 0 then
    let m :=
      if ¬ (rt_exec &&& (K.EXEC_FEED_HOLD ||| K.EXEC_MOTION_CANCEL) ≠ 0) then
        if m.sys.state = STATE_IDLE ∨
            (m.sys.state &&& K.STATE_HOLD ≠ 0 ∧ m.sys.suspend &&& K.SUSPEND_HOLD_COMPLETE ≠ 0) then
          if m.sys.state = K.STATE_HOLD ∧ m.sys.spindle_stop_ovr ≠ 0 then
            set_spindle_stop_ovr (m.sys.spindle_stop_ovr ||| K.SPINDLE_STOP_OVR_RESTORE_CYCLE) m
          else
            let m := set_step_control STEP_CONTROL_NORMAL_OP m
            if (plan_get_current_block m).isSome ∧
                bit_isfalse m.sys.suspend K.SUSPEND_MOTION_CANCEL then
              let m := set_suspend SUSPEND_DISABLE m
              let m := set_state K.STATE_CYCLE m
              let m := call .st_prep_buffer m
              call .st_wake_up m
            else
              let m := set_suspend SUSPEND_DISABLE m
              set_state STATE_IDLE m
        else m
      else m
    system_clear_exec_state_flag K.EXEC_CYCLE_START m
  else m

/-- Protocol.c 331-357: cycle stop. -/
def rt_cycle_stop (K : SystemH) (rt_exec : Nat) (m : Machine) : Machine :=
  if rt_exec &&& K.EXEC_CYCLE_STOP ≠ 0 then
    let m :=
      if m.sys.state &&& (K.STATE_HOLD ||| K.STATE_SLEEP) ≠ 0 ∧ ¬ (m.sys.soft_limit = true) ∧
          ¬ (m.sys.suspend &&& K.SUSPEND_JOG_CANCEL ≠ 0) then
        let m := call Call.plan_cycle_reinitialize m
        let m :=
          if m.sys.step_control &&& K.STEP_CONTROL_EXECUTE_HOLD ≠ 0 then
            set_suspend (m.sys.suspend ||| K.SUSPEND_HOLD_COMPLETE) m
          else m
        set_step_control
          (bit_false m.sys.step_control
            (K.STEP_CONTROL_EXECUTE_HOLD ||| K.STEP_CONTROL_EXECUTE_SYS_MOTION)) m
      else
        let m :=
          if m.sys.suspend &&& K.SUSPEND_JOG_CANCEL ≠ 0 then
            let m := set_step_control STEP_CONTROL_NORMAL_OP m
            let m := plan_reset m
            let m := call .st_reset m
            let m := call .gc_sync_position m
            call .plan_sync_position m
          else m
        let m := set_suspend SUSPEND_DISABLE m
        set_state STATE_IDLE m
    system_clear_exec_state_flag K.EXEC_CYCLE_STOP m
  else m

/-- Protocol.c 365-372: the new feed override computed from the pending flags
`rt_exec` and the current value (`uint8_t` arithmetic wraps modulo 256). -/
def new_f_override (K : SystemH) (rt_exec : Nat) (f_override : Nat) : Nat :=
  let v := f_override
  let v := if rt_exec &&& K.EXEC_FEED_OVR_RESET ≠ 0 then DEFAULT_FEED_OVERRIDE else v
  let v :=
    if rt_exec &&& K.EXEC_FEED_OVR_COARSE_PLUS ≠ 0 then (v + FEED_OVERRIDE_COARSE_INCREMENT) % 256
    else v
  let v :=
    if rt_exec &&& K.EXEC_FEED_OVR_COARSE_MINUS ≠ 0 then
      (v + 256 - FEED_OVERRIDE_COARSE_INCREMENT) % 256
    else v
  let v :=
    if rt_exec &&& K.EXEC_FEED_OVR_FINE_PLUS ≠ 0 then (v + FEED_OVERRIDE_FINE_INCREMENT) % 256
    else v
  let v :=
    if rt_exec &&& K.EXEC_FEED_OVR_FINE_MINUS ≠ 0 then
      (v + 256 - FEED_OVERRIDE_FINE_INCREMENT) % 256
    else v
  let v := min v MAX_FEED_RATE_OVERRIDE
  max v MIN_FEED_RATE_OVERRIDE

/-- Protocol.c 374-377: the new rapid override. -/
def new_r_override (K : SystemH) (rt_exec : Nat) (r_override : Nat) : Nat :=
  let v := r_override
  let v := if rt_exec &&& K.EXEC_RAPID_OVR_RESET ≠ 0 then DEFAULT_RAPID_OVERRIDE else v
  let v := if rt_exec &&& K.EXEC_RAPID_OVR_MEDIUM ≠ 0 then RAPID_OVERRIDE_MEDIUM else v
  if rt_exec &&& K.EXEC_RAPID_OVR_LOW ≠ 0 then RAPID_OVERRIDE_LOW else v

/-- Protocol.c 393-400: the new spindle speed override. -/
def last_s_override (K : SystemH) (rt_exec : Nat) (spindle_speed_ovr : Nat) : Nat :=
  let v := spindle_speed_ovr
  let v := if rt_exec &&& K.EXEC_SPINDLE_OVR_RESET ≠ 0 then DEFAULT_SPINDLE_SPEED_OVERRIDE else v
  let v :=
    if rt_exec &&& K.EXEC_SPINDLE_OVR_COARSE_PLUS ≠ 0 then
      (v + SPINDLE_OVERRIDE_COARSE_INCREMENT) % 256
    else v
  let v :=
    if rt_exec &&& K.EXEC_SPINDLE_OVR_COARSE_MINUS ≠ 0 then
      (v + 256 - SPINDLE_OVERRIDE_COARSE_INCREMENT) % 256
    else v
  let v :=
    if rt_exec &&& K.EXEC_SPINDLE_OVR_FINE_PLUS ≠ 0 then (v + SPINDLE_OVERRIDE_FINE_INCREMENT) % 256
    else v
  let v :=
    if rt_exec &&& K.EXEC_SPINDLE_OVR_FINE_MINUS ≠ 0 then
      (v + 256 - SPINDLE_OVERRIDE_FINE_INCREMENT) % 256
    else v
  let v := min v MAX_SPINDLE_SPEED_OVERRIDE
  max v MIN_SPINDLE_SPEED_OVERRIDE

/-- Protocol.c 361-386: feed and rapid overrides. -/
def rt_motion_override (K : SystemH) (m : Machine) : Machine :=
  let rt_exec := m.sys_rt_exec_motion_override
  if rt_exec ≠ 0 then
    let m := system_clear_exec_motion_overrides m
    let new_f := new_f_override K rt_exec m.sys.f_override
    let new_r := new_r_override K rt_exec m.sys.r_override
    if new_f ≠ m.sys.f_override ∨ new_r ≠ m.sys.r_override then
      let m := { m with sys := { m.sys with f_override := new_f } }
      let m := { m with sys := { m.sys with r_override := new_r } }
      let m := set_report_ovr_counter 0 m
      let m := call .plan_update_velocity_profile_parameters m
      call Call.plan_cycle_reinitialize m
    else m
  else m

/-- Protocol.c 388-418: spindle speed override and spindle stop override. -/
def rt_accessory_override (K : SystemH) (m : Machine) : Machine :=
  let rt_exec := m.sys_rt_exec_accessory_override
  if rt_exec ≠ 0 then
    let m := system_clear_exec_accessory_overrides m
    let last_s := last_s_override K rt_exec m.sys.spindle_speed_ovr
    let m :=
      if last_s ≠ m.sys.spindle_speed_ovr then
        let m := { m with sys := { m.sys with spindle_speed_ovr := last_s } }
        let m :=
          if m.sys.state = STATE_IDLE then
            spindle_set_state K m.gc_modal_spindle m.gc_spindle_speed m
          else
            set_step_control (bit_true m.sys.step_control K.STEP_CONTROL_UPDATE_SPINDLE_PWM) m
        set_report_ovr_counter 0 m
      else m
    if rt_exec &&& K.EXEC_SPINDLE_OVR_STOP ≠ 0 then
      if m.sys.state = K.STATE_HOLD then
        if ¬ (m.sys.spindle_stop_ovr ≠ 0) then
          set_spindle_stop_ovr K.SPINDLE_STOP_OVR_INITIATE m
        else if m.sys.spindle_stop_ovr &&& K.SPINDLE_STOP_OVR_ENABLED ≠ 0 then
          set_spindle_stop_ovr (m.sys.spindle_stop_ovr ||| K.SPINDLE_STOP_OVR_RESTORE) m
        else m
      else m
    else m
  else m

/-- Protocol.c 421-423: reload the step segment buffer. -/
def rt_reload (K : SystemH) (m : Machine) : Machine :=
  if m.sys.state &&&
      (K.STATE_CYCLE ||| K.STATE_HOLD ||| K.STATE_HOMING ||| K.STATE_SLEEP ||| K.STATE_JOG) ≠ 0 then
    call .st_prep_buffer m
  else m

/-- Protocol.c 244-425: everything `protocol_exec_rt_system` does after the
alarm block. `rt_exec` is the one copy taken of `sys_rt_exec_state`; on
`EXEC_RESET` the function sets `sys.abort` and returns at once. -/
def rt_system_flags (K : SystemH) (m : Machine) : Machine :=
  let rt_exec := m.sys_rt_exec_state
  if rt_exec ≠ 0 ∧ rt_exec &&& K.EXEC_RESET ≠ 0 then
    set_abort true m
  else
    let m :=
      if rt_exec ≠ 0 then
        let m := rt_status_report K rt_exec m
        let m := rt_hold K rt_exec m
        let m := rt_cycle_start K rt_exec m
        rt_cycle_stop K rt_exec m
      else m
    let m := rt_motion_override K m
    let m := rt_accessory_override K m
    rt_reload K m

/-- `protocol_exec_rt_system()` (protocol.c 213-425). With an alarm pending it
enters the alarm loop, which it leaves only on `EXEC_RESET`; `fuel` bounds the
number of passes observed. -/
def protocol_exec_rt_system (K : SystemH) (env : Nat → Nat) (fuel : Nat) (m : Machine) : Run :=
  let rt_exec := m.sys_rt_exec_alarm
  if rt_exec ≠ 0 then
    let m := set_state K.STATE_ALARM m
    let m := call (.report_alarm_message rt_exec) m
    let m := call (.report_feedback_message .CRITICAL_EVENT) m
    let m := system_clear_exec_state_flag K.EXEC_RESET m
    match alarm_loop K env fuel m with
    | (m, true) => .returned (rt_system_flags K (system_clear_exec_alarm m))
    | (m, false) => .blocked m
  else .returned (rt_system_flags K m)

/-- The loop `while (!(sys.abort)) { protocol_exec_rt_system(); }` of
protocol.c 477; the interrupt handlers deliver `env` before each call. -/
def sleep_spin (K : SystemH) (env : Nat → Nat) (fuel : Nat) (m : Machine) : Run :=
  if m.sys.abort then .returned m
  else
    match fuel with
    | 0 => .blocked m
    | fuel + 1 =>
      match protocol_exec_rt_system K env fuel (isr_arrive env m) with
      | .returned m => sleep_spin K env fuel m
      | .blocked m => .blocked m

/-- One pass through the body of `while (sys.suspend)` (protocol.c 448-532), up
to but not including the closing call of `protocol_exec_rt_system`. The flag is
`true` when the pass took the sleep branch (protocol.c 468-479), which ends in
the loop of `sleep_spin` and a `return`. -/
def suspend_body (K : SystemH) (restore_condition : Nat) (restore_spindle_speed : ℚ)
    (m : Machine) : Machine × Bool :=
  if m.sys.suspend &&& K.SUSPEND_HOLD_COMPLETE ≠ 0 then
    if m.sys.state &&& K.STATE_SLEEP ≠ 0 then
      if bit_isfalse m.sys.suspend K.SUSPEND_RETRACT_COMPLETE then
        let m := set_spindle_stop_ovr SPINDLE_STOP_OVR_DISABLED m
        let m := spindle_set_state K K.SPINDLE_DISABLE 0 m
        let m := set_suspend (m.sys.suspend &&& (255 ^^^ K.SUSPEND_RESTART_RETRACT)) m
        (set_suspend (m.sys.suspend ||| K.SUSPEND_RETRACT_COMPLETE) m, false)
      else if m.sys.state = K.STATE_SLEEP then
        let m := call (.report_feedback_message .SLEEP_MODE) m
        let m := spindle_set_state K K.SPINDLE_DISABLE 0 m
        let m := call .st_go_idle m
        (call (.st_set_power_level '0') m, true)
      else if m.sys.suspend &&& K.SUSPEND_INITIATE_RESTORE ≠ 0 then
        let m :=
          if m.gc_modal_spindle ≠ K.SPINDLE_DISABLE then
            if bit_isfalse m.sys.suspend K.SUSPEND_RESTART_RETRACT then
              spindle_set_state K
                (restore_condition &&& (K.PL_COND_FLAG_SPINDLE_CW ||| K.PL_COND_FLAG_SPINDLE_CCW))
                restore_spindle_speed m
            else m
          else m
        if bit_isfalse m.sys.suspend K.SUSPEND_RESTART_RETRACT then
          let m := set_suspend (m.sys.suspend ||| K.SUSPEND_RESTORE_COMPLETE) m
          (system_set_exec_state_flag K.EXEC_CYCLE_START m, false)
        else (m, false)
      else (m, false)
    else if m.sys.spindle_stop_ovr ≠ 0 then
      if m.sys.spindle_stop_ovr &&& K.SPINDLE_STOP_OVR_INITIATE ≠ 0 then
        if m.gc_modal_spindle ≠ K.SPINDLE_DISABLE then
          let m := spindle_set_state K K.SPINDLE_DISABLE 0 m
          (set_spindle_stop_ovr K.SPINDLE_STOP_OVR_ENABLED m, false)
        else (set_spindle_stop_ovr SPINDLE_STOP_OVR_DISABLED m, false)
      else if m.sys.spindle_stop_ovr &&&
          (K.SPINDLE_STOP_OVR_RESTORE ||| K.SPINDLE_STOP_OVR_RESTORE_CYCLE) ≠ 0 then
        let m :=
          if m.gc_modal_spindle ≠ K.SPINDLE_DISABLE then
            let m := call (.report_feedback_message .SPINDLE_RESTORE) m
            spindle_set_state K
              (restore_condition &&& (K.PL_COND_FLAG_SPINDLE_CW ||| K.PL_COND_FLAG_SPINDLE_CCW))
              restore_spindle_speed m
          else m
        let m :=
          if m.sys.spindle_stop_ovr &&& K.SPINDLE_STOP_OVR_RESTORE_CYCLE ≠ 0 then
            system_set_exec_state_flag K.EXEC_CYCLE_START m
          else m
        (set_spindle_stop_ovr SPINDLE_STOP_OVR_DISABLED m, false)
      else (m, false)
    else if bit_istrue m.sys.step_control K.STEP_CONTROL_UPDATE_SPINDLE_PWM then
      let m :=
        spindle_set_state K
          (restore_condition &&& (K.PL_COND_FLAG_SPINDLE_CW ||| K.PL_COND_FLAG_SPINDLE_CCW))
          restore_spindle_speed m
      (set_step_control (bit_false m.sys.step_control K.STEP_CONTROL_UPDATE_SPINDLE_PWM) m, false)
    else (m, false)
  else (m, false)

/-- The loop `while (sys.suspend) { ... protocol_exec_rt_system(); }` of
protocol.c 444-536; the interrupt handlers deliver `env` before the closing
call of each pass. -/
def suspend_loop (K : SystemH) (env : Nat → Nat) (restore_condition : Nat)
    (restore_spindle_speed : ℚ) (fuel : Nat) (m : Machine) : Run :=
  if m.sys.suspend ≠ 0 then
    if m.sys.abort then .returned m
    else
      match fuel with
      | 0 => .blocked m
      | fuel + 1 =>
        match suspend_body K restore_condition restore_spindle_speed m with
        | (m, true) => sleep_spin K env fuel m
        | (m, false) =>
          match protocol_exec_rt_system K env fuel (isr_arrive env m) with
          | .returned m => suspend_loop K env restore_condition restore_spindle_speed fuel m
          | .blocked m => .blocked m
  else .returned m

/-- `protocol_exec_rt_suspend()` (protocol.c 431-537). -/
def protocol_exec_rt_suspend (K : SystemH) (env : Nat → Nat) (fuel : Nat) (m : Machine) : Run :=
  match plan_get_current_block m with
  | none => suspend_loop K env m.gc_modal_spindle m.gc_spindle_speed fuel m
  | some block =>
    suspend_loop K env (block.condition &&& K.PL_COND_SPINDLE_MASK) block.spindle_speed fuel m

/-- `protocol_execute_realtime()` (protocol.c 203-207). -/
def protocol_execute_realtime (K : SystemH) (env : Nat → Nat) (fuel : Nat) (m : Machine) : Run :=
  match protocol_exec_rt_system K env fuel m with
  | .returned m => if m.sys.suspend ≠ 0 then protocol_exec_rt_suspend K env fuel m else .returned m
  | .blocked m => .blocked m

/-! ## `limits.c`: the limit pin-change interrupt -/

/-- Modelled from the spec: `mc_reset()` of `motion_control.c`, which is not
among the sources (spec section 5: "the universal cancellation primitive").
What it does to the machine is the parameter `fx`; the call itself is recorded
in the trace. -/
def mc_reset (fx : Machine → Machine) (m : Machine) : Machine :=
  { fx m with trace := m.trace ++ [Call.mc_reset] }

/-- `ISR(LIMIT_INT_vect)` (limits.c 103-116). -/
def ISR_LIMIT_INT_vect (K : SystemH) (fx : Machine → Machine) (m : Machine) : Machine :=
  if m.sys.state ≠ K.STATE_ALARM then
    if ¬ (m.sys_rt_exec_alarm ≠ 0) then
      let m := mc_reset fx m
      system_set_exec_alarm EXEC_ALARM_HARD_LIMIT m
    else m
  else m

/-- A machine at rest after start-up: idle, no flag pending, overrides at 100 %,
the CR1 default spindle range (defaults.h), empty planner, empty trace. -/
def idle_machine : Machine where
  sys := {
    state := STATE_IDLE, abort := false, suspend := SUSPEND_DISABLE, soft_limit := false,
    step_control := STEP_CONTROL_NORMAL_OP, homing_axis_lock := 0,
    f_override := DEFAULT_FEED_OVERRIDE, r_override := DEFAULT_RAPID_OVERRIDE,
    spindle_speed_ovr := DEFAULT_SPINDLE_SPEED_OVERRIDE,
    spindle_stop_ovr := SPINDLE_STOP_OVR_DISABLED,
    report_ovr_counter := 0, report_wco_counter := 0, spindle_speed := 0 }
  sys_rt_exec_state := 0
  sys_rt_exec_alarm := 0
  sys_rt_exec_motion_override := 0
  sys_rt_exec_accessory_override := 0
  gc_modal_spindle := 0
  gc_spindle_speed := 0
  settings := { rpm_max := 8500, rpm_min := 1360 }
  pwm_gradient := 254 / (8500 - 1360)
  regs := { PORTB := 0, DDRC := 0, TCCR2A := 0, OCR2A := 0 }
  plan_block := none
  trace := []
  clock := 0

/-- The machine `idle_machine` put into the given `sys.state`, with the given
`sys.suspend` and `sys.spindle_stop_ovr`, the given pending flags in
`sys_rt_exec_state` and `sys_rt_exec_accessory_override`, and the given head
of the planner queue. -/
def machine_in (state suspend spindle_stop_ovr rt_exec accessory : Nat)
    (block : Option plan_block_t) : Machine :=
  { idle_machine with
    sys := { idle_machine.sys with
      state := state, suspend := suspend, spindle_stop_ovr := spindle_stop_ovr }
    sys_rt_exec_state := rt_exec
    sys_rt_exec_accessory_override := accessory
    plan_block := block }

/-! ## `protocol.c` and `system.c`: input lines -/

/-- Modelled from the spec: the functions called from `protocol_main_loop` and
`system_execute_line` whose modules are not among the sources (spec section 1:
g-code parser, motion control and persistent storage are "external
collaborators"). What a call does to the machine and what it returns are
parameters; the call itself is recorded in the trace by the wrappers below.
`flags` is `settings.flags`. -/
structure Extern where
  gc_execute_line : List Char → Machine → Status × Machine
  mc_homing_cycle : HomingCycle → Machine → Machine
  mc_autolevel_X : Machine → Machine
  mc_X_is_level : Machine → Machine
  mc_reset : Machine → Machine
  settings_read_startup_line : Nat → Option (List Char)
  settings_store_global_setting : ℚ → ℚ → Status
  read_float : List Char → Nat → Option (ℚ × Nat)
  flags : Nat

/-- `SETTINGS_RESTORE_DEFAULTS` (settings.h 56). -/
def SETTINGS_RESTORE_DEFAULTS : Nat := bit 0
/-- `SETTINGS_RESTORE_PARAMETERS` (settings.h 57). -/
def SETTINGS_RESTORE_PARAMETERS : Nat := bit 1
/-- `SETTINGS_RESTORE_STARTUP_LINES` (settings.h 58). -/
def SETTINGS_RESTORE_STARTUP_LINES : Nat := bit 2
/-- `SETTINGS_RESTORE_BUILD_INFO` (settings.h 59). -/
def SETTINGS_RESTORE_BUILD_INFO : Nat := bit 3
/-- `SETTINGS_RESTORE_ALL` (settings.h 66). -/
def SETTINGS_RESTORE_ALL : Nat :=
  SETTINGS_RESTORE_DEFAULTS ||| SETTINGS_RESTORE_PARAMETERS ||| SETTINGS_RESTORE_STARTUP_LINES |||
    SETTINGS_RESTORE_BUILD_INFO

/-- C `trunc` on exact values: the integer part, rounded toward zero. -/
def trunc (x : ℚ) : ℤ := if 0 ≤ x then ⌊x⌋ else -⌊-x⌋

/-- `BITFLAG_HOMING_ENABLE` (settings.h 37, 46). -/
def BITFLAG_HOMING_ENABLE : Nat := bit 4
/-- `N_STARTUP_LINE` (config.h 119). -/
def N_STARTUP_LINE : Nat := 2
/-- `LINE_BUFFER_SIZE` (protocol.h 34). -/
def LINE_BUFFER_SIZE : Nat := 80
/-- `LINE_FLAG_OVERFLOW` (protocol.c 25). -/
def LINE_FLAG_OVERFLOW : Nat := bit 0
/-- `LINE_FLAG_COMMENT_PARENTHESES` (protocol.c 26). -/
def LINE_FLAG_COMMENT_PARENTHESES : Nat := bit 1
/-- `LINE_FLAG_COMMENT_SEMICOLON` (protocol.c 27). -/
def LINE_FLAG_COMMENT_SEMICOLON : Nat := bit 2

/-- The string terminator. -/
def NUL : Char := Char.ofNat 0

/-- What the code reads as `line[i]` from a zero-terminated line, given as the
list of its characters before the terminator: the terminator at the end (and
after it). -/
def char_at (line : List Char) (i : Nat) : Char := line.getD i NUL

/-- A call of `gc_execute_line(line)`: status code and machine. -/
def gc_execute_line (X : Extern) (line : List Char) (m : Machine) : Status × Machine :=
  ((X.gc_execute_line line m).1,
    { (X.gc_execute_line line m).2 with trace := m.trace ++ [Call.gc_execute_line line] })

/-- A call of `mc_homing_cycle(cycle_mask)`. -/
def mc_homing_cycle (X : Extern) (cycle_mask : HomingCycle) (m : Machine) : Machine :=
  { X.mc_homing_cycle cycle_mask m with trace := m.trace ++ [Call.mc_homing_cycle cycle_mask] }

/-- A call of `mc_autolevel_X()`. -/
def mc_autolevel_X (X : Extern) (m : Machine) : Machine :=
  { X.mc_autolevel_X m with trace := m.trace ++ [Call.mc_autolevel_X] }

/-- A call of `mc_X_is_level()`. -/
def mc_X_is_level (X : Extern) (m : Machine) : Machine :=
  { X.mc_X_is_level m with trace := m.trace ++ [Call.mc_X_is_level] }

/-- `system_execute_startup(line)` (system.c 24-38). -/
def system_execute_startup (X : Extern) (m : Machine) : Machine :=
  (List.range N_STARTUP_LINE).foldl (fun m n =>
    match X.settings_read_startup_line n with
    | none => call (.report_execute_startup_message [] .SETTING_READ_FAIL) m
    | some line =>
      if char_at line 0 ≠ NUL then
        let r := gc_execute_line X line m
        call (.report_execute_startup_message line r.1) r.2
      else m) m

/-- System.c 123-127: the end of the `$H` branch, after the homing cycle. -/
def system_execute_line_H_end (X : Extern) (line : List Char) (m : Machine) : Status × Machine :=
  if ¬ (m.sys.abort = true) then
    let m := set_state STATE_IDLE m
    let m := call .st_go_idle m
    if char_at line 2 = NUL then (.OK, system_execute_startup X m) else (.OK, m)
  else (.OK, m)

/-- The `$H` branch of `system_execute_line` (system.c 107-128), with
`HOMING_SINGLE_AXIS_COMMANDS` defined (config.h 113). -/
def system_execute_line_H (K : SystemH) (X : Extern) (line : List Char) (m : Machine) :
    Status × Machine :=
  if bit_isfalse X.flags BITFLAG_HOMING_ENABLE then (.SETTING_DISABLED, m)
  else if char_at line 2 = NUL then
    let m := set_state K.STATE_HOMING m
    system_execute_line_H_end X line (mc_homing_cycle X .ALL m)
  else if char_at line 3 = NUL then
    let m := set_state K.STATE_HOMING m
    if char_at line 2 = 'X' then system_execute_line_H_end X line (mc_homing_cycle X .X m)
    else if char_at line 2 = 'Y' then system_execute_line_H_end X line (mc_homing_cycle X .Y m)
    else if char_at line 2 = 'Z' then system_execute_line_H_end X line (mc_homing_cycle X .Z m)
    else (.INVALID_STATEMENT, m)
  else (.INVALID_STATEMENT, m)

/-- The `$L` branch of `system_execute_line` (system.c 151-167). -/
def system_execute_line_L (K : SystemH) (X : Extern) (line : List Char) (m : Machine) :
    Status × Machine :=
  let m := set_state K.STATE_HOMING m
  if char_at line 2 = NUL then
    let m := mc_homing_cycle X .Z m
    let m := mc_autolevel_X X (mc_autolevel_X X (mc_autolevel_X X m))
    if ¬ (m.sys.abort = true) then (.OK, call .st_go_idle (set_state STATE_IDLE m)) else (.OK, m)
  else if char_at line 2 = 'S' ∧ char_at line 3 = NUL then
    let m := mc_X_is_level X m
    if ¬ (m.sys.abort = true) then (.OK, call .st_go_idle (set_state STATE_IDLE m)) else (.OK, m)
  else (.INVALID_STATEMENT, set_state STATE_IDLE m)

/-- The `$RST=` branch of `system_execute_line` (system.c 208-223), with the
three `ENABLE_RESTORE_EEPROM_*` options defined (config.h 310-312). -/
def system_execute_line_R (X : Extern) (line : List Char) (m : Machine) : Status × Machine :=
  if char_at line 2 ≠ 'S' ∨ char_at line 3 ≠ 'T' ∨ char_at line 4 ≠ '=' ∨ char_at line 6 ≠ NUL then
    (.INVALID_STATEMENT, m)
  else if char_at line 5 = '$' then
    (.OK, mc_reset X.mc_reset (call (.report_feedback_message .RESTORE_DEFAULTS)
      (call (.settings_restore SETTINGS_RESTORE_DEFAULTS) m)))
  else if char_at line 5 = '#' then
    (.OK, mc_reset X.mc_reset (call (.report_feedback_message .RESTORE_DEFAULTS)
      (call (.settings_restore SETTINGS_RESTORE_PARAMETERS) m)))
  else if char_at line 5 = '*' then
    (.OK, mc_reset X.mc_reset (call (.report_feedback_message .RESTORE_DEFAULTS)
      (call (.settings_restore SETTINGS_RESTORE_ALL) m)))
  else (.INVALID_STATEMENT, m)

/-- The end of `system_execute_line` (system.c 242-262) for `$number=value`
(`helper_var` zero) and, falling through from `$N`, for `$Nnumber=line`
(`helper_var` non-zero); `char_counter` is the index at which the number
starts. The index passed to `settings_store_startup_line` is
`trunc(parameter)` stored in the `uint8_t helper_var` (system.c 255), that is,
reduced modulo 256. -/
def system_execute_line_setting (X : Extern) (line : List Char) (char_counter : Nat)
    (helper_var : Bool) (m : Machine) : Status × Machine :=
  match X.read_float line char_counter with
  | none => (.INVALID_STATEMENT, m)
  | some (parameter, char_counter) =>
    if char_at line char_counter ≠ '=' then (.INVALID_STATEMENT, m)
    else
      let char_counter := char_counter + 1
      if helper_var then
        let line := line.drop char_counter
        let r := gc_execute_line X line m
        if r.1 ≠ .OK then r
        else (.OK, call (.settings_store_startup_line (trunc parameter % 256) line) r.2)
      else
        match X.read_float line char_counter with
        | none => (.INVALID_STATEMENT, m)
        | some (value, char_counter) =>
          if char_at line char_counter ≠ NUL ∨ parameter > 255 then (.INVALID_STATEMENT, m)
          else
            (X.settings_store_global_setting parameter value,
              call (.settings_store_global_setting parameter value) m)

/-- `system_execute_line(line)` (system.c 49-266) for a line that starts with
`$`: the status code returned and the machine, with
`ENABLE_BUILD_INFO_WRITE_COMMAND` defined (config.h 320). The lines that
`settings_read_manf_notes` and `settings_read_build_info` read into the buffer
for `$B` and `$I` are not modelled, only the report that follows. -/
def system_execute_line (K : SystemH) (X : Extern) (line : List Char) (m : Machine) :
    Status × Machine :=
  let c := char_at line 1
  if c = NUL then (.OK, call .report_grbl_help m)
  else if c = 'J' then
    if m.sys.state ≠ STATE_IDLE ∧ m.sys.state ≠ K.STATE_JOG then (.IDLE_ERROR, m)
    else if char_at line 2 ≠ '=' then (.INVALID_STATEMENT, m)
    else gc_execute_line X line m
  else if c = '$' ∨ c = 'G' ∨ c = 'C' ∨ c = 'X' then
    if char_at line 2 ≠ NUL then (.INVALID_STATEMENT, m)
    else if c = '$' then
      if m.sys.state &&& (K.STATE_CYCLE ||| K.STATE_HOLD) ≠ 0 then (.IDLE_ERROR, m)
      else (.OK, call .report_grbl_settings m)
    else if c = 'G' then (.OK, call .report_gcode_modes m)
    else if c = 'C' then
      if m.sys.state = K.STATE_CHECK_MODE then
        (.OK, call (.report_feedback_message .DISABLED) (mc_reset X.mc_reset m))
      else if m.sys.state ≠ 0 then (.IDLE_ERROR, m)
      else (.OK, call (.report_feedback_message .ENABLED) (set_state K.STATE_CHECK_MODE m))
    else
      if m.sys.state = K.STATE_ALARM then
        (.OK, set_state STATE_IDLE (call (.report_feedback_message .ALARM_UNLOCK) m))
      else (.OK, m)
  else
    if ¬ (m.sys.state = STATE_IDLE ∨ m.sys.state = K.STATE_ALARM) then (.IDLE_ERROR, m)
    else if c = '#' then
      if char_at line 2 ≠ NUL then (.INVALID_STATEMENT, m)
      else (.OK, call .report_ngc_parameters m)
    else if c = 'H' then system_execute_line_H K X line m
    else if c = 'E' then
      if char_at line 2 = NUL then (.OK, call .report_read_EEPROM m)
      else (.INVALID_STATEMENT, m)
    else if c = 'L' then system_execute_line_L K X line m
    else if c = 'S' then
      if char_at line 2 ≠ 'L' ∨ char_at line 3 ≠ 'P' ∨ char_at line 4 ≠ NUL then
        (.INVALID_STATEMENT, m)
      else (.OK, system_set_exec_state_flag K.EXEC_SLEEP m)
    else if c = 'B' then
      if char_at line 2 = NUL then (.OK, call .report_manf_notes m)
      else if char_at line 2 ≠ '=' then (.INVALID_STATEMENT, m)
      else (.OK, call (.settings_store_manf_notes (line.drop 3)) m)
    else if c = 'I' then
      if char_at line 2 = NUL then (.OK, call .report_build_info m)
      else if char_at line 2 ≠ '=' then (.INVALID_STATEMENT, m)
      else (.OK, call (.settings_store_build_info (line.drop 3)) m)
    else if c = 'R' then system_execute_line_R X line m
    else if c = 'N' then
      if char_at line 2 = NUL then
        (.OK, (List.range N_STARTUP_LINE).foldl (fun m n =>
          match X.settings_read_startup_line n with
          | none => call (.report_status_message .SETTING_READ_FAIL) m
          | some l => call (.report_startup_line n l) m) m)
      else if m.sys.state ≠ STATE_IDLE then (.IDLE_ERROR, m)
      else system_execute_line_setting X line 2 true m
    else system_execute_line_setting X line 1 false m

/-- The buffer `line` as `system_execute_line(line)` leaves it when it returns
an error. One path writes to the buffer before it can fail: `$N<number>=<block>`
moves `<block>` to the start of the buffer (system.c 246-250) and then returns
the error of `gc_execute_line` (system.c 252-253). Every other path that
returns an error has not written to the buffer. -/
def system_execute_line_buffer (K : SystemH) (X : Extern) (line : List Char) (m : Machine) :
    List Char :=
  if char_at line 1 = 'N' ∧ (m.sys.state = STATE_IDLE ∨ m.sys.state = K.STATE_ALARM) ∧
      char_at line 2 ≠ NUL ∧ m.sys.state = STATE_IDLE then
    match X.read_float line 2 with
    | none => line
    | some (_, char_counter) =>
      if char_at line char_counter ≠ '=' then line else line.drop (char_counter + 1)
  else line

/-- The locals `line_flags` and `char_counter` of `protocol_main_loop` and the
characters `line[0]` ... `line[char_counter-1]` stored so far in the static
buffer `line`. -/
structure line_state where
  line : List Char
  char_counter : Nat
  line_flags : Nat
  deriving DecidableEq

/-- The values at the start of a line (protocol.c 57-58 and 106-107). -/
def line_start : line_state := { line := [], char_counter := 0, line_flags := 0 }

/-- Protocol.c 111-147: what `protocol_main_loop` does with a character `c`
that is not an end of line. -/
def protocol_add_char (c : Char) (s : line_state) : line_state :=
  if s.line_flags ≠ 0 then
    if c = ')' then
      if s.line_flags &&& LINE_FLAG_COMMENT_PARENTHESES ≠ 0 then
        { s with line_flags := s.line_flags &&& (255 ^^^ LINE_FLAG_COMMENT_PARENTHESES) }
      else s
    else s
  else
    if c ≤ ' ' then s
    else if c = '/' then s
    else if c = '(' then { s with line_flags := s.line_flags ||| LINE_FLAG_COMMENT_PARENTHESES }
    else if c = ';' then { s with line_flags := s.line_flags ||| LINE_FLAG_COMMENT_SEMICOLON }
    else if s.char_counter ≥ LINE_BUFFER_SIZE - 1 then
      { s with line_flags := s.line_flags ||| LINE_FLAG_OVERFLOW }
    else if c ≥ 'a' ∧ c ≤ 'z' then
      { s with
        line := s.line ++ [Char.ofNat (c.toNat - 'a'.toNat + 'A'.toNat)]
        char_counter := s.char_counter + 1 }
    else { s with line := s.line ++ [c], char_counter := s.char_counter + 1 }

/-- The characters of a line up to its end of line, fed one by one to
`protocol_add_char` (the `while` loop of protocol.c 65-150 between two ends of
line). -/
def protocol_read_line (input : List Char) : line_state :=
  input.foldl (fun s c => protocol_add_char c s) line_start

/-- Protocol.c 83-103: a finished line that did not overflow is directed to
its handler and the status of its execution is reported. After an error of
`system_execute_line` the echo shows the buffer as that function left it. -/
def protocol_handle_line (K : SystemH) (X : Extern) (line : List Char) (m : Machine) : Machine :=
  if char_at line 0 = NUL then
    call (.report_status_message .OK) m
  else if char_at line 0 = '$' then
    let r := system_execute_line K X line m
    let m :=
      if r.1 ≠ .OK then
        call (.report_echo_line_received (system_execute_line_buffer K X line m)) r.2
      else r.2
    call (.report_status_message r.1) m
  else if m.sys.state &&& (K.STATE_ALARM ||| K.STATE_JOG) ≠ 0 then
    let m := call (.report_echo_line_received line) m
    call (.report_status_message .SYSTEM_GC_LOCK) m
  else
    let r := gc_execute_line X line m
    let m := if r.1 ≠ .OK then call (.report_echo_line_received line) r.2 else r.2
    call (.report_status_message r.1) m

/-- Protocol.c 71-107: a finished line is answered with `STATUS_OVERFLOW` if
it overflowed the buffer and is directed to its handler otherwise. -/
def protocol_dispatch_line (K : SystemH) (X : Extern) (s : line_state) (m : Machine) : Machine :=
  if s.line_flags &&& LINE_FLAG_OVERFLOW ≠ 0 then
    let m := call (.report_echo_line_received s.line) m
    call (.report_status_message .OVERFLOW) m
  else protocol_handle_line K X s.line m

/-- Protocol.c 66-107: an end of line. The realtime check point comes first;
on `sys.abort` the main loop returns without looking at the line. -/
def protocol_end_of_line (K : SystemH) (X : Extern) (env : Nat → Nat) (fuel : Nat)
    (s : line_state) (m : Machine) : Run :=
  match protocol_execute_realtime K env fuel m with
  | .blocked m => .blocked m
  | .returned m =>
    if m.sys.abort then .returned m
    else .returned (protocol_dispatch_line K X s m)

/-- The line that reaches the handlers according to the description of the
filter: the input without whitespace and control characters, without `/`,
without what stands between `(` and `)` and without what follows `;`, in
capitals. `in_paren` and `in_semi` say whether the scan is inside a comment of
the one or the other kind. -/
def filtered_content : Bool → Bool → List Char → List Char
  | _, _, [] => []
  | in_paren, in_semi, c :: cs =>
    if in_paren ∨ in_semi then
      if c = ')' then filtered_content false in_semi cs
      else filtered_content in_paren in_semi cs
    else if c ≤ ' ' then filtered_content false false cs
    else if c = '/' then filtered_content false false cs
    else if c = '(' then filtered_content true false cs
    else if c = ';' then filtered_content false true cs
    else if c ≥ 'a' ∧ c ≤ 'z' then
      Char.ofNat (c.toNat - 'a'.toNat + 'A'.toNat) :: filtered_content false false cs
    else c :: filtered_content false false cs

/-- External modules that change nothing and report no error, with homing
enabled in `settings.flags` and no startup line stored; used to run the
dispatcher on concrete lines. -/
def quiet_extern : Extern where
  gc_execute_line := fun _ m => (.OK, m)
  mc_homing_cycle := fun _ m => m
  mc_autolevel_X := fun m => m
  mc_X_is_level := fun m => m
  mc_reset := fun m => m
  settings_read_startup_line := fun _ => some []
  settings_store_global_setting := fun _ _ => .OK
  read_float := fun _ _ => none
  flags := BITFLAG_HOMING_ENABLE

/-! ## `limits.c`: the soft limit check -/

/-- How the loop of limits.c 302-305 ends: the machine reached `IDLE`, or
`sys.abort` was found set, or the observation ended inside the loop. -/
inductive Drain where
  | idle (m : Machine)
  | aborted (m : Machine)
  | blocked (m : Machine)

/-- The machine state a drain ended in. -/
def Drain.machine : Drain → Machine
  | .idle m => m
  | .aborted m => m
  | .blocked m => m

/-- The loop `do { protocol_execute_realtime(); if (sys.abort) { return; } }
while ( sys.state != STATE_IDLE );` of limits.c 302-305; the interrupt handlers
deliver `env` before each call. -/
def soft_limit_drain (K : SystemH) (env : Nat → Nat) : Nat → Machine → Drain
  | 0, m => .blocked m
  | fuel + 1, m =>
    match protocol_execute_realtime K env fuel (isr_arrive env m) with
    | .blocked m => .blocked m
    | .returned m =>
      if m.sys.abort then .aborted m
      else if m.sys.state ≠ STATE_IDLE then soft_limit_drain K env fuel m
      else .idle m

/-- Limits.c 307-310: reset, raise the soft limit alarm and enter the alarm
loop of the executor. -/
def soft_limit_alarm (K : SystemH) (env : Nat → Nat) (fx : Machine → Machine) (fuel : Nat)
    (m : Machine) : Run :=
  let m := mc_reset fx m
  let m := system_set_exec_alarm EXEC_ALARM_SOFT_LIMIT m
  protocol_execute_realtime K env fuel m

/-- `limits_soft_check(target)` (limits.c 293-312); `max_travel` is
`settings.max_travel`. -/
def limits_soft_check (K : SystemH) (env : Nat → Nat) (fx : Machine → Machine) (fuel : Nat)
    (max_travel target : Nat → CFloat) (m : Machine) : Run :=
  if system_check_travel_limits max_travel target then
    let m := set_soft_limit true m
    if m.sys.state = K.STATE_CYCLE then
      let m := system_set_exec_state_flag K.EXEC_FEED_HOLD m
      match soft_limit_drain K env fuel m with
      | .aborted m => .returned m
      | .blocked m => .blocked m
      | .idle m => soft_limit_alarm K env fx fuel m
    else soft_limit_alarm K env fx fuel m
  else .returned m

/-! ## `limits.c`: homing -/

/-- Modelled from the spec: the axis indices `X_AXIS`, `Y_AXIS`, `Z_AXIS` of
`nuts_bolts.h` (limits.c 127: "HOMING_CYCLE_X=0, ... Y=1, ... Z=2"). -/
def X_AXIS : Nat := 0
/-- Modelled from the spec: axis index of Y. -/
def Y_AXIS : Nat := 1
/-- Modelled from the spec: axis index of Z. -/
def Z_AXIS : Nat := 2

/-- `X_STEP_BIT` (cpu_map.h). -/
def X_STEP_BIT : Nat := 2
/-- `Y_STEP_BIT` (cpu_map.h). -/
def Y_STEP_BIT : Nat := 3
/-- `Z_STEP_BIT` (cpu_map.h). -/
def Z_STEP_BIT : Nat := 4
/-- `STEP_MASK` (cpu_map.h): all step bits. -/
def STEP_MASK : Nat := (1 <<< X_STEP_BIT) ||| (1 <<< Y_STEP_BIT) ||| (1 <<< Z_STEP_BIT)
/-- `X_LIMIT_BIT` (cpu_map.h). -/
def X_LIMIT_BIT : Nat := 1
/-- `Y_LIMIT_BIT` (cpu_map.h). -/
def Y_LIMIT_BIT : Nat := 2
/-- `Z_LIMIT_BIT` (cpu_map.h). -/
def Z_LIMIT_BIT : Nat := 4
/-- `LIMIT_MASK` (cpu_map.h): all limit bits. -/
def LIMIT_MASK : Nat := (1 <<< X_LIMIT_BIT) ||| (1 <<< Y_LIMIT_BIT) ||| (1 <<< Z_LIMIT_BIT)
/-- `LIMIT_X1_BIT` (cpu_map.h). -/
def LIMIT_X1_BIT : Nat := 2
/-- `LIMIT_X1_MASK` (cpu_map.h). -/
def LIMIT_X1_MASK : Nat := 1 <<< LIMIT_X1_BIT
/-- `BITFLAG_INVERT_LIMIT_PINS` (settings.h 39, 48). -/
def BITFLAG_INVERT_LIMIT_PINS : Nat := bit 6

/-- `HOMING_AXIS_SEARCH_SCALAR` (limits.c 27). -/
def HOMING_AXIS_SEARCH_SCALAR : ℚ := 3 / 2
/-- `HOMING_AXIS_LOCATE_SCALAR` (limits.c 30). -/
def HOMING_AXIS_LOCATE_SCALAR : ℚ := 5
/-- `N_HOMING_LOCATE_CYCLE` (config.h 102). -/
def N_HOMING_LOCATE_CYCLE : Nat := 2
/-- `DISTANCE_FIRST_PULLAWAY` (config.h 107), in mm. -/
def DISTANCE_FIRST_PULLAWAY : ℚ := 5

/-- Modelled from the spec: `get_step_pin_mask(axis_idx)` of `settings.c`,
which is not among the sources; it returns the step bit that cpu_map.h gives
to the axis (spec 4.2: the lock mask "is ANDed with the step-pulse output
port"). -/
def get_step_pin_mask (axis_idx : Nat) : Nat :=
  if axis_idx = X_AXIS then 1 <<< X_STEP_BIT
  else if axis_idx = Y_AXIS then 1 <<< Y_STEP_BIT
  else 1 <<< Z_STEP_BIT

/-- Modelled from the spec: `get_limit_pin_mask(axis_idx)` of `settings.c`,
which is not among the sources; it returns the limit bit that cpu_map.h gives
to the axis. -/
def get_limit_pin_mask (axis_idx : Nat) : Nat :=
  if axis_idx = X_AXIS then 1 <<< X_LIMIT_BIT
  else if axis_idx = Y_AXIS then 1 <<< Y_LIMIT_BIT
  else 1 <<< Z_LIMIT_BIT

/-- The fields of `settings_t settings` (settings.h 113-139) read by limits.c;
the `float` fields are rationals. -/
structure limits_settings_t where
  steps_per_mm : Nat → ℚ
  max_travel : Nat → ℚ
  flags : Nat
  homing_dir_mask : Nat
  homing_feed_rate : ℚ
  homing_seek_rate : ℚ
  homing_debounce_delay : Nat
  homing_pulloff : ℚ

/-- What happens outside the main program while a loop of limits.c polls: the
flags the interrupt handlers OR into `sys_rt_exec_state`, the levels read from
the input registers `LIMIT_PIN` and `LIMIT_X1_PIN`, and what the stepper
interrupt makes of `sys_position`, each as a function of the poll counter
`Machine.clock`. -/
structure Outside where
  rt : Nat → Nat
  LIMIT_PIN : Nat → Nat
  LIMIT_X1_PIN : Nat → Nat
  stepper : Nat → (Nat → ℤ) → Nat → ℤ

/-- The machine together with `sys_position` (steps, `int32_t` per axis). -/
structure World where
  m : Machine
  sys_position : Nat → ℤ

/-- One poll later: the interrupt handlers delivered their flags and the
stepper interrupt moved `sys_position`. -/
def World.arrive (E : Outside) (w : World) : World :=
  { m := isr_arrive E.rt w.m, sys_position := E.stepper w.m.clock w.sys_position }

/-- Run a machine-level step on the machine of the world. -/
@[simp] def World.on (f : Machine → Machine) (w : World) : World := { w with m := f w.m }

/-- Write `sys.homing_axis_lock`. -/
@[simp] def set_homing_axis_lock (v : Nat) (m : Machine) : Machine :=
  { m with sys := { m.sys with homing_axis_lock := v } }

/-- `limits_get_state()` (limits.c 66-78); `flags` is `settings.flags` and
`LIMIT_PIN` the level read from the input register. -/
def limits_get_state (flags LIMIT_PIN : Nat) : Nat :=
  let pin := LIMIT_PIN &&& LIMIT_MASK
  let pin := if bit_isfalse flags BITFLAG_INVERT_LIMIT_PINS then pin ^^^ LIMIT_MASK else pin
  if pin ≠ 0 then
    (List.range N_AXIS).foldl
      (fun limit_state idx =>
        if pin &&& get_limit_pin_mask idx ≠ 0 then limit_state ||| (1 <<< idx) else limit_state) 0
  else 0

/-- `limits_X1_get_state()` (limits.c 83-91). -/
def limits_X1_get_state (flags LIMIT_X1_PIN : Nat) : Nat :=
  let X1_pin_state := LIMIT_X1_PIN &&& LIMIT_X1_MASK
  let X1_pin_state :=
    if bit_isfalse flags BITFLAG_INVERT_LIMIT_PINS then X1_pin_state ^^^ LIMIT_X1_MASK
    else X1_pin_state
  if X1_pin_state &&& LIMIT_X1_MASK ≠ 0 then 1 else 0

/-- `system_convert_array_steps_to_mpos(position, steps)` (system.c 282-297). -/
def system_convert_array_steps_to_mpos (S : limits_settings_t) (steps : Nat → ℤ) : Nat → ℚ :=
  fun idx => if idx < N_AXIS then (steps idx : ℚ) / S.steps_per_mm idx else 0

/-- C99 `lround` on exact values: the nearest integer, halfway cases away from
zero. -/
def lround (x : ℚ) : ℤ := if 0 ≤ x then ⌊x + 1 / 2⌋ else -⌊-x + 1 / 2⌋

/-- Round to the nearest integer, halfway cases to the even one. -/
def round_half_even (y : ℚ) : ℤ :=
  if y - ⌊y⌋ < 1 / 2 then ⌊y⌋
  else if 1 / 2 < y - ⌊y⌋ then ⌊y⌋ + 1
  else if ⌊y⌋ % 2 = 0 then ⌊y⌋ else ⌊y⌋ + 1

/-- The result of one `float` operation of avr-gcc whose exact result is `x`:
the nearest IEEE 754 binary32 value, halfway cases to even. A binary32 value
has 24 significant bits, so the spacing at `2 ^ e ≤ |x| < 2 ^ (e + 1)` is
`2 ^ (e - 23)`; below `2 ^ (-126)` the spacing stays `2 ^ (-149)`. The overflow
to infinity beyond the largest finite value is not modelled. -/
def binary32 (x : ℚ) : ℚ :=
  if x = 0 then 0
  else
    let e := max (Int.log 2 |x|) (-126)
    (round_half_even (x / 2 ^ (e - 23)) : ℚ) * 2 ^ (e - 23)

/-- Limits.c 145-154: the search distance, the largest
`-HOMING_AXIS_SEARCH_SCALAR * settings.max_travel[idx]` over the axes of the
cycle (and zero). -/
def homing_search_travel (S : limits_settings_t) (cycle_mask : Nat) : ℚ :=
  (List.range N_AXIS).foldl
    (fun max_travel idx =>
      if bit_istrue cycle_mask (bit idx) then
        max max_travel (-HOMING_AXIS_SEARCH_SCALAR * S.max_travel idx)
      else max_travel) 0

/-- The variables written by the `for` loop of limits.c 169-188. -/
structure pass_vars where
  axislock : Nat
  n_active_axis : Nat
  sys_position : Nat → ℤ
  target : Nat → ℚ

/-- Limits.c 169-188: for every axis of the cycle count it, zero its position,
aim its target at plus or minus `max_travel` and enable it in the lock mask. -/
def homing_pass_axes (S : limits_settings_t) (cycle_mask : Nat) (approach : Bool)
    (max_travel : ℚ) (v : pass_vars) : pass_vars :=
  (List.range N_AXIS).foldl
    (fun v idx =>
      if bit_istrue cycle_mask (bit idx) then
        { axislock := v.axislock ||| get_step_pin_mask idx
          n_active_axis := v.n_active_axis + 1
          sys_position := Function.update v.sys_position idx 0
          target := Function.update v.target idx
            (if bit_istrue S.homing_dir_mask (bit idx) then
              if approach then -max_travel else max_travel
            else
              if approach then max_travel else -max_travel) }
      else v) v

/-- Limits.c 164-198: the start of a pass, up to `st_wake_up()`. Returns the
world, `axislock` and the scaled `homing_rate`. `sqrt` is the square root of
the C library applied to `n_active_axis`. -/
def homing_pass_start (K : SystemH) (S : limits_settings_t) (sqrt : Nat → ℚ) (cycle_mask : Nat)
    (approach : Bool) (max_travel homing_rate : ℚ) (w : World) : World × Nat × ℚ :=
  let v := homing_pass_axes S cycle_mask approach max_travel
    { axislock := 0, n_active_axis := 0, sys_position := w.sys_position,
      target := system_convert_array_steps_to_mpos S w.sys_position }
  let homing_rate := homing_rate * sqrt v.n_active_axis
  let m := set_homing_axis_lock v.axislock w.m
  let m := call (.plan_buffer_line ((List.range N_AXIS).map v.target) homing_rate) m
  let m := set_step_control K.STEP_CONTROL_EXECUTE_SYS_MOTION m
  let m := call .st_prep_buffer m
  let m := call .st_wake_up m
  ({ m := m, sys_position := v.sys_position }, v.axislock, homing_rate)

/-- Limits.c 203-209: lock out the enabled axes whose limit switch is tripped. -/
def homing_lock_update (limit_state axislock : Nat) : Nat :=
  (List.range N_AXIS).foldl
    (fun axislock idx =>
      if axislock &&& get_step_pin_mask idx ≠ 0 then
        if limit_state &&& (1 <<< idx) ≠ 0 then axislock &&& (255 ^^^ get_step_pin_mask idx)
        else axislock
      else axislock) axislock

/-- Limits.c 217-225: the three failure conditions, each of which writes its
own code into `sys_rt_exec_alarm`. `limit_state` is what `limits_get_state()`
returns at this point. -/
def homing_exit_alarm (K : SystemH) (approach : Bool) (cycle_mask limit_state : Nat)
    (m : Machine) : Machine :=
  let rt_exec := m.sys_rt_exec_state
  let m :=
    if rt_exec &&& K.EXEC_RESET ≠ 0 then system_set_exec_alarm EXEC_ALARM_HOMING_FAIL_RESET m
    else m
  let m :=
    if ¬ (approach = true) ∧ limit_state &&& cycle_mask ≠ 0 then
      system_set_exec_alarm EXEC_ALARM_HOMING_FAIL_PULLOFF m
    else m
  if approach = true ∧ rt_exec &&& K.EXEC_CYCLE_STOP ≠ 0 then
    system_set_exec_alarm EXEC_ALARM_HOMING_FAIL_APPROACH m
  else m

/-- How one pass through the body of the motion loop (limits.c 199-237) ends:
the loop goes on, or it is left through its `while` condition (`locked`),
through `break` (`stopped`), or through `return` after an alarm (`failed`,
with the world in which `mc_reset()` is called and the run of
`protocol_execute_realtime()` that follows). -/
inductive Poll where
  | next (axislock : Nat) (w : World)
  | locked (axislock : Nat) (w : World)
  | stopped (axislock : Nat) (w : World)
  | failed (w : World) (r : Run)

/-- One pass through the body of the motion loop (limits.c 199-237). The
levels of the limit pins are those of the poll `w.m.clock`. -/
def homing_poll (K : SystemH) (S : limits_settings_t) (E : Outside) (fx : Machine → Machine)
    (fuel : Nat) (approach : Bool) (cycle_mask axislock : Nat) (w : World) : Poll :=
  let limit_state := limits_get_state S.flags (E.LIMIT_PIN w.m.clock)
  let w := w.arrive E
  let axislock := if approach then homing_lock_update limit_state axislock else axislock
  let w := if approach then w.on (set_homing_axis_lock axislock) else w
  let w := w.on (call .st_prep_buffer)
  if w.m.sys_rt_exec_state &&& (K.EXEC_RESET ||| K.EXEC_CYCLE_STOP) ≠ 0 then
    let m := homing_exit_alarm K approach cycle_mask limit_state w.m
    if m.sys_rt_exec_alarm ≠ 0 then
      .failed { w with m := m } (protocol_execute_realtime K E.rt fuel (mc_reset fx m))
    else .stopped axislock { w with m := system_clear_exec_state_flag K.EXEC_CYCLE_STOP m }
  else if STEP_MASK &&& axislock ≠ 0 then .next axislock w
  else .locked axislock w

/-- How the motion loop ends; `waiting` when the observation (`polls`) ends
inside the loop. -/
inductive Motion where
  | locked (axislock : Nat) (w : World)
  | stopped (axislock : Nat) (w : World)
  | failed (w : World) (r : Run)
  | waiting (axislock : Nat) (w : World)

/-- The motion loop `do { ... } while (STEP_MASK & axislock);` of limits.c
199-237. -/
def homing_motion (K : SystemH) (S : limits_settings_t) (E : Outside) (fx : Machine → Machine)
    (fuel : Nat) (approach : Bool) (cycle_mask : Nat) : Nat → Nat → World → Motion
  | 0, axislock, w => .waiting axislock w
  | polls + 1, axislock, w =>
    match homing_poll K S E fx fuel approach cycle_mask axislock w with
    | .next axislock w => homing_motion K S E fx fuel approach cycle_mask polls axislock w
    | .locked axislock w => .locked axislock w
    | .stopped axislock w => .stopped axislock w
    | .failed w r => .failed w r

/-- Limits.c 245-261: `max_travel` and `homing_rate` of the next pass, chosen
after `approach` was reversed, from the value `n_cycle` has at that point. -/
def homing_next (S : limits_settings_t) (n_cycle : Nat) (approach : Bool) : ℚ × ℚ :=
  if approach then
    if n_cycle = 2 * N_HOMING_LOCATE_CYCLE then
      (S.homing_pulloff * HOMING_AXIS_LOCATE_SCALAR + DISTANCE_FIRST_PULLAWAY, S.homing_seek_rate)
    else (S.homing_pulloff * HOMING_AXIS_LOCATE_SCALAR, S.homing_feed_rate)
  else if n_cycle = 2 * N_HOMING_LOCATE_CYCLE + 1 then
    (DISTANCE_FIRST_PULLAWAY, S.homing_seek_rate)
  else (S.homing_pulloff, S.homing_seek_rate)

/-- How `limits_go_home` ends: it returned at once because `sys.abort` was set
(`skipped`), it ran to its end (`homed`), it returned from the motion loop
after an alarm (`failed`, as in `Poll`), or the observation ended inside a
motion loop (`waiting`). -/
inductive Homing where
  | skipped (w : World)
  | homed (w : World)
  | failed (w : World) (r : Run)
  | waiting (w : World)

/-- One pass of the outer loop of limits.c 163-262, from the conversion of the
position to the debounce delay: `homed` here means that the pass ended without
alarm. -/
def homing_pass (K : SystemH) (S : limits_settings_t) (E : Outside) (fx : Machine → Machine)
    (sqrt : Nat → ℚ) (fuel polls cycle_mask : Nat) (approach : Bool)
    (max_travel homing_rate : ℚ) (w : World) : Homing :=
  let s := homing_pass_start K S sqrt cycle_mask approach max_travel homing_rate w
  match homing_motion K S E fx fuel approach cycle_mask polls s.2.1 s.1 with
  | .failed w r => .failed w r
  | .waiting _ w => .waiting w
  | .locked _ w =>
    .homed (w.on (fun m => call (.delay_ms S.homing_debounce_delay) (call .st_reset m)))
  | .stopped _ w =>
    .homed (w.on (fun m => call (.delay_ms S.homing_debounce_delay) (call .st_reset m)))

/-- The outer loop `do { ... } while (n_cycle-- > 0);` of limits.c 163-262,
entered with the given `n_cycle`, `approach`, `max_travel` and `homing_rate`. -/
def homing_passes (K : SystemH) (S : limits_settings_t) (E : Outside) (fx : Machine → Machine)
    (sqrt : Nat → ℚ) (fuel polls cycle_mask : Nat) : Nat → Bool → ℚ → ℚ → World → Homing
  | 0, approach, max_travel, homing_rate, w =>
    homing_pass K S E fx sqrt fuel polls cycle_mask approach max_travel homing_rate w
  | n_cycle + 1, approach, max_travel, homing_rate, w =>
    match homing_pass K S E fx sqrt fuel polls cycle_mask approach max_travel homing_rate w with
    | .homed w =>
      homing_passes K S E fx sqrt fuel polls cycle_mask n_cycle (!approach)
        (homing_next S (n_cycle + 1) (!approach)).1 (homing_next S (n_cycle + 1) (!approach)).2 w
    | r => r

/-- Limits.c 271-286: set the machine position of the homed axes and return
step control to normal operation. The sum and the product of limits.c 278 and
the product of limits.c 281 are `float` operations, each rounded to binary32
(the negation is exact). -/
def homing_set_positions (S : limits_settings_t) (cycle_mask : Nat) (w : World) : World :=
  let sys_position :=
    (List.range N_AXIS).foldl
      (fun sys_position idx =>
        if cycle_mask &&& bit idx ≠ 0 then
          if bit_istrue S.homing_dir_mask (bit idx) then
            Function.update sys_position idx
              (lround (binary32
                (binary32 (S.max_travel idx + S.homing_pulloff) * S.steps_per_mm idx)))
          else
            Function.update sys_position idx
              (lround (binary32 (-S.homing_pulloff * S.steps_per_mm idx)))
        else sys_position) w.sys_position
  { m := set_step_control STEP_CONTROL_NORMAL_OP w.m, sys_position := sys_position }

/-- `limits_go_home(cycle_mask)` (limits.c 126-287). `polls` bounds the number
of passes through each motion loop that are observed, `fuel` the run of
`protocol_execute_realtime` after an alarm. -/
def limits_go_home (K : SystemH) (S : limits_settings_t) (E : Outside) (fx : Machine → Machine)
    (sqrt : Nat → ℚ) (fuel polls cycle_mask : Nat) (w : World) : Homing :=
  if w.m.sys.abort then .skipped w
  else
    match homing_passes K S E fx sqrt fuel polls cycle_mask (2 * N_HOMING_LOCATE_CYCLE + 1) true
        (homing_search_travel S cycle_mask) S.homing_seek_rate w with
    | .homed w => .homed (homing_set_positions S cycle_mask w)
    | r => r

/-- The number of axes of the cycle, `n_active_axis` of limits.c 168-172. -/
def n_active_axes (cycle_mask : Nat) : Nat :=
  ((List.range N_AXIS).filter fun idx => bit_istrue cycle_mask (bit idx)).length

/-- For the axis `idx`, the distance from zero of the target and the feed rate
of each line passed to `plan_buffer_line`, in the order of the calls. -/
def planned_axis (idx : Nat) : List Call → List (ℚ × ℚ)
  | [] => []
  | .plan_buffer_line target feed_rate :: l => (|target.getD idx 0|, feed_rate) :: planned_axis idx l
  | _ :: l => planned_axis idx l

/-- The world in which a pass through the motion loop body ended (for `failed`:
the world in which `mc_reset()` is called). -/
def Poll.world : Poll → World
  | .next _ w => w
  | .locked _ w => w
  | .stopped _ w => w
  | .failed w _ => w

/-- The world in which the motion loop ended (for `failed`: the world in which
`mc_reset()` is called). -/
def Motion.world : Motion → World
  | .locked _ w => w
  | .stopped _ w => w
  | .failed w _ => w
  | .waiting _ w => w

/-- The world in which `limits_go_home` ended (for `failed`: the world in which
`mc_reset()` is called). -/
def Homing.world : Homing → World
  | .skipped w => w
  | .homed w => w
  | .failed w _ => w
  | .waiting w => w

/-- A world at rest: the idle machine at the origin. -/
def idle_world : World := { m := idle_machine, sys_position := fun _ => 0 }

/-- The CR1 defaults of defaults.h for the settings read by limits.c: 400
steps/mm, travel 86.5, 241.5 and 78.5 mm (stored negative), homing direction
mask 1, feed 30 and seek 2000 mm/min, debounce 1 ms, pull-off 0.5 mm. -/
def default_limits_settings : limits_settings_t where
  steps_per_mm := fun _ => 400
  max_travel := fun idx => if idx = 0 then -173 / 2 else if idx = 1 then -483 / 2 else -157 / 2
  flags := 0
  homing_dir_mask := 1
  homing_feed_rate := 30
  homing_seek_rate := 2000
  homing_debounce_delay := 1
  homing_pulloff := 1 / 2

/-- The CR1 defaults with `$100=100` and `$130=299.995`: the travel is stored
as the binary32 value nearest to -299.995, which is -9830236 / 32768. -/
def fine_limits_settings : limits_settings_t :=
  { default_limits_settings with
    steps_per_mm := fun _ => 100
    max_travel := fun _ => -9830236 / 32768 }

/-- An environment for the motion loop in which every limit pin reads high
(not tripped, with the pins not inverted), the stepper interrupt does not move
and the interrupt handlers deliver the flags `flags` before the first poll. -/
def flags_outside (flags : Nat) : Outside where
  rt := fun n => if n = 0 then flags else 0
  LIMIT_PIN := fun _ => LIMIT_MASK
  LIMIT_X1_PIN := fun _ => LIMIT_X1_MASK
  stepper := fun _ p => p

/-- An environment for the motion loop in which every limit pin reads low
(tripped, with the pins not inverted), the stepper interrupt does not move and
the interrupt handlers deliver the flags `flags` before the first poll. -/
def tripped_outside (flags : Nat) : Outside where
  rt := fun n => if n = 0 then flags else 0
  LIMIT_PIN := fun _ => 0
  LIMIT_X1_PIN := fun _ => 0
  stepper := fun _ p => p

/-- An environment in which a homing cycle runs to its end: at every even poll
the limit pins read low (tripped, with the pins not inverted) and no flag
arrives, at every odd poll they read high and the stepper interrupt reports the
end of the motion (`EXEC_CYCLE_STOP` of Grbl 1.1); at every poll the stepper
interrupt has moved the X axis by one step. -/
def homing_outside : Outside where
  rt := fun n => if n % 2 = 0 then 0 else grbl11.EXEC_CYCLE_STOP
  LIMIT_PIN := fun n => if n % 2 = 0 then 0 else LIMIT_MASK
  LIMIT_X1_PIN := fun n => if n % 2 = 0 then 0 else LIMIT_X1_MASK
  stepper := fun _ p idx => if idx = 0 then p idx + 1 else p idx

/-- The values of `max_travel` and `homing_rate` at the start of each pass of
the outer loop of limits.c 163-262, entered with the given `n_cycle`,
`approach`, `max_travel` and `homing_rate` (the rate before it is scaled by
`sqrt(n_active_axis)`): the same recursion as `homing_passes`, with every pass
ending without alarm. -/
def homing_schedule (S : limits_settings_t) : Nat → Bool → ℚ → ℚ → List (ℚ × ℚ)
  | 0, _, max_travel, homing_rate => [(max_travel, homing_rate)]
  | n_cycle + 1, approach, max_travel, homing_rate =>
    (max_travel, homing_rate) ::
      homing_schedule S n_cycle (!approach) (homing_next S (n_cycle + 1) (!approach)).1
        (homing_next S (n_cycle + 1) (!approach)).2

/-! ## `limits.c`: `limits_find_trip_delta_X1X2` (316-426) -/

/-- Conversion of a wider integer to `int16_t` as avr-gcc does it (modulo
2^16), which is also what the 16-bit `int` subtraction of the AVR leaves. -/
def toInt16 (x : ℤ) : ℤ := (x + 32768) % 65536 - 32768

/-- The value `limits_X1_get_state()` has at the poll `n`: `limit_X1_tripped`
of limits.c 353, 381. -/
def limit_X1_tripped (S : limits_settings_t) (E : Outside) (n : Nat) : Nat :=
  limits_X1_get_state S.flags (E.LIMIT_X1_PIN n)

/-- The value `limits_get_state() & (1<<X_AXIS)` has at the poll `n`:
`limit_X2_tripped` of limits.c 354, 382. -/
def limit_X2_tripped (S : limits_settings_t) (E : Outside) (n : Nat) : Nat :=
  limits_get_state S.flags (E.LIMIT_PIN n) &&& (1 <<< X_AXIS)

/-- Limits.c 338-349, 362-377 and 399-408: zero `sys_position[X_AXIS]`, aim
the X target at `target_X`, enable the X axis in the lock mask, plan the line
at `feed_rate` and start the steppers. -/
def trip_motion_start (K : SystemH) (S : limits_settings_t) (target_X feed_rate : ℚ)
    (w : World) : World :=
  let target := system_convert_array_steps_to_mpos S w.sys_position
  let sys_position := Function.update w.sys_position X_AXIS 0
  let target := Function.update target X_AXIS target_X
  let m := set_homing_axis_lock (get_step_pin_mask X_AXIS) w.m
  let m := call (.plan_buffer_line ((List.range N_AXIS).map target) feed_rate) m
  let m := set_step_control K.STEP_CONTROL_EXECUTE_SYS_MOTION m
  let m := call .st_prep_buffer m
  let m := call .st_wake_up m
  { m := m, sys_position := sys_position }

/-- How a loop of `limits_find_trip_delta_X1X2` ends: it was left (`done`), or
the observation ended inside it (`waiting`). -/
inductive Loop where
  | done (w : World)
  | waiting (w : World)

/-- Limits.c 350-355: `do { ... } while (limit_X1_tripped || limit_X2_tripped);` -/
def trip_clear_loop (S : limits_settings_t) (E : Outside) : Nat → World → Loop
  | 0, w => .waiting w
  | polls + 1, w =>
    let X1 := limit_X1_tripped S E w.m.clock
    let X2 := limit_X2_tripped S E w.m.clock
    let w := (w.arrive E).on (call .st_prep_buffer)
    if X1 ≠ 0 ∨ X2 ≠ 0 then trip_clear_loop S E polls w else .done w

/-- The variables written by the approach loop of limits.c 379-392;
`trip_position_X1` and `trip_position_X2` are `int16_t`. -/
structure trip_vars where
  helper_X1 : Bool
  helper_X2 : Bool
  trip_position_X1 : ℤ
  trip_position_X2 : ℤ

/-- Limits.c 383-390: the two `if` statements that store the position of a
switch that just tripped; `position` is `sys_position[X_AXIS]`. -/
def trip_latch (limit_X1_tripped limit_X2_tripped : Nat) (position : ℤ) (v : trip_vars) :
    trip_vars :=
  let v :=
    if limit_X1_tripped ≠ 0 ∧ v.helper_X1 = true then
      { v with trip_position_X1 := toInt16 position, helper_X1 := false }
    else v
  if limit_X2_tripped ≠ 0 ∧ v.helper_X2 = true then
    { v with trip_position_X2 := toInt16 position, helper_X2 := false }
  else v

/-- How the approach loop ends, with its variables. -/
inductive Approach where
  | done (v : trip_vars) (w : World)
  | waiting (v : trip_vars) (w : World)

/-- Limits.c 379-392:
`do { ... } while (!(limit_X1_tripped && limit_X2_tripped));` -/
def trip_approach_loop (S : limits_settings_t) (E : Outside) :
    Nat → trip_vars → World → Approach
  | 0, v, w => .waiting v w
  | polls + 1, v, w =>
    let X1 := limit_X1_tripped S E w.m.clock
    let X2 := limit_X2_tripped S E w.m.clock
    let w := w.arrive E
    let v := trip_latch X1 X2 (w.sys_position X_AXIS) v
    let w := w.on (call .st_prep_buffer)
    if ¬ (X1 ≠ 0 ∧ X2 ≠ 0) then trip_approach_loop S E polls v w else .done v w

/-- Limits.c 409-415: `do { ... } while (1);`, left through `break`. -/
def trip_stop_loop (K : SystemH) (E : Outside) : Nat → World → Loop
  | 0, w => .waiting w
  | polls + 1, w =>
    let w := (w.arrive E).on (call .st_prep_buffer)
    if w.m.sys_rt_exec_state &&& (K.EXEC_RESET ||| K.EXEC_CYCLE_STOP) ≠ 0 then
      .done (w.on (system_clear_exec_state_flag K.EXEC_CYCLE_STOP))
    else trip_stop_loop K E polls w

/-- How `limits_find_trip_delta_X1X2` ends: it returned `delta`, or the
observation ended inside one of its loops. -/
inductive TripDelta where
  | returned (delta : ℤ) (w : World)
  | waiting (w : World)

/-- `limits_find_trip_delta_X1X2()` (limits.c 316-426). `polls` bounds the
number of passes through each loop that are observed. -/
def limits_find_trip_delta_X1X2 (K : SystemH) (S : limits_settings_t) (E : Outside)
    (polls : Nat) (w : World) : TripDelta :=
  if w.m.sys.abort then .returned 0 w
  else
    let w := trip_motion_start K S
      (if bit_istrue S.homing_dir_mask (bit X_AXIS) then DISTANCE_FIRST_PULLAWAY
        else -DISTANCE_FIRST_PULLAWAY) S.homing_seek_rate w
    match trip_clear_loop S E polls w with
    | .waiting w => .waiting w
    | .done w =>
      let w := w.on (fun m => call (.delay_ms S.homing_debounce_delay) (call .st_reset m))
      let max_travel := -HOMING_AXIS_SEARCH_SCALAR * S.max_travel X_AXIS
      let w := trip_motion_start K S
        (if bit_istrue S.homing_dir_mask (bit X_AXIS) then -max_travel else max_travel)
        S.homing_feed_rate w
      match trip_approach_loop S E polls
          { helper_X1 := true, helper_X2 := true, trip_position_X1 := 0, trip_position_X2 := 0 }
          w with
      | .waiting _ w => .waiting w
      | .done v w =>
        let w := w.on (fun m => call (.delay_ms S.homing_debounce_delay) (call .st_reset m))
        let w := trip_motion_start K S
          (if bit_istrue S.homing_dir_mask (bit X_AXIS) then DISTANCE_FIRST_PULLAWAY
            else -DISTANCE_FIRST_PULLAWAY) S.homing_seek_rate w
        match trip_stop_loop K E polls w with
        | .waiting w => .waiting w
        | .done w =>
          let w := w.on (fun m => call (.delay_ms S.homing_debounce_delay) (call .st_reset m))
          let w := w.on (set_step_control STEP_CONTROL_NORMAL_OP)
          .returned (toInt16 (v.trip_position_X1 - v.trip_position_X2)) w

/-- The `sys_position` the main program reads after `i` polls that begin at
the poll `c` with the position `p`: the work of the stepper interrupt. -/
def stepper_run (E : Outside) : Nat → Nat → (Nat → ℤ) → Nat → ℤ
  | 0, _, p => p
  | i + 1, c, p => stepper_run E i (c + 1) (E.stepper c p)

/-- An environment for `limits_find_trip_delta_X1X2`: both X switches read
released at poll 0, X1 alone reads tripped at poll 1, both read tripped at
poll 2, and the end of the motion is reported at poll 3 (`EXEC_CYCLE_STOP` of
Grbl 1.1); between two polls the X axis moves by 20000 steps in the negative
direction. -/
def squaring_outside : Outside where
  rt := fun n => if n = 3 then grbl11.EXEC_CYCLE_STOP else 0
  LIMIT_PIN := fun n => if n = 2 then 0 else LIMIT_MASK
  LIMIT_X1_PIN := fun n => if n = 1 ∨ n = 2 then 0 else LIMIT_X1_MASK
  stepper := fun _ p idx => if idx = 0 then p idx - 20000 else p idx

/-- The value `sys_position[X_AXIS]` has at the poll `i` of the approach loop
of `limits_find_trip_delta_X1X2`, when the function was entered in the world
`w` and its first loop was left at its poll `k`: the X position is zeroed
before the first motion and again before the approach, and the stepper
interrupt moves it from poll to poll. -/
def trip_position (E : Outside) (w : World) (k i : Nat) : ℤ :=
  stepper_run E (i + 1) (w.m.clock + k + 1)
    (Function.update
      (stepper_run E (k + 1) w.m.clock (Function.update w.sys_position X_AXIS 0)) X_AXIS 0)
    X_AXIS

/-! ## The line filter as the description has it -/

/-- Protocol.c 65-150: what the reception of the character `c` does to the
line being built, as long as the main loop does not return: an end of line
starts a new line (protocol.c 105-107), every other character goes through the
filter. -/
def protocol_feed (c : Char) (s : line_state) : line_state :=
  if c = '\n' ∨ c = '\r' then line_start else protocol_add_char c s

/-- The input without its comments: what stands from a `(` to the next `)`, or
to the end of the line when there is none, and what stands from a `;` to the end
of the line. `in_paren` says whether the scan is inside a `(` comment. -/
def strip_comments : Bool → List Char → List Char
  | _, [] => []
  | true, c :: cs => if c = ')' then strip_comments false cs else strip_comments true cs
  | false, c :: cs =>
    if c = '(' then strip_comments true cs
    else if c = ';' then []
    else c :: strip_comments false cs

/-- The capital of a letter `a` ... `z`, every other character as it is. -/
def upcase (c : Char) : Char :=
  if c ≥ 'a' ∧ c ≤ 'z' then Char.ofNat (c.toNat - 'a'.toNat + 'A'.toNat) else c

/-- The filtered line as the description has it: the comments removed, then
every character up to the blank and every `/` removed, then the letters made
capitals. -/
def line_filter (input : List Char) : List Char :=
  ((strip_comments false input).filter (fun c => ¬ c ≤ ' ' ∧ c ≠ '/')).map upcase

/-- The example line of config.h 239: `g1 x1.032 y2.45 (test comment)`. -/
def echo_example_line : List Char :=
  ['g', '1', ' ', 'x', '1', '.', '0', '3', '2', ' ', 'y', '2', '.', '4', '5', ' ',
    '(', 't', 'e', 's', 't', ' ', 'c', 'o', 'm', 'm', 'e', 'n', 't', ')']

/-- A line as it is received: `$b=rev 3 (note)`. -/
def notes_example_line : List Char :=
  ['$', 'b', '=', 'r', 'e', 'v', ' ', '3', ' ', '(', 'n', 'o', 't', 'e', ')']

/-- A stand-in for `read_float` (nuts_bolts.c, not among the sources) that
reads a number of one decimal digit, together with modules that change nothing
and report no error; used to run `$N` lines on concrete input. -/
def digit_extern : Extern where
  gc_execute_line := fun _ m => (.OK, m)
  mc_homing_cycle := fun _ m => m
  mc_autolevel_X := fun m => m
  mc_X_is_level := fun m => m
  mc_reset := fun m => m
  settings_read_startup_line := fun _ => some []
  settings_store_global_setting := fun _ _ => .OK
  read_float := fun line i =>
    if '0' ≤ char_at line i ∧ char_at line i ≤ '9' then
      some ((((char_at line i).toNat - '0'.toNat : Nat) : ℚ), i + 1)
    else none
  flags := BITFLAG_HOMING_ENABLE

/-- As `digit_extern`, with a g-code parser that refuses every block with the
status code 20. -/
def refusing_extern : Extern :=
  { digit_extern with gc_execute_line := fun _ m => (.other 20, m) }

/-- `SPINDLE_PWM_RANGE` (cpu_map.h 139). -/
def SPINDLE_PWM_RANGE : Nat := SPINDLE_PWM_MAX_VALUE - SPINDLE_PWM_MIN_VALUE

/-! ## `limits.c`: `limits_init` (33-52) -/

/-- The I/O registers written by `limits_init` and `limits_disable`:
`LIMIT_DDR` is `DDRB`, `LIMIT_PORT` is `PORTB`, `LIMIT_X1_DDR` is `DDRC`,
`LIMIT_X1_PORT` is `PORTC`, `LIMIT_PCMSK` is `PCMSK0` (cpu_map.h 74-91). -/
structure limit_regs where
  DDRB : Nat
  PORTB : Nat
  DDRC : Nat
  PORTC : Nat
  PCMSK0 : Nat
  PCICR : Nat
  deriving DecidableEq

/-- `BITFLAG_HARD_LIMIT_ENABLE` (settings.h 36, 45). -/
def BITFLAG_HARD_LIMIT_ENABLE : Nat := bit 3

/-- `LIMIT_INT` is `PCIE0` (cpu_map.h 82), bit 0 of `PCICR` on the ATmega328P
(the value comes from the AVR device header). -/
def LIMIT_INT : Nat := 0

/-- `limits_disable()` (limits.c 56-60). -/
def limits_disable (r : limit_regs) : limit_regs :=
  let r := { r with PCMSK0 := r.PCMSK0 &&& (255 ^^^ LIMIT_MASK) }
  { r with PCICR := r.PCICR &&& (255 ^^^ (1 <<< LIMIT_INT)) }

/-- `limits_init()` (limits.c 33-52), with `DISABLE_LIMIT_PIN_PULL_UP` not
defined; `flags` is `settings.flags`. -/
def limits_init (flags : Nat) (r : limit_regs) : limit_regs :=
  let r := { r with DDRB := r.DDRB &&& (255 ^^^ LIMIT_MASK) }
  let r := { r with DDRC := r.DDRC &&& (255 ^^^ LIMIT_MASK) }
  let r := { r with PORTB := r.PORTB ||| LIMIT_X1_MASK }
  let r := { r with PORTC := r.PORTC ||| LIMIT_X1_MASK }
  if bit_istrue flags BITFLAG_HARD_LIMIT_ENABLE then
    let r := { r with PCMSK0 := r.PCMSK0 ||| LIMIT_MASK }
    { r with PCICR := r.PCICR ||| (1 <<< LIMIT_INT) }
  else limits_disable r

/-- The registers after a reset of the processor: all zero. -/
def reset_limit_regs : limit_regs :=
  { DDRB := 0, PORTB := 0, DDRC := 0, PORTC := 0, PCMSK0 := 0, PCICR := 0 }

/-! ## `report.c`: the response to a line (129-203) -/

/-- The character of the decimal digit `d`. -/
def digit_char (d : Nat) : Char := Char.ofNat (48 + d)

/-- Modelled from the spec: `print_uint8_base10` of `print.c`, which is not
among the sources (spec section 6: `error:<n>`): the decimal digits of the
`uint8_t` argument, without leading zeros. -/
def print_uint8_base10 (n : Nat) : List Char :=
  let n := n % 256
  if 100 ≤ n then [digit_char (n / 100), digit_char (n / 10 % 10), digit_char (n % 10)]
  else if 10 ≤ n then [digit_char (n / 10), digit_char (n % 10)]
  else [digit_char n]

/-- The names of the status codes that `report_status_message` tells apart
(report.c 132-191). -/
inductive StatusName where
  | OK | INVALID_STATEMENT | NEGATIVE_VALUE | SETTING_READ_FAIL | IDLE_ERROR
  | SETTING_DISABLED | SOFT_LIMIT_ERROR | SYSTEM_GC_LOCK | OVERFLOW | LINE_LENGTH_EXCEEDED
  | TRAVEL_EXCEEDED | INVALID_JOG_COMMAND | GCODE_AXIS_WORDS_EXIST | GCODE_UNUSED_WORDS
  | GCODE_UNSUPPORTED_COMMAND | GCODE_UNDEFINED_FEED_RATE | GCODE_G43_DYNAMIC_AXIS_ERROR
  | GCODE_UNSUPPORTED_COORD_SYS | GCODE_MODAL_GROUP_VIOLATION | GCODE_AXIS_COMMAND_CONFLICT
  | GCODE_WORD_REPEATED | GCODE_G53_INVALID_MOTION_MODE | GCODE_COMMAND_VALUE_NOT_INTEGER
  | BAD_NUMBER_FORMAT | GCODE_NO_AXIS_WORDS | GCODE_INVALID_LINE_NUMBER
  | EXPECTED_COMMAND_LETTER | GCODE_INVALID_TARGET | GCODE_ARC_RADIUS_ERROR
  | GCODE_VALUE_WORD_MISSING | GCODE_NO_AXIS_WORDS_IN_PLANE | GCODE_NO_OFFSETS_IN_PLANE
  deriving DecidableEq

/-- The constants that `report_status_message` and
`spindle_get_actual_RPM_status` take from headers that are not among the
sources (`report.h`, `system.h`, `spindle_control.h`): the value `STATUS` of
each status name, the value of `sys.report_ok_mode` for the standard response,
the two bit numbers and the four values of the spindle speed status. -/
structure ReportH where
  STATUS : StatusName → Nat
  REPORT_RESPONSE_OK : Nat
  SPINDLE_ACTUAL_RPM_BIT0 : Nat
  SPINDLE_ACTUAL_RPM_BIT1 : Nat
  SPINDLE_ACTUALRPM_WITHIN_0000TO0999_GOALRPM : Nat
  SPINDLE_ACTUALRPM_WITHIN_1000TO1999_GOALRPM : Nat
  SPINDLE_ACTUALRPM_WITHIN_2000TO2999_GOALRPM : Nat
  SPINDLE_ACTUALRPM_BEYOND_3000_GOALRPM : Nat

/-- `SPINDLE_RPM_STATUS_BIT` (cpu_map.h 99). -/
def SPINDLE_RPM_STATUS_BIT : Nat := 4
/-- `SPINDLE_RPM_STATUS_MASK` (cpu_map.h 100). -/
def SPINDLE_RPM_STATUS_MASK : Nat := 1 <<< SPINDLE_RPM_STATUS_BIT

/-- `spindle_get_actual_RPM_status()` (spindle_control.c 157-165); `LIMIT_X1_PIN`
and `SPINDLE_RPM_STATUS_PIN` are both the input register `PINC`. -/
def spindle_get_actual_RPM_status (R : ReportH) (PINC : Nat) : Nat :=
  let actualRPM_pinStates := 0
  let actualRPM_pinStates :=
    if PINC &&& LIMIT_X1_MASK ≠ 0 then (1 <<< R.SPINDLE_ACTUAL_RPM_BIT1) % 256
    else actualRPM_pinStates
  let actualRPM_pinStates :=
    if PINC &&& SPINDLE_RPM_STATUS_MASK ≠ 0 then
      (actualRPM_pinStates ||| (1 <<< R.SPINDLE_ACTUAL_RPM_BIT0)) % 256
    else actualRPM_pinStates
  actualRPM_pinStates

/-- The inner `switch` of the `STATUS_OK` case (report.c 136-142): the character
written in front of `k` in the "M105 mode". -/
def report_actual_RPM_char (R : ReportH) (status : Nat) : List Char :=
  if status = R.SPINDLE_ACTUALRPM_WITHIN_0000TO0999_GOALRPM then ['0']
  else if status = R.SPINDLE_ACTUALRPM_WITHIN_1000TO1999_GOALRPM then ['1']
  else if status = R.SPINDLE_ACTUALRPM_WITHIN_2000TO2999_GOALRPM then ['2']
  else if status = R.SPINDLE_ACTUALRPM_BEYOND_3000_GOALRPM then ['3']
  else []

/-- `report_send_Gcode()` (report.c 120). -/
def report_send_Gcode : List Char := "G-code ".toList
/-- `report_send_Gcode_missing()` (report.c 121-122). -/
def report_send_Gcode_missing : List Char := report_send_Gcode ++ "missing ".toList

/-- The `case` labels of the `switch` of report.c 149-195 in the order of the
source, each with the text that it prints (labels that fall through print the
text of the label they fall to). -/
def status_cases : List (StatusName × List Char) :=
  [ (.INVALID_STATEMENT, "$UNK".toList),
    (.NEGATIVE_VALUE, "-#".toList),
    (.SETTING_READ_FAIL, "MEMinit".toList),
    (.IDLE_ERROR, "not idle".toList),
    (.SETTING_DISABLED, "$H disabled".toList),
    (.SOFT_LIMIT_ERROR, "$H disabled".toList),
    (.SYSTEM_GC_LOCK, "$H disabled".toList),
    (.OVERFLOW, "2long".toList),
    (.LINE_LENGTH_EXCEEDED, "2long".toList),
    (.TRAVEL_EXCEEDED, "jogLIM".toList),
    (.INVALID_JOG_COMMAND, "jogINV".toList),
    (.GCODE_AXIS_WORDS_EXIST, report_send_Gcode ++ "axis".toList),
    (.GCODE_UNUSED_WORDS, report_send_Gcode ++ "word".toList),
    (.GCODE_UNSUPPORTED_COMMAND, report_send_Gcode ++ "bad".toList),
    (.GCODE_UNDEFINED_FEED_RATE, report_send_Gcode ++ "F?".toList),
    (.GCODE_G43_DYNAMIC_AXIS_ERROR, report_send_Gcode ++ "G43".toList),
    (.GCODE_UNSUPPORTED_COORD_SYS, report_send_Gcode ++ "G59".toList),
    (.GCODE_MODAL_GROUP_VIOLATION, report_send_Gcode ++ "conflict".toList),
    (.GCODE_AXIS_COMMAND_CONFLICT, report_send_Gcode ++ "conflict".toList),
    (.GCODE_WORD_REPEATED, report_send_Gcode ++ "conflict".toList),
    (.GCODE_G53_INVALID_MOTION_MODE, report_send_Gcode_missing ++ "G0|G1".toList),
    (.GCODE_COMMAND_VALUE_NOT_INTEGER, report_send_Gcode_missing ++ "num".toList),
    (.BAD_NUMBER_FORMAT, report_send_Gcode_missing ++ "num".toList),
    (.GCODE_NO_AXIS_WORDS, report_send_Gcode_missing ++ "axis".toList),
    (.GCODE_INVALID_LINE_NUMBER, report_send_Gcode_missing ++ "Ln".toList),
    (.EXPECTED_COMMAND_LETTER, report_send_Gcode_missing ++ "Let".toList),
    (.GCODE_INVALID_TARGET, report_send_Gcode_missing ++ "targ".toList),
    (.GCODE_ARC_RADIUS_ERROR, report_send_Gcode_missing ++ "R".toList),
    (.GCODE_VALUE_WORD_MISSING, report_send_Gcode_missing ++ "word".toList),
    (.GCODE_NO_AXIS_WORDS_IN_PLANE, report_send_Gcode_missing ++ "word".toList),
    (.GCODE_NO_OFFSETS_IN_PLANE, report_send_Gcode_missing ++ "word".toList) ]

/-- The inner `switch` of the `default` case (report.c 149-195): the text of the
first label whose value is `status_code`, nothing when there is none. -/
def report_status_text (R : ReportH) (status_code : Nat) : List Char :=
  match status_cases.find? (fun p => R.STATUS p.1 == status_code) with
  | some p => p.2
  | none => []

/-- `report_status_message(status_code)` (report.c 129-203): the characters
written to the serial port; `report_ok_mode` is `sys.report_ok_mode` and `PINC`
the input register read by `spindle_get_actual_RPM_status`. -/
def report_status_message (R : ReportH) (report_ok_mode PINC status_code : Nat) :
    List Char :=
  if status_code = R.STATUS .OK then
    (if report_ok_mode = R.REPORT_RESPONSE_OK then ['o']
     else report_actual_RPM_char R (spindle_get_actual_RPM_status R PINC))
    ++ "k\r\n".toList
  else
    "[MSG:".toList ++ report_status_text R status_code ++ (']' :: "\r\n".toList)
    ++ "error:".toList ++ print_uint8_base10 status_code ++ "\r\n".toList

/-- The constants of `ReportH` for the examples: the status codes of Grbl 1.1,
`sys.report_ok_mode` 0 for the standard response, and the spindle speed status
as the two-bit number of the pins. -/
def report11 : ReportH :=
  { STATUS := fun s => match s with
      | .OK => 0 | .EXPECTED_COMMAND_LETTER => 1 | .BAD_NUMBER_FORMAT => 2
      | .INVALID_STATEMENT => 3 | .NEGATIVE_VALUE => 4 | .SETTING_DISABLED => 5
      | .SETTING_READ_FAIL => 7 | .IDLE_ERROR => 8 | .SYSTEM_GC_LOCK => 9
      | .SOFT_LIMIT_ERROR => 10 | .OVERFLOW => 11 | .LINE_LENGTH_EXCEEDED => 14
      | .TRAVEL_EXCEEDED => 15 | .INVALID_JOG_COMMAND => 16
      | .GCODE_UNSUPPORTED_COMMAND => 20 | .GCODE_MODAL_GROUP_VIOLATION => 21
      | .GCODE_UNDEFINED_FEED_RATE => 22 | .GCODE_COMMAND_VALUE_NOT_INTEGER => 23
      | .GCODE_AXIS_COMMAND_CONFLICT => 24 | .GCODE_WORD_REPEATED => 25
      | .GCODE_NO_AXIS_WORDS => 26 | .GCODE_INVALID_LINE_NUMBER => 27
      | .GCODE_VALUE_WORD_MISSING => 28 | .GCODE_UNSUPPORTED_COORD_SYS => 29
      | .GCODE_G53_INVALID_MOTION_MODE => 30 | .GCODE_AXIS_WORDS_EXIST => 31
      | .GCODE_NO_AXIS_WORDS_IN_PLANE => 32 | .GCODE_INVALID_TARGET => 33
      | .GCODE_ARC_RADIUS_ERROR => 34 | .GCODE_NO_OFFSETS_IN_PLANE => 35
      | .GCODE_UNUSED_WORDS => 36 | .GCODE_G43_DYNAMIC_AXIS_ERROR => 37,
    REPORT_RESPONSE_OK := 0,
    SPINDLE_ACTUAL_RPM_BIT0 := 0,
    SPINDLE_ACTUAL_RPM_BIT1 := 1,
    SPINDLE_ACTUALRPM_WITHIN_0000TO0999_GOALRPM := 0,
    SPINDLE_ACTUALRPM_WITHIN_1000TO1999_GOALRPM := 1,
    SPINDLE_ACTUALRPM_WITHIN_2000TO2999_GOALRPM := 2,
    SPINDLE_ACTUALRPM_BEYOND_3000_GOALRPM := 3 }

/-! ## `report.c`: the `$$` dump (32, 51-112, 298-338) -/

/-- All fields of `settings_t` (settings.h 113-139); the `float` fields are
rationals, the arrays are functions of the axis index. -/
structure global_settings_t where
  steps_per_mm : Nat → ℚ
  max_rate : Nat → ℚ
  acceleration : Nat → ℚ
  max_travel : Nat → ℚ
  pulse_microseconds : Nat
  step_invert_mask : Nat
  dir_invert_mask : Nat
  stepper_idle_lock_time : Nat
  status_report_mask : Nat
  junction_deviation : ℚ
  arc_tolerance : ℚ
  rpm_max : ℚ
  rpm_min : ℚ
  flags : Nat
  homing_dir_mask : Nat
  homing_feed_rate : ℚ
  homing_seek_rate : ℚ
  homing_debounce_delay : Nat
  homing_pulloff : ℚ

/-- `BITFLAG_REPORT_INCHES` (settings.h 33, 42). -/
def BITFLAG_REPORT_INCHES : Nat := bit 0
/-- `BITFLAG_INVERT_ST_ENABLE` (settings.h 35, 44). -/
def BITFLAG_INVERT_ST_ENABLE : Nat := bit 2
/-- `BITFLAG_SOFT_LIMIT_ENABLE` (settings.h 38, 47). -/
def BITFLAG_SOFT_LIMIT_ENABLE : Nat := bit 5
/-- `BITFLAG_INVERT_PROBE_PIN` (settings.h 40, 49). -/
def BITFLAG_INVERT_PROBE_PIN : Nat := bit 7

/-- `N_DECIMAL_SETTINGVALUE` (config.h 130). -/
def N_DECIMAL_SETTINGVALUE : Nat := 3
/-- `N_DECIMAL_RPMVALUE` (config.h 131). -/
def N_DECIMAL_RPMVALUE : Nat := 0
/-- `AXIS_N_SETTINGS` (settings.h). -/
def AXIS_N_SETTINGS : Nat := 4
/-- `AXIS_SETTINGS_START_VAL` (settings.h). -/
def AXIS_SETTINGS_START_VAL : Nat := 100
/-- `AXIS_SETTINGS_INCREMENT` (settings.h). -/
def AXIS_SETTINGS_INCREMENT : Nat := 10

/-- `report_util_line_feed()` (report.c 34). -/
def report_util_line_feed : List Char := ['\r', '\n']

/-- `report_util_setting_prefix(n)` (report.c 32). -/
def report_util_setting_prefix (n : Nat) : List Char :=
  '$' :: print_uint8_base10 n ++ ['=']

/-- The `switch(n)` of `report_util_setting_string` (report.c 54-91): the name
of setting `n`; in the `default` case `n` is an `uint8_t`, the `while` loop
leaves the quotient in `idx` and the remainder in `n`. -/
def report_util_setting_name (n : Nat) : List Char :=
  if n = 0 then "stepPulse".toList
  else if n = 1 then "idleDelay".toList
  else if n = 2 then "stepMask".toList
  else if n = 3 then "dirMask".toList
  else if n = 4 then "stepEn".toList
  else if n = 5 then "limLVL".toList
  else if n = 6 then "prbLVL".toList
  else if n = 10 then "statMask".toList
  else if n = 11 then "jncDev".toList
  else if n = 12 then "arcTol".toList
  else if n = 13 then "Inch".toList
  else if n = 20 then "softLim".toList
  else if n = 21 then "hardLim".toList
  else if n = 22 then "homeEn".toList
  else if n = 23 then "homeDirMask".toList
  else if n = 24 then "homeFine".toList
  else if n = 25 then "homeSeek".toList
  else if n = 26 then "homeDelay".toList
  else if n = 27 then "homePulloff".toList
  else if n = 30 then "rpmMax".toList
  else if n = 31 then "rpmMin".toList
  else
    let n := (n + 256 - AXIS_SETTINGS_START_VAL) % 256
    let idx := n / AXIS_SETTINGS_INCREMENT
    let n := n % AXIS_SETTINGS_INCREMENT
    Char.ofNat (n + 'x'.toNat) ::
      (if idx = 0 then ":stp/mm".toList
       else if idx = 1 then ":mm/min".toList
       else if idx = 2 then ":mm/s^2".toList
       else if idx = 3 then ":mm".toList
       else [])

/-- `report_util_setting_string(n)` (report.c 51-94). -/
def report_util_setting_string (n : Nat) : List Char :=
  ' ' :: '(' :: (report_util_setting_name n ++ ')' :: report_util_line_feed)

/-- `report_util_uint8_setting(n,val)` (report.c 103-107); `print_uint8_base10`
takes the `int val` as an `uint8_t`. -/
def report_util_uint8_setting (n val : Nat) : List Char :=
  report_util_setting_prefix n ++ (print_uint8_base10 val ++ report_util_setting_string n)

/-- `report_util_float_setting(n,val,n_decimal)` (report.c 108-112); `printFloat`
is in `print.c`, which is not among the sources, and is a parameter. -/
def report_util_float_setting (printFloat : ℚ → Nat → List Char) (n : Nat) (val : ℚ)
    (n_decimal : Nat) : List Char :=
  report_util_setting_prefix n ++ (printFloat val n_decimal ++ report_util_setting_string n)

/-- The value of `bit_istrue(x,mask)` as the `int` that
`report_util_uint8_setting` receives. -/
def bit_value (x mask : Nat) : Nat := if bit_istrue x mask then 1 else 0

/-- The body of the two loops of `report_grbl_settings` (report.c 329-334). -/
def report_axis_setting (printFloat : ℚ → Nat → List Char) (S : global_settings_t)
    (val set_idx idx : Nat) : List Char :=
  if set_idx = 0 then
    report_util_float_setting printFloat (val + idx) (S.steps_per_mm idx) N_DECIMAL_SETTINGVALUE
  else if set_idx = 1 then
    report_util_float_setting printFloat (val + idx) (S.max_rate idx) N_DECIMAL_SETTINGVALUE
  else if set_idx = 2 then
    report_util_float_setting printFloat (val + idx) (S.acceleration idx / (60 * 60))
      N_DECIMAL_SETTINGVALUE
  else if set_idx = 3 then
    report_util_float_setting printFloat (val + idx) (-(S.max_travel idx)) N_DECIMAL_SETTINGVALUE
  else []

/-- `report_grbl_settings()` (report.c 300-338): the characters of the `$$`
dump of the settings record `S`; `val` of the source is
`AXIS_SETTINGS_START_VAL + set_idx * AXIS_SETTINGS_INCREMENT`. -/
def report_grbl_settings (printFloat : ℚ → Nat → List Char) (S : global_settings_t) :
    List Char :=
  report_util_uint8_setting 0 S.pulse_microseconds ++
  (report_util_uint8_setting 1 S.stepper_idle_lock_time ++
  (report_util_uint8_setting 2 S.step_invert_mask ++
  (report_util_uint8_setting 3 S.dir_invert_mask ++
  (report_util_uint8_setting 4 (bit_value S.flags BITFLAG_INVERT_ST_ENABLE) ++
  (report_util_uint8_setting 5 (bit_value S.flags BITFLAG_INVERT_LIMIT_PINS) ++
  (report_util_uint8_setting 6 (bit_value S.flags BITFLAG_INVERT_PROBE_PIN) ++
  (report_util_uint8_setting 10 S.status_report_mask ++
  (report_util_float_setting printFloat 11 S.junction_deviation N_DECIMAL_SETTINGVALUE ++
  (report_util_float_setting printFloat 12 S.arc_tolerance N_DECIMAL_SETTINGVALUE ++
  (report_util_uint8_setting 13 (bit_value S.flags BITFLAG_REPORT_INCHES) ++
  (report_util_uint8_setting 20 (bit_value S.flags BITFLAG_SOFT_LIMIT_ENABLE) ++
  (report_util_uint8_setting 21 (bit_value S.flags BITFLAG_HARD_LIMIT_ENABLE) ++
  (report_util_uint8_setting 22 (bit_value S.flags BITFLAG_HOMING_ENABLE) ++
  (report_util_uint8_setting 23 S.homing_dir_mask ++
  (report_util_float_setting printFloat 24 S.homing_feed_rate N_DECIMAL_SETTINGVALUE ++
  (report_util_float_setting printFloat 25 S.homing_seek_rate N_DECIMAL_SETTINGVALUE ++
  (report_util_uint8_setting 26 S.homing_debounce_delay ++
  (report_util_float_setting printFloat 27 S.homing_pulloff N_DECIMAL_SETTINGVALUE ++
  (report_util_float_setting printFloat 30 S.rpm_max N_DECIMAL_RPMVALUE ++
  (report_util_float_setting printFloat 31 S.rpm_min N_DECIMAL_RPMVALUE ++
  (List.range AXIS_N_SETTINGS).flatMap (fun set_idx =>
    (List.range N_AXIS).flatMap (fun idx =>
      report_axis_setting printFloat S
        (AXIS_SETTINGS_START_VAL + set_idx * AXIS_SETTINGS_INCREMENT) set_idx idx))
  ))))))))))))))))))))

/-- The line of setting `n` with the value text `v`: what
`report_util_uint8_setting` and `report_util_float_setting` write. -/
def setting_line (p : Nat × List Char) : List Char :=
  report_util_setting_prefix p.1 ++ (p.2 ++ report_util_setting_string p.1)

/-- The numbers and the value texts of the `$$` dump, in the order of the
source. -/
def setting_values (printFloat : ℚ → Nat → List Char) (S : global_settings_t) :
    List (Nat × List Char) :=
  [ (0, print_uint8_base10 S.pulse_microseconds),
    (1, print_uint8_base10 S.stepper_idle_lock_time),
    (2, print_uint8_base10 S.step_invert_mask),
    (3, print_uint8_base10 S.dir_invert_mask),
    (4, print_uint8_base10 (bit_value S.flags BITFLAG_INVERT_ST_ENABLE)),
    (5, print_uint8_base10 (bit_value S.flags BITFLAG_INVERT_LIMIT_PINS)),
    (6, print_uint8_base10 (bit_value S.flags BITFLAG_INVERT_PROBE_PIN)),
    (10, print_uint8_base10 S.status_report_mask),
    (11, printFloat S.junction_deviation 3),
    (12, printFloat S.arc_tolerance 3),
    (13, print_uint8_base10 (bit_value S.flags BITFLAG_REPORT_INCHES)),
    (20, print_uint8_base10 (bit_value S.flags BITFLAG_SOFT_LIMIT_ENABLE)),
    (21, print_uint8_base10 (bit_value S.flags BITFLAG_HARD_LIMIT_ENABLE)),
    (22, print_uint8_base10 (bit_value S.flags BITFLAG_HOMING_ENABLE)),
    (23, print_uint8_base10 S.homing_dir_mask),
    (24, printFloat S.homing_feed_rate 3),
    (25, printFloat S.homing_seek_rate 3),
    (26, print_uint8_base10 S.homing_debounce_delay),
    (27, printFloat S.homing_pulloff 3),
    (30, printFloat S.rpm_max 0),
    (31, printFloat S.rpm_min 0),
    (100, printFloat (S.steps_per_mm 0) 3),
    (101, printFloat (S.steps_per_mm 1) 3),
    (102, printFloat (S.steps_per_mm 2) 3),
    (110, printFloat (S.max_rate 0) 3),
    (111, printFloat (S.max_rate 1) 3),
    (112, printFloat (S.max_rate 2) 3),
    (120, printFloat (S.acceleration 0 / (60 * 60)) 3),
    (121, printFloat (S.acceleration 1 / (60 * 60)) 3),
    (122, printFloat (S.acceleration 2 / (60 * 60)) 3),
    (130, printFloat (-(S.max_travel 0)) 3),
    (131, printFloat (-(S.max_travel 1)) 3),
    (132, printFloat (-(S.max_travel 2)) 3) ]

/-- A `printFloat` for the examples: the integer part of a value that is not
negative, in decimal. -/
def print_whole (x : ℚ) (_n_decimal : Nat) : List Char :=
  print_uint8_base10 (Int.toNat ⌊x⌋)

/-- The settings of defaults.h 32-65. -/
def default_global_settings : global_settings_t :=
  { steps_per_mm := fun _ => 400,
    max_rate := fun idx => if idx = 0 then 2540 else 3100,
    acceleration := fun _ => 500 * 60 * 60,
    max_travel := fun idx => if idx = 0 then 86.5 else if idx = 1 then 241.5 else 78.5,
    pulse_microseconds := 10,
    step_invert_mask := 0,
    dir_invert_mask := 0,
    stepper_idle_lock_time := 100,
    status_report_mask := 127,
    junction_deviation := 0.02,
    arc_tolerance := 0.002,
    rpm_max := 8500,
    rpm_min := 1360,
    flags := BITFLAG_INVERT_LIMIT_PINS ||| BITFLAG_SOFT_LIMIT_ENABLE |||
      BITFLAG_HARD_LIMIT_ENABLE ||| BITFLAG_HOMING_ENABLE,
    homing_dir_mask := 1,
    homing_feed_rate := 30,
    homing_seek_rate := 2000,
    homing_debounce_delay := 1,
    homing_pulloff := 0.5 }

/-- The settings of defaults.h with `homing_debounce_delay` set to `d`. -/
def delay_settings (d : Nat) : global_settings_t :=
  { default_global_settings with homing_debounce_delay := d }

/-- The settings of defaults.h with the bit `BIT_UNUSED` of `flags` set
(settings.h 34). -/
def unused_flag_settings : global_settings_t :=
  { default_global_settings with flags := default_global_settings.flags ||| bit 1 }

/-! ## Bitwise facts -/

theorem bit_eq_two_pow (n : Nat) : bit n = 2 ^ n := by simp [bit, Nat.one_shiftLeft]

@[simp] theorem testBit_bit (i j : Nat) : (bit i).testBit j = decide (i = j) := by
  rw [bit_eq_two_pow]; exact Nat.testBit_two_pow

@[simp] theorem land_bit_eq_zero_iff (x i : Nat) : x &&& bit i = 0 ↔ x.testBit i = false := by
  rw [bit_eq_two_pow, Nat.and_two_pow]
  cases x.testBit i <;> simp

@[simp] theorem land_lor_eq_zero_iff (x a b : Nat) :
    x &&& (a ||| b) = 0 ↔ x &&& a = 0 ∧ x &&& b = 0 := by
  rw [Nat.and_or_distrib_left]
  constructor
  · intro h
    constructor
    · apply Nat.eq_of_testBit_eq; intro i
      have := congrArg (fun y => y.testBit i) h
      simp at this ⊢; exact this.1
    · apply Nat.eq_of_testBit_eq; intro i
      have := congrArg (fun y => y.testBit i) h
      simp at this ⊢; exact this.2
  · rintro ⟨h1, h2⟩; rw [h1, h2]; rfl

@[simp] theorem bit_ne_zero (i : Nat) : bit i ≠ 0 := by
  rw [bit_eq_two_pow]; positivity

@[simp] theorem lor_eq_zero_iff (x y : Nat) : x ||| y = 0 ↔ x = 0 ∧ y = 0 := by
  constructor
  · intro h
    constructor
    · apply Nat.eq_of_testBit_eq; intro i
      have := congrArg (fun z => z.testBit i) h
      simp at this ⊢; exact this.1
    · apply Nat.eq_of_testBit_eq; intro i
      have := congrArg (fun z => z.testBit i) h
      simp at this ⊢; exact this.2
  · rintro ⟨rfl, rfl⟩; rfl

@[simp] theorem zero_eq_bit_iff (i : Nat) : 0 = bit i ↔ False := by
  simp [eq_comm]

@[simp] theorem bit_eq_zero_iff (i : Nat) : bit i = 0 ↔ False := by
  simp

@[simp] theorem bit_eq_bit_iff (i j : Nat) : bit i = bit j ↔ i = j := by
  rw [bit_eq_two_pow, bit_eq_two_pow]
  exact Nat.pow_right_injective (le_refl 2) |>.eq_iff

@[simp] theorem testBit_255 (i : Nat) : Nat.testBit 255 i = decide (i < 8) := by
  have : (255 : Nat) = 2 ^ 8 - 1 := by norm_num
  rw [this, Nat.testBit_two_pow_sub_one]

@[simp] theorem testBit_clear (x mask i : Nat) :
    (x &&& (255 ^^^ mask)).testBit i = (x.testBit i && (decide (i < 8) ^^ mask.testBit i)) := by
  have : (255 : Nat) = 2 ^ 8 - 1 := by norm_num
  rw [Nat.testBit_and, Nat.testBit_xor, this, Nat.testBit_two_pow_sub_one]

namespace SystemH.WF
variable {K : SystemH} (hK : K.WF)
include hK

theorem state_eq (a b : StateFlag) : K.state a = K.state b ↔ a = b := hK.state_inj.eq_iff
theorem exec_eq (a b : ExecFlag) : K.exec a = K.exec b ↔ a = b := hK.exec_inj.eq_iff
theorem suspend_eq (a b : SuspendFlag) : K.suspend a = K.suspend b ↔ a = b :=
  hK.suspend_inj.eq_iff
theorem step_control_eq (a b : StepControlFlag) : K.step_control a = K.step_control b ↔ a = b :=
  hK.step_control_inj.eq_iff
theorem spindle_stop_eq (a b : SpindleStopFlag) : K.spindle_stop a = K.spindle_stop b ↔ a = b :=
  hK.spindle_stop_inj.eq_iff
theorem motion_ovr_eq (a b : MotionOvrFlag) : K.motion_ovr a = K.motion_ovr b ↔ a = b :=
  hK.motion_ovr_inj.eq_iff
theorem accessory_ovr_eq (a b : AccessoryOvrFlag) :
    K.accessory_ovr a = K.accessory_ovr b ↔ a = b :=
  hK.accessory_ovr_inj.eq_iff

end SystemH.WF

/-- The Grbl 1.1 flag layout is well formed. -/
theorem grbl11_WF : grbl11.WF := by
  constructor <;> decide

/-! ## Projections of a conditional state -/

@[simp] theorem ite_sys (c : Prop) [Decidable c] (a b : Machine) :
    (if c then a else b).sys = if c then a.sys else b.sys := by
  split <;> rfl

@[simp] theorem ite_sys_rt_exec_state (c : Prop) [Decidable c] (a b : Machine) :
    (if c then a else b).sys_rt_exec_state = if c then a.sys_rt_exec_state else b.sys_rt_exec_state := by
  split <;> rfl

@[simp] theorem ite_sys_rt_exec_alarm (c : Prop) [Decidable c] (a b : Machine) :
    (if c then a else b).sys_rt_exec_alarm = if c then a.sys_rt_exec_alarm else b.sys_rt_exec_alarm := by
  split <;> rfl

@[simp] theorem ite_sys_rt_exec_motion_override (c : Prop) [Decidable c] (a b : Machine) :
    (if c then a else b).sys_rt_exec_motion_override = if c then a.sys_rt_exec_motion_override else b.sys_rt_exec_motion_override := by
  split <;> rfl

@[simp] theorem ite_sys_rt_exec_accessory_override (c : Prop) [Decidable c] (a b : Machine) :
    (if c then a else b).sys_rt_exec_accessory_override = if c then a.sys_rt_exec_accessory_override else b.sys_rt_exec_accessory_override := by
  split <;> rfl

@[simp] theorem ite_gc_modal_spindle (c : Prop) [Decidable c] (a b : Machine) :
    (if c then a else b).gc_modal_spindle = if c then a.gc_modal_spindle else b.gc_modal_spindle := by
  split <;> rfl

@[simp] theorem ite_gc_spindle_speed (c : Prop) [Decidable c] (a b : Machine) :
    (if c then a else b).gc_spindle_speed = if c then a.gc_spindle_speed else b.gc_spindle_speed := by
  split <;> rfl

@[simp] theorem ite_settings (c : Prop) [Decidable c] (a b : Machine) :
    (if c then a else b).settings = if c then a.settings else b.settings := by
  split <;> rfl

@[simp] theorem ite_pwm_gradient (c : Prop) [Decidable c] (a b : Machine) :
    (if c then a else b).pwm_gradient = if c then a.pwm_gradient else b.pwm_gradient := by
  split <;> rfl

@[simp] theorem ite_regs (c : Prop) [Decidable c] (a b : Machine) :
    (if c then a else b).regs = if c then a.regs else b.regs := by
  split <;> rfl

@[simp] theorem ite_plan_block (c : Prop) [Decidable c] (a b : Machine) :
    (if c then a else b).plan_block = if c then a.plan_block else b.plan_block := by
  split <;> rfl

@[simp] theorem ite_trace (c : Prop) [Decidable c] (a b : Machine) :
    (if c then a else b).trace = if c then a.trace else b.trace := by
  split <;> rfl

@[simp] theorem ite_clock (c : Prop) [Decidable c] (a b : Machine) :
    (if c then a else b).clock = if c then a.clock else b.clock := by
  split <;> rfl

@[simp] theorem ite_sys_state (c : Prop) [Decidable c] (a b : system_t) :
    (if c then a else b).state = if c then a.state else b.state := by
  split <;> rfl

@[simp] theorem ite_sys_abort (c : Prop) [Decidable c] (a b : system_t) :
    (if c then a else b).abort = if c then a.abort else b.abort := by
  split <;> rfl

@[simp] theorem ite_sys_suspend (c : Prop) [Decidable c] (a b : system_t) :
    (if c then a else b).suspend = if c then a.suspend else b.suspend := by
  split <;> rfl

@[simp] theorem ite_sys_soft_limit (c : Prop) [Decidable c] (a b : system_t) :
    (if c then a else b).soft_limit = if c then a.soft_limit else b.soft_limit := by
  split <;> rfl

@[simp] theorem ite_sys_step_control (c : Prop) [Decidable c] (a b : system_t) :
    (if c then a else b).step_control = if c then a.step_control else b.step_control := by
  split <;> rfl

@[simp] theorem ite_sys_homing_axis_lock (c : Prop) [Decidable c] (a b : system_t) :
    (if c then a else b).homing_axis_lock = if c then a.homing_axis_lock else b.homing_axis_lock := by
  split <;> rfl

@[simp] theorem ite_sys_f_override (c : Prop) [Decidable c] (a b : system_t) :
    (if c then a else b).f_override = if c then a.f_override else b.f_override := by
  split <;> rfl

@[simp] theorem ite_sys_r_override (c : Prop) [Decidable c] (a b : system_t) :
    (if c then a else b).r_override = if c then a.r_override else b.r_override := by
  split <;> rfl

@[simp] theorem ite_sys_spindle_speed_ovr (c : Prop) [Decidable c] (a b : system_t) :
    (if c then a else b).spindle_speed_ovr = if c then a.spindle_speed_ovr else b.spindle_speed_ovr := by
  split <;> rfl

@[simp] theorem ite_sys_spindle_stop_ovr (c : Prop) [Decidable c] (a b : system_t) :
    (if c then a else b).spindle_stop_ovr = if c then a.spindle_stop_ovr else b.spindle_stop_ovr := by
  split <;> rfl

@[simp] theorem ite_sys_report_ovr_counter (c : Prop) [Decidable c] (a b : system_t) :
    (if c then a else b).report_ovr_counter = if c then a.report_ovr_counter else b.report_ovr_counter := by
  split <;> rfl

@[simp] theorem ite_sys_report_wco_counter (c : Prop) [Decidable c] (a b : system_t) :
    (if c then a else b).report_wco_counter = if c then a.report_wco_counter else b.report_wco_counter := by
  split <;> rfl

@[simp] theorem ite_sys_spindle_speed (c : Prop) [Decidable c] (a b : system_t) :
    (if c then a else b).spindle_speed = if c then a.spindle_speed else b.spindle_speed := by
  split <;> rfl

/-- Without a pending alarm `protocol_exec_rt_system` does not wait: it returns
the state computed by `rt_system_flags`. -/
theorem protocol_exec_rt_system_no_alarm (K : SystemH) (env : Nat → Nat) (fuel : Nat)
    (m : Machine) (h : m.sys_rt_exec_alarm = 0) :
    protocol_exec_rt_system K env fuel m = .returned (rt_system_flags K m) := by
  simp [protocol_exec_rt_system, h]

/-- A word in which some flag is set is not zero. -/
theorem ne_zero_of_testBit {x i : Nat} (h : x.testBit i = true) : x ≠ 0 := by
  intro h0; rw [h0] at h; simp at h

/-! ## Frame lemmas -/

section spindle_frames
variable (K : SystemH) (st : Nat) (rpm : ℚ) (m : Machine)

@[simp] theorem spindle_set_state_trace :
    (spindle_set_state K st rpm m).trace = m.trace ++ [.spindle_set_state st rpm] := by
  simp [spindle_set_state, spindle_stop, spindle_set_speed, spindle_compute_pwm_value,
    apply_ite Prod.fst]

@[simp] theorem spindle_set_state_state :
    (spindle_set_state K st rpm m).sys.state = m.sys.state := by
  simp [spindle_set_state, spindle_stop, spindle_set_speed, spindle_compute_pwm_value,
    apply_ite Prod.fst]

@[simp] theorem spindle_set_state_suspend :
    (spindle_set_state K st rpm m).sys.suspend = m.sys.suspend := by
  simp [spindle_set_state, spindle_stop, spindle_set_speed, spindle_compute_pwm_value,
    apply_ite Prod.fst]

@[simp] theorem spindle_set_state_step_control :
    (spindle_set_state K st rpm m).sys.step_control = m.sys.step_control := by
  simp [spindle_set_state, spindle_stop, spindle_set_speed, spindle_compute_pwm_value,
    apply_ite Prod.fst]

@[simp] theorem spindle_set_state_spindle_stop_ovr :
    (spindle_set_state K st rpm m).sys.spindle_stop_ovr = m.sys.spindle_stop_ovr := by
  simp [spindle_set_state, spindle_stop, spindle_set_speed, spindle_compute_pwm_value,
    apply_ite Prod.fst]

@[simp] theorem spindle_set_state_soft_limit :
    (spindle_set_state K st rpm m).sys.soft_limit = m.sys.soft_limit := by
  simp [spindle_set_state, spindle_stop, spindle_set_speed, spindle_compute_pwm_value,
    apply_ite Prod.fst]

@[simp] theorem spindle_set_state_abort :
    (spindle_set_state K st rpm m).sys.abort = m.sys.abort := by
  simp [spindle_set_state, spindle_stop, spindle_set_speed, spindle_compute_pwm_value,
    apply_ite Prod.fst]

@[simp] theorem spindle_set_state_plan_block :
    (spindle_set_state K st rpm m).plan_block = m.plan_block := by
  simp [spindle_set_state, spindle_stop, spindle_set_speed, spindle_compute_pwm_value,
    apply_ite Prod.fst]

@[simp] theorem spindle_set_state_alarm :
    (spindle_set_state K st rpm m).sys_rt_exec_alarm = m.sys_rt_exec_alarm := by
  simp [spindle_set_state, spindle_stop, spindle_set_speed, spindle_compute_pwm_value,
    apply_ite Prod.fst]

@[simp] theorem spindle_set_state_exec_state :
    (spindle_set_state K st rpm m).sys_rt_exec_state = m.sys_rt_exec_state := by
  simp [spindle_set_state, spindle_stop, spindle_set_speed, spindle_compute_pwm_value,
    apply_ite Prod.fst]

@[simp] theorem spindle_set_state_clock :
    (spindle_set_state K st rpm m).clock = m.clock := by
  simp [spindle_set_state, spindle_stop, spindle_set_speed, spindle_compute_pwm_value,
    apply_ite Prod.fst]

@[simp] theorem spindle_set_state_gc_modal_spindle :
    (spindle_set_state K st rpm m).gc_modal_spindle = m.gc_modal_spindle := by
  simp [spindle_set_state, spindle_stop, spindle_set_speed, spindle_compute_pwm_value,
    apply_ite Prod.fst]

end spindle_frames

@[simp] theorem rt_status_report_state (K : SystemH) (rt : Nat) (m : Machine) :
    (rt_status_report K rt m).sys.state = m.sys.state := by
  simp [rt_status_report, report_realtime_status]

@[simp] theorem rt_status_report_suspend (K : SystemH) (rt : Nat) (m : Machine) :
    (rt_status_report K rt m).sys.suspend = m.sys.suspend := by
  simp [rt_status_report, report_realtime_status]

@[simp] theorem rt_status_report_step_control (K : SystemH) (rt : Nat) (m : Machine) :
    (rt_status_report K rt m).sys.step_control = m.sys.step_control := by
  simp [rt_status_report, report_realtime_status]

@[simp] theorem rt_status_report_spindle_stop_ovr (K : SystemH) (rt : Nat) (m : Machine) :
    (rt_status_report K rt m).sys.spindle_stop_ovr = m.sys.spindle_stop_ovr := by
  simp [rt_status_report, report_realtime_status]

@[simp] theorem rt_status_report_soft_limit (K : SystemH) (rt : Nat) (m : Machine) :
    (rt_status_report K rt m).sys.soft_limit = m.sys.soft_limit := by
  simp [rt_status_report, report_realtime_status]

@[simp] theorem rt_status_report_abort (K : SystemH) (rt : Nat) (m : Machine) :
    (rt_status_report K rt m).sys.abort = m.sys.abort := by
  simp [rt_status_report, report_realtime_status]

@[simp] theorem rt_status_report_sys_rt_exec_alarm (K : SystemH) (rt : Nat) (m : Machine) :
    (rt_status_report K rt m).sys_rt_exec_alarm = m.sys_rt_exec_alarm := by
  simp [rt_status_report, report_realtime_status]

@[simp] theorem rt_status_report_sys_rt_exec_motion_override (K : SystemH) (rt : Nat) (m : Machine) :
    (rt_status_report K rt m).sys_rt_exec_motion_override = m.sys_rt_exec_motion_override := by
  simp [rt_status_report, report_realtime_status]

@[simp] theorem rt_status_report_sys_rt_exec_accessory_override (K : SystemH) (rt : Nat) (m : Machine) :
    (rt_status_report K rt m).sys_rt_exec_accessory_override = m.sys_rt_exec_accessory_override := by
  simp [rt_status_report, report_realtime_status]

@[simp] theorem rt_status_report_plan_block (K : SystemH) (rt : Nat) (m : Machine) :
    (rt_status_report K rt m).plan_block = m.plan_block := by
  simp [rt_status_report, report_realtime_status]

@[simp] theorem rt_status_report_clock (K : SystemH) (rt : Nat) (m : Machine) :
    (rt_status_report K rt m).clock = m.clock := by
  simp [rt_status_report, report_realtime_status]

@[simp] theorem rt_motion_override_state (K : SystemH) (m : Machine) :
    (rt_motion_override K m).sys.state = m.sys.state := by
  simp [rt_motion_override]

@[simp] theorem rt_motion_override_suspend (K : SystemH) (m : Machine) :
    (rt_motion_override K m).sys.suspend = m.sys.suspend := by
  simp [rt_motion_override]

@[simp] theorem rt_motion_override_step_control (K : SystemH) (m : Machine) :
    (rt_motion_override K m).sys.step_control = m.sys.step_control := by
  simp [rt_motion_override]

@[simp] theorem rt_motion_override_spindle_stop_ovr (K : SystemH) (m : Machine) :
    (rt_motion_override K m).sys.spindle_stop_ovr = m.sys.spindle_stop_ovr := by
  simp [rt_motion_override]

@[simp] theorem rt_motion_override_soft_limit (K : SystemH) (m : Machine) :
    (rt_motion_override K m).sys.soft_limit = m.sys.soft_limit := by
  simp [rt_motion_override]

@[simp] theorem rt_motion_override_abort (K : SystemH) (m : Machine) :
    (rt_motion_override K m).sys.abort = m.sys.abort := by
  simp [rt_motion_override]

@[simp] theorem rt_motion_override_sys_rt_exec_alarm (K : SystemH) (m : Machine) :
    (rt_motion_override K m).sys_rt_exec_alarm = m.sys_rt_exec_alarm := by
  simp [rt_motion_override]

@[simp] theorem rt_motion_override_sys_rt_exec_state (K : SystemH) (m : Machine) :
    (rt_motion_override K m).sys_rt_exec_state = m.sys_rt_exec_state := by
  simp [rt_motion_override]

@[simp] theorem rt_motion_override_sys_rt_exec_accessory_override (K : SystemH) (m : Machine) :
    (rt_motion_override K m).sys_rt_exec_accessory_override = m.sys_rt_exec_accessory_override := by
  simp [rt_motion_override]

@[simp] theorem rt_motion_override_plan_block (K : SystemH) (m : Machine) :
    (rt_motion_override K m).plan_block = m.plan_block := by
  simp [rt_motion_override]

@[simp] theorem rt_motion_override_clock (K : SystemH) (m : Machine) :
    (rt_motion_override K m).clock = m.clock := by
  simp [rt_motion_override]

@[simp] theorem rt_accessory_override_state (K : SystemH) (m : Machine) :
    (rt_accessory_override K m).sys.state = m.sys.state := by
  simp [rt_accessory_override]

@[simp] theorem rt_accessory_override_suspend (K : SystemH) (m : Machine) :
    (rt_accessory_override K m).sys.suspend = m.sys.suspend := by
  simp [rt_accessory_override]

@[simp] theorem rt_accessory_override_soft_limit (K : SystemH) (m : Machine) :
    (rt_accessory_override K m).sys.soft_limit = m.sys.soft_limit := by
  simp [rt_accessory_override]

@[simp] theorem rt_accessory_override_abort (K : SystemH) (m : Machine) :
    (rt_accessory_override K m).sys.abort = m.sys.abort := by
  simp [rt_accessory_override]

@[simp] theorem rt_accessory_override_sys_rt_exec_alarm (K : SystemH) (m : Machine) :
    (rt_accessory_override K m).sys_rt_exec_alarm = m.sys_rt_exec_alarm := by
  simp [rt_accessory_override]

@[simp] theorem rt_accessory_override_sys_rt_exec_state (K : SystemH) (m : Machine) :
    (rt_accessory_override K m).sys_rt_exec_state = m.sys_rt_exec_state := by
  simp [rt_accessory_override]

@[simp] theorem rt_accessory_override_plan_block (K : SystemH) (m : Machine) :
    (rt_accessory_override K m).plan_block = m.plan_block := by
  simp [rt_accessory_override]

@[simp] theorem rt_accessory_override_clock (K : SystemH) (m : Machine) :
    (rt_accessory_override K m).clock = m.clock := by
  simp [rt_accessory_override]

@[simp] theorem rt_reload_sys (K : SystemH) (m : Machine) :
    (rt_reload K m).sys = m.sys := by
  simp [rt_reload]

@[simp] theorem rt_reload_sys_rt_exec_alarm (K : SystemH) (m : Machine) :
    (rt_reload K m).sys_rt_exec_alarm = m.sys_rt_exec_alarm := by
  simp [rt_reload]

@[simp] theorem rt_reload_sys_rt_exec_state (K : SystemH) (m : Machine) :
    (rt_reload K m).sys_rt_exec_state = m.sys_rt_exec_state := by
  simp [rt_reload]

@[simp] theorem rt_reload_sys_rt_exec_motion_override (K : SystemH) (m : Machine) :
    (rt_reload K m).sys_rt_exec_motion_override = m.sys_rt_exec_motion_override := by
  simp [rt_reload]

@[simp] theorem rt_reload_sys_rt_exec_accessory_override (K : SystemH) (m : Machine) :
    (rt_reload K m).sys_rt_exec_accessory_override = m.sys_rt_exec_accessory_override := by
  simp [rt_reload]

@[simp] theorem rt_reload_plan_block (K : SystemH) (m : Machine) :
    (rt_reload K m).plan_block = m.plan_block := by
  simp [rt_reload]

@[simp] theorem rt_reload_clock (K : SystemH) (m : Machine) :
    (rt_reload K m).clock = m.clock := by
  simp [rt_reload]

@[simp] theorem rt_status_report_trace (K : SystemH) (rt : Nat) (m : Machine) :
    (rt_status_report K rt m).trace
      = m.trace ++ if rt &&& K.EXEC_STATUS_REPORT ≠ 0 then [Call.report_realtime_status] else [] := by
  simp [rt_status_report, report_realtime_status]
  split_ifs <;> simp

@[simp] theorem rt_status_report_exec_state (K : SystemH) (rt : Nat) (m : Machine) :
    (rt_status_report K rt m).sys_rt_exec_state
      = if rt &&& K.EXEC_STATUS_REPORT ≠ 0 then
          m.sys_rt_exec_state &&& (255 ^^^ K.EXEC_STATUS_REPORT)
        else m.sys_rt_exec_state := by
  simp [rt_status_report, report_realtime_status]

@[simp] theorem rt_motion_override_trace (K : SystemH) (m : Machine) :
    (rt_motion_override K m).trace
      = m.trace ++
        if m.sys_rt_exec_motion_override ≠ 0 ∧
            (new_f_override K m.sys_rt_exec_motion_override m.sys.f_override ≠ m.sys.f_override ∨
              new_r_override K m.sys_rt_exec_motion_override m.sys.r_override ≠ m.sys.r_override)
        then [Call.plan_update_velocity_profile_parameters, Call.plan_cycle_reinitialize]
        else [] := by
  simp [rt_motion_override]
  split_ifs <;> simp_all

@[simp] theorem rt_accessory_override_trace (K : SystemH) (m : Machine) :
    (rt_accessory_override K m).trace
      = m.trace ++
        if m.sys_rt_exec_accessory_override ≠ 0 ∧
            last_s_override K m.sys_rt_exec_accessory_override m.sys.spindle_speed_ovr
              ≠ m.sys.spindle_speed_ovr ∧ m.sys.state = STATE_IDLE
        then [Call.spindle_set_state m.gc_modal_spindle m.gc_spindle_speed]
        else [] := by
  simp [rt_accessory_override]
  split_ifs <;> simp_all

@[simp] theorem rt_reload_trace (K : SystemH) (m : Machine) :
    (rt_reload K m).trace
      = m.trace ++
        if m.sys.state &&&
            (K.STATE_CYCLE ||| K.STATE_HOLD ||| K.STATE_HOMING ||| K.STATE_SLEEP ||| K.STATE_JOG) ≠ 0
        then [Call.st_prep_buffer] else [] := by
  simp only [rt_reload]
  split_ifs <;> simp

theorem rt_accessory_override_of_zero (K : SystemH) (m : Machine)
    (h : m.sys_rt_exec_accessory_override = 0) : rt_accessory_override K m = m := by
  simp [rt_accessory_override, h]

theorem rt_motion_override_of_zero (K : SystemH) (m : Machine)
    (h : m.sys_rt_exec_motion_override = 0) : rt_motion_override K m = m := by
  simp [rt_motion_override, h]


/-! ## Facts about `rt_system_flags` used by several properties -/

/-- The executor does not write `sys_rt_exec_alarm` after the alarm block. -/
theorem rt_system_flags_alarm (K : SystemH) (m : Machine) :
    (rt_system_flags K m).sys_rt_exec_alarm = m.sys_rt_exec_alarm := by
  simp [rt_system_flags, rt_hold, rt_cycle_start, rt_cycle_stop]

/-- The executor never sets a flag of `sys_rt_exec_state`: a bit that is clear
before the call is clear after it. -/
theorem rt_system_flags_testBit (K : SystemH) (m : Machine) (i : Nat)
    (h : m.sys_rt_exec_state.testBit i = false) :
    (rt_system_flags K m).sys_rt_exec_state.testBit i = false := by
  simp [rt_system_flags, rt_hold, rt_cycle_start, rt_cycle_stop, h]
  split_ifs <;> simp [h]

/-- A cycle stop that finds `JOG_CANCEL` set in state `JOG` flushes planner and
stepper and returns to `IDLE`. -/
theorem cycle_stop_after_jog_cancel (K : SystemH) (hK : K.WF) (n : Machine)
    (hstate : n.sys.state = K.STATE_JOG)
    (hjc : n.sys.suspend.testBit (K.suspend .JOG_CANCEL) = true)
    (hstop : n.sys_rt_exec_state.testBit (K.exec .CYCLE_STOP) = true)
    (hreset : n.sys_rt_exec_state.testBit (K.exec .RESET) = false) :
    Call.plan_reset ∈ calls_since n (rt_system_flags K n) ∧
    Call.st_reset ∈ calls_since n (rt_system_flags K n) ∧
    Call.gc_sync_position ∈ calls_since n (rt_system_flags K n) ∧
    Call.plan_sync_position ∈ calls_since n (rt_system_flags K n) ∧
    (rt_system_flags K n).sys.state = STATE_IDLE ∧ (rt_system_flags K n).sys.suspend = 0 := by
  have hne := ne_zero_of_testBit hstop
  by_cases hsl : n.sys_rt_exec_state.testBit (K.exec .SLEEP) = true <;>
  by_cases hcs : n.sys_rt_exec_state.testBit (K.exec .CYCLE_START) = true <;>
  simp [calls_since, rt_system_flags, rt_hold, rt_cycle_start, rt_cycle_stop,
    hstate, hjc, hstop, hreset, hne, hsl, hcs, hK.state_eq, hK.exec_eq, hK.suspend_eq, hK.exec_lt]


@[simp] theorem rt_hold_trace (K : SystemH) (rt : Nat) (m : Machine) :
    (rt_hold K rt m).trace
      = m.trace ++
        if rt &&& (K.EXEC_MOTION_CANCEL ||| K.EXEC_FEED_HOLD ||| K.EXEC_SLEEP) ≠ 0 ∧
            ¬ (m.sys.state &&& (K.STATE_ALARM ||| K.STATE_CHECK_MODE) ≠ 0) ∧
            m.sys.state &&& (K.STATE_CYCLE ||| K.STATE_JOG) ≠ 0 ∧
            ¬ (m.sys.suspend &&& (K.SUSPEND_MOTION_CANCEL ||| K.SUSPEND_JOG_CANCEL) ≠ 0)
        then [Call.st_update_plan_block_parameters] else [] := by
  simp [rt_hold]
  split_ifs <;> simp_all

@[simp] theorem rt_cycle_start_trace (K : SystemH) (rt : Nat) (m : Machine) :
    (rt_cycle_start K rt m).trace
      = m.trace ++
        if rt &&& K.EXEC_CYCLE_START ≠ 0 ∧
            ¬ (rt &&& (K.EXEC_FEED_HOLD ||| K.EXEC_MOTION_CANCEL) ≠ 0) ∧
            (m.sys.state = STATE_IDLE ∨
              (m.sys.state &&& K.STATE_HOLD ≠ 0 ∧ m.sys.suspend &&& K.SUSPEND_HOLD_COMPLETE ≠ 0)) ∧
            ¬ (m.sys.state = K.STATE_HOLD ∧ m.sys.spindle_stop_ovr ≠ 0) ∧
            (plan_get_current_block m).isSome = true ∧
            m.sys.suspend &&& K.SUSPEND_MOTION_CANCEL = 0
        then [Call.st_prep_buffer, Call.st_wake_up] else [] := by
  simp [rt_cycle_start]
  split_ifs <;> simp_all

@[simp] theorem rt_cycle_stop_trace (K : SystemH) (rt : Nat) (m : Machine) :
    (rt_cycle_stop K rt m).trace
      = m.trace ++
        if rt &&& K.EXEC_CYCLE_STOP ≠ 0 then
          if m.sys.state &&& (K.STATE_HOLD ||| K.STATE_SLEEP) ≠ 0 ∧ ¬ (m.sys.soft_limit = true) ∧
              ¬ (m.sys.suspend &&& K.SUSPEND_JOG_CANCEL ≠ 0) then
            [ Call.plan_cycle_reinitialize]
          else if m.sys.suspend &&& K.SUSPEND_JOG_CANCEL ≠ 0 then
            [Call.plan_reset, Call.st_reset, Call.gc_sync_position, Call.plan_sync_position]
          else []
        else [] := by
  simp [rt_cycle_stop]
  split_ifs <;> simp_all

/-- The hold stage never enters `CYCLE`; and if `MOTION_CANCEL` was set in
`sys.suspend`, then afterwards it is still set, or a feed hold is in the same
snapshot, or the state has become `SLEEP`. -/
theorem rt_hold_motion_cancel (K : SystemH) (hK : K.WF) (rt : Nat) (s : Machine)
    (hmc : s.sys.suspend.testBit (K.suspend .MOTION_CANCEL) = true)
    (hstate : s.sys.state ≠ K.STATE_CYCLE) :
    (rt_hold K rt s).sys.state ≠ K.STATE_CYCLE ∧
    ((rt_hold K rt s).sys.suspend.testBit (K.suspend .MOTION_CANCEL) = true ∨
      rt.testBit (K.exec .FEED_HOLD) = true ∨ (rt_hold K rt s).sys.state = K.STATE_SLEEP) := by
  simp at hstate
  by_cases hfh : rt.testBit (K.exec .FEED_HOLD) = true <;>
  by_cases hsl : rt.testBit (K.exec .SLEEP) = true <;>
  by_cases hcn : rt.testBit (K.exec .MOTION_CANCEL) = true <;>
  by_cases hidle : s.sys.state = 0 <;>
  simp [rt_hold, hmc, hfh, hsl, hcn, hidle, hstate, hK.state_eq, hK.exec_eq, hK.suspend_eq,
    hK.exec_lt] <;>
  split_ifs <;> simp_all [hK.state_eq, hK.suspend_eq]

/-- The cycle-start stage does nothing to a machine that is not in `CYCLE` while
`MOTION_CANCEL` is set, a feed hold is in the snapshot, or the machine sleeps:
the state does not become `CYCLE` and nothing is called. -/
theorem rt_cycle_start_blocked (K : SystemH) (hK : K.WF) (rt : Nat) (h : Machine)
    (hstate : h.sys.state ≠ K.STATE_CYCLE)
    (hblk : h.sys.suspend.testBit (K.suspend .MOTION_CANCEL) = true ∨
      rt.testBit (K.exec .FEED_HOLD) = true ∨ h.sys.state = K.STATE_SLEEP) :
    (rt_cycle_start K rt h).sys.state ≠ K.STATE_CYCLE ∧
    (rt_cycle_start K rt h).trace = h.trace := by
  simp at hstate
  rcases hblk with hb | hb | hb <;>
  by_cases hidle : h.sys.state = 0 <;>
  simp [rt_cycle_start, hb, hidle, hstate, hK.state_eq, hK.exec_eq, hK.suspend_eq, hK.exec_lt]
  split_ifs <;> simp_all [hK.state_eq, hK.suspend_eq]

/-- The cycle-stop stage never enters `CYCLE` and never wakes the stepper. -/
theorem rt_cycle_stop_not_cycle (K : SystemH) (rt : Nat) (c : Machine)
    (hstate : c.sys.state ≠ K.STATE_CYCLE) :
    (rt_cycle_stop K rt c).sys.state ≠ K.STATE_CYCLE := by
  simp at hstate
  simp [rt_cycle_stop, hstate]
  split_ifs <;> simp_all

/-- On `EXEC_RESET` the executor only sets `sys.abort`. -/
theorem rt_system_flags_of_reset (K : SystemH) (m : Machine)
    (h : m.sys_rt_exec_state.testBit (K.exec .RESET) = true) :
    rt_system_flags K m = set_abort true m := by
  have hne := ne_zero_of_testBit h
  simp [rt_system_flags, h, hne]

/-- With no flag pending in `sys_rt_exec_state` only the overrides and the
reload are run. -/
theorem rt_system_flags_of_zero (K : SystemH) (m : Machine) (h : m.sys_rt_exec_state = 0) :
    rt_system_flags K m = rt_reload K (rt_accessory_override K (rt_motion_override K m)) := by
  simp [rt_system_flags, h]

/-- With flags pending and no `EXEC_RESET` among them, all stages are run on
the one snapshot `rt_exec` of `sys_rt_exec_state`. -/
theorem rt_system_flags_of_flags (K : SystemH) (m : Machine) (hne : m.sys_rt_exec_state ≠ 0)
    (h : m.sys_rt_exec_state.testBit (K.exec .RESET) = false) :
    rt_system_flags K m
      = rt_reload K (rt_accessory_override K (rt_motion_override K
          (rt_cycle_stop K m.sys_rt_exec_state (rt_cycle_start K m.sys_rt_exec_state
            (rt_hold K m.sys_rt_exec_state (rt_status_report K m.sys_rt_exec_state m)))))) := by
  simp [rt_system_flags, h, hne]

/-- While `SUSPEND_MOTION_CANCEL` is set, no call of the executor takes a
machine that is not in `CYCLE` into `CYCLE`, and none wakes the stepper. -/
theorem cycle_start_while_motion_cancel (K : SystemH) (hK : K.WF) (n : Machine)
    (hmc : n.sys.suspend &&& K.SUSPEND_MOTION_CANCEL ≠ 0)
    (hstate : n.sys.state ≠ K.STATE_CYCLE) :
    (rt_system_flags K n).sys.state ≠ K.STATE_CYCLE ∧
    Call.st_wake_up ∉ calls_since n (rt_system_flags K n) := by
  simp at hmc
  by_cases hrs : n.sys_rt_exec_state.testBit (K.exec .RESET) = true
  · rw [rt_system_flags_of_reset K n hrs]
    simpa [calls_since] using hstate
  by_cases hz : n.sys_rt_exec_state = 0
  · rw [rt_system_flags_of_zero K n hz]
    refine ⟨by simpa using hstate, ?_⟩
    simp only [calls_since, rt_reload_trace, rt_accessory_override_trace,
      rt_motion_override_trace, List.append_assoc, List.drop_left]
    split_ifs <;> simp
  have H := rt_hold_motion_cancel K hK n.sys_rt_exec_state
    (rt_status_report K n.sys_rt_exec_state n) (by simpa using hmc) (by simpa using hstate)
  have S := rt_cycle_start_blocked K hK n.sys_rt_exec_state _ H.1 H.2
  have P := rt_cycle_stop_not_cycle K n.sys_rt_exec_state _ S.1
  rw [rt_system_flags_of_flags K n hz (by simpa using hrs)]
  refine ⟨by simpa using P, ?_⟩
  simp only [calls_since, rt_reload_trace, rt_accessory_override_trace,
    rt_motion_override_trace, rt_cycle_stop_trace, S.2, rt_hold_trace, rt_status_report_trace,
    List.append_assoc, List.drop_left]
  split_ifs <;> simp

/-! ## Theorems -/

/-- C1: `system_check_travel_limits` returns true exactly when some axis
X, Y or Z has `target > 0` or `target < max_travel`; and a target that on every
axis lies exactly on 0 or exactly on `max_travel` (stored negative or zero) is
accepted (the check returns false). -/
theorem C1_travel_limits_iff (max_travel target : Nat → CFloat) :
    (system_check_travel_limits max_travel target = true ↔
      ∃ i, i < 3 ∧ ((target i).gt (.fin 0) = true ∨ (target i).lt (max_travel i) = true)) ∧
    ((∀ i, i < 3 → ∃ q : ℚ, q ≤ 0 ∧ max_travel i = .fin q ∧
        (target i = .fin 0 ∨ target i = .fin q)) →
      system_check_travel_limits max_travel target = false) := by
  have hiff : system_check_travel_limits max_travel target = true ↔
      ∃ i, i < 3 ∧ ((target i).gt (.fin 0) = true ∨ (target i).lt (max_travel i) = true) := by
    simp [system_check_travel_limits, N_AXIS, List.any_eq_true]
  refine ⟨hiff, fun h => ?_⟩
  rw [Bool.eq_false_iff]
  intro hc
  obtain ⟨i, hi, hbad⟩ := hiff.mp hc
  obtain ⟨q, hq, hm, ht⟩ := h i hi
  rcases ht with ht | ht <;> rw [ht, hm] at hbad <;>
    simp [CFloat.gt, CFloat.lt] at hbad <;> linarith

/-- Witness of C1 at `max_travel = (-86.5, -241.5, -78.5)` and the target
`(0, -241.5, 0)`, which lies on the boundary on each axis. -/
theorem C1_travel_limits_iff_witness :
    system_check_travel_limits
      (fun i => if i = 0 then .fin (-173/2) else if i = 1 then .fin (-483/2) else .fin (-157/2))
      (fun i => if i = 1 then .fin (-483/2) else .fin 0) = false :=
  (C1_travel_limits_iff _ _).2 (by
    intro i hi
    interval_cases i
    · exact ⟨-173/2, by norm_num, by simp, by simp⟩
    · exact ⟨-483/2, by norm_num, by simp, by simp⟩
    · exact ⟨-157/2, by norm_num, by simp, by simp⟩)

/-! ### C2: feed hold during a cycle -/

/-- C2 (as amended): with `sys.state = CYCLE`, no alarm and no reset pending,
neither `MOTION_CANCEL` nor `JOG_CANCEL` in `sys.suspend`, `EXEC_FEED_HOLD`
pending, and neither `EXEC_SLEEP` nor `EXEC_CYCLE_STOP` nor any accessory
override flag pending, one call of `protocol_exec_rt_system` returns, has
called `st_update_plan_block_parameters`, leaves `sys.step_control` equal to
`STEP_CONTROL_EXECUTE_HOLD`, sets `sys.state` to `HOLD` and has cleared
`EXEC_FEED_HOLD`. -/
theorem C2_feed_hold_in_cycle (K : SystemH) (hK : K.WF) (env : Nat → Nat) (fuel : Nat)
    (m : Machine)
    (hstate : m.sys.state = K.STATE_CYCLE)
    (halarm : m.sys_rt_exec_alarm = 0)
    (hreset : m.sys_rt_exec_state &&& K.EXEC_RESET = 0)
    (hsusp : m.sys.suspend &&& (K.SUSPEND_MOTION_CANCEL ||| K.SUSPEND_JOG_CANCEL) = 0)
    (hhold : m.sys_rt_exec_state &&& K.EXEC_FEED_HOLD ≠ 0)
    (hsleep : m.sys_rt_exec_state &&& K.EXEC_SLEEP = 0)
    (hstop : m.sys_rt_exec_state &&& K.EXEC_CYCLE_STOP = 0)
    (hacc : m.sys_rt_exec_accessory_override = 0) :
    ∃ m', protocol_exec_rt_system K env fuel m = .returned m' ∧
      Call.st_update_plan_block_parameters ∈ calls_since m m' ∧
      m'.sys.step_control = K.STEP_CONTROL_EXECUTE_HOLD ∧
      m'.sys.state = K.STATE_HOLD ∧
      m'.sys_rt_exec_state &&& K.EXEC_FEED_HOLD = 0 := by
  refine ⟨_, protocol_exec_rt_system_no_alarm K env fuel m halarm, ?_⟩
  simp at hreset hsusp hhold hsleep hstop
  have hne := ne_zero_of_testBit hhold
  by_cases hmc : m.sys_rt_exec_state.testBit (K.exec .MOTION_CANCEL) = true <;>
  by_cases hcs : m.sys_rt_exec_state.testBit (K.exec .CYCLE_START) = true <;>
  simp [calls_since, rt_system_flags, rt_hold, rt_cycle_start, rt_cycle_stop,
    rt_accessory_override_of_zero, hstate, hreset, hsusp, hhold, hsleep, hstop, hacc, hne, hmc,
    hcs, hK.state_eq, hK.exec_eq, hK.suspend_eq, hK.step_control_eq, hK.exec_lt]

/-- Witness of C2 on the Grbl 1.1 layout: a machine in `CYCLE` with only
`EXEC_FEED_HOLD` pending. -/
theorem C2_feed_hold_in_cycle_witness :
    ∃ m', protocol_exec_rt_system grbl11 (fun _ => 0) 0
        (machine_in grbl11.STATE_CYCLE 0 0 grbl11.EXEC_FEED_HOLD 0 none) = .returned m' ∧
      Call.st_update_plan_block_parameters ∈
        calls_since (machine_in grbl11.STATE_CYCLE 0 0 grbl11.EXEC_FEED_HOLD 0 none) m' ∧
      m'.sys.step_control = grbl11.STEP_CONTROL_EXECUTE_HOLD ∧
      m'.sys.state = grbl11.STATE_HOLD ∧
      m'.sys_rt_exec_state &&& grbl11.EXEC_FEED_HOLD = 0 :=
  C2_feed_hold_in_cycle grbl11 grbl11_WF (fun _ => 0) 0
    (machine_in grbl11.STATE_CYCLE 0 0 grbl11.EXEC_FEED_HOLD 0 none)
    (by decide) (by decide) (by decide) (by decide) (by decide) (by decide) (by decide)
    (by decide)

/-- C2 counterexample (Grbl 1.1 layout, machine in `CYCLE`, nothing in
`sys.suspend`, no alarm, no reset, `EXEC_FEED_HOLD` pending). With a spindle
override flag pending as well the call leaves `step_control` equal to
`EXECUTE_HOLD | UPDATE_SPINDLE_PWM`; with `EXEC_CYCLE_STOP` pending as well it
leaves `step_control` equal to zero; with `EXEC_SLEEP` pending as well it
leaves `sys.state` equal to `SLEEP`. -/
theorem C2_feed_hold_counterexample :
    ((machine_in grbl11.STATE_CYCLE 0 0 grbl11.EXEC_FEED_HOLD
          grbl11.EXEC_SPINDLE_OVR_COARSE_PLUS none).sys_rt_exec_state &&& grbl11.EXEC_RESET = 0 ∧
      (machine_in grbl11.STATE_CYCLE 0 0 grbl11.EXEC_FEED_HOLD
          grbl11.EXEC_SPINDLE_OVR_COARSE_PLUS none).sys_rt_exec_state &&& grbl11.EXEC_FEED_HOLD ≠ 0 ∧
      (machine_in grbl11.STATE_CYCLE 0 0 grbl11.EXEC_FEED_HOLD
          grbl11.EXEC_SPINDLE_OVR_COARSE_PLUS none).sys_rt_exec_alarm = 0 ∧
      (protocol_exec_rt_system grbl11 (fun _ => 0) 0
          (machine_in grbl11.STATE_CYCLE 0 0 grbl11.EXEC_FEED_HOLD
            grbl11.EXEC_SPINDLE_OVR_COARSE_PLUS none)).machine.sys.step_control
        = grbl11.STEP_CONTROL_EXECUTE_HOLD ||| grbl11.STEP_CONTROL_UPDATE_SPINDLE_PWM ∧
      (protocol_exec_rt_system grbl11 (fun _ => 0) 0
          (machine_in grbl11.STATE_CYCLE 0 0 grbl11.EXEC_FEED_HOLD
            grbl11.EXEC_SPINDLE_OVR_COARSE_PLUS none)).machine.sys.step_control
        ≠ grbl11.STEP_CONTROL_EXECUTE_HOLD) ∧
    ((machine_in grbl11.STATE_CYCLE 0 0 (grbl11.EXEC_FEED_HOLD ||| grbl11.EXEC_CYCLE_STOP) 0
          none).sys_rt_exec_state &&& grbl11.EXEC_RESET = 0 ∧
      (machine_in grbl11.STATE_CYCLE 0 0 (grbl11.EXEC_FEED_HOLD ||| grbl11.EXEC_CYCLE_STOP) 0
          none).sys_rt_exec_state &&& grbl11.EXEC_FEED_HOLD ≠ 0 ∧
      (protocol_exec_rt_system grbl11 (fun _ => 0) 0
          (machine_in grbl11.STATE_CYCLE 0 0 (grbl11.EXEC_FEED_HOLD ||| grbl11.EXEC_CYCLE_STOP) 0
            none)).machine.sys.step_control = 0 ∧
      (protocol_exec_rt_system grbl11 (fun _ => 0) 0
          (machine_in grbl11.STATE_CYCLE 0 0 (grbl11.EXEC_FEED_HOLD ||| grbl11.EXEC_CYCLE_STOP) 0
            none)).machine.sys.step_control ≠ grbl11.STEP_CONTROL_EXECUTE_HOLD) ∧
    ((machine_in grbl11.STATE_CYCLE 0 0 (grbl11.EXEC_FEED_HOLD ||| grbl11.EXEC_SLEEP) 0
          none).sys_rt_exec_state &&& grbl11.EXEC_RESET = 0 ∧
      (machine_in grbl11.STATE_CYCLE 0 0 (grbl11.EXEC_FEED_HOLD ||| grbl11.EXEC_SLEEP) 0
          none).sys_rt_exec_state &&& grbl11.EXEC_FEED_HOLD ≠ 0 ∧
      (protocol_exec_rt_system grbl11 (fun _ => 0) 0
          (machine_in grbl11.STATE_CYCLE 0 0 (grbl11.EXEC_FEED_HOLD ||| grbl11.EXEC_SLEEP) 0
            none)).machine.sys.state = grbl11.STATE_SLEEP ∧
      (protocol_exec_rt_system grbl11 (fun _ => 0) 0
          (machine_in grbl11.STATE_CYCLE 0 0 (grbl11.EXEC_FEED_HOLD ||| grbl11.EXEC_SLEEP) 0
            none)).machine.sys.state ≠ grbl11.STATE_HOLD) := by
  decide

/-! ### C3: cycle start from idle -/

/-- C3 (as amended): with `sys.state = IDLE`, no alarm, `EXEC_CYCLE_START` the
only realtime flag pending (both override words are zero), one call of
`protocol_exec_rt_system` returns and: when a block is queued and
`SUSPEND_MOTION_CANCEL` is not set in `sys.suspend`, it sets `sys.state` to
`CYCLE`, `sys.suspend` to 0 and `sys.step_control` to `NORMAL_OP`, calls
`st_prep_buffer`, `st_wake_up` (and `st_prep_buffer` again for the reload) and
clears `EXEC_CYCLE_START`; when the planner is empty the state stays `IDLE` and
no call is made at all, so the stepper is not woken. -/
theorem C3_cycle_start_from_idle (K : SystemH) (hK : K.WF) (env : Nat → Nat) (fuel : Nat)
    (m : Machine)
    (hstate : m.sys.state = STATE_IDLE)
    (halarm : m.sys_rt_exec_alarm = 0)
    (honly : m.sys_rt_exec_state = K.EXEC_CYCLE_START)
    (hmo : m.sys_rt_exec_motion_override = 0)
    (hacc : m.sys_rt_exec_accessory_override = 0) :
    ∃ m', protocol_exec_rt_system K env fuel m = .returned m' ∧
      ((plan_get_current_block m).isSome = true →
        m.sys.suspend &&& K.SUSPEND_MOTION_CANCEL = 0 →
          m'.sys.state = K.STATE_CYCLE ∧ m'.sys.suspend = 0 ∧
          m'.sys.step_control = STEP_CONTROL_NORMAL_OP ∧
          calls_since m m' = [.st_prep_buffer, .st_wake_up, .st_prep_buffer] ∧
          m'.sys_rt_exec_state &&& K.EXEC_CYCLE_START = 0) ∧
      (plan_get_current_block m = none →
        m'.sys.state = STATE_IDLE ∧ calls_since m m' = []) := by
  refine ⟨_, protocol_exec_rt_system_no_alarm K env fuel m halarm, ?_, ?_⟩
  · intro hb hmc
    simp at hb hmc
    simp [calls_since, rt_system_flags, rt_hold, rt_cycle_start, rt_cycle_stop,
      rt_accessory_override_of_zero, rt_motion_override_of_zero,
      hstate, honly, hmo, hacc, hb, hmc, hK.state_eq, hK.exec_eq, hK.suspend_eq, hK.exec_lt]
  · intro hb
    simp at hb
    simp [calls_since, rt_system_flags, rt_hold, rt_cycle_start, rt_cycle_stop,
      rt_accessory_override_of_zero, rt_motion_override_of_zero,
      hstate, honly, hmo, hacc, hb, hK.state_eq, hK.exec_eq, hK.suspend_eq, hK.exec_lt]

/-- Witness of C3 on the Grbl 1.1 layout: the idle machine with one queued
block and only `EXEC_CYCLE_START` pending. -/
theorem C3_cycle_start_from_idle_witness :
    ∃ m', protocol_exec_rt_system grbl11 (fun _ => 0) 0
        (machine_in STATE_IDLE 0 0 grbl11.EXEC_CYCLE_START 0 (some ⟨0, 0⟩)) = .returned m' ∧
      m'.sys.state = grbl11.STATE_CYCLE ∧ m'.sys.suspend = 0 ∧
      m'.sys.step_control = STEP_CONTROL_NORMAL_OP ∧
      calls_since (machine_in STATE_IDLE 0 0 grbl11.EXEC_CYCLE_START 0 (some ⟨0, 0⟩)) m'
        = [.st_prep_buffer, .st_wake_up, .st_prep_buffer] ∧
      m'.sys_rt_exec_state &&& grbl11.EXEC_CYCLE_START = 0 := by
  obtain ⟨m', hrun, hqueued, _⟩ :=
    C3_cycle_start_from_idle grbl11 grbl11_WF (fun _ => 0) 0
      (machine_in STATE_IDLE 0 0 grbl11.EXEC_CYCLE_START 0 (some ⟨0, 0⟩))
      (by decide) (by decide) (by decide) (by decide) (by decide)
  exact ⟨m', hrun, hqueued (by decide) (by decide)⟩

/-- C3 counterexample (Grbl 1.1 layout): the machine is `IDLE`, a block is
queued, `EXEC_CYCLE_START` is the only realtime flag pending, and
`sys.suspend` holds `HOLD_COMPLETE | MOTION_CANCEL`. The call leaves the state
`IDLE` and does not call `st_wake_up`. -/
theorem C3_cycle_start_counterexample :
    (machine_in STATE_IDLE (grbl11.SUSPEND_HOLD_COMPLETE ||| grbl11.SUSPEND_MOTION_CANCEL) 0
        grbl11.EXEC_CYCLE_START 0 (some ⟨0, 0⟩)).sys.state = STATE_IDLE ∧
    (plan_get_current_block
      (machine_in STATE_IDLE (grbl11.SUSPEND_HOLD_COMPLETE ||| grbl11.SUSPEND_MOTION_CANCEL) 0
        grbl11.EXEC_CYCLE_START 0 (some ⟨0, 0⟩))).isSome = true ∧
    (machine_in STATE_IDLE (grbl11.SUSPEND_HOLD_COMPLETE ||| grbl11.SUSPEND_MOTION_CANCEL) 0
        grbl11.EXEC_CYCLE_START 0 (some ⟨0, 0⟩)).sys_rt_exec_state = grbl11.EXEC_CYCLE_START ∧
    (machine_in STATE_IDLE (grbl11.SUSPEND_HOLD_COMPLETE ||| grbl11.SUSPEND_MOTION_CANCEL) 0
        grbl11.EXEC_CYCLE_START 0 (some ⟨0, 0⟩)).sys_rt_exec_alarm = 0 ∧
    (protocol_exec_rt_system grbl11 (fun _ => 0) 0
      (machine_in STATE_IDLE (grbl11.SUSPEND_HOLD_COMPLETE ||| grbl11.SUSPEND_MOTION_CANCEL) 0
        grbl11.EXEC_CYCLE_START 0 (some ⟨0, 0⟩))).machine.sys.state = STATE_IDLE ∧
    (protocol_exec_rt_system grbl11 (fun _ => 0) 0
      (machine_in STATE_IDLE (grbl11.SUSPEND_HOLD_COMPLETE ||| grbl11.SUSPEND_MOTION_CANCEL) 0
        grbl11.EXEC_CYCLE_START 0 (some ⟨0, 0⟩))).machine.sys.state ≠ grbl11.STATE_CYCLE ∧
    Call.st_wake_up ∉ (protocol_exec_rt_system grbl11 (fun _ => 0) 0
      (machine_in STATE_IDLE (grbl11.SUSPEND_HOLD_COMPLETE ||| grbl11.SUSPEND_MOTION_CANCEL) 0
        grbl11.EXEC_CYCLE_START 0 (some ⟨0, 0⟩))).machine.trace := by
  decide

/-! ### C4: resuming a completed hold -/

/-- C4 (as amended): with `sys.state = HOLD`, `SUSPEND_HOLD_COMPLETE` set, a
block queued, no alarm pending, `EXEC_CYCLE_START` pending and none of
`EXEC_FEED_HOLD`, `EXEC_MOTION_CANCEL`, `EXEC_RESET`, `EXEC_SLEEP`,
`EXEC_CYCLE_STOP` in the same snapshot, one call of `protocol_exec_rt_system`
returns and: if `sys.spindle_stop_ovr = 0` and `SUSPEND_MOTION_CANCEL` is not
set, it sets `sys.state` to `CYCLE` and `sys.suspend` to 0; if
`sys.spindle_stop_ovr` is not zero, it leaves `sys.state = HOLD` and
`sys.suspend` unchanged and sets `SPINDLE_STOP_OVR_RESTORE_CYCLE`. -/
theorem C4_resume_from_hold (K : SystemH) (hK : K.WF) (env : Nat → Nat) (fuel : Nat)
    (m : Machine)
    (hstate : m.sys.state = K.STATE_HOLD)
    (hcomplete : m.sys.suspend &&& K.SUSPEND_HOLD_COMPLETE ≠ 0)
    (hblock : (plan_get_current_block m).isSome = true)
    (hstart : m.sys_rt_exec_state &&& K.EXEC_CYCLE_START ≠ 0)
    (hnohold : m.sys_rt_exec_state &&& (K.EXEC_FEED_HOLD ||| K.EXEC_MOTION_CANCEL) = 0)
    (halarm : m.sys_rt_exec_alarm = 0)
    (hother : m.sys_rt_exec_state &&& (K.EXEC_RESET ||| K.EXEC_SLEEP ||| K.EXEC_CYCLE_STOP) = 0) :
    ∃ m', protocol_exec_rt_system K env fuel m = .returned m' ∧
      (m.sys.spindle_stop_ovr = 0 → m.sys.suspend &&& K.SUSPEND_MOTION_CANCEL = 0 →
        m'.sys.state = K.STATE_CYCLE ∧ m'.sys.suspend = 0) ∧
      (m.sys.spindle_stop_ovr ≠ 0 →
        m'.sys.state = K.STATE_HOLD ∧ m'.sys.suspend = m.sys.suspend ∧
        m'.sys.spindle_stop_ovr &&& K.SPINDLE_STOP_OVR_RESTORE_CYCLE ≠ 0) := by
  refine ⟨_, protocol_exec_rt_system_no_alarm K env fuel m halarm, ?_, ?_⟩
  · intro hovr hmc
    simp at hcomplete hblock hstart hnohold hother hmc
    have hne := ne_zero_of_testBit hstart
    simp [rt_system_flags, rt_hold, rt_cycle_start, rt_cycle_stop,
      hstate, hcomplete, hblock, hstart, hnohold, hother, hovr, hmc, hne,
      hK.state_eq, hK.exec_eq, hK.suspend_eq, hK.exec_lt]
  · intro hovr
    simp at hcomplete hblock hstart hnohold hother
    have hne := ne_zero_of_testBit hstart
    simp [rt_system_flags, rt_hold, rt_cycle_start, rt_cycle_stop, rt_accessory_override,
      hstate, hcomplete, hblock, hstart, hnohold, hother, hovr, hne,
      hK.state_eq, hK.exec_eq, hK.suspend_eq, hK.spindle_stop_eq, hK.exec_lt]
    split_ifs <;> simp [hK.spindle_stop_eq]

/-- Witness of C4 on the Grbl 1.1 layout: a completed hold with a queued block,
no spindle stop override, and only `EXEC_CYCLE_START` pending. -/
theorem C4_resume_from_hold_witness :
    ∃ m', protocol_exec_rt_system grbl11 (fun _ => 0) 0
        (machine_in grbl11.STATE_HOLD grbl11.SUSPEND_HOLD_COMPLETE 0 grbl11.EXEC_CYCLE_START 0
          (some ⟨0, 0⟩)) = .returned m' ∧
      m'.sys.state = grbl11.STATE_CYCLE ∧ m'.sys.suspend = 0 := by
  obtain ⟨m', hrun, hresume, _⟩ :=
    C4_resume_from_hold grbl11 grbl11_WF (fun _ => 0) 0
      (machine_in grbl11.STATE_HOLD grbl11.SUSPEND_HOLD_COMPLETE 0 grbl11.EXEC_CYCLE_START 0
        (some ⟨0, 0⟩))
      (by decide) (by decide) (by decide) (by decide) (by decide) (by decide) (by decide)
  exact ⟨m', hrun, hresume (by decide) (by decide)⟩

/-- C4 counterexample (Grbl 1.1 layout): `sys.state = HOLD`,
`SUSPEND_HOLD_COMPLETE` set, a block queued, `EXEC_CYCLE_START` the only flag
pending. With `sys.spindle_stop_ovr = SPINDLE_STOP_OVR_ENABLED` the call leaves
the state `HOLD` and `sys.suspend` non-zero; with `SUSPEND_MOTION_CANCEL` set
as well (and no spindle stop override) the call ends in `IDLE`. -/
theorem C4_resume_counterexample :
    ((machine_in grbl11.STATE_HOLD grbl11.SUSPEND_HOLD_COMPLETE grbl11.SPINDLE_STOP_OVR_ENABLED
          grbl11.EXEC_CYCLE_START 0 (some ⟨0, 0⟩)).sys.suspend
        &&& grbl11.SUSPEND_HOLD_COMPLETE ≠ 0 ∧
      (protocol_exec_rt_system grbl11 (fun _ => 0) 0
          (machine_in grbl11.STATE_HOLD grbl11.SUSPEND_HOLD_COMPLETE
            grbl11.SPINDLE_STOP_OVR_ENABLED grbl11.EXEC_CYCLE_START 0
            (some ⟨0, 0⟩))).machine.sys.state = grbl11.STATE_HOLD ∧
      (protocol_exec_rt_system grbl11 (fun _ => 0) 0
          (machine_in grbl11.STATE_HOLD grbl11.SUSPEND_HOLD_COMPLETE
            grbl11.SPINDLE_STOP_OVR_ENABLED grbl11.EXEC_CYCLE_START 0
            (some ⟨0, 0⟩))).machine.sys.state ≠ grbl11.STATE_CYCLE ∧
      (protocol_exec_rt_system grbl11 (fun _ => 0) 0
          (machine_in grbl11.STATE_HOLD grbl11.SUSPEND_HOLD_COMPLETE
            grbl11.SPINDLE_STOP_OVR_ENABLED grbl11.EXEC_CYCLE_START 0
            (some ⟨0, 0⟩))).machine.sys.suspend ≠ 0) ∧
    ((machine_in grbl11.STATE_HOLD
          (grbl11.SUSPEND_HOLD_COMPLETE ||| grbl11.SUSPEND_MOTION_CANCEL) 0
          grbl11.EXEC_CYCLE_START 0 (some ⟨0, 0⟩)).sys.suspend
        &&& grbl11.SUSPEND_HOLD_COMPLETE ≠ 0 ∧
      (protocol_exec_rt_system grbl11 (fun _ => 0) 0
          (machine_in grbl11.STATE_HOLD
            (grbl11.SUSPEND_HOLD_COMPLETE ||| grbl11.SUSPEND_MOTION_CANCEL) 0
            grbl11.EXEC_CYCLE_START 0 (some ⟨0, 0⟩))).machine.sys.state = STATE_IDLE ∧
      (protocol_exec_rt_system grbl11 (fun _ => 0) 0
          (machine_in grbl11.STATE_HOLD
            (grbl11.SUSPEND_HOLD_COMPLETE ||| grbl11.SUSPEND_MOTION_CANCEL) 0
            grbl11.EXEC_CYCLE_START 0 (some ⟨0, 0⟩))).machine.sys.state ≠ grbl11.STATE_CYCLE) := by
  decide

/-! ### C5: feed hold during a jog -/

/-- C5 (as amended): with `sys.state = JOG`, no alarm pending, `EXEC_FEED_HOLD`
pending, none of `EXEC_RESET`, `EXEC_SLEEP`, `EXEC_CYCLE_STOP` pending and
neither `MOTION_CANCEL` nor `JOG_CANCEL` in `sys.suspend`, one call of
`protocol_exec_rt_system` returns with `SUSPEND_JOG_CANCEL` set and `sys.state`
still `JOG` (the state does not move to `HOLD`); the next call, after
`EXEC_CYCLE_STOP` (and no `EXEC_RESET`) has been flagged, returns having called
`plan_reset`, `st_reset`, `gc_sync_position` and `plan_sync_position`, with
`sys.state = IDLE` and `sys.suspend = 0`. -/
theorem C5_jog_feed_hold (K : SystemH) (hK : K.WF) (env : Nat → Nat) (fuel : Nat)
    (m : Machine) (arrived : Nat)
    (hstate : m.sys.state = K.STATE_JOG)
    (halarm : m.sys_rt_exec_alarm = 0)
    (hhold : m.sys_rt_exec_state &&& K.EXEC_FEED_HOLD ≠ 0)
    (hother : m.sys_rt_exec_state &&& (K.EXEC_RESET ||| K.EXEC_SLEEP ||| K.EXEC_CYCLE_STOP) = 0)
    (hsusp : m.sys.suspend &&& (K.SUSPEND_MOTION_CANCEL ||| K.SUSPEND_JOG_CANCEL) = 0)
    (hstop : arrived &&& K.EXEC_CYCLE_STOP ≠ 0)
    (hnoreset : arrived &&& K.EXEC_RESET = 0) :
    ∃ m1 m2, protocol_exec_rt_system K env fuel m = .returned m1 ∧
      m1.sys.suspend &&& K.SUSPEND_JOG_CANCEL ≠ 0 ∧
      m1.sys.state = K.STATE_JOG ∧
      protocol_exec_rt_system K env fuel (system_set_exec_state_flag arrived m1) = .returned m2 ∧
      Call.plan_reset ∈ calls_since m1 m2 ∧ Call.st_reset ∈ calls_since m1 m2 ∧
      Call.gc_sync_position ∈ calls_since m1 m2 ∧ Call.plan_sync_position ∈ calls_since m1 m2 ∧
      m2.sys.state = STATE_IDLE ∧ m2.sys.suspend = 0 := by
  simp at hhold hother hsusp hstop hnoreset
  have hne := ne_zero_of_testBit hhold
  have h1s : (rt_system_flags K m).sys.state = K.STATE_JOG := by
    by_cases hcs : m.sys_rt_exec_state.testBit (K.exec .CYCLE_START) = true <;>
    simp [rt_system_flags, rt_hold, rt_cycle_start, rt_cycle_stop,
      hstate, hhold, hother, hsusp, hne, hcs, hK.state_eq, hK.exec_eq, hK.suspend_eq, hK.exec_lt]
  have h1j : (rt_system_flags K m).sys.suspend.testBit (K.suspend .JOG_CANCEL) = true := by
    by_cases hcs : m.sys_rt_exec_state.testBit (K.exec .CYCLE_START) = true <;>
    simp [rt_system_flags, rt_hold, rt_cycle_start, rt_cycle_stop,
      hstate, hhold, hother, hsusp, hne, hcs, hK.state_eq, hK.exec_eq, hK.suspend_eq, hK.exec_lt]
  have h1a := rt_system_flags_alarm K m
  have h1r := rt_system_flags_testBit K m _ hother.1.1
  have h2 := cycle_stop_after_jog_cancel K hK
    (system_set_exec_state_flag arrived (rt_system_flags K m))
    (by simpa using h1s) (by simpa using h1j) (by simp [hstop]) (by simp [h1r, hnoreset])
  refine ⟨_, _, protocol_exec_rt_system_no_alarm K env fuel m halarm, ?_, h1s,
    protocol_exec_rt_system_no_alarm K env fuel _ (by simp [h1a, halarm]), ?_⟩
  · simpa using h1j
  · simpa [calls_since] using h2

/-- Witness of C5 on the Grbl 1.1 layout: a jogging machine with only
`EXEC_FEED_HOLD` pending, then `EXEC_CYCLE_STOP` flagged by the stepper. -/
theorem C5_jog_feed_hold_witness :
    ∃ m1 m2, protocol_exec_rt_system grbl11 (fun _ => 0) 0
        (machine_in grbl11.STATE_JOG 0 0 grbl11.EXEC_FEED_HOLD 0 (some ⟨0, 0⟩)) = .returned m1 ∧
      m1.sys.suspend &&& grbl11.SUSPEND_JOG_CANCEL ≠ 0 ∧
      m1.sys.state = grbl11.STATE_JOG ∧
      protocol_exec_rt_system grbl11 (fun _ => 0) 0
        (system_set_exec_state_flag grbl11.EXEC_CYCLE_STOP m1) = .returned m2 ∧
      Call.plan_reset ∈ calls_since m1 m2 ∧ Call.st_reset ∈ calls_since m1 m2 ∧
      Call.gc_sync_position ∈ calls_since m1 m2 ∧ Call.plan_sync_position ∈ calls_since m1 m2 ∧
      m2.sys.state = STATE_IDLE ∧ m2.sys.suspend = 0 :=
  C5_jog_feed_hold grbl11 grbl11_WF (fun _ => 0) 0
    (machine_in grbl11.STATE_JOG 0 0 grbl11.EXEC_FEED_HOLD 0 (some ⟨0, 0⟩))
    grbl11.EXEC_CYCLE_STOP
    (by decide) (by decide) (by decide) (by decide) (by decide) (by decide) (by decide)

/-- C5 counterexample (Grbl 1.1 layout): a jogging machine with only
`EXEC_FEED_HOLD` pending. After the call `sys.state` is still `JOG`, not
`HOLD`. -/
theorem C5_jog_feed_hold_counterexample :
    (machine_in grbl11.STATE_JOG 0 0 grbl11.EXEC_FEED_HOLD 0 (some ⟨0, 0⟩)).sys.state
      = grbl11.STATE_JOG ∧
    (machine_in grbl11.STATE_JOG 0 0 grbl11.EXEC_FEED_HOLD 0 (some ⟨0, 0⟩)).sys_rt_exec_state
      &&& grbl11.EXEC_FEED_HOLD ≠ 0 ∧
    (protocol_exec_rt_system grbl11 (fun _ => 0) 0
      (machine_in grbl11.STATE_JOG 0 0 grbl11.EXEC_FEED_HOLD 0
        (some ⟨0, 0⟩))).machine.sys.state = grbl11.STATE_JOG ∧
    (protocol_exec_rt_system grbl11 (fun _ => 0) 0
      (machine_in grbl11.STATE_JOG 0 0 grbl11.EXEC_FEED_HOLD 0
        (some ⟨0, 0⟩))).machine.sys.state ≠ grbl11.STATE_HOLD := by
  decide

/-! ### C6: motion cancel during a cycle -/

/-- The facts about a cycle stop used for C6: in `CYCLE`, with `EXEC_CYCLE_STOP`
pending and none of `EXEC_RESET`, `EXEC_FEED_HOLD`, `EXEC_SLEEP`, the executor
returns to `IDLE` and zeroes `sys.suspend`. -/
theorem cycle_stop_after_motion_cancel (K : SystemH) (hK : K.WF) (n : Machine)
    (hstate : n.sys.state = K.STATE_CYCLE)
    (hstop : n.sys_rt_exec_state.testBit (K.exec .CYCLE_STOP) = true)
    (hreset : n.sys_rt_exec_state.testBit (K.exec .RESET) = false)
    (hhold : n.sys_rt_exec_state.testBit (K.exec .FEED_HOLD) = false)
    (hsleep : n.sys_rt_exec_state.testBit (K.exec .SLEEP) = false) :
    (rt_system_flags K n).sys.state = STATE_IDLE ∧ (rt_system_flags K n).sys.suspend = 0 := by
  have hne := ne_zero_of_testBit hstop
  by_cases hmc : n.sys_rt_exec_state.testBit (K.exec .MOTION_CANCEL) = true <;>
  by_cases hcs : n.sys_rt_exec_state.testBit (K.exec .CYCLE_START) = true <;>
  simp [rt_system_flags, rt_hold, rt_cycle_start, rt_cycle_stop,
    hstate, hstop, hreset, hhold, hsleep, hne, hmc, hcs, hK.state_eq, hK.exec_eq,
    hK.suspend_eq, hK.exec_lt]

/-- C6 (as amended): with `sys.state = CYCLE`, no alarm pending,
`EXEC_MOTION_CANCEL` pending and none of `EXEC_RESET`, `EXEC_FEED_HOLD`,
`EXEC_SLEEP`, `EXEC_CYCLE_STOP` pending, one call of `protocol_exec_rt_system`
returns with `SUSPEND_MOTION_CANCEL` set and `sys.state` still `CYCLE` (the
state does not move to `HOLD`); the following call, after `EXEC_CYCLE_STOP`
(and none of `EXEC_RESET`, `EXEC_FEED_HOLD`, `EXEC_SLEEP`) has been flagged,
returns with `sys.state = IDLE` and `sys.suspend = 0`. Moreover, for every
machine not in `CYCLE` with `SUSPEND_MOTION_CANCEL` set and no alarm pending,
a call of the executor (whatever is pending, a cycle start included) does not
end in `CYCLE` and does not call `st_wake_up`. -/
theorem C6_motion_cancel (K : SystemH) (hK : K.WF) (env : Nat → Nat) (fuel : Nat)
    (m : Machine) (arrived : Nat)
    (hstate : m.sys.state = K.STATE_CYCLE)
    (halarm : m.sys_rt_exec_alarm = 0)
    (hcancel : m.sys_rt_exec_state &&& K.EXEC_MOTION_CANCEL ≠ 0)
    (hother : m.sys_rt_exec_state &&&
      (K.EXEC_RESET ||| K.EXEC_FEED_HOLD ||| K.EXEC_SLEEP ||| K.EXEC_CYCLE_STOP) = 0)
    (hstop : arrived &&& K.EXEC_CYCLE_STOP ≠ 0)
    (hnone : arrived &&& (K.EXEC_RESET ||| K.EXEC_FEED_HOLD ||| K.EXEC_SLEEP) = 0) :
    (∃ m1 m2, protocol_exec_rt_system K env fuel m = .returned m1 ∧
      m1.sys.suspend &&& K.SUSPEND_MOTION_CANCEL ≠ 0 ∧
      m1.sys.state = K.STATE_CYCLE ∧
      protocol_exec_rt_system K env fuel (system_set_exec_state_flag arrived m1) = .returned m2 ∧
      m2.sys.state = STATE_IDLE ∧ m2.sys.suspend = 0) ∧
    (∀ n : Machine, n.sys_rt_exec_alarm = 0 → n.sys.state ≠ K.STATE_CYCLE →
      n.sys.suspend &&& K.SUSPEND_MOTION_CANCEL ≠ 0 →
      ∃ n', protocol_exec_rt_system K env fuel n = .returned n' ∧
        n'.sys.state ≠ K.STATE_CYCLE ∧ Call.st_wake_up ∉ calls_since n n') := by
  constructor
  · simp at hcancel hother hstop hnone
    have hne := ne_zero_of_testBit hcancel
    have h1s : (rt_system_flags K m).sys.state = K.STATE_CYCLE := by
      by_cases hcs : m.sys_rt_exec_state.testBit (K.exec .CYCLE_START) = true <;>
      simp [rt_system_flags, rt_hold, rt_cycle_start, rt_cycle_stop,
        hstate, hcancel, hother, hne, hcs, hK.state_eq, hK.exec_eq, hK.suspend_eq, hK.exec_lt]
    have h1c : (rt_system_flags K m).sys.suspend.testBit (K.suspend .MOTION_CANCEL) = true := by
      by_cases hcs : m.sys_rt_exec_state.testBit (K.exec .CYCLE_START) = true <;>
      simp [rt_system_flags, rt_hold, rt_cycle_start, rt_cycle_stop,
        hstate, hcancel, hother, hne, hcs, hK.state_eq, hK.exec_eq, hK.suspend_eq, hK.exec_lt]
    have h1a := rt_system_flags_alarm K m
    have h1r := rt_system_flags_testBit K m _ hother.1.1.1
    have h1h := rt_system_flags_testBit K m _ hother.1.1.2
    have h1l := rt_system_flags_testBit K m _ hother.1.2
    have h2 := cycle_stop_after_motion_cancel K hK
      (system_set_exec_state_flag arrived (rt_system_flags K m))
      (by simpa using h1s) (by simp [hstop]) (by simp [h1r, hnone])
      (by simp [h1h, hnone]) (by simp [h1l, hnone])
    refine ⟨_, _, protocol_exec_rt_system_no_alarm K env fuel m halarm, ?_, h1s,
      protocol_exec_rt_system_no_alarm K env fuel _ (by simp [h1a, halarm]), h2⟩
    simpa using h1c
  · intro n hal hst hmc
    exact ⟨_, protocol_exec_rt_system_no_alarm K env fuel n hal,
      cycle_start_while_motion_cancel K hK n hmc hst⟩

/-- Witness of C6 on the Grbl 1.1 layout: a machine in `CYCLE` with only
`EXEC_MOTION_CANCEL` pending, then `EXEC_CYCLE_STOP` flagged by the stepper. -/
theorem C6_motion_cancel_witness :
    ∃ m1 m2, protocol_exec_rt_system grbl11 (fun _ => 0) 0
        (machine_in grbl11.STATE_CYCLE 0 0 grbl11.EXEC_MOTION_CANCEL 0 (some ⟨0, 0⟩))
          = .returned m1 ∧
      m1.sys.suspend &&& grbl11.SUSPEND_MOTION_CANCEL ≠ 0 ∧
      m1.sys.state = grbl11.STATE_CYCLE ∧
      protocol_exec_rt_system grbl11 (fun _ => 0) 0
        (system_set_exec_state_flag grbl11.EXEC_CYCLE_STOP m1) = .returned m2 ∧
      m2.sys.state = STATE_IDLE ∧ m2.sys.suspend = 0 :=
  (C6_motion_cancel grbl11 grbl11_WF (fun _ => 0) 0
    (machine_in grbl11.STATE_CYCLE 0 0 grbl11.EXEC_MOTION_CANCEL 0 (some ⟨0, 0⟩))
    grbl11.EXEC_CYCLE_STOP
    (by decide) (by decide) (by decide) (by decide) (by decide) (by decide)).1

/-- C6 counterexample (Grbl 1.1 layout): a machine in `CYCLE` with only
`EXEC_MOTION_CANCEL` pending. After the call `sys.state` is still `CYCLE`, not
`HOLD`. -/
theorem C6_motion_cancel_counterexample :
    (machine_in grbl11.STATE_CYCLE 0 0 grbl11.EXEC_MOTION_CANCEL 0 (some ⟨0, 0⟩)).sys.state
      = grbl11.STATE_CYCLE ∧
    (machine_in grbl11.STATE_CYCLE 0 0 grbl11.EXEC_MOTION_CANCEL 0
      (some ⟨0, 0⟩)).sys_rt_exec_state &&& grbl11.EXEC_MOTION_CANCEL ≠ 0 ∧
    (protocol_exec_rt_system grbl11 (fun _ => 0) 0
      (machine_in grbl11.STATE_CYCLE 0 0 grbl11.EXEC_MOTION_CANCEL 0
        (some ⟨0, 0⟩))).machine.sys.state = grbl11.STATE_CYCLE ∧
    (protocol_exec_rt_system grbl11 (fun _ => 0) 0
      (machine_in grbl11.STATE_CYCLE 0 0 grbl11.EXEC_MOTION_CANCEL 0
        (some ⟨0, 0⟩))).machine.sys.state ≠ grbl11.STATE_HOLD := by
  decide

/-! ### C7: reset -/

/-- C7 (as amended): with no alarm pending, a call of `protocol_exec_rt_system`
with `EXEC_RESET` set in `sys_rt_exec_state` returns at once with `sys.abort`
set to true and every other field as it was; in particular `sys.suspend` is
left unchanged (it is not zeroed). -/
theorem C7_reset_sets_abort (K : SystemH) (env : Nat → Nat) (fuel : Nat) (m : Machine)
    (halarm : m.sys_rt_exec_alarm = 0)
    (hreset : m.sys_rt_exec_state &&& K.EXEC_RESET ≠ 0) :
    protocol_exec_rt_system K env fuel m
        = .returned { m with sys := { m.sys with abort := true } } ∧
      (protocol_exec_rt_system K env fuel m).machine.sys.abort = true ∧
      (protocol_exec_rt_system K env fuel m).machine.sys.suspend = m.sys.suspend := by
  rw [protocol_exec_rt_system_no_alarm K env fuel m halarm,
    rt_system_flags_of_reset K m (by simpa using hreset)]
  simp [Run.machine]

/-- Witness of C7 on the Grbl 1.1 layout: a held machine (`HOLD`, hold
complete) with `EXEC_RESET` pending. -/
theorem C7_reset_sets_abort_witness :
    (protocol_exec_rt_system grbl11 (fun _ => 0) 0
      (machine_in grbl11.STATE_HOLD grbl11.SUSPEND_HOLD_COMPLETE 0 grbl11.EXEC_RESET 0
        none)).machine.sys.abort = true ∧
    (protocol_exec_rt_system grbl11 (fun _ => 0) 0
      (machine_in grbl11.STATE_HOLD grbl11.SUSPEND_HOLD_COMPLETE 0 grbl11.EXEC_RESET 0
        none)).machine.sys.suspend
      = (machine_in grbl11.STATE_HOLD grbl11.SUSPEND_HOLD_COMPLETE 0 grbl11.EXEC_RESET 0
        none).sys.suspend :=
  (C7_reset_sets_abort grbl11 (fun _ => 0) 0
    (machine_in grbl11.STATE_HOLD grbl11.SUSPEND_HOLD_COMPLETE 0 grbl11.EXEC_RESET 0 none)
    (by decide) (by decide)).2

/-- C7 counterexample (Grbl 1.1 layout): a held machine with
`sys.suspend = SUSPEND_HOLD_COMPLETE`, no alarm and `EXEC_RESET` pending. The
call sets `sys.abort` and returns with `sys.suspend` still non-zero. -/
theorem C7_reset_counterexample :
    (machine_in grbl11.STATE_HOLD grbl11.SUSPEND_HOLD_COMPLETE 0 grbl11.EXEC_RESET 0
      none).sys_rt_exec_alarm = 0 ∧
    (machine_in grbl11.STATE_HOLD grbl11.SUSPEND_HOLD_COMPLETE 0 grbl11.EXEC_RESET 0
      none).sys_rt_exec_state &&& grbl11.EXEC_RESET ≠ 0 ∧
    (protocol_exec_rt_system grbl11 (fun _ => 0) 0
      (machine_in grbl11.STATE_HOLD grbl11.SUSPEND_HOLD_COMPLETE 0 grbl11.EXEC_RESET 0
        none)).machine.sys.abort = true ∧
    (protocol_exec_rt_system grbl11 (fun _ => 0) 0
      (machine_in grbl11.STATE_HOLD grbl11.SUSPEND_HOLD_COMPLETE 0 grbl11.EXEC_RESET 0
        none)).machine.sys.suspend ≠ 0 := by
  decide

/-! ## The alarm loop -/

theorem alarm_loop_body_sys (K : SystemH) (env : Nat → Nat) (m : Machine) :
    (alarm_loop_body K env m).sys = m.sys := by
  simp [alarm_loop_body]

theorem alarm_loop_body_alarm (K : SystemH) (env : Nat → Nat) (m : Machine) :
    (alarm_loop_body K env m).sys_rt_exec_alarm = m.sys_rt_exec_alarm := by
  simp [alarm_loop_body]

theorem alarm_loop_body_trace (K : SystemH) (env : Nat → Nat) (m : Machine) :
    ∃ l, (alarm_loop_body K env m).trace = m.trace ++ l ∧
      ∀ c ∈ l, c = Call.report_feedback_message .CRITICAL_EVENT := by
  simp only [alarm_loop_body]
  split_ifs
  · exact ⟨[Call.report_feedback_message .CRITICAL_EVENT], by simp, by simp⟩
  · exact ⟨[], by simp, by simp⟩

/-- The executor only appends to the trace. -/
theorem rt_system_flags_trace_prefix (K : SystemH) (n : Machine) :
    n.trace <+: (rt_system_flags K n).trace := by
  by_cases hrs : n.sys_rt_exec_state.testBit (K.exec .RESET) = true
  · rw [rt_system_flags_of_reset K n hrs]; simp
  by_cases hz : n.sys_rt_exec_state = 0
  · rw [rt_system_flags_of_zero K n hz]
    simp only [rt_reload_trace, rt_accessory_override_trace, rt_motion_override_trace,
      List.append_assoc]
    exact List.prefix_append _ _
  rw [rt_system_flags_of_flags K n hz (by simpa using hrs)]
  simp only [rt_reload_trace, rt_accessory_override_trace, rt_motion_override_trace,
    rt_cycle_stop_trace, rt_cycle_start_trace, rt_hold_trace, rt_status_report_trace,
    List.append_assoc]
  exact List.prefix_append _ _

/-- A call recorded since `m` stays recorded when the trace grows. -/
theorem mem_calls_since_of_prefix {m x y : Machine} {c : Call}
    (hx : m.trace <+: x.trace) (hy : x.trace <+: y.trace) (h : c ∈ calls_since m x) :
    c ∈ calls_since m y := by
  obtain ⟨l1, h1⟩ := hx
  obtain ⟨l2, h2⟩ := hy
  simp only [calls_since, ← h1, ← h2, List.append_assoc, List.drop_left] at h ⊢
  exact List.mem_append_left _ h

/-- A call recorded since a later point of the trace is recorded since `m`. -/
theorem mem_calls_since_of_later {m x y : Machine} {c : Call}
    (hx : m.trace <+: x.trace) (hy : x.trace <+: y.trace) (h : c ∈ calls_since x y) :
    c ∈ calls_since m y := by
  obtain ⟨l1, h1⟩ := hx
  obtain ⟨l2, h2⟩ := hy
  simp only [calls_since] at h ⊢
  rw [← h2, List.drop_left] at h
  rw [← h2, ← h1, List.append_assoc, List.drop_left]
  exact List.mem_append_right _ h

/-- The executor does not advance the poll counter outside the alarm loop. -/
theorem rt_system_flags_clock (K : SystemH) (n : Machine) :
    (rt_system_flags K n).clock = n.clock := by
  by_cases hrs : n.sys_rt_exec_state.testBit (K.exec .RESET) = true
  · rw [rt_system_flags_of_reset K n hrs]; simp
  by_cases hz : n.sys_rt_exec_state = 0
  · rw [rt_system_flags_of_zero K n hz]; simp
  rw [rt_system_flags_of_flags K n hz (by simpa using hrs)]
  simp [rt_hold, rt_cycle_start, rt_cycle_stop]

/-- The sleeping machine: in `SLEEP`, no soft limit, no jog cancel, no alarm.
A call of the executor keeps it so, keeps every bit of `sys.suspend` that is
set, and sets `sys.abort` only if `EXEC_RESET` is pending. -/
theorem rt_system_flags_sleeping (K : SystemH) (hK : K.WF) (n : Machine)
    (hstate : n.sys.state = K.STATE_SLEEP)
    (hsoft : n.sys.soft_limit = false)
    (hjc : n.sys.suspend.testBit (K.suspend .JOG_CANCEL) = false) :
    (rt_system_flags K n).sys.state = K.STATE_SLEEP ∧
    (rt_system_flags K n).sys.soft_limit = false ∧
    (rt_system_flags K n).sys.suspend.testBit (K.suspend .JOG_CANCEL) = false ∧
    (∀ i, n.sys.suspend.testBit i = true → (rt_system_flags K n).sys.suspend.testBit i = true) ∧
    (n.sys_rt_exec_state.testBit (K.exec .RESET) = false →
      (rt_system_flags K n).sys.abort = n.sys.abort) ∧
    (n.sys_rt_exec_state.testBit (K.exec .RESET) = true →
      (rt_system_flags K n).sys.abort = true) := by
  by_cases hrs : n.sys_rt_exec_state.testBit (K.exec .RESET) = true
  · rw [rt_system_flags_of_reset K n hrs]
    simp [hstate, hsoft, hjc, hrs]
  by_cases hz : n.sys_rt_exec_state = 0
  · rw [rt_system_flags_of_zero K n hz]
    simp [hstate, hsoft, hjc, hrs]
  rw [rt_system_flags_of_flags K n hz (by simpa using hrs)]
  by_cases hfh : n.sys_rt_exec_state.testBit (K.exec .FEED_HOLD) = true <;>
  by_cases hsl : n.sys_rt_exec_state.testBit (K.exec .SLEEP) = true <;>
  by_cases hcn : n.sys_rt_exec_state.testBit (K.exec .MOTION_CANCEL) = true <;>
  by_cases hcs : n.sys_rt_exec_state.testBit (K.exec .CYCLE_START) = true <;>
  by_cases hcp : n.sys_rt_exec_state.testBit (K.exec .CYCLE_STOP) = true <;>
  simp [rt_hold, rt_cycle_start, rt_cycle_stop, hstate, hsoft, hjc, hrs, hfh, hsl, hcn, hcs,
    hcp, hK.state_eq, hK.exec_eq, hK.suspend_eq, hK.exec_lt] <;>
  first
    | (split_ifs <;> simp +contextual [hjc, hK.suspend_eq])
    | simp +contextual [hjc, hK.suspend_eq]

/-- The loop that waits for the reset of a sleeping machine keeps the state
`SLEEP`, only appends to the trace, and is left only with `sys.abort` set. -/
theorem sleep_spin_sleeping (K : SystemH) (hK : K.WF) (env : Nat → Nat) :
    ∀ (fuel : Nat) (n : Machine),
      n.sys.state = K.STATE_SLEEP → n.sys.soft_limit = false →
      n.sys.suspend.testBit (K.suspend .JOG_CANCEL) = false → n.sys_rt_exec_alarm = 0 →
      (sleep_spin K env fuel n).machine.sys.state = K.STATE_SLEEP ∧
      n.trace <+: (sleep_spin K env fuel n).machine.trace ∧
      ∀ m', sleep_spin K env fuel n = .returned m' → m'.sys.abort = true := by
  intro fuel
  induction fuel with
  | zero =>
    intro n hstate _ _ _
    unfold sleep_spin
    by_cases hab : n.sys.abort = true
    · simp [hab, Run.machine, hstate]
    · simp [hab, Run.machine, hstate]
  | succ fuel ih =>
    intro n hstate hsoft hjc halarm
    unfold sleep_spin
    by_cases hab : n.sys.abort = true
    · simp [hab, Run.machine, hstate]
    · have hal : (isr_arrive env n).sys_rt_exec_alarm = 0 := by simpa using halarm
      have hinv := rt_system_flags_sleeping K hK (isr_arrive env n) (by simpa using hstate)
        (by simpa using hsoft) (by simpa using hjc)
      have hpre := rt_system_flags_trace_prefix K (isr_arrive env n)
      have hal2 := rt_system_flags_alarm K (isr_arrive env n)
      have h := ih (rt_system_flags K (isr_arrive env n)) hinv.1 hinv.2.1 hinv.2.2.1
        (by rw [hal2]; exact hal)
      simp only [hab, protocol_exec_rt_system_no_alarm K env fuel _ hal]
      refine ⟨h.1, ?_, h.2.2⟩
      exact List.IsPrefix.trans (by simpa using hpre) h.2.1

/-- With `sys.abort` set the wait is over at once. -/
theorem sleep_spin_of_abort (K : SystemH) (env : Nat → Nat) (fuel : Nat) (n : Machine)
    (h : n.sys.abort = true) : sleep_spin K env fuel n = .returned n := by
  unfold sleep_spin
  rw [if_pos h]

/-- The wait of a sleeping machine ends as soon as a poll delivers `EXEC_RESET`. -/
theorem sleep_spin_returns (K : SystemH) (hK : K.WF) (env : Nat → Nat) :
    ∀ (fuel : Nat) (n : Machine),
      n.sys.state = K.STATE_SLEEP → n.sys.soft_limit = false →
      n.sys.suspend.testBit (K.suspend .JOG_CANCEL) = false → n.sys_rt_exec_alarm = 0 →
      (∃ t, n.clock ≤ t ∧ t < n.clock + fuel ∧ (env t).testBit (K.exec .RESET) = true) →
      ∃ m', sleep_spin K env fuel n = .returned m' := by
  intro fuel
  induction fuel with
  | zero =>
    rintro n _ _ _ _ ⟨t, h1, h2, _⟩
    omega
  | succ fuel ih =>
    rintro n hstate hsoft hjc halarm ⟨t, h1, h2, h3⟩
    unfold sleep_spin
    by_cases hab : n.sys.abort = true
    · exact ⟨n, by simp [hab]⟩
    · have hal : (isr_arrive env n).sys_rt_exec_alarm = 0 := by simpa using halarm
      have hinv := rt_system_flags_sleeping K hK (isr_arrive env n) (by simpa using hstate)
        (by simpa using hsoft) (by simpa using hjc)
      have hal2 := rt_system_flags_alarm K (isr_arrive env n)
      have hck : (rt_system_flags K (isr_arrive env n)).clock = n.clock + 1 := by
        rw [rt_system_flags_clock]; simp
      simp only [hab, protocol_exec_rt_system_no_alarm K env fuel _ hal]
      by_cases ht : t = n.clock
      · have hr : (isr_arrive env n).sys_rt_exec_state.testBit (K.exec .RESET) = true := by
          simp [← ht, h3]
        have hab2 := hinv.2.2.2.2.2 hr
        exact ⟨_, sleep_spin_of_abort K env fuel _ hab2⟩
      · exact ih (rt_system_flags K (isr_arrive env n)) hinv.1 hinv.2.1 hinv.2.2.1
          (by rw [hal2]; exact hal) ⟨t, by omega, by omega, h3⟩

/-- A pass of the suspend loop that finds a sleeping machine with the retract
complete takes the sleep branch: spindle off, steppers idle, then the wait for
the reset. -/
theorem suspend_loop_sleep_branch (K : SystemH) (hK : K.WF) (env : Nat → Nat) (rc : Nat)
    (rs : ℚ) (fuel : Nat) (n : Machine)
    (hstate : n.sys.state = K.STATE_SLEEP) (hsoft : n.sys.soft_limit = false)
    (hjc : n.sys.suspend.testBit (K.suspend .JOG_CANCEL) = false)
    (halarm : n.sys_rt_exec_alarm = 0)
    (hhc : n.sys.suspend.testBit (K.suspend .HOLD_COMPLETE) = true)
    (hrc : n.sys.suspend.testBit (K.suspend .RETRACT_COMPLETE) = true)
    (habort : n.sys.abort = false) :
    (suspend_loop K env rc rs (fuel + 1) n).machine.sys.state = K.STATE_SLEEP ∧
    n.trace <+: (suspend_loop K env rc rs (fuel + 1) n).machine.trace ∧
    Call.spindle_set_state K.SPINDLE_DISABLE 0
      ∈ calls_since n (suspend_loop K env rc rs (fuel + 1) n).machine ∧
    Call.st_go_idle ∈ calls_since n (suspend_loop K env rc rs (fuel + 1) n).machine ∧
    (∀ m', suspend_loop K env rc rs (fuel + 1) n = .returned m' → m'.sys.abort = true) ∧
    ((∃ t, n.clock ≤ t ∧ t < n.clock + fuel ∧ (env t).testBit (K.exec .RESET) = true) →
      ∃ m', suspend_loop K env rc rs (fuel + 1) n = .returned m') := by
  have hne := ne_zero_of_testBit hhc
  have hbody : suspend_body K rc rs n
      = (call (.st_set_power_level '0') (call .st_go_idle
          (spindle_set_state K K.SPINDLE_DISABLE 0
            (call (.report_feedback_message .SLEEP_MODE) n))), true) := by
    simp [suspend_body, hstate, hhc, hrc]
  have hloop : suspend_loop K env rc rs (fuel + 1) n
      = sleep_spin K env fuel (call (.st_set_power_level '0') (call .st_go_idle
          (spindle_set_state K K.SPINDLE_DISABLE 0
            (call (.report_feedback_message .SLEEP_MODE) n)))) := by
    rw [suspend_loop, if_pos hne]
    simp only [habort, hbody, Bool.false_eq_true, if_false]
  have h := sleep_spin_sleeping K hK env fuel (call (.st_set_power_level '0') (call .st_go_idle
      (spindle_set_state K K.SPINDLE_DISABLE 0
        (call (.report_feedback_message .SLEEP_MODE) n))))
    (by simpa using hstate) (by simpa using hsoft) (by simpa using hjc) (by simpa using halarm)
  have hret := sleep_spin_returns K hK env fuel (call (.st_set_power_level '0') (call .st_go_idle
      (spindle_set_state K K.SPINDLE_DISABLE 0
        (call (.report_feedback_message .SLEEP_MODE) n))))
    (by simpa using hstate) (by simpa using hsoft) (by simpa using hjc) (by simpa using halarm)
  rw [hloop]
  have hp : n.trace <+: (call (.st_set_power_level '0') (call .st_go_idle
      (spindle_set_state K K.SPINDLE_DISABLE 0
        (call (.report_feedback_message .SLEEP_MODE) n)))).trace := by
    simp
  refine ⟨h.1, List.IsPrefix.trans hp h.2.1, ?_, ?_, h.2.2, ?_⟩
  · exact mem_calls_since_of_prefix hp h.2.1 (by simp [calls_since])
  · exact mem_calls_since_of_prefix hp h.2.1 (by simp [calls_since])
  · intro ht
    exact hret (by simpa using ht)

/-- A pass of the suspend loop that finds a sleeping machine with the retract
not yet complete switches the spindle off; if no reset arrives before the next
pass, that pass takes the sleep branch. -/
theorem suspend_loop_retract_branch (K : SystemH) (hK : K.WF) (env : Nat → Nat) (rc : Nat)
    (rs : ℚ) (fuel : Nat) (n : Machine)
    (hstate : n.sys.state = K.STATE_SLEEP) (hsoft : n.sys.soft_limit = false)
    (hjc : n.sys.suspend.testBit (K.suspend .JOG_CANCEL) = false)
    (halarm : n.sys_rt_exec_alarm = 0)
    (hhc : n.sys.suspend.testBit (K.suspend .HOLD_COMPLETE) = true)
    (hrc : n.sys.suspend.testBit (K.suspend .RETRACT_COMPLETE) = false)
    (habort : n.sys.abort = false)
    (hreset : n.sys_rt_exec_state.testBit (K.exec .RESET) = false)
    (hquiet : (env n.clock).testBit (K.exec .RESET) = false) :
    (suspend_loop K env rc rs (fuel + 2) n).machine.sys.state = K.STATE_SLEEP ∧
    n.trace <+: (suspend_loop K env rc rs (fuel + 2) n).machine.trace ∧
    Call.spindle_set_state K.SPINDLE_DISABLE 0
      ∈ calls_since n (suspend_loop K env rc rs (fuel + 2) n).machine ∧
    Call.st_go_idle ∈ calls_since n (suspend_loop K env rc rs (fuel + 2) n).machine ∧
    (∀ m', suspend_loop K env rc rs (fuel + 2) n = .returned m' → m'.sys.abort = true) ∧
    ((∃ t, n.clock + 1 ≤ t ∧ t < n.clock + 1 + fuel ∧ (env t).testBit (K.exec .RESET) = true) →
      ∃ m', suspend_loop K env rc rs (fuel + 2) n = .returned m') := by
  have hne := ne_zero_of_testBit hhc
  obtain ⟨n1, hn1⟩ : ∃ n1, n1 = set_suspend
      ((spindle_set_state K K.SPINDLE_DISABLE 0 (set_spindle_stop_ovr 0 n)).sys.suspend
          &&& (255 ^^^ K.SUSPEND_RESTART_RETRACT) ||| K.SUSPEND_RETRACT_COMPLETE)
      (spindle_set_state K K.SPINDLE_DISABLE 0 (set_spindle_stop_ovr 0 n)) := ⟨_, rfl⟩
  have hbody : suspend_body K rc rs n = (n1, false) := by
    rw [hn1]
    simp [suspend_body, hstate, hhc, hrc]
  have h1state : n1.sys.state = K.STATE_SLEEP := by rw [hn1]; simpa using hstate
  have h1soft : n1.sys.soft_limit = false := by rw [hn1]; simpa using hsoft
  have h1alarm : n1.sys_rt_exec_alarm = 0 := by rw [hn1]; simpa using halarm
  have h1abort : n1.sys.abort = false := by rw [hn1]; simpa using habort
  have h1clock : n1.clock = n.clock := by rw [hn1]; simp
  have h1rt : n1.sys_rt_exec_state = n.sys_rt_exec_state := by rw [hn1]; simp
  have h1trace : n1.trace = n.trace ++ [Call.spindle_set_state K.SPINDLE_DISABLE 0] := by
    rw [hn1]; simp
  have h1jc : n1.sys.suspend.testBit (K.suspend .JOG_CANCEL) = false := by
    rw [hn1]; simp [hjc, hK.suspend_eq]
  have h1hc : n1.sys.suspend.testBit (K.suspend .HOLD_COMPLETE) = true := by
    rw [hn1]; simp [hhc, hK.suspend_eq, hK.suspend_lt]
  have h1rc : n1.sys.suspend.testBit (K.suspend .RETRACT_COMPLETE) = true := by
    rw [hn1]; simp
  have hinv := rt_system_flags_sleeping K hK (isr_arrive env n1) (by simpa using h1state)
    (by simpa using h1soft) (by simpa using h1jc)
  have hpre := rt_system_flags_trace_prefix K (isr_arrive env n1)
  have hal : (isr_arrive env n1).sys_rt_exec_alarm = 0 := by simpa using h1alarm
  have hal2 := rt_system_flags_alarm K (isr_arrive env n1)
  have hnoreset : (isr_arrive env n1).sys_rt_exec_state.testBit (K.exec .RESET) = false := by
    simp [h1rt, h1clock, hreset, hquiet]
  have h2abort : (rt_system_flags K (isr_arrive env n1)).sys.abort = false := by
    rw [hinv.2.2.2.2.1 hnoreset]; simpa using h1abort
  have h := suspend_loop_sleep_branch K hK env rc rs fuel (rt_system_flags K (isr_arrive env n1))
    hinv.1 hinv.2.1 hinv.2.2.1 (by rw [hal2]; exact hal)
    (hinv.2.2.2.1 _ (by simpa using h1hc)) (hinv.2.2.2.1 _ (by simpa using h1rc)) h2abort
  have hloop : suspend_loop K env rc rs (fuel + 2) n
      = suspend_loop K env rc rs (fuel + 1) (rt_system_flags K (isr_arrive env n1)) := by
    rw [suspend_loop, if_pos hne]
    simp only [habort, hbody, Bool.false_eq_true, if_false,
      protocol_exec_rt_system_no_alarm K env (fuel + 1) _ hal]
  rw [hloop]
  have hp1 : n.trace <+: n1.trace := by rw [h1trace]; exact List.prefix_append _ _
  have hp2 : n1.trace <+: (rt_system_flags K (isr_arrive env n1)).trace := by simpa using hpre
  have hp : n.trace <+: (rt_system_flags K (isr_arrive env n1)).trace := hp1.trans hp2
  have h2clock : (rt_system_flags K (isr_arrive env n1)).clock = n.clock + 1 := by
    rw [rt_system_flags_clock]; simp [h1clock]
  refine ⟨h.1, hp.trans h.2.1, ?_, ?_, h.2.2.2.2.1, ?_⟩
  · exact mem_calls_since_of_prefix hp1 (hp2.trans h.2.1) (by simp [calls_since, h1trace])
  · exact mem_calls_since_of_later hp h.2.1 h.2.2.2.1
  · intro ht
    rw [← h2clock] at ht
    exact h.2.2.2.2.2 ht

/-- The executor, called in `IDLE` or `ALARM` with `EXEC_SLEEP` pending and no
reset: the state becomes `SLEEP` with `SUSPEND_HOLD_COMPLETE` set, and
`SUSPEND_RETRACT_COMPLETE` is set exactly when the state was `ALARM`. -/
theorem rt_system_flags_sleep_request (K : SystemH) (hK : K.WF) (m : Machine)
    (hstate : m.sys.state = STATE_IDLE ∨ m.sys.state = K.STATE_ALARM)
    (hreset : m.sys_rt_exec_state.testBit (K.exec .RESET) = false)
    (hsleep : m.sys_rt_exec_state.testBit (K.exec .SLEEP) = true)
    (hsoft : m.sys.soft_limit = false)
    (hjc : m.sys.suspend.testBit (K.suspend .JOG_CANCEL) = false)
    (habort : m.sys.abort = false) :
    (rt_system_flags K m).sys.state = K.STATE_SLEEP ∧
    (rt_system_flags K m).sys.soft_limit = false ∧
    (rt_system_flags K m).sys.suspend.testBit (K.suspend .JOG_CANCEL) = false ∧
    (rt_system_flags K m).sys.suspend.testBit (K.suspend .HOLD_COMPLETE) = true ∧
    (rt_system_flags K m).sys.suspend.testBit (K.suspend .RETRACT_COMPLETE)
      = decide (m.sys.state = K.STATE_ALARM) ∧
    (rt_system_flags K m).sys.abort = false := by
  rw [rt_system_flags_of_flags K m (ne_zero_of_testBit hsleep) hreset]
  rcases hstate with hs | hs <;>
  by_cases hfh : m.sys_rt_exec_state.testBit (K.exec .FEED_HOLD) = true <;>
  by_cases hcn : m.sys_rt_exec_state.testBit (K.exec .MOTION_CANCEL) = true <;>
  by_cases hcs : m.sys_rt_exec_state.testBit (K.exec .CYCLE_START) = true <;>
  by_cases hcp : m.sys_rt_exec_state.testBit (K.exec .CYCLE_STOP) = true <;>
  simp [rt_hold, rt_cycle_start, rt_cycle_stop, hs, hsoft, hjc, hreset, hsleep, habort, hfh,
    hcn, hcs, hcp, hK.state_eq, hK.exec_eq, hK.suspend_eq, hK.step_control_eq, hK.exec_lt,
    hK.suspend_lt] <;>
  (split_ifs <;> simp [hjc, hK.suspend_eq])

/-- The sleep request when, from `IDLE`, the first poll of the suspend loop
delivers no `EXEC_RESET`: the state becomes `SLEEP`, the spindle is switched
off and the steppers are idled, the call returns only with `sys.abort` set, and
it does return when a later poll delivers `EXEC_RESET`. -/
theorem protocol_execute_realtime_sleep_quiet (K : SystemH) (hK : K.WF) (env : Nat → Nat) (fuel : Nat) (m : Machine)
    (hstate : m.sys.state = STATE_IDLE ∨ m.sys.state = K.STATE_ALARM)
    (halarm : m.sys_rt_exec_alarm = 0)
    (hreset : m.sys_rt_exec_state &&& K.EXEC_RESET = 0)
    (hsleep : m.sys_rt_exec_state &&& K.EXEC_SLEEP ≠ 0)
    (habort : m.sys.abort = false)
    (hsoft : m.sys.soft_limit = false)
    (hjc : m.sys.suspend &&& K.SUSPEND_JOG_CANCEL = 0)
    (hquiet : m.sys.state = STATE_IDLE → env m.clock &&& K.EXEC_RESET = 0)
    (hfuel : 2 ≤ fuel) :
    (protocol_execute_realtime K env fuel m).machine.sys.state = K.STATE_SLEEP ∧
    Call.spindle_set_state K.SPINDLE_DISABLE 0
      ∈ calls_since m (protocol_execute_realtime K env fuel m).machine ∧
    Call.st_go_idle ∈ calls_since m (protocol_execute_realtime K env fuel m).machine ∧
    (∀ m', protocol_execute_realtime K env fuel m = .returned m' → m'.sys.abort = true) ∧
    ((∃ t, m.clock < t ∧ t + 1 < m.clock + fuel ∧ env t &&& K.EXEC_RESET ≠ 0) →
      ∃ m', protocol_execute_realtime K env fuel m = .returned m') := by
  simp at hreset hsleep hjc hquiet
  obtain ⟨f, rfl⟩ : ∃ f, fuel = f + 2 := ⟨fuel - 2, by omega⟩
  have h1 := rt_system_flags_sleep_request K hK m hstate hreset hsleep hsoft hjc habort
  have hp1 := rt_system_flags_trace_prefix K m
  have hal1 : (rt_system_flags K m).sys_rt_exec_alarm = 0 := by
    rw [rt_system_flags_alarm]; exact halarm
  have hck1 := rt_system_flags_clock K m
  have hrs1 := rt_system_flags_testBit K m _ hreset
  have hne1 := ne_zero_of_testBit h1.2.2.2.1
  have key : ∀ rc rs,
      (suspend_loop K env rc rs (f + 2) (rt_system_flags K m)).machine.sys.state
        = K.STATE_SLEEP ∧
      (rt_system_flags K m).trace
        <+: (suspend_loop K env rc rs (f + 2) (rt_system_flags K m)).machine.trace ∧
      Call.spindle_set_state K.SPINDLE_DISABLE 0 ∈ calls_since (rt_system_flags K m)
        (suspend_loop K env rc rs (f + 2) (rt_system_flags K m)).machine ∧
      Call.st_go_idle ∈ calls_since (rt_system_flags K m)
        (suspend_loop K env rc rs (f + 2) (rt_system_flags K m)).machine ∧
      (∀ m', suspend_loop K env rc rs (f + 2) (rt_system_flags K m) = .returned m' →
        m'.sys.abort = true) ∧
      ((∃ t, m.clock < t ∧ t + 1 < m.clock + (f + 2) ∧
          (env t).testBit (K.exec .RESET) = true) →
        ∃ m', suspend_loop K env rc rs (f + 2) (rt_system_flags K m) = .returned m') := by
    intro rc rs
    rcases hstate with hs | hs
    · have hrc : (rt_system_flags K m).sys.suspend.testBit (K.suspend .RETRACT_COMPLETE)
          = false := by
        rw [h1.2.2.2.2.1, hs]; simp
      have h := suspend_loop_retract_branch K hK env rc rs f (rt_system_flags K m) h1.1 h1.2.1
        h1.2.2.1 hal1 h1.2.2.2.1 hrc h1.2.2.2.2.2 hrs1 (by rw [hck1]; exact hquiet hs)
      refine ⟨h.1, h.2.1, h.2.2.1, h.2.2.2.1, h.2.2.2.2.1, ?_⟩
      rintro ⟨t, ht1, ht2, ht3⟩
      exact h.2.2.2.2.2 ⟨t, by rw [hck1]; omega, by rw [hck1]; omega, ht3⟩
    · have hrc : (rt_system_flags K m).sys.suspend.testBit (K.suspend .RETRACT_COMPLETE)
          = true := by
        rw [h1.2.2.2.2.1, hs]; simp
      have h := suspend_loop_sleep_branch K hK env rc rs (f + 1) (rt_system_flags K m) h1.1
        h1.2.1 h1.2.2.1 hal1 h1.2.2.2.1 hrc h1.2.2.2.2.2
      refine ⟨h.1, h.2.1, h.2.2.1, h.2.2.2.1, h.2.2.2.2.1, ?_⟩
      rintro ⟨t, ht1, ht2, ht3⟩
      exact h.2.2.2.2.2 ⟨t, by rw [hck1]; omega, by rw [hck1]; omega, ht3⟩
  have hrun : ∃ rc rs, protocol_execute_realtime K env (f + 2) m
      = suspend_loop K env rc rs (f + 2) (rt_system_flags K m) := by
    simp only [protocol_execute_realtime, protocol_exec_rt_system_no_alarm K env (f + 2) m halarm,
      if_pos hne1, protocol_exec_rt_suspend]
    cases hb : plan_get_current_block (rt_system_flags K m) with
    | none => exact ⟨_, _, rfl⟩
    | some b => exact ⟨_, _, rfl⟩
  obtain ⟨rc, rs, hrun⟩ := hrun
  have h := key rc rs
  rw [hrun]
  refine ⟨h.1, mem_calls_since_of_later hp1 h.2.1 h.2.2.1,
    mem_calls_since_of_later hp1 h.2.1 h.2.2.2.1, h.2.2.2.2.1, ?_⟩
  rintro ⟨t, ht1, ht2, ht3⟩
  exact h.2.2.2.2.2 ⟨t, ht1, ht2, by simpa using ht3⟩

/-- A pass of the suspend loop that finds a sleeping machine with the retract
not yet complete switches the spindle off; if the reset arrives before the next
pass, the loop is left at its top with `sys.abort` set, in state `SLEEP`. -/
theorem suspend_loop_retract_reset (K : SystemH) (hK : K.WF) (env : Nat → Nat) (rc : Nat)
    (rs : ℚ) (fuel : Nat) (n : Machine)
    (hstate : n.sys.state = K.STATE_SLEEP) (hsoft : n.sys.soft_limit = false)
    (hjc : n.sys.suspend.testBit (K.suspend .JOG_CANCEL) = false)
    (halarm : n.sys_rt_exec_alarm = 0)
    (hhc : n.sys.suspend.testBit (K.suspend .HOLD_COMPLETE) = true)
    (hrc : n.sys.suspend.testBit (K.suspend .RETRACT_COMPLETE) = false)
    (habort : n.sys.abort = false)
    (hloud : (env n.clock).testBit (K.exec .RESET) = true) :
    (suspend_loop K env rc rs (fuel + 2) n).machine.sys.state = K.STATE_SLEEP ∧
    n.trace <+: (suspend_loop K env rc rs (fuel + 2) n).machine.trace ∧
    Call.spindle_set_state K.SPINDLE_DISABLE 0
      ∈ calls_since n (suspend_loop K env rc rs (fuel + 2) n).machine ∧
    (suspend_loop K env rc rs (fuel + 2) n).machine.sys.abort = true ∧
    ∃ m', suspend_loop K env rc rs (fuel + 2) n = .returned m' := by
  have hne := ne_zero_of_testBit hhc
  obtain ⟨n1, hn1⟩ : ∃ n1, n1 = set_suspend
      ((spindle_set_state K K.SPINDLE_DISABLE 0 (set_spindle_stop_ovr 0 n)).sys.suspend
          &&& (255 ^^^ K.SUSPEND_RESTART_RETRACT) ||| K.SUSPEND_RETRACT_COMPLETE)
      (spindle_set_state K K.SPINDLE_DISABLE 0 (set_spindle_stop_ovr 0 n)) := ⟨_, rfl⟩
  have hbody : suspend_body K rc rs n = (n1, false) := by
    rw [hn1]
    simp [suspend_body, hstate, hhc, hrc]
  have h1state : n1.sys.state = K.STATE_SLEEP := by rw [hn1]; simpa using hstate
  have h1soft : n1.sys.soft_limit = false := by rw [hn1]; simpa using hsoft
  have h1alarm : n1.sys_rt_exec_alarm = 0 := by rw [hn1]; simpa using halarm
  have h1clock : n1.clock = n.clock := by rw [hn1]; simp
  have h1trace : n1.trace = n.trace ++ [Call.spindle_set_state K.SPINDLE_DISABLE 0] := by
    rw [hn1]; simp
  have h1jc : n1.sys.suspend.testBit (K.suspend .JOG_CANCEL) = false := by
    rw [hn1]; simp [hjc, hK.suspend_eq]
  have hinv := rt_system_flags_sleeping K hK (isr_arrive env n1) (by simpa using h1state)
    (by simpa using h1soft) (by simpa using h1jc)
  have hpre := rt_system_flags_trace_prefix K (isr_arrive env n1)
  have hal : (isr_arrive env n1).sys_rt_exec_alarm = 0 := by simpa using h1alarm
  have hreset : (isr_arrive env n1).sys_rt_exec_state.testBit (K.exec .RESET) = true := by
    simp [h1clock, hloud]
  have h2abort : (rt_system_flags K (isr_arrive env n1)).sys.abort = true :=
    hinv.2.2.2.2.2 hreset
  have hloop : suspend_loop K env rc rs (fuel + 2) n
      = suspend_loop K env rc rs (fuel + 1) (rt_system_flags K (isr_arrive env n1)) := by
    rw [suspend_loop, if_pos hne]
    simp only [habort, hbody, Bool.false_eq_true, if_false,
      protocol_exec_rt_system_no_alarm K env (fuel + 1) _ hal]
  have hret : suspend_loop K env rc rs (fuel + 1) (rt_system_flags K (isr_arrive env n1))
      = .returned (rt_system_flags K (isr_arrive env n1)) := by
    rw [suspend_loop]
    rw [h2abort]
    simp only [if_true, ite_self]
  rw [hloop, hret]
  have hp1 : n.trace <+: n1.trace := by rw [h1trace]; exact List.prefix_append _ _
  have hp2 : n1.trace <+: (rt_system_flags K (isr_arrive env n1)).trace := by simpa using hpre
  refine ⟨hinv.1, hp1.trans hp2, ?_, h2abort, _, rfl⟩
  exact mem_calls_since_of_prefix hp1 hp2 (by simp [calls_since, h1trace])

/-- The sleep request from `IDLE` when the first poll of the suspend loop
delivers `EXEC_RESET`: the state is `SLEEP`, the spindle has been switched off,
and the call returns with `sys.abort` set. -/
theorem protocol_execute_realtime_sleep_reset (K : SystemH) (hK : K.WF) (env : Nat → Nat)
    (fuel : Nat) (m : Machine)
    (hstate : m.sys.state = STATE_IDLE)
    (halarm : m.sys_rt_exec_alarm = 0)
    (hreset : m.sys_rt_exec_state &&& K.EXEC_RESET = 0)
    (hsleep : m.sys_rt_exec_state &&& K.EXEC_SLEEP ≠ 0)
    (habort : m.sys.abort = false)
    (hsoft : m.sys.soft_limit = false)
    (hjc : m.sys.suspend &&& K.SUSPEND_JOG_CANCEL = 0)
    (hloud : env m.clock &&& K.EXEC_RESET ≠ 0)
    (hfuel : 2 ≤ fuel) :
    (protocol_execute_realtime K env fuel m).machine.sys.state = K.STATE_SLEEP ∧
    Call.spindle_set_state K.SPINDLE_DISABLE 0
      ∈ calls_since m (protocol_execute_realtime K env fuel m).machine ∧
    (protocol_execute_realtime K env fuel m).machine.sys.abort = true ∧
    ∃ m', protocol_execute_realtime K env fuel m = .returned m' := by
  simp at hreset hsleep hjc hloud
  obtain ⟨f, rfl⟩ : ∃ f, fuel = f + 2 := ⟨fuel - 2, by omega⟩
  have h1 := rt_system_flags_sleep_request K hK m (Or.inl hstate) hreset hsleep hsoft hjc habort
  have hp1 := rt_system_flags_trace_prefix K m
  have hal1 : (rt_system_flags K m).sys_rt_exec_alarm = 0 := by
    rw [rt_system_flags_alarm]; exact halarm
  have hck1 := rt_system_flags_clock K m
  have hne1 := ne_zero_of_testBit h1.2.2.2.1
  have hrc : (rt_system_flags K m).sys.suspend.testBit (K.suspend .RETRACT_COMPLETE)
      = false := by
    rw [h1.2.2.2.2.1, hstate]; simp
  have key := fun rc rs => suspend_loop_retract_reset K hK env rc rs f (rt_system_flags K m)
    h1.1 h1.2.1 h1.2.2.1 hal1 h1.2.2.2.1 hrc h1.2.2.2.2.2 (by rw [hck1]; exact hloud)
  have hrun : ∃ rc rs, protocol_execute_realtime K env (f + 2) m
      = suspend_loop K env rc rs (f + 2) (rt_system_flags K m) := by
    simp only [protocol_execute_realtime, protocol_exec_rt_system_no_alarm K env (f + 2) m halarm,
      if_pos hne1, protocol_exec_rt_suspend]
    cases hb : plan_get_current_block (rt_system_flags K m) with
    | none => exact ⟨_, _, rfl⟩
    | some b => exact ⟨_, _, rfl⟩
  obtain ⟨rc, rs, hrun⟩ := hrun
  have h := key rc rs
  rw [hrun]
  exact ⟨h.1, mem_calls_since_of_later hp1 h.2.1 h.2.2.1, h.2.2.2.1, h.2.2.2.2⟩

/-- The sleep request is served before the suspend loop: the flag handlers set
`sys.state` to `SLEEP`, and the rest of the call is the suspend loop run on
that state. -/
theorem protocol_execute_realtime_sleep_entry (K : SystemH) (hK : K.WF) (env : Nat → Nat)
    (fuel : Nat) (m : Machine)
    (hstate : m.sys.state = STATE_IDLE ∨ m.sys.state = K.STATE_ALARM)
    (halarm : m.sys_rt_exec_alarm = 0)
    (hreset : m.sys_rt_exec_state &&& K.EXEC_RESET = 0)
    (hsleep : m.sys_rt_exec_state &&& K.EXEC_SLEEP ≠ 0)
    (habort : m.sys.abort = false)
    (hsoft : m.sys.soft_limit = false)
    (hjc : m.sys.suspend &&& K.SUSPEND_JOG_CANCEL = 0) :
    (rt_system_flags K m).sys.state = K.STATE_SLEEP ∧
    ∃ rc rs, protocol_execute_realtime K env fuel m
      = suspend_loop K env rc rs fuel (rt_system_flags K m) := by
  simp at hreset hsleep hjc
  have h1 := rt_system_flags_sleep_request K hK m hstate hreset hsleep hsoft hjc habort
  have hne1 := ne_zero_of_testBit h1.2.2.2.1
  refine ⟨h1.1, ?_⟩
  simp only [protocol_execute_realtime, protocol_exec_rt_system_no_alarm K env fuel m halarm,
    if_pos hne1, protocol_exec_rt_suspend]
  cases hb : plan_get_current_block (rt_system_flags K m) with
  | none => exact ⟨_, _, rfl⟩
  | some b => exact ⟨_, _, rfl⟩

/-- C9 (amended): Let the header constants be well formed, `sys.state` be
`IDLE` or `ALARM`, no alarm and no reset pending, `EXEC_SLEEP` pending,
`sys.abort` and `sys.soft_limit` clear and `SUSPEND_JOG_CANCEL` clear. Then
`protocol_execute_realtime` sets `sys.state` to `SLEEP` before it enters the
suspend loop, and the rest of the call is that loop. With interrupts that
deliver realtime state flags only (no alarm) while the call runs, observed for
at least two passes, the call leaves `sys.state = SLEEP` and has called
`spindle_set_state(SPINDLE_DISABLE, 0)`; if, when the state is `IDLE`, the
first poll of the suspend loop delivers no `EXEC_RESET`, it has also called
`st_go_idle()`; it returns only with `sys.abort` set, and it does return when a
later poll within the observation delivers `EXEC_RESET`. -/
theorem C9_sleep (K : SystemH) (hK : K.WF) (env : Nat → Nat) (fuel : Nat) (m : Machine)
    (hstate : m.sys.state = STATE_IDLE ∨ m.sys.state = K.STATE_ALARM)
    (halarm : m.sys_rt_exec_alarm = 0)
    (hreset : m.sys_rt_exec_state &&& K.EXEC_RESET = 0)
    (hsleep : m.sys_rt_exec_state &&& K.EXEC_SLEEP ≠ 0)
    (habort : m.sys.abort = false)
    (hsoft : m.sys.soft_limit = false)
    (hjc : m.sys.suspend &&& K.SUSPEND_JOG_CANCEL = 0)
    (hfuel : 2 ≤ fuel) :
    ((rt_system_flags K m).sys.state = K.STATE_SLEEP ∧
      ∃ rc rs, protocol_execute_realtime K env fuel m
        = suspend_loop K env rc rs fuel (rt_system_flags K m)) ∧
    (protocol_execute_realtime K env fuel m).machine.sys.state = K.STATE_SLEEP ∧
    Call.spindle_set_state K.SPINDLE_DISABLE 0
      ∈ calls_since m (protocol_execute_realtime K env fuel m).machine ∧
    ((m.sys.state = STATE_IDLE → env m.clock &&& K.EXEC_RESET = 0) →
      Call.st_go_idle ∈ calls_since m (protocol_execute_realtime K env fuel m).machine) ∧
    (∀ m', protocol_execute_realtime K env fuel m = .returned m' → m'.sys.abort = true) ∧
    ((∃ t, m.clock < t ∧ t + 1 < m.clock + fuel ∧ env t &&& K.EXEC_RESET ≠ 0) →
      ∃ m', protocol_execute_realtime K env fuel m = .returned m') := by
  refine ⟨protocol_execute_realtime_sleep_entry K hK env fuel m hstate halarm hreset hsleep
    habort hsoft hjc, ?_⟩
  by_cases hq : m.sys.state = STATE_IDLE → env m.clock &&& K.EXEC_RESET = 0
  · have h := protocol_execute_realtime_sleep_quiet K hK env fuel m hstate halarm hreset hsleep
      habort hsoft hjc hq hfuel
    exact ⟨h.1, h.2.1, fun _ => h.2.2.1, h.2.2.2.1, h.2.2.2.2⟩
  · have hq' : m.sys.state = STATE_IDLE ∧ env m.clock &&& K.EXEC_RESET ≠ 0 := by
      by_cases hs : m.sys.state = STATE_IDLE
      · exact ⟨hs, fun h0 => hq (fun _ => h0)⟩
      · exact absurd (fun h => absurd h hs) hq
    have h := protocol_execute_realtime_sleep_reset K hK env fuel m hq'.1 halarm hreset hsleep
      habort hsoft hjc hq'.2 hfuel
    refine ⟨h.1, h.2.1, fun h0 => absurd h0 hq, ?_, fun _ => h.2.2.2⟩
    intro m' hm'
    have := h.2.2.1
    rw [hm'] at this
    exact this

/-- C9 witness: the idle machine with `EXEC_SLEEP` pending, a reset arriving at
the fourth poll, observed for six passes. -/
theorem C9_sleep_witness :
    (protocol_execute_realtime grbl11 (fun t => if t = 3 then grbl11.EXEC_RESET else 0) 6
      (machine_in STATE_IDLE 0 0 grbl11.EXEC_SLEEP 0 none)).machine.sys.state
      = grbl11.STATE_SLEEP ∧
    Call.st_go_idle ∈ calls_since (machine_in STATE_IDLE 0 0 grbl11.EXEC_SLEEP 0 none)
      (protocol_execute_realtime grbl11 (fun t => if t = 3 then grbl11.EXEC_RESET else 0) 6
        (machine_in STATE_IDLE 0 0 grbl11.EXEC_SLEEP 0 none)).machine ∧
    ∃ m', protocol_execute_realtime grbl11 (fun t => if t = 3 then grbl11.EXEC_RESET else 0) 6
      (machine_in STATE_IDLE 0 0 grbl11.EXEC_SLEEP 0 none) = .returned m' :=
  have h := C9_sleep grbl11 grbl11_WF (fun t => if t = 3 then grbl11.EXEC_RESET else 0) 6
    (machine_in STATE_IDLE 0 0 grbl11.EXEC_SLEEP 0 none)
    (by decide) (by decide) (by decide) (by decide) (by decide) (by decide) (by decide)
    (by decide)
  ⟨h.2.1, h.2.2.2.1 (fun _ => by decide), h.2.2.2.2.2 ⟨3, by decide, by decide, by decide⟩⟩

/-- C9 counterexample (Grbl 1.1 layout). First: the idle machine with only
`EXEC_SLEEP` pending, and an `EXEC_RESET` that arrives before the first poll of
the suspend loop; `protocol_execute_realtime` returns with `sys.abort` set and
has never called `st_go_idle`. Second: the idle machine with `sys.soft_limit`
set and `EXEC_SLEEP` and `EXEC_CYCLE_STOP` pending; the call returns at once in
state `IDLE` with `sys.abort` clear and the spindle untouched. -/
theorem C9_sleep_counterexample :
    ((machine_in STATE_IDLE 0 0 grbl11.EXEC_SLEEP 0 none).sys.state = STATE_IDLE ∧
      (machine_in STATE_IDLE 0 0 grbl11.EXEC_SLEEP 0 none).sys_rt_exec_alarm = 0 ∧
      (machine_in STATE_IDLE 0 0 grbl11.EXEC_SLEEP 0 none).sys_rt_exec_state
        &&& grbl11.EXEC_RESET = 0 ∧
      (machine_in STATE_IDLE 0 0 grbl11.EXEC_SLEEP 0 none).sys_rt_exec_state
        &&& grbl11.EXEC_SLEEP ≠ 0 ∧
      protocol_execute_realtime grbl11 (fun t => if t = 0 then grbl11.EXEC_RESET else 0) 5
          (machine_in STATE_IDLE 0 0 grbl11.EXEC_SLEEP 0 none)
        = .returned (protocol_execute_realtime grbl11
            (fun t => if t = 0 then grbl11.EXEC_RESET else 0) 5
            (machine_in STATE_IDLE 0 0 grbl11.EXEC_SLEEP 0 none)).machine ∧
      (protocol_execute_realtime grbl11 (fun t => if t = 0 then grbl11.EXEC_RESET else 0) 5
        (machine_in STATE_IDLE 0 0 grbl11.EXEC_SLEEP 0 none)).machine.sys.abort = true ∧
      Call.st_go_idle ∉ calls_since (machine_in STATE_IDLE 0 0 grbl11.EXEC_SLEEP 0 none)
        (protocol_execute_realtime grbl11 (fun t => if t = 0 then grbl11.EXEC_RESET else 0) 5
          (machine_in STATE_IDLE 0 0 grbl11.EXEC_SLEEP 0 none)).machine) ∧
    ((set_soft_limit true (machine_in STATE_IDLE 0 0
        (grbl11.EXEC_SLEEP ||| grbl11.EXEC_CYCLE_STOP) 0 none)).sys.state = STATE_IDLE ∧
      (set_soft_limit true (machine_in STATE_IDLE 0 0
        (grbl11.EXEC_SLEEP ||| grbl11.EXEC_CYCLE_STOP) 0 none)).sys_rt_exec_alarm = 0 ∧
      (set_soft_limit true (machine_in STATE_IDLE 0 0
        (grbl11.EXEC_SLEEP ||| grbl11.EXEC_CYCLE_STOP) 0 none)).sys_rt_exec_state
        &&& grbl11.EXEC_RESET = 0 ∧
      (set_soft_limit true (machine_in STATE_IDLE 0 0
        (grbl11.EXEC_SLEEP ||| grbl11.EXEC_CYCLE_STOP) 0 none)).sys_rt_exec_state
        &&& grbl11.EXEC_SLEEP ≠ 0 ∧
      protocol_execute_realtime grbl11 (fun _ => 0) 5
          (set_soft_limit true (machine_in STATE_IDLE 0 0
            (grbl11.EXEC_SLEEP ||| grbl11.EXEC_CYCLE_STOP) 0 none))
        = .returned (protocol_execute_realtime grbl11 (fun _ => 0) 5
            (set_soft_limit true (machine_in STATE_IDLE 0 0
              (grbl11.EXEC_SLEEP ||| grbl11.EXEC_CYCLE_STOP) 0 none))).machine ∧
      (protocol_execute_realtime grbl11 (fun _ => 0) 5
        (set_soft_limit true (machine_in STATE_IDLE 0 0
          (grbl11.EXEC_SLEEP ||| grbl11.EXEC_CYCLE_STOP) 0 none))).machine.sys.state
        = STATE_IDLE ∧
      (protocol_execute_realtime grbl11 (fun _ => 0) 5
        (set_soft_limit true (machine_in STATE_IDLE 0 0
          (grbl11.EXEC_SLEEP ||| grbl11.EXEC_CYCLE_STOP) 0 none))).machine.sys.abort
        = false ∧
      Call.spindle_set_state grbl11.SPINDLE_DISABLE 0 ∉
        calls_since (set_soft_limit true (machine_in STATE_IDLE 0 0
            (grbl11.EXEC_SLEEP ||| grbl11.EXEC_CYCLE_STOP) 0 none))
          (protocol_execute_realtime grbl11 (fun _ => 0) 5
            (set_soft_limit true (machine_in STATE_IDLE 0 0
              (grbl11.EXEC_SLEEP ||| grbl11.EXEC_CYCLE_STOP) 0 none))).machine) := by
  exact ⟨⟨by decide, by decide, by decide, by decide, rfl, by decide, by decide⟩,
    ⟨by decide, by decide, by decide, by decide, rfl, by decide, by decide, by decide⟩⟩

/-- C10: the limit interrupt handler calls `mc_reset` and then sets
`sys_rt_exec_alarm` to `EXEC_ALARM_HARD_LIMIT` exactly when `sys.state` is not
`ALARM` and `sys_rt_exec_alarm` is zero (whatever `mc_reset` does to the
machine, the alarm code it leaves is overwritten); in every other case it
changes nothing; hence an alarm code that is already pending is never
overwritten. -/
theorem C10_limit_isr (K : SystemH) (fx : Machine → Machine) (m : Machine) :
    (m.sys.state ≠ K.STATE_ALARM ∧ m.sys_rt_exec_alarm = 0 →
      ISR_LIMIT_INT_vect K fx m = system_set_exec_alarm EXEC_ALARM_HARD_LIMIT (mc_reset fx m) ∧
      (ISR_LIMIT_INT_vect K fx m).sys_rt_exec_alarm = EXEC_ALARM_HARD_LIMIT ∧
      (ISR_LIMIT_INT_vect K fx m).trace = m.trace ++ [Call.mc_reset]) ∧
    (¬ (m.sys.state ≠ K.STATE_ALARM ∧ m.sys_rt_exec_alarm = 0) →
      ISR_LIMIT_INT_vect K fx m = m) ∧
    ((ISR_LIMIT_INT_vect K fx m).trace = m.trace ++ [Call.mc_reset] ↔
      (m.sys.state ≠ K.STATE_ALARM ∧ m.sys_rt_exec_alarm = 0)) ∧
    (m.sys_rt_exec_alarm ≠ 0 →
      (ISR_LIMIT_INT_vect K fx m).sys_rt_exec_alarm = m.sys_rt_exec_alarm) := by
  by_cases hs : m.sys.state = K.STATE_ALARM
  · simp [ISR_LIMIT_INT_vect, hs]
  · have hs' : ¬ m.sys.state = bit (K.state .ALARM) := hs
    by_cases ha : m.sys_rt_exec_alarm = 0
    · simp [ISR_LIMIT_INT_vect, mc_reset, hs', ha]
    · simp [ISR_LIMIT_INT_vect, hs', ha]

/-- Witness of C10 on the Grbl 1.1 layout: a limit switch trips during a cycle
with no alarm pending; `mc_reset` is taken to raise `EXEC_ALARM_ABORT_CYCLE`,
which the handler overwrites. -/
theorem C10_limit_isr_witness :
    (ISR_LIMIT_INT_vect grbl11 (system_set_exec_alarm EXEC_ALARM_ABORT_CYCLE)
      (machine_in grbl11.STATE_CYCLE 0 0 0 0 none)).sys_rt_exec_alarm = EXEC_ALARM_HARD_LIMIT ∧
    (ISR_LIMIT_INT_vect grbl11 (system_set_exec_alarm EXEC_ALARM_ABORT_CYCLE)
      (machine_in grbl11.STATE_CYCLE 0 0 0 0 none)).trace
      = (machine_in grbl11.STATE_CYCLE 0 0 0 0 none).trace ++ [Call.mc_reset] :=
  ((C10_limit_isr grbl11 (system_set_exec_alarm EXEC_ALARM_ABORT_CYCLE)
    (machine_in grbl11.STATE_CYCLE 0 0 0 0 none)).1 ⟨by decide, by decide⟩).2

/-! ## Invariants of the executor -/

/-- A property of the machine that every pass of the alarm loop keeps is kept
by the alarm loop. -/
theorem alarm_loop_preserves (K : SystemH) (env : Nat → Nat) (P : Machine → Prop)
    (hbody : ∀ m, P m → P (alarm_loop_body K env m)) :
    ∀ (fuel : Nat) (m : Machine), P m → P (alarm_loop K env fuel m).1 := by
  intro fuel
  induction fuel with
  | zero => intro m h; simpa [alarm_loop] using h
  | succ fuel ih =>
    intro m h
    simp only [alarm_loop]
    split_ifs
    · exact ih _ (hbody m h)
    · exact hbody m h

/-- A property kept by the flag handlers, by the entry of the alarm block, by
each pass of the alarm loop and by the clearing of the alarm code is kept by
`protocol_exec_rt_system`, whether it returns or is still waiting. -/
theorem protocol_exec_rt_system_preserves (K : SystemH) (env : Nat → Nat) (P : Machine → Prop)
    (hflags : ∀ m, P m → P (rt_system_flags K m))
    (hentry : ∀ m, P m → P (system_clear_exec_state_flag K.EXEC_RESET
      (call (.report_feedback_message .CRITICAL_EVENT)
        (call (.report_alarm_message m.sys_rt_exec_alarm) (set_state K.STATE_ALARM m)))))
    (hbody : ∀ m, P m → P (alarm_loop_body K env m))
    (hclear : ∀ m, P m → P (system_clear_exec_alarm m))
    (fuel : Nat) (m : Machine) (h : P m) :
    P (protocol_exec_rt_system K env fuel m).machine := by
  unfold protocol_exec_rt_system
  by_cases ha : m.sys_rt_exec_alarm = 0
  · simp only [ha, ne_eq, not_true_eq_false, if_false, Run.machine]
    exact hflags m h
  · have hl := alarm_loop_preserves K env P hbody fuel _ (hentry m h)
    simp only [ne_eq, ha, not_false_eq_true, if_true]
    generalize alarm_loop K env fuel _ = r at hl ⊢
    obtain ⟨m1, b⟩ := r
    cases b
    · exact hl
    · exact hflags _ (hclear _ hl)

/-! ## Overrides -/

/-- The feed override computed by the executor is always inside its limits. -/
theorem new_f_override_range (K : SystemH) (rt f : Nat) :
    MIN_FEED_RATE_OVERRIDE ≤ new_f_override K rt f ∧
    new_f_override K rt f ≤ MAX_FEED_RATE_OVERRIDE := by
  simp only [new_f_override, MIN_FEED_RATE_OVERRIDE, MAX_FEED_RATE_OVERRIDE]
  omega

/-- The spindle override computed by the executor is always inside its limits. -/
theorem last_s_override_range (K : SystemH) (rt s : Nat) :
    MIN_SPINDLE_SPEED_OVERRIDE ≤ last_s_override K rt s ∧
    last_s_override K rt s ≤ MAX_SPINDLE_SPEED_OVERRIDE := by
  simp only [last_s_override, MIN_SPINDLE_SPEED_OVERRIDE, MAX_SPINDLE_SPEED_OVERRIDE]
  omega

/-- The rapid override computed by the executor is the old one or one of the
three levels. -/
theorem new_r_override_cases (K : SystemH) (rt r : Nat) :
    new_r_override K rt r = r ∨ new_r_override K rt r = DEFAULT_RAPID_OVERRIDE ∨
    new_r_override K rt r = RAPID_OVERRIDE_MEDIUM ∨ new_r_override K rt r = RAPID_OVERRIDE_LOW := by
  simp only [new_r_override]
  split_ifs <;> simp

/-- The flag handlers before the override blocks leave the three override
values and the two override flag words alone. -/
theorem rt_state_stages_overrides (K : SystemH) (rt : Nat) (m : Machine) :
    let m' := rt_cycle_stop K rt (rt_cycle_start K rt (rt_hold K rt (rt_status_report K rt m)))
    m'.sys.f_override = m.sys.f_override ∧ m'.sys.r_override = m.sys.r_override ∧
    m'.sys.spindle_speed_ovr = m.sys.spindle_speed_ovr ∧
    m'.sys_rt_exec_motion_override = m.sys_rt_exec_motion_override ∧
    m'.sys_rt_exec_accessory_override = m.sys_rt_exec_accessory_override := by
  simp [rt_cycle_stop, rt_cycle_start, rt_hold, rt_status_report, report_realtime_status]

section spindle_frames_overrides
variable (K : SystemH) (st : Nat) (rpm : ℚ) (m : Machine)

@[simp] theorem spindle_set_state_f_override :
    (spindle_set_state K st rpm m).sys.f_override = m.sys.f_override := by
  simp [spindle_set_state, spindle_stop, spindle_set_speed, spindle_compute_pwm_value,
    apply_ite Prod.fst]

@[simp] theorem spindle_set_state_r_override :
    (spindle_set_state K st rpm m).sys.r_override = m.sys.r_override := by
  simp [spindle_set_state, spindle_stop, spindle_set_speed, spindle_compute_pwm_value,
    apply_ite Prod.fst]

@[simp] theorem spindle_set_state_spindle_speed_ovr :
    (spindle_set_state K st rpm m).sys.spindle_speed_ovr = m.sys.spindle_speed_ovr := by
  simp [spindle_set_state, spindle_stop, spindle_set_speed, spindle_compute_pwm_value,
    apply_ite Prod.fst]

@[simp] theorem spindle_set_state_motion_override :
    (spindle_set_state K st rpm m).sys_rt_exec_motion_override
      = m.sys_rt_exec_motion_override := by
  simp [spindle_set_state, spindle_stop, spindle_set_speed, spindle_compute_pwm_value,
    apply_ite Prod.fst]

@[simp] theorem spindle_set_state_accessory_override :
    (spindle_set_state K st rpm m).sys_rt_exec_accessory_override
      = m.sys_rt_exec_accessory_override := by
  simp [spindle_set_state, spindle_stop, spindle_set_speed, spindle_compute_pwm_value,
    apply_ite Prod.fst]

end spindle_frames_overrides

/-- The motion override block: the feed override stays inside its limits, the
rapid override stays one of the three levels, the spindle override is not
touched, and the motion override flags are cleared. -/
theorem rt_motion_override_overrides (K : SystemH) (m : Machine) :
    ((MIN_FEED_RATE_OVERRIDE ≤ m.sys.f_override ∧ m.sys.f_override ≤ MAX_FEED_RATE_OVERRIDE) →
      MIN_FEED_RATE_OVERRIDE ≤ (rt_motion_override K m).sys.f_override ∧
      (rt_motion_override K m).sys.f_override ≤ MAX_FEED_RATE_OVERRIDE) ∧
    ((m.sys.r_override = DEFAULT_RAPID_OVERRIDE ∨ m.sys.r_override = RAPID_OVERRIDE_MEDIUM ∨
        m.sys.r_override = RAPID_OVERRIDE_LOW) →
      (rt_motion_override K m).sys.r_override = DEFAULT_RAPID_OVERRIDE ∨
      (rt_motion_override K m).sys.r_override = RAPID_OVERRIDE_MEDIUM ∨
      (rt_motion_override K m).sys.r_override = RAPID_OVERRIDE_LOW) ∧
    (rt_motion_override K m).sys.spindle_speed_ovr = m.sys.spindle_speed_ovr ∧
    (rt_motion_override K m).sys_rt_exec_motion_override = 0 ∧
    (rt_motion_override K m).sys_rt_exec_accessory_override
      = m.sys_rt_exec_accessory_override := by
  have hf := new_f_override_range K m.sys_rt_exec_motion_override m.sys.f_override
  have hr := new_r_override_cases K m.sys_rt_exec_motion_override m.sys.r_override
  simp only [rt_motion_override]
  by_cases h0 : m.sys_rt_exec_motion_override = 0
  · simp [h0]
  · by_cases hch : new_f_override K m.sys_rt_exec_motion_override m.sys.f_override
        ≠ m.sys.f_override ∨
        new_r_override K m.sys_rt_exec_motion_override m.sys.r_override ≠ m.sys.r_override
    · simp only [h0, ne_eq, not_false_eq_true, if_true]
      simp only [system_clear_exec_motion_overrides, hch, if_true, set_report_ovr_counter, call]
      refine ⟨fun _ => hf, fun h => ?_, trivial, trivial, trivial⟩
      rcases hr with hr | hr | hr | hr
      · rw [hr]; exact h
      · exact Or.inl hr
      · exact Or.inr (Or.inl hr)
      · exact Or.inr (Or.inr hr)
    · simp only [h0, ne_eq, not_false_eq_true, if_true]
      simp only [system_clear_exec_motion_overrides, hch, if_false]
      exact ⟨fun h => h, fun h => h, trivial, trivial, trivial⟩

/-- The accessory override block: the spindle override stays inside its
limits, feed and rapid override are not touched, and the accessory override
flags are cleared. -/
theorem rt_accessory_override_overrides (K : SystemH) (m : Machine) :
    ((MIN_SPINDLE_SPEED_OVERRIDE ≤ m.sys.spindle_speed_ovr ∧
        m.sys.spindle_speed_ovr ≤ MAX_SPINDLE_SPEED_OVERRIDE) →
      MIN_SPINDLE_SPEED_OVERRIDE ≤ (rt_accessory_override K m).sys.spindle_speed_ovr ∧
      (rt_accessory_override K m).sys.spindle_speed_ovr ≤ MAX_SPINDLE_SPEED_OVERRIDE) ∧
    (rt_accessory_override K m).sys.f_override = m.sys.f_override ∧
    (rt_accessory_override K m).sys.r_override = m.sys.r_override ∧
    (rt_accessory_override K m).sys_rt_exec_accessory_override = 0 ∧
    (rt_accessory_override K m).sys_rt_exec_motion_override
      = m.sys_rt_exec_motion_override := by
  have hs := last_s_override_range K m.sys_rt_exec_accessory_override m.sys.spindle_speed_ovr
  by_cases h0 : m.sys_rt_exec_accessory_override = 0
  · simp [rt_accessory_override, h0]
  · by_cases hch : last_s_override K m.sys_rt_exec_accessory_override m.sys.spindle_speed_ovr
        = m.sys.spindle_speed_ovr
    · simp [rt_accessory_override, h0, hch]
    · simp [rt_accessory_override, h0, hch]
      exact fun _ _ => hs

/-- The flag handlers keep the three override values valid; unless `EXEC_RESET`
is pending they also clear both override flag words. -/
theorem rt_system_flags_overrides (K : SystemH) (m : Machine)
    (hf : MIN_FEED_RATE_OVERRIDE ≤ m.sys.f_override ∧ m.sys.f_override ≤ MAX_FEED_RATE_OVERRIDE)
    (hr : m.sys.r_override = DEFAULT_RAPID_OVERRIDE ∨ m.sys.r_override = RAPID_OVERRIDE_MEDIUM ∨
      m.sys.r_override = RAPID_OVERRIDE_LOW)
    (hs : MIN_SPINDLE_SPEED_OVERRIDE ≤ m.sys.spindle_speed_ovr ∧
      m.sys.spindle_speed_ovr ≤ MAX_SPINDLE_SPEED_OVERRIDE) :
    ((MIN_FEED_RATE_OVERRIDE ≤ (rt_system_flags K m).sys.f_override ∧
        (rt_system_flags K m).sys.f_override ≤ MAX_FEED_RATE_OVERRIDE) ∧
      ((rt_system_flags K m).sys.r_override = DEFAULT_RAPID_OVERRIDE ∨
        (rt_system_flags K m).sys.r_override = RAPID_OVERRIDE_MEDIUM ∨
        (rt_system_flags K m).sys.r_override = RAPID_OVERRIDE_LOW) ∧
      (MIN_SPINDLE_SPEED_OVERRIDE ≤ (rt_system_flags K m).sys.spindle_speed_ovr ∧
        (rt_system_flags K m).sys.spindle_speed_ovr ≤ MAX_SPINDLE_SPEED_OVERRIDE)) ∧
    (m.sys_rt_exec_state.testBit (K.exec .RESET) = false →
      (rt_system_flags K m).sys_rt_exec_motion_override = 0 ∧
      (rt_system_flags K m).sys_rt_exec_accessory_override = 0) := by
  have key : ∀ n : Machine,
      (MIN_FEED_RATE_OVERRIDE ≤ n.sys.f_override ∧ n.sys.f_override ≤ MAX_FEED_RATE_OVERRIDE) →
      (n.sys.r_override = DEFAULT_RAPID_OVERRIDE ∨ n.sys.r_override = RAPID_OVERRIDE_MEDIUM ∨
        n.sys.r_override = RAPID_OVERRIDE_LOW) →
      (MIN_SPINDLE_SPEED_OVERRIDE ≤ n.sys.spindle_speed_ovr ∧
        n.sys.spindle_speed_ovr ≤ MAX_SPINDLE_SPEED_OVERRIDE) →
      ((MIN_FEED_RATE_OVERRIDE
            ≤ (rt_reload K (rt_accessory_override K (rt_motion_override K n))).sys.f_override ∧
          (rt_reload K (rt_accessory_override K (rt_motion_override K n))).sys.f_override
            ≤ MAX_FEED_RATE_OVERRIDE) ∧
        ((rt_reload K (rt_accessory_override K (rt_motion_override K n))).sys.r_override
            = DEFAULT_RAPID_OVERRIDE ∨
          (rt_reload K (rt_accessory_override K (rt_motion_override K n))).sys.r_override
            = RAPID_OVERRIDE_MEDIUM ∨
          (rt_reload K (rt_accessory_override K (rt_motion_override K n))).sys.r_override
            = RAPID_OVERRIDE_LOW) ∧
        (MIN_SPINDLE_SPEED_OVERRIDE
            ≤ (rt_reload K (rt_accessory_override K (rt_motion_override K n))).sys.spindle_speed_ovr ∧
          (rt_reload K (rt_accessory_override K (rt_motion_override K n))).sys.spindle_speed_ovr
            ≤ MAX_SPINDLE_SPEED_OVERRIDE)) ∧
      (rt_reload K (rt_accessory_override K (rt_motion_override K n))).sys_rt_exec_motion_override
        = 0 ∧
      (rt_reload K (rt_accessory_override K
        (rt_motion_override K n))).sys_rt_exec_accessory_override = 0 := by
    intro n hf hr hs
    have hm := rt_motion_override_overrides K n
    have ha := rt_accessory_override_overrides K (rt_motion_override K n)
    simp only [rt_reload_sys, rt_reload_sys_rt_exec_motion_override,
      rt_reload_sys_rt_exec_accessory_override]
    rw [ha.2.1, ha.2.2.1, ha.2.2.2.1, ha.2.2.2.2, hm.2.2.2.1]
    exact ⟨⟨hm.1 hf, hm.2.1 hr, ha.1 (by rw [hm.2.2.1]; exact hs)⟩, rfl, rfl⟩
  by_cases hrs : m.sys_rt_exec_state.testBit (K.exec .RESET) = true
  · rw [rt_system_flags_of_reset K m hrs]
    simp [hf, hr, hs, hrs]
  by_cases hz : m.sys_rt_exec_state = 0
  · rw [rt_system_flags_of_zero K m hz]
    have h := key m hf hr hs
    exact ⟨h.1, fun _ => h.2⟩
  rw [rt_system_flags_of_flags K m hz (by simpa using hrs)]
  have hst := rt_state_stages_overrides K m.sys_rt_exec_state m
  simp only at hst
  have h := key _ (by rw [hst.1]; exact hf) (by rw [hst.2.1]; exact hr)
    (by rw [hst.2.2.1]; exact hs)
  exact ⟨h.1, fun _ => h.2⟩

/-- C17 (amended): if `sys.f_override` and `sys.spindle_speed_ovr` are in
`[10,200]` and `sys.r_override` is one of `100`, `50`, `25` before
`protocol_exec_rt_system`, then, for every combination of pending flags and
whether the call returns or waits in the alarm loop, they are so afterwards,
hence within `1..255`; when no alarm and no `EXEC_RESET` is pending the call
returns with both override flag words zero. -/
theorem C17_overrides_stay_valid (K : SystemH) (env : Nat → Nat) (fuel : Nat) (m : Machine)
    (hf : MIN_FEED_RATE_OVERRIDE ≤ m.sys.f_override ∧ m.sys.f_override ≤ MAX_FEED_RATE_OVERRIDE)
    (hr : m.sys.r_override = DEFAULT_RAPID_OVERRIDE ∨ m.sys.r_override = RAPID_OVERRIDE_MEDIUM ∨
      m.sys.r_override = RAPID_OVERRIDE_LOW)
    (hs : MIN_SPINDLE_SPEED_OVERRIDE ≤ m.sys.spindle_speed_ovr ∧
      m.sys.spindle_speed_ovr ≤ MAX_SPINDLE_SPEED_OVERRIDE) :
    ((MIN_FEED_RATE_OVERRIDE ≤ (protocol_exec_rt_system K env fuel m).machine.sys.f_override ∧
        (protocol_exec_rt_system K env fuel m).machine.sys.f_override
          ≤ MAX_FEED_RATE_OVERRIDE) ∧
      ((protocol_exec_rt_system K env fuel m).machine.sys.r_override = DEFAULT_RAPID_OVERRIDE ∨
        (protocol_exec_rt_system K env fuel m).machine.sys.r_override = RAPID_OVERRIDE_MEDIUM ∨
        (protocol_exec_rt_system K env fuel m).machine.sys.r_override = RAPID_OVERRIDE_LOW) ∧
      (MIN_SPINDLE_SPEED_OVERRIDE
          ≤ (protocol_exec_rt_system K env fuel m).machine.sys.spindle_speed_ovr ∧
        (protocol_exec_rt_system K env fuel m).machine.sys.spindle_speed_ovr
          ≤ MAX_SPINDLE_SPEED_OVERRIDE)) ∧
    ((1 ≤ (protocol_exec_rt_system K env fuel m).machine.sys.f_override ∧
        (protocol_exec_rt_system K env fuel m).machine.sys.f_override ≤ 255) ∧
      (1 ≤ (protocol_exec_rt_system K env fuel m).machine.sys.r_override ∧
        (protocol_exec_rt_system K env fuel m).machine.sys.r_override ≤ 255) ∧
      (1 ≤ (protocol_exec_rt_system K env fuel m).machine.sys.spindle_speed_ovr ∧
        (protocol_exec_rt_system K env fuel m).machine.sys.spindle_speed_ovr ≤ 255)) ∧
    (m.sys_rt_exec_alarm = 0 → m.sys_rt_exec_state &&& K.EXEC_RESET = 0 →
      ∃ m', protocol_exec_rt_system K env fuel m = .returned m' ∧
        m'.sys_rt_exec_motion_override = 0 ∧ m'.sys_rt_exec_accessory_override = 0) := by
  have hP := protocol_exec_rt_system_preserves K env
    (fun n => (MIN_FEED_RATE_OVERRIDE ≤ n.sys.f_override ∧
        n.sys.f_override ≤ MAX_FEED_RATE_OVERRIDE) ∧
      (n.sys.r_override = DEFAULT_RAPID_OVERRIDE ∨ n.sys.r_override = RAPID_OVERRIDE_MEDIUM ∨
        n.sys.r_override = RAPID_OVERRIDE_LOW) ∧
      (MIN_SPINDLE_SPEED_OVERRIDE ≤ n.sys.spindle_speed_ovr ∧
        n.sys.spindle_speed_ovr ≤ MAX_SPINDLE_SPEED_OVERRIDE))
    (fun n hn => (rt_system_flags_overrides K n hn.1 hn.2.1 hn.2.2).1)
    (fun n hn => by simpa using hn)
    (fun n hn => by simp only [alarm_loop_body_sys]; exact hn)
    (fun n hn => by simpa using hn)
    fuel m ⟨hf, hr, hs⟩
  refine ⟨hP, ?_, ?_⟩
  · obtain ⟨h1, h2, h3⟩ := hP
    simp only [MIN_FEED_RATE_OVERRIDE, MAX_FEED_RATE_OVERRIDE, DEFAULT_RAPID_OVERRIDE,
      RAPID_OVERRIDE_MEDIUM, RAPID_OVERRIDE_LOW, MIN_SPINDLE_SPEED_OVERRIDE,
      MAX_SPINDLE_SPEED_OVERRIDE] at h1 h2 h3
    omega
  · intro ha hrs
    simp at hrs
    refine ⟨_, protocol_exec_rt_system_no_alarm K env fuel m ha, ?_⟩
    exact (rt_system_flags_overrides K m hf hr hs).2 hrs

/-- C17 witness: the idle machine (overrides at 100 %) with a spindle stop
override pending. -/
theorem C17_overrides_stay_valid_witness :
    ∃ m', protocol_exec_rt_system grbl11 (fun _ => 0) 0
        (machine_in STATE_IDLE 0 0 0 grbl11.EXEC_SPINDLE_OVR_STOP none) = .returned m' ∧
      m'.sys_rt_exec_motion_override = 0 ∧ m'.sys_rt_exec_accessory_override = 0 :=
  (C17_overrides_stay_valid grbl11 (fun _ => 0) 0
    (machine_in STATE_IDLE 0 0 0 grbl11.EXEC_SPINDLE_OVR_STOP none)
    (by decide) (by decide) (by decide)).2.2 (by decide) (by decide)

/-- C17 counterexample (Grbl 1.1 layout): the idle machine with overrides at
100 %, no alarm, `EXEC_RESET` pending and a spindle stop override pending. The
call returns with the accessory override flag word still non-zero. -/
theorem C17_overrides_counterexample :
    (machine_in STATE_IDLE 0 0 grbl11.EXEC_RESET grbl11.EXEC_SPINDLE_OVR_STOP none).sys.f_override
      = 100 ∧
    (machine_in STATE_IDLE 0 0 grbl11.EXEC_RESET grbl11.EXEC_SPINDLE_OVR_STOP none).sys.r_override
      = 100 ∧
    (machine_in STATE_IDLE 0 0 grbl11.EXEC_RESET
      grbl11.EXEC_SPINDLE_OVR_STOP none).sys.spindle_speed_ovr = 100 ∧
    protocol_exec_rt_system grbl11 (fun _ => 0) 0
        (machine_in STATE_IDLE 0 0 grbl11.EXEC_RESET grbl11.EXEC_SPINDLE_OVR_STOP none)
      = .returned (protocol_exec_rt_system grbl11 (fun _ => 0) 0
          (machine_in STATE_IDLE 0 0 grbl11.EXEC_RESET
            grbl11.EXEC_SPINDLE_OVR_STOP none)).machine ∧
    (protocol_exec_rt_system grbl11 (fun _ => 0) 0
      (machine_in STATE_IDLE 0 0 grbl11.EXEC_RESET
        grbl11.EXEC_SPINDLE_OVR_STOP none)).machine.sys_rt_exec_accessory_override ≠ 0 :=
  ⟨by decide, by decide, by decide, rfl, by decide⟩

/-- C18: with `sys.f_override = f` in `[10,200]` and exactly
`EXEC_FEED_OVR_COARSE_PLUS` pending (no alarm, no other realtime flag),
`protocol_exec_rt_system` returns with `sys.f_override = min(f+10, 200)` and
the rapid override as it was; `plan_update_velocity_profile_parameters` and
`plan_cycle_reinitialize` are called exactly when the feed or rapid override
value changed, and then `sys.report_ovr_counter` is set to 0, while otherwise
it is left alone. -/
theorem C18_feed_coarse_plus (K : SystemH) (hK : K.WF) (env : Nat → Nat) (fuel : Nat)
    (m : Machine)
    (hf : MIN_FEED_RATE_OVERRIDE ≤ m.sys.f_override ∧ m.sys.f_override ≤ MAX_FEED_RATE_OVERRIDE)
    (halarm : m.sys_rt_exec_alarm = 0)
    (hrt : m.sys_rt_exec_state = 0)
    (hmo : m.sys_rt_exec_motion_override = K.EXEC_FEED_OVR_COARSE_PLUS)
    (hacc : m.sys_rt_exec_accessory_override = 0) :
    ∃ m', protocol_exec_rt_system K env fuel m = .returned m' ∧
      m'.sys.f_override = min (m.sys.f_override + 10) MAX_FEED_RATE_OVERRIDE ∧
      m'.sys.r_override = m.sys.r_override ∧
      (Call.plan_update_velocity_profile_parameters ∈ calls_since m m' ↔
        (m'.sys.f_override ≠ m.sys.f_override ∨ m'.sys.r_override ≠ m.sys.r_override)) ∧
      (Call.plan_cycle_reinitialize ∈ calls_since m m' ↔
        (m'.sys.f_override ≠ m.sys.f_override ∨ m'.sys.r_override ≠ m.sys.r_override)) ∧
      ((m'.sys.f_override ≠ m.sys.f_override ∨ m'.sys.r_override ≠ m.sys.r_override) →
        m'.sys.report_ovr_counter = 0) ∧
      (¬ (m'.sys.f_override ≠ m.sys.f_override ∨ m'.sys.r_override ≠ m.sys.r_override) →
        m'.sys.report_ovr_counter = m.sys.report_ovr_counter) := by
  refine ⟨_, protocol_exec_rt_system_no_alarm K env fuel m halarm, ?_⟩
  rw [rt_system_flags_of_zero K m hrt]
  have hnf : new_f_override K (bit (K.motion_ovr .FEED_OVR_COARSE_PLUS)) m.sys.f_override
      = min (m.sys.f_override + 10) MAX_FEED_RATE_OVERRIDE := by
    simp only [MIN_FEED_RATE_OVERRIDE, MAX_FEED_RATE_OVERRIDE] at hf
    simp [new_f_override, hK.motion_ovr_eq, MAX_FEED_RATE_OVERRIDE, MIN_FEED_RATE_OVERRIDE,
      FEED_OVERRIDE_COARSE_INCREMENT]
    omega
  have hnr : new_r_override K (bit (K.motion_ovr .FEED_OVR_COARSE_PLUS)) m.sys.r_override
      = m.sys.r_override := by
    simp [new_r_override, hK.motion_ovr_eq]
  by_cases hch : min (m.sys.f_override + 10) MAX_FEED_RATE_OVERRIDE = m.sys.f_override
  · simp [calls_since, rt_motion_override, rt_accessory_override_of_zero, hmo, hacc, hnf, hnr,
      hch]
  · simp [calls_since, rt_motion_override, rt_accessory_override_of_zero, hmo, hacc, hnf, hnr,
      hch]

/-- C18 witness: the idle machine (feed override 100 %) with the coarse feed
increase pending ends with the feed override at 110 %. -/
theorem C18_feed_coarse_plus_witness :
    ∃ m', protocol_exec_rt_system grbl11 (fun _ => 0) 0
        { idle_machine with sys_rt_exec_motion_override := grbl11.EXEC_FEED_OVR_COARSE_PLUS }
        = .returned m' ∧
      m'.sys.f_override = min (100 + 10) MAX_FEED_RATE_OVERRIDE :=
  have h := C18_feed_coarse_plus grbl11 grbl11_WF (fun _ => 0) 0
    { idle_machine with sys_rt_exec_motion_override := grbl11.EXEC_FEED_OVR_COARSE_PLUS }
    (by decide) (by decide) (by decide) (by decide) (by decide)
  ⟨h.choose, h.choose_spec.1, h.choose_spec.2.1⟩

/-! ## The line filter -/

/-- The line buffer after reading `input` from a state without overflow, as
long as the filtered content fits: the content is appended and no overflow is
flagged. `p` and `q` say whether the state is inside a `(` `)` comment or a
`;` comment. -/
theorem protocol_read_fits (input : List Char) :
    ∀ (s : line_state) (p q : Bool),
      s.char_counter = s.line.length →
      ((s.line_flags = 0 ∧ p = false ∧ q = false) ∨
        (s.line_flags = LINE_FLAG_COMMENT_PARENTHESES ∧ p = true ∧ q = false) ∨
        (s.line_flags = LINE_FLAG_COMMENT_SEMICOLON ∧ p = false ∧ q = true)) →
      s.line.length + (filtered_content p q input).length ≤ LINE_BUFFER_SIZE - 1 →
      (input.foldl (fun s c => protocol_add_char c s) s).line
          = s.line ++ filtered_content p q input ∧
        (input.foldl (fun s c => protocol_add_char c s) s).line_flags &&& LINE_FLAG_OVERFLOW
          = 0 := by
  induction input with
  | nil =>
    intro s p q _ hfl _
    rcases hfl with ⟨h, _, _⟩ | ⟨h, _, _⟩ | ⟨h, _, _⟩ <;>
    simp [filtered_content, h, LINE_FLAG_OVERFLOW, LINE_FLAG_COMMENT_PARENTHESES,
      LINE_FLAG_COMMENT_SEMICOLON, bit]
  | cons c cs ih =>
    intro s p q hcnt hfl hlen
    simp only [List.foldl_cons]
    rcases hfl with ⟨h, hp, hq⟩ | ⟨h, hp, hq⟩ | ⟨h, hp, hq⟩
    · subst hp hq
      by_cases h1 : c ≤ ' '
      · have := ih s false false hcnt (Or.inl ⟨h, rfl, rfl⟩)
          (by simpa [filtered_content, h1] using hlen)
        simpa [protocol_add_char, filtered_content, h, h1] using this
      by_cases h2 : c = '/'
      · have := ih s false false hcnt (Or.inl ⟨h, rfl, rfl⟩)
          (by simpa [filtered_content, h1, h2] using hlen)
        simpa [protocol_add_char, filtered_content, h, h1, h2] using this
      by_cases h3 : c = '('
      · have := ih { s with line_flags := s.line_flags ||| LINE_FLAG_COMMENT_PARENTHESES }
          true false hcnt (Or.inr (Or.inl ⟨by simp [h], rfl, rfl⟩))
          (by simpa [filtered_content, h1, h2, h3] using hlen)
        simpa [protocol_add_char, filtered_content, h, h1, h2, h3] using this
      by_cases h4 : c = ';'
      · have := ih { s with line_flags := s.line_flags ||| LINE_FLAG_COMMENT_SEMICOLON }
          false true hcnt (Or.inr (Or.inr ⟨by simp [h], rfl, rfl⟩))
          (by simpa [filtered_content, h1, h2, h3, h4] using hlen)
        simpa [protocol_add_char, filtered_content, h, h1, h2, h3, h4] using this
      by_cases h5 : c ≥ 'a' ∧ c ≤ 'z'
      · have hlen' : s.line.length + 1 + (filtered_content false false cs).length
            ≤ LINE_BUFFER_SIZE - 1 := by
          simp [filtered_content, h1, h2, h3, h4, h5] at hlen
          omega
        have hov : ¬ s.char_counter ≥ LINE_BUFFER_SIZE - 1 := by omega
        have := ih { s with
            line := s.line ++ [Char.ofNat (c.toNat - 'a'.toNat + 'A'.toNat)]
            char_counter := s.char_counter + 1 } false false (by simp [hcnt])
          (Or.inl ⟨h, rfl, rfl⟩) (by simpa using hlen')
        simpa [protocol_add_char, filtered_content, h, h1, h2, h3, h4, h5, hov] using this
      · have hlen' : s.line.length + 1 + (filtered_content false false cs).length
            ≤ LINE_BUFFER_SIZE - 1 := by
          simp [filtered_content, h1, h2, h3, h4, h5] at hlen
          omega
        have hov : ¬ s.char_counter ≥ LINE_BUFFER_SIZE - 1 := by omega
        have := ih { s with line := s.line ++ [c], char_counter := s.char_counter + 1 }
          false false (by simp [hcnt]) (Or.inl ⟨h, rfl, rfl⟩) (by simpa using hlen')
        simpa [protocol_add_char, filtered_content, h, h1, h2, h3, h4, h5, hov] using this
    · subst hp hq
      have hne : s.line_flags ≠ 0 := by
        rw [h]; simp [LINE_FLAG_COMMENT_PARENTHESES]
      by_cases h1 : c = ')'
      · have := ih
          { s with line_flags := s.line_flags &&& (255 ^^^ LINE_FLAG_COMMENT_PARENTHESES) }
          false false hcnt
          (Or.inl ⟨by
            show s.line_flags &&& (255 ^^^ LINE_FLAG_COMMENT_PARENTHESES) = 0
            rw [h]; decide, rfl, rfl⟩)
          (by simpa [filtered_content, h1] using hlen)
        have hb : s.line_flags &&& LINE_FLAG_COMMENT_PARENTHESES ≠ 0 := by
          rw [h]; decide
        simpa [protocol_add_char, filtered_content, hne, h1, hb] using this
      · have := ih s true false hcnt (Or.inr (Or.inl ⟨h, rfl, rfl⟩))
          (by simpa [filtered_content, h1] using hlen)
        simpa [protocol_add_char, filtered_content, hne, h1] using this
    · subst hp hq
      have hne : s.line_flags ≠ 0 := by
        rw [h]; simp [LINE_FLAG_COMMENT_SEMICOLON]
      have hb : s.line_flags &&& LINE_FLAG_COMMENT_PARENTHESES = 0 := by
        rw [h]; decide
      by_cases h1 : c = ')'
      · have := ih s false true hcnt (Or.inr (Or.inr ⟨h, rfl, rfl⟩))
          (by simpa [filtered_content, h1] using hlen)
        simpa [protocol_add_char, filtered_content, hne, h1, hb] using this
      · have := ih s false true hcnt (Or.inr (Or.inr ⟨h, rfl, rfl⟩))
          (by simpa [filtered_content, h1] using hlen)
        simpa [protocol_add_char, filtered_content, hne, h1] using this

/-- Every input line whose content, after whitespace, control characters, `/`
and comments are dropped, is at most 79 characters long
(`LINE_BUFFER_SIZE - 1`) is accepted: the buffer holds exactly that content in
capitals, `LINE_FLAG_OVERFLOW` is not set, and the line is directed to its
handler instead of being answered with `STATUS_OVERFLOW`. -/
theorem protocol_line_accepted (K : SystemH) (X : Extern) (m : Machine) (input : List Char)
    (hlen : (filtered_content false false input).length ≤ LINE_BUFFER_SIZE - 1) :
    (protocol_read_line input).line = filtered_content false false input ∧
    (protocol_read_line input).line_flags &&& LINE_FLAG_OVERFLOW = 0 ∧
    protocol_dispatch_line K X (protocol_read_line input) m
      = protocol_handle_line K X (filtered_content false false input) m := by
  have h := protocol_read_fits input line_start false false rfl (Or.inl ⟨rfl, rfl, rfl⟩)
    (by simpa [line_start] using hlen)
  have h1 : (protocol_read_line input).line = filtered_content false false input := by
    simpa [protocol_read_line, line_start] using h.1
  have h2 : (protocol_read_line input).line_flags &&& LINE_FLAG_OVERFLOW = 0 := h.2
  refine ⟨h1, h2, ?_⟩
  simp only [protocol_dispatch_line, h2, ne_eq, not_true_eq_false, if_false, h1]

/-- An accepted line: `g1 x10 (go)` reaches the handlers as `G1X10`. -/
theorem protocol_line_accepted_example :
    (protocol_read_line ['g', '1', ' ', 'x', '1', '0', ' ', '(', 'g', 'o', ')']).line
      = filtered_content false false ['g', '1', ' ', 'x', '1', '0', ' ', '(', 'g', 'o', ')'] ∧
    filtered_content false false ['g', '1', ' ', 'x', '1', '0', ' ', '(', 'g', 'o', ')']
      = ['G', '1', 'X', '1', '0'] :=
  ⟨(protocol_line_accepted grbl11 quiet_extern idle_machine
      ['g', '1', ' ', 'x', '1', '0', ' ', '(', 'g', 'o', ')'] (by decide)).1,
    by decide⟩

set_option maxRecDepth 100000

/-- C19, the code at a line of 80 characters `G`, which the filter keeps all:
its content is at most 80 characters long, yet the 80th character sets
`LINE_FLAG_OVERFLOW`, the buffer holds 79 characters, and the line is answered
with `STATUS_OVERFLOW`; the same line without its last character is accepted
and passed to `gc_execute_line`. -/
theorem C19_line_of_80_overflows :
    (filtered_content false false (List.replicate 80 'G')).length ≤ 80 ∧
    (protocol_read_line (List.replicate 80 'G')).line_flags &&& LINE_FLAG_OVERFLOW ≠ 0 ∧
    (protocol_read_line (List.replicate 80 'G')).line = List.replicate 79 'G' ∧
    calls_since idle_machine
        (protocol_dispatch_line grbl11 quiet_extern
          (protocol_read_line (List.replicate 80 'G')) idle_machine)
      = [Call.report_echo_line_received (List.replicate 79 'G'),
          Call.report_status_message .OVERFLOW] ∧
    (protocol_read_line (List.replicate 79 'G')).line_flags &&& LINE_FLAG_OVERFLOW = 0 ∧
    calls_since idle_machine
        (protocol_dispatch_line grbl11 quiet_extern
          (protocol_read_line (List.replicate 79 'G')) idle_machine)
      = [Call.gc_execute_line (List.replicate 79 'G'),
          Call.report_status_message .OK] := by
  refine ⟨by decide, by decide, by decide, by decide, by decide, by decide⟩

/-! ## The alarm lock on g-code lines -/

/-- C20 (amended): a line that overflowed the buffer is answered with
`STATUS_OVERFLOW` and not passed to `gc_execute_line`, whatever the state. A
non-empty filtered line that did not overflow the buffer and does not start
with `$` is, while `sys.state` is `ALARM` or `JOG`, answered with
`STATUS_SYSTEM_GC_LOCK` and not passed to `gc_execute_line`; when neither the
`ALARM` nor the `JOG` bit is set in `sys.state` it is passed to
`gc_execute_line`. In state `ALARM`, `system_execute_line` sets `sys.state` to
`IDLE` for `$X`, and for `$H`, when homing is enabled and the homing cycle
ends without `sys.abort`, it sets `sys.state` to `IDLE` before the startup
lines are run. -/
theorem C20_alarm_lock (K : SystemH) (hK : K.WF) (X : Extern) (s : line_state) (m : Machine) :
    (s.line_flags &&& LINE_FLAG_OVERFLOW ≠ 0 →
      protocol_dispatch_line K X s m
        = call (.report_status_message .OVERFLOW)
            (call (.report_echo_line_received s.line) m) ∧
      ∀ l, Call.gc_execute_line l ∉ calls_since m (protocol_dispatch_line K X s m)) ∧
    (s.line_flags &&& LINE_FLAG_OVERFLOW = 0 → char_at s.line 0 ≠ NUL →
      char_at s.line 0 ≠ '$' →
      ((m.sys.state = K.STATE_ALARM ∨ m.sys.state = K.STATE_JOG) →
        protocol_dispatch_line K X s m
          = call (.report_status_message .SYSTEM_GC_LOCK)
              (call (.report_echo_line_received s.line) m) ∧
        ∀ l, Call.gc_execute_line l ∉ calls_since m (protocol_dispatch_line K X s m)) ∧
      (m.sys.state &&& (K.STATE_ALARM ||| K.STATE_JOG) = 0 →
        Call.gc_execute_line s.line ∈ calls_since m (protocol_dispatch_line K X s m))) ∧
    (m.sys.state = K.STATE_ALARM →
      system_execute_line K X ['$', 'X'] m
        = (.OK, set_state STATE_IDLE (call (.report_feedback_message .ALARM_UNLOCK) m))) ∧
    (m.sys.state = K.STATE_ALARM → X.flags &&& BITFLAG_HOMING_ENABLE ≠ 0 →
      (mc_homing_cycle X .ALL (set_state K.STATE_HOMING m)).sys.abort = false →
      ∃ m1, m1.sys.state = STATE_IDLE ∧ Call.mc_homing_cycle .ALL ∈ calls_since m m1 ∧
        system_execute_line K X ['$', 'H'] m = (.OK, system_execute_startup X m1)) := by
  refine ⟨?_, ?_, ?_, ?_⟩
  · intro hov
    have heq : protocol_dispatch_line K X s m
        = call (.report_status_message .OVERFLOW)
            (call (.report_echo_line_received s.line) m) := by
      simp only [protocol_dispatch_line, hov, ne_eq, not_false_eq_true, if_true]
    refine ⟨heq, ?_⟩
    intro l
    rw [heq]
    simp [calls_since]
  · intro hov hne hd
    refine ⟨?_, ?_⟩
    · intro hst
      have hlock : m.sys.state &&& (K.STATE_ALARM ||| K.STATE_JOG) ≠ 0 := by
        rcases hst with h | h <;> simp [h, hK.state_eq]
      have heq : protocol_dispatch_line K X s m
          = call (.report_status_message .SYSTEM_GC_LOCK)
              (call (.report_echo_line_received s.line) m) := by
        simp only [protocol_dispatch_line, protocol_handle_line, hov, hne, hd, hlock, ne_eq,
          not_true_eq_false, not_false_eq_true, if_true, if_false]
      refine ⟨heq, ?_⟩
      intro l
      rw [heq]
      simp [calls_since]
    · intro hst
      simp only [protocol_dispatch_line, protocol_handle_line, hov, hne, hd, hst, ne_eq,
        not_true_eq_false, if_false, gc_execute_line]
      split_ifs <;> simp [calls_since]
  · intro hst
    simp [system_execute_line, char_at, NUL, hst]
  · intro hst hen hab
    refine ⟨call .st_go_idle (set_state STATE_IDLE
      (mc_homing_cycle X .ALL (set_state K.STATE_HOMING m))), by simp, ?_, ?_⟩
    · simp [calls_since, mc_homing_cycle]
    · have key : ∀ h : Machine, h.sys.abort = false →
          system_execute_line_H_end X ['$', 'H'] h
            = (.OK, system_execute_startup X (call .st_go_idle (set_state STATE_IDLE h))) := by
        intro h hh
        simp [system_execute_line_H_end, char_at, NUL, hh]
      have e1 : system_execute_line K X ['$', 'H'] m
          = system_execute_line_H K X ['$', 'H'] m := by
        simp [system_execute_line, char_at, NUL, hst]
      have e2 : system_execute_line_H K X ['$', 'H'] m
          = system_execute_line_H_end X ['$', 'H']
              (mc_homing_cycle X .ALL (set_state K.STATE_HOMING m)) := by
        simp [system_execute_line_H, char_at, NUL, hen]
      rw [e1, e2, key _ hab]

/-- C20 witness: in state `ALARM` the line `g0` is answered with
`STATUS_SYSTEM_GC_LOCK`, and a line of 100 characters `G` with
`STATUS_OVERFLOW`. -/
theorem C20_alarm_lock_witness :
    protocol_dispatch_line grbl11 quiet_extern (protocol_read_line ['g', '0'])
        (machine_in grbl11.STATE_ALARM 0 0 0 0 none)
      = call (.report_status_message .SYSTEM_GC_LOCK)
          (call (.report_echo_line_received (protocol_read_line ['g', '0']).line)
            (machine_in grbl11.STATE_ALARM 0 0 0 0 none)) ∧
    protocol_dispatch_line grbl11 quiet_extern (protocol_read_line (List.replicate 100 'G'))
        (machine_in grbl11.STATE_ALARM 0 0 0 0 none)
      = call (.report_status_message .OVERFLOW)
          (call (.report_echo_line_received (protocol_read_line (List.replicate 100 'G')).line)
            (machine_in grbl11.STATE_ALARM 0 0 0 0 none)) :=
  ⟨(((C20_alarm_lock grbl11 grbl11_WF quiet_extern (protocol_read_line ['g', '0'])
      (machine_in grbl11.STATE_ALARM 0 0 0 0 none)).2.1 (by decide) (by decide) (by decide)).1
      (Or.inl (by decide))).1,
    ((C20_alarm_lock grbl11 grbl11_WF quiet_extern (protocol_read_line (List.replicate 100 'G'))
      (machine_in grbl11.STATE_ALARM 0 0 0 0 none)).1 (by decide)).1⟩

/-- C20 counterexample (Grbl 1.1 layout): in state `ALARM`, a line of 100
characters `G`. The filtered line is not empty and does not start with `$`,
yet it is answered with `STATUS_OVERFLOW` and not with
`STATUS_SYSTEM_GC_LOCK`. -/
theorem C20_alarm_lock_counterexample :
    (machine_in grbl11.STATE_ALARM 0 0 0 0 none).sys.state = grbl11.STATE_ALARM ∧
    char_at (protocol_read_line (List.replicate 100 'G')).line 0 ≠ NUL ∧
    char_at (protocol_read_line (List.replicate 100 'G')).line 0 ≠ '$' ∧
    calls_since (machine_in grbl11.STATE_ALARM 0 0 0 0 none)
        (protocol_dispatch_line grbl11 quiet_extern (protocol_read_line (List.replicate 100 'G'))
          (machine_in grbl11.STATE_ALARM 0 0 0 0 none))
      = [Call.report_echo_line_received (List.replicate 79 'G'),
          Call.report_status_message .OVERFLOW] ∧
    Call.report_status_message .SYSTEM_GC_LOCK ∉
      calls_since (machine_in grbl11.STATE_ALARM 0 0 0 0 none)
        (protocol_dispatch_line grbl11 quiet_extern (protocol_read_line (List.replicate 100 'G'))
          (machine_in grbl11.STATE_ALARM 0 0 0 0 none)) := by
  refine ⟨by decide, by decide, by decide, by decide, by decide⟩

/-! ## Invariants of `protocol_execute_realtime` -/

/-- A property kept by the arrival of interrupts and by `protocol_exec_rt_system`
is kept by the loop that waits for the reset of a sleeping machine. -/
theorem sleep_spin_preserves (K : SystemH) (env : Nat → Nat) (P : Machine → Prop)
    (harr : ∀ m, P m → P (isr_arrive env m))
    (hexec : ∀ fuel m, P m → P (protocol_exec_rt_system K env fuel m).machine) :
    ∀ (fuel : Nat) (m : Machine), P m → P (sleep_spin K env fuel m).machine := by
  intro fuel
  induction fuel with
  | zero =>
    intro m h
    unfold sleep_spin
    split_ifs <;> exact h
  | succ fuel ih =>
    intro m h
    unfold sleep_spin
    split_ifs
    · exact h
    · have h1 := hexec fuel _ (harr m h)
      show P (match protocol_exec_rt_system K env fuel (isr_arrive env m) with
        | .returned m => sleep_spin K env fuel m
        | .blocked m => .blocked m).machine
      cases hr : protocol_exec_rt_system K env fuel (isr_arrive env m) with
      | returned m1 =>
        rw [hr] at h1
        exact ih m1 h1
      | blocked m1 =>
        rw [hr] at h1
        exact h1

/-- A property kept by the arrival of interrupts, by `protocol_exec_rt_system`
and by the body of the suspend loop is kept by the suspend loop. -/
theorem suspend_loop_preserves (K : SystemH) (env : Nat → Nat) (P : Machine → Prop)
    (harr : ∀ m, P m → P (isr_arrive env m))
    (hexec : ∀ fuel m, P m → P (protocol_exec_rt_system K env fuel m).machine)
    (hbody : ∀ rc rs m, P m → P (suspend_body K rc rs m).1) (rc : Nat) (rs : ℚ) :
    ∀ (fuel : Nat) (m : Machine), P m → P (suspend_loop K env rc rs fuel m).machine := by
  intro fuel
  induction fuel with
  | zero =>
    intro m h
    unfold suspend_loop
    split_ifs <;> exact h
  | succ fuel ih =>
    intro m h
    unfold suspend_loop
    split_ifs
    · exact h
    · have hb := hbody rc rs m h
      show P (match suspend_body K rc rs m with
        | (m, true) => sleep_spin K env fuel m
        | (m, false) =>
          match protocol_exec_rt_system K env fuel (isr_arrive env m) with
          | .returned m => suspend_loop K env rc rs fuel m
          | .blocked m => .blocked m).machine
      rcases hsb : suspend_body K rc rs m with ⟨m1, b⟩
      rw [hsb] at hb
      cases b
      · have h1 := hexec fuel _ (harr m1 hb)
        show P (match protocol_exec_rt_system K env fuel (isr_arrive env m1) with
          | .returned m => suspend_loop K env rc rs fuel m
          | .blocked m => .blocked m).machine
        cases hr : protocol_exec_rt_system K env fuel (isr_arrive env m1) with
        | returned m2 =>
          rw [hr] at h1
          exact ih m2 h1
        | blocked m2 =>
          rw [hr] at h1
          exact h1
      · exact sleep_spin_preserves K env P harr hexec fuel m1 hb
    · exact h

/-- A property kept by the arrival of interrupts, by `protocol_exec_rt_system`
and by the body of the suspend loop is kept by `protocol_execute_realtime`. -/
theorem protocol_execute_realtime_preserves (K : SystemH) (env : Nat → Nat)
    (P : Machine → Prop)
    (harr : ∀ m, P m → P (isr_arrive env m))
    (hexec : ∀ fuel m, P m → P (protocol_exec_rt_system K env fuel m).machine)
    (hbody : ∀ rc rs m, P m → P (suspend_body K rc rs m).1)
    (fuel : Nat) (m : Machine) (h : P m) :
    P (protocol_execute_realtime K env fuel m).machine := by
  unfold protocol_execute_realtime
  have h1 := hexec fuel m h
  cases hr : protocol_exec_rt_system K env fuel m with
  | blocked m1 => rw [hr] at h1; exact h1
  | returned m1 =>
    rw [hr] at h1
    simp only
    split_ifs
    · unfold protocol_exec_rt_suspend
      cases plan_get_current_block m1 with
      | none => exact suspend_loop_preserves K env P harr hexec hbody _ _ fuel m1 h1
      | some b => exact suspend_loop_preserves K env P harr hexec hbody _ _ fuel m1 h1
    · exact h1

/-- The flag handlers do not write `sys.soft_limit`. -/
theorem rt_system_flags_soft_limit (K : SystemH) (m : Machine) :
    (rt_system_flags K m).sys.soft_limit = m.sys.soft_limit := by
  simp [rt_system_flags, rt_hold, rt_cycle_start, rt_cycle_stop]

/-- The body of the suspend loop does not write `sys.soft_limit`. -/
theorem suspend_body_soft_limit (K : SystemH) (rc : Nat) (rs : ℚ) (m : Machine) :
    (suspend_body K rc rs m).1.sys.soft_limit = m.sys.soft_limit := by
  simp only [suspend_body]
  split_ifs <;> simp

/-- The body of the suspend loop does not write `sys_rt_exec_alarm`. -/
theorem suspend_body_alarm (K : SystemH) (rc : Nat) (rs : ℚ) (m : Machine) :
    (suspend_body K rc rs m).1.sys_rt_exec_alarm = m.sys_rt_exec_alarm := by
  simp only [suspend_body]
  split_ifs <;> simp

/-- Once set, `sys.soft_limit` stays set through `protocol_execute_realtime`. -/
theorem protocol_execute_realtime_soft_limit (K : SystemH) (env : Nat → Nat) (fuel : Nat)
    (m : Machine) (h : m.sys.soft_limit = true) :
    (protocol_execute_realtime K env fuel m).machine.sys.soft_limit = true :=
  protocol_execute_realtime_preserves K env (fun n => n.sys.soft_limit = true)
    (fun n hn => by simpa using hn)
    (fun fuel n hn => protocol_exec_rt_system_preserves K env (fun n => n.sys.soft_limit = true)
      (fun n hn => by simp only [rt_system_flags_soft_limit]; exact hn)
      (fun n hn => by simpa using hn)
      (fun n hn => by simp only [alarm_loop_body_sys]; exact hn)
      (fun n hn => by simpa using hn) fuel n hn)
    (fun rc rs n hn => by simp only [suspend_body_soft_limit]; exact hn)
    fuel m h

/-- `protocol_execute_realtime` never raises an alarm: the alarm code it leaves
is zero or the one it found. -/
theorem protocol_execute_realtime_alarm (K : SystemH) (env : Nat → Nat) (fuel : Nat)
    (a : Nat) (m : Machine) (h : m.sys_rt_exec_alarm = 0 ∨ m.sys_rt_exec_alarm = a) :
    (protocol_execute_realtime K env fuel m).machine.sys_rt_exec_alarm = 0 ∨
    (protocol_execute_realtime K env fuel m).machine.sys_rt_exec_alarm = a :=
  protocol_execute_realtime_preserves K env
    (fun n => n.sys_rt_exec_alarm = 0 ∨ n.sys_rt_exec_alarm = a)
    (fun n hn => by simpa using hn)
    (fun fuel n hn => protocol_exec_rt_system_preserves K env
      (fun n => n.sys_rt_exec_alarm = 0 ∨ n.sys_rt_exec_alarm = a)
      (fun n hn => by simp only [rt_system_flags_alarm]; exact hn)
      (fun n hn => by simpa using hn)
      (fun n hn => by simp only [alarm_loop_body_alarm]; exact hn)
      (fun n _ => by simp) fuel n hn)
    (fun rc rs n hn => by simp only [suspend_body_alarm]; exact hn)
    fuel m h

/-- The drain loop of `limits_soft_check`: it keeps `sys.soft_limit` set and
raises no alarm; it is left normally only in state `IDLE` with `sys.abort`
clear, and it is left early only with `sys.abort` set. -/
theorem soft_limit_drain_spec (K : SystemH) (env : Nat → Nat) (a : Nat) :
    ∀ (fuel : Nat) (m : Machine), m.sys.soft_limit = true →
      (m.sys_rt_exec_alarm = 0 ∨ m.sys_rt_exec_alarm = a) →
      (soft_limit_drain K env fuel m).machine.sys.soft_limit = true ∧
      ((soft_limit_drain K env fuel m).machine.sys_rt_exec_alarm = 0 ∨
        (soft_limit_drain K env fuel m).machine.sys_rt_exec_alarm = a) ∧
      (∀ m1, soft_limit_drain K env fuel m = .idle m1 →
        m1.sys.state = STATE_IDLE ∧ m1.sys.abort = false) ∧
      (∀ m1, soft_limit_drain K env fuel m = .aborted m1 → m1.sys.abort = true) := by
  intro fuel
  induction fuel with
  | zero =>
    intro m hs ha
    simp [soft_limit_drain, Drain.machine, hs, ha]
  | succ fuel ih =>
    intro m hs ha
    have h1 := protocol_execute_realtime_soft_limit K env fuel (isr_arrive env m)
      (by simpa using hs)
    have h2 := protocol_execute_realtime_alarm K env fuel a (isr_arrive env m)
      (by simpa using ha)
    simp only [soft_limit_drain]
    cases hr : protocol_execute_realtime K env fuel (isr_arrive env m) with
    | blocked m1 =>
      rw [hr] at h1 h2
      simp only [Run.machine] at h1 h2
      simp [Drain.machine, h1, h2]
    | returned m1 =>
      rw [hr] at h1 h2
      simp only [Run.machine] at h1 h2
      by_cases hab : m1.sys.abort = true
      · simp [Drain.machine, h1, h2, hab]
      · by_cases hst : m1.sys.state = STATE_IDLE
        · simp only [STATE_IDLE] at hst
          simp [Drain.machine, h1, h2, hab, hst]
        · have := ih m1 h1 h2
          simp only [STATE_IDLE] at hst
          simpa [hab, hst] using this

/-- With `sys.soft_limit` set, a pending `EXEC_CYCLE_STOP` takes the machine to
`IDLE` with nothing left in `sys.suspend`, whatever state it is in and
whatever else is pending, a reset or an alarm apart. -/
theorem cycle_stop_with_soft_limit (K : SystemH) (env : Nat → Nat) (fuel : Nat)
    (h : Machine) (hs : h.sys.soft_limit = true) (ha : h.sys_rt_exec_alarm = 0)
    (hr : h.sys_rt_exec_state &&& K.EXEC_RESET = 0)
    (hc : h.sys_rt_exec_state &&& K.EXEC_CYCLE_STOP ≠ 0) :
    ∃ h', protocol_exec_rt_system K env fuel h = .returned h' ∧
      h'.sys.state = STATE_IDLE ∧ h'.sys.suspend = SUSPEND_DISABLE := by
  refine ⟨_, protocol_exec_rt_system_no_alarm K env fuel h ha, ?_⟩
  simp at hr hc
  rw [rt_system_flags_of_flags K h (ne_zero_of_testBit hc) hr]
  have hs' : (rt_cycle_start K h.sys_rt_exec_state (rt_hold K h.sys_rt_exec_state
      (rt_status_report K h.sys_rt_exec_state h))).sys.soft_limit = true := by
    simp [rt_cycle_start, rt_hold, hs]
  simp [rt_cycle_stop, hc, hs']

/-- The executor only appends to the trace (body of the suspend loop). -/
theorem suspend_body_trace_prefix (K : SystemH) (rc : Nat) (rs : ℚ) (L : List Call)
    (m : Machine) (h : L <+: m.trace) : L <+: (suspend_body K rc rs m).1.trace := by
  simp only [suspend_body]
  split_ifs <;> simp <;>
    first
      | exact h
      | exact h.trans (List.prefix_append _ _)

/-- `protocol_exec_rt_system` only appends to the trace. -/
theorem protocol_exec_rt_system_trace_prefix (K : SystemH) (env : Nat → Nat) (L : List Call)
    (fuel : Nat) (m : Machine) (h : L <+: m.trace) :
    L <+: (protocol_exec_rt_system K env fuel m).machine.trace :=
  protocol_exec_rt_system_preserves K env (fun n => L <+: n.trace)
    (fun n hn => hn.trans ( rt_system_flags_trace_prefix K n))
    (fun n hn => by
      simp only [system_clear_exec_state_flag, call, set_state, List.append_assoc]
      exact hn.trans (List.prefix_append _ _))
    (fun n hn => by
      obtain ⟨l, hl, _⟩ := alarm_loop_body_trace K env n
      rw [hl]
      exact hn.trans (List.prefix_append _ _))
    (fun n hn => by simpa using hn) fuel m h

/-- `protocol_execute_realtime` only appends to the trace. -/
theorem protocol_execute_realtime_trace_prefix (K : SystemH) (env : Nat → Nat) (L : List Call)
    (fuel : Nat) (m : Machine) (h : L <+: m.trace) :
    L <+: (protocol_execute_realtime K env fuel m).machine.trace :=
  protocol_execute_realtime_preserves K env (fun n => L <+: n.trace)
    (fun n hn => by simpa using hn)
    (fun fuel n hn => protocol_exec_rt_system_trace_prefix K env L fuel n hn)
    (fun rc rs n hn => suspend_body_trace_prefix K rc rs L n hn) fuel m h

/-- The drain loop of `limits_soft_check` only appends to the trace. -/
theorem soft_limit_drain_trace_prefix (K : SystemH) (env : Nat → Nat) (L : List Call) :
    ∀ (fuel : Nat) (m : Machine), L <+: m.trace →
      L <+: (soft_limit_drain K env fuel m).machine.trace := by
  intro fuel
  induction fuel with
  | zero =>
    intro m h
    simpa [soft_limit_drain, Drain.machine] using h
  | succ fuel ih =>
    intro m h
    have h1 := protocol_execute_realtime_trace_prefix K env L fuel (isr_arrive env m)
      (by simpa using h)
    simp only [soft_limit_drain]
    cases hr : protocol_execute_realtime K env fuel (isr_arrive env m) with
    | blocked m1 =>
      rw [hr] at h1
      exact h1
    | returned m1 =>
      rw [hr] at h1
      simp only [Run.machine] at h1
      simp only
      split_ifs
      · exact h1
      · exact ih m1 h1
      · exact h1

/-- Called with an alarm pending, the executor reports that alarm first:
`report_alarm_message` with the pending code and the critical-event message
are the next two calls. -/
theorem protocol_execute_realtime_reports_alarm (K : SystemH) (env : Nat → Nat) (fuel : Nat)
    (m : Machine) (ha : m.sys_rt_exec_alarm ≠ 0) :
    (m.trace ++ [Call.report_alarm_message m.sys_rt_exec_alarm,
        Call.report_feedback_message .CRITICAL_EVENT])
      <+: (protocol_execute_realtime K env fuel m).machine.trace := by
  have hbody : ∀ n : Machine,
      (m.trace ++ [Call.report_alarm_message m.sys_rt_exec_alarm,
        Call.report_feedback_message .CRITICAL_EVENT]) <+: n.trace →
      (m.trace ++ [Call.report_alarm_message m.sys_rt_exec_alarm,
        Call.report_feedback_message .CRITICAL_EVENT])
        <+: (alarm_loop_body K env n).trace := by
    intro n hn
    obtain ⟨l, hl, _⟩ := alarm_loop_body_trace K env n
    rw [hl]
    exact hn.trans (List.prefix_append _ _)
  have hl := alarm_loop_preserves K env
    (fun n => (m.trace ++ [Call.report_alarm_message m.sys_rt_exec_alarm,
        Call.report_feedback_message .CRITICAL_EVENT]) <+: n.trace) hbody fuel
    (system_clear_exec_state_flag K.EXEC_RESET
      (call (.report_feedback_message .CRITICAL_EVENT)
        (call (.report_alarm_message m.sys_rt_exec_alarm) (set_state K.STATE_ALARM m))))
    (by simp)
  have hsys : (m.trace ++ [Call.report_alarm_message m.sys_rt_exec_alarm,
        Call.report_feedback_message .CRITICAL_EVENT])
      <+: (protocol_exec_rt_system K env fuel m).machine.trace := by
    unfold protocol_exec_rt_system
    simp only [ne_eq, ha, not_false_eq_true, if_true]
    generalize alarm_loop K env fuel _ = r at hl ⊢
    obtain ⟨m1, b⟩ := r
    cases b
    · exact hl
    · simp only [Run.machine]
      exact (show _ <+: (system_clear_exec_alarm m1).trace by simpa using hl).trans
        ( rt_system_flags_trace_prefix K _)
  unfold protocol_execute_realtime
  cases hr : protocol_exec_rt_system K env fuel m with
  | blocked m1 => rw [hr] at hsys; exact hsys
  | returned m1 =>
    rw [hr] at hsys
    simp only [Run.machine] at hsys
    simp only
    split_ifs
    · unfold protocol_exec_rt_suspend
      cases plan_get_current_block m1 with
      | none =>
        exact suspend_loop_preserves K env (fun n => _ <+: n.trace)
          (fun n hn => by simpa using hn)
          (fun fuel n hn => protocol_exec_rt_system_trace_prefix K env _ fuel n hn)
          (fun rc rs n hn => suspend_body_trace_prefix K rc rs _ n hn) _ _ fuel m1 hsys
      | some b =>
        exact suspend_loop_preserves K env (fun n => _ <+: n.trace)
          (fun n hn => by simpa using hn)
          (fun fuel n hn => protocol_exec_rt_system_trace_prefix K env _ fuel n hn)
          (fun rc rs n hn => suspend_body_trace_prefix K rc rs _ n hn) _ _ fuel m1 hsys
    · exact hsys

/-- Limits.c 307-310 on the machine `m1`: `mc_reset` is called, the alarm code
becomes `EXEC_ALARM_SOFT_LIMIT`, and the executor that is then run reports
that alarm. -/
theorem soft_limit_alarm_raised (K : SystemH) (env : Nat → Nat) (fx : Machine → Machine)
    (fuel : Nat) (m1 : Machine) :
    soft_limit_alarm K env fx fuel m1
      = protocol_execute_realtime K env fuel
          (system_set_exec_alarm EXEC_ALARM_SOFT_LIMIT (mc_reset fx m1)) ∧
    (m1.trace ++ [Call.mc_reset, Call.report_alarm_message EXEC_ALARM_SOFT_LIMIT,
        Call.report_feedback_message .CRITICAL_EVENT])
      <+: (soft_limit_alarm K env fx fuel m1).machine.trace := by
  refine ⟨rfl, ?_⟩
  have h := protocol_execute_realtime_reports_alarm K env fuel
    (system_set_exec_alarm EXEC_ALARM_SOFT_LIMIT (mc_reset fx m1)) (by simp [EXEC_ALARM_SOFT_LIMIT])
  simpa [soft_limit_alarm, mc_reset] using h

/-- C11: for a target that passes the travel check `limits_soft_check` changes
nothing. For a target that fails it, `sys.soft_limit` is set first. If
`sys.state` is not `CYCLE` the alarm is raised at once: `mc_reset` is called,
`sys_rt_exec_alarm` becomes `EXEC_ALARM_SOFT_LIMIT` and the executor is run,
which reports that alarm. If the state is `CYCLE`, `EXEC_FEED_HOLD` is
requested and the executor is polled with `sys.soft_limit` still set; when the
polling ends with `sys.state = IDLE` and `sys.abort` clear, no alarm has been
raised by it so far, and only then `mc_reset` is called, `sys_rt_exec_alarm`
becomes `EXEC_ALARM_SOFT_LIMIT` and the executor is run and reports the alarm;
when `sys.abort` became true the function returns the machine as the executor
left it, without raising the alarm. The executor, seeing `sys.soft_limit`,
answers `EXEC_CYCLE_STOP` by going to `IDLE` with `sys.suspend` cleared (no
resumable hold). -/
theorem C11_soft_limit_check (K : SystemH) (env : Nat → Nat) (fx : Machine → Machine)
    (fuel : Nat) (max_travel target : Nat → CFloat) (m : Machine) :
    (system_check_travel_limits max_travel target = false →
      limits_soft_check K env fx fuel max_travel target m = .returned m) ∧
    (system_check_travel_limits max_travel target = true →
      (m.sys.state ≠ K.STATE_CYCLE →
        limits_soft_check K env fx fuel max_travel target m
          = protocol_execute_realtime K env fuel
              { fx (set_soft_limit true m) with
                trace := m.trace ++ [Call.mc_reset]
                sys_rt_exec_alarm := EXEC_ALARM_SOFT_LIMIT } ∧
        (m.trace ++ [Call.mc_reset, Call.report_alarm_message EXEC_ALARM_SOFT_LIMIT,
            Call.report_feedback_message .CRITICAL_EVENT])
          <+: (limits_soft_check K env fx fuel max_travel target m).machine.trace) ∧
      (m.sys.state = K.STATE_CYCLE →
        (soft_limit_drain K env fuel
          (system_set_exec_state_flag K.EXEC_FEED_HOLD
            (set_soft_limit true m))).machine.sys.soft_limit = true ∧
        (∀ m1, soft_limit_drain K env fuel
            (system_set_exec_state_flag K.EXEC_FEED_HOLD (set_soft_limit true m)) = .idle m1 →
          m1.sys.state = STATE_IDLE ∧ m1.sys.abort = false ∧
          (m1.sys_rt_exec_alarm = 0 ∨ m1.sys_rt_exec_alarm = m.sys_rt_exec_alarm) ∧
          m.trace <+: m1.trace ∧
          limits_soft_check K env fx fuel max_travel target m
            = protocol_execute_realtime K env fuel
                { fx m1 with
                  trace := m1.trace ++ [Call.mc_reset]
                  sys_rt_exec_alarm := EXEC_ALARM_SOFT_LIMIT } ∧
          (m1.trace ++ [Call.mc_reset, Call.report_alarm_message EXEC_ALARM_SOFT_LIMIT,
              Call.report_feedback_message .CRITICAL_EVENT])
            <+: (limits_soft_check K env fx fuel max_travel target m).machine.trace) ∧
        (∀ m1, soft_limit_drain K env fuel
            (system_set_exec_state_flag K.EXEC_FEED_HOLD (set_soft_limit true m))
              = .aborted m1 →
          m1.sys.abort = true ∧
          (m1.sys_rt_exec_alarm = 0 ∨ m1.sys_rt_exec_alarm = m.sys_rt_exec_alarm) ∧
          limits_soft_check K env fx fuel max_travel target m = .returned m1) ∧
        (∀ m1, soft_limit_drain K env fuel
            (system_set_exec_state_flag K.EXEC_FEED_HOLD (set_soft_limit true m))
              = .blocked m1 →
          limits_soft_check K env fx fuel max_travel target m = .blocked m1))) ∧
    (∀ h : Machine, h.sys.soft_limit = true → h.sys_rt_exec_alarm = 0 →
      h.sys_rt_exec_state &&& K.EXEC_RESET = 0 →
      h.sys_rt_exec_state &&& K.EXEC_CYCLE_STOP ≠ 0 →
      ∃ h', protocol_exec_rt_system K env fuel h = .returned h' ∧
        h'.sys.state = STATE_IDLE ∧ h'.sys.suspend = SUSPEND_DISABLE) := by
  refine ⟨?_, ?_, fun h hs ha hr hc => cycle_stop_with_soft_limit K env fuel h hs ha hr hc⟩
  · intro hc
    simp [limits_soft_check, hc]
  · intro hc
    refine ⟨?_, ?_⟩
    · intro hst
      have hst' : ¬ (set_soft_limit true m).sys.state = K.STATE_CYCLE := by simpa using hst
      have heq : limits_soft_check K env fx fuel max_travel target m
          = soft_limit_alarm K env fx fuel (set_soft_limit true m) := by
        simp only [limits_soft_check, hc, if_true, hst', if_false]
      have hr := soft_limit_alarm_raised K env fx fuel (set_soft_limit true m)
      rw [heq]
      exact ⟨hr.1, by simpa using hr.2⟩
    · intro hst
      have hst' : (set_soft_limit true m).sys.state = K.STATE_CYCLE := by simpa using hst
      have hd := soft_limit_drain_spec K env m.sys_rt_exec_alarm fuel
        (system_set_exec_state_flag K.EXEC_FEED_HOLD (set_soft_limit true m))
        (by simp) (by simp)
      have hp := soft_limit_drain_trace_prefix K env m.trace fuel
        (system_set_exec_state_flag K.EXEC_FEED_HOLD (set_soft_limit true m)) (by simp)
      have heq : limits_soft_check K env fx fuel max_travel target m
          = match soft_limit_drain K env fuel
              (system_set_exec_state_flag K.EXEC_FEED_HOLD (set_soft_limit true m)) with
            | .aborted m => .returned m
            | .blocked m => .blocked m
            | .idle m => soft_limit_alarm K env fx fuel m := by
        simp only [limits_soft_check, hc, if_true, hst']
      refine ⟨hd.1, ?_, ?_, ?_⟩
      · intro m1 h1
        have := hd.2.2.1 m1 h1
        have h2 := hd.2.1
        rw [h1] at h2 hp
        have hr := soft_limit_alarm_raised K env fx fuel m1
        refine ⟨this.1, this.2, h2, hp, ?_, ?_⟩
        · rw [heq, h1]; exact hr.1
        · rw [heq, h1]; exact hr.2
      · intro m1 h1
        have h2 := hd.2.1
        rw [h1] at h2
        refine ⟨hd.2.2.2 m1 h1, h2, ?_⟩
        rw [heq, h1]
      · intro m1 h1
        rw [heq, h1]

/-- C11 witness: a cycle is running, the target lies above zero, and the
stepper reports the end of the hold at the second poll. The polling ends in
`IDLE`, and only then `mc_reset` is called and the soft-limit alarm is raised
and reported. -/
theorem C11_soft_limit_check_witness :
    ∃ m1, soft_limit_drain grbl11 (fun t => if t = 1 then grbl11.EXEC_CYCLE_STOP else 0) 4
        (system_set_exec_state_flag grbl11.EXEC_FEED_HOLD
          (set_soft_limit true (machine_in grbl11.STATE_CYCLE 0 0 0 0 none))) = .idle m1 ∧
      m1.sys.state = STATE_IDLE ∧ m1.sys.abort = false ∧
      (m1.sys_rt_exec_alarm = 0 ∨
        m1.sys_rt_exec_alarm = (machine_in grbl11.STATE_CYCLE 0 0 0 0 none).sys_rt_exec_alarm) ∧
      (machine_in grbl11.STATE_CYCLE 0 0 0 0 none).trace <+: m1.trace ∧
      limits_soft_check grbl11 (fun t => if t = 1 then grbl11.EXEC_CYCLE_STOP else 0)
          (fun m => m) 4 (fun _ => .fin (-80)) (fun _ => .fin 1)
          (machine_in grbl11.STATE_CYCLE 0 0 0 0 none)
        = protocol_execute_realtime grbl11
            (fun t => if t = 1 then grbl11.EXEC_CYCLE_STOP else 0) 4
            { m1 with
              trace := m1.trace ++ [Call.mc_reset]
              sys_rt_exec_alarm := EXEC_ALARM_SOFT_LIMIT } ∧
      (m1.trace ++ [Call.mc_reset, Call.report_alarm_message EXEC_ALARM_SOFT_LIMIT,
          Call.report_feedback_message .CRITICAL_EVENT])
        <+: (limits_soft_check grbl11 (fun t => if t = 1 then grbl11.EXEC_CYCLE_STOP else 0)
          (fun m => m) 4 (fun _ => .fin (-80)) (fun _ => .fin 1)
          (machine_in grbl11.STATE_CYCLE 0 0 0 0 none)).machine.trace :=
  ⟨_, rfl,
    (((C11_soft_limit_check grbl11 (fun t => if t = 1 then grbl11.EXEC_CYCLE_STOP else 0)
      (fun m => m) 4 (fun _ => .fin (-80)) (fun _ => .fin 1)
      (machine_in grbl11.STATE_CYCLE 0 0 0 0 none)).2.1
        (by simp [system_check_travel_limits, N_AXIS, List.range_succ, CFloat.gt,
          CFloat.lt])).2 (by decide)).2.1 _ rfl⟩

/-! ## Homing: the exit routine -/

theorem homing_exit_alarm_of_reset (K : SystemH) (approach : Bool)
    (cycle_mask limit_state : Nat) (m : Machine) (h : m.sys_rt_exec_state &&& K.EXEC_RESET ≠ 0) :
    (homing_exit_alarm K approach cycle_mask limit_state m).sys_rt_exec_alarm =
      if approach = true ∧ m.sys_rt_exec_state &&& K.EXEC_CYCLE_STOP ≠ 0 then
        EXEC_ALARM_HOMING_FAIL_APPROACH
      else if approach = false ∧ limit_state &&& cycle_mask ≠ 0 then
        EXEC_ALARM_HOMING_FAIL_PULLOFF
      else EXEC_ALARM_HOMING_FAIL_RESET := by
  unfold homing_exit_alarm
  cases approach <;>
  by_cases hc : m.sys_rt_exec_state &&& K.EXEC_CYCLE_STOP = 0 <;>
  by_cases hl : limit_state &&& cycle_mask = 0 <;>
  simp only [h, hc, hl, ne_eq, not_true_eq_false, not_false_eq_true, and_true, and_false,
    true_and, false_and, if_true, if_false, Bool.false_eq_true, Bool.true_eq_false,
    system_set_exec_alarm]

theorem homing_exit_alarm_ne_zero (K : SystemH) (approach : Bool)
    (cycle_mask limit_state : Nat) (m : Machine) (h : m.sys_rt_exec_state &&& K.EXEC_RESET ≠ 0) :
    (homing_exit_alarm K approach cycle_mask limit_state m).sys_rt_exec_alarm ≠ 0 := by
  rw [homing_exit_alarm_of_reset K approach cycle_mask limit_state m h]
  split_ifs <;> decide

/-- C14 (amended): whenever a pass through the motion loop of `limits_go_home`
observes `EXEC_RESET` in `sys_rt_exec_state` (pending before, or delivered by
an interrupt since the previous poll), the function calls `mc_reset`, runs
`protocol_execute_realtime` and returns, and the alarm code held in
`sys_rt_exec_alarm` at that call is `EXEC_ALARM_HOMING_FAIL_APPROACH` if the
pass is an approach and `EXEC_CYCLE_STOP` is pending as well,
`EXEC_ALARM_HOMING_FAIL_PULLOFF` if the pass is a pull-off and a limit switch
of the cycle is engaged, and `EXEC_ALARM_HOMING_FAIL_RESET` in every other
case. -/
theorem C14_homing_reset_alarm (K : SystemH) (S : limits_settings_t) (E : Outside)
    (fx : Machine → Machine) (fuel : Nat) (approach : Bool) (cycle_mask axislock : Nat)
    (w : World)
    (hreset : (w.m.sys_rt_exec_state ||| E.rt w.m.clock) &&& K.EXEC_RESET ≠ 0) :
    ∃ w', homing_poll K S E fx fuel approach cycle_mask axislock w
        = .failed w' (protocol_execute_realtime K E.rt fuel (mc_reset fx w'.m)) ∧
      w'.m.sys_rt_exec_alarm =
        if approach = true ∧
            (w.m.sys_rt_exec_state ||| E.rt w.m.clock) &&& K.EXEC_CYCLE_STOP ≠ 0 then
          EXEC_ALARM_HOMING_FAIL_APPROACH
        else if approach = false ∧
            limits_get_state S.flags (E.LIMIT_PIN w.m.clock) &&& cycle_mask ≠ 0 then
          EXEC_ALARM_HOMING_FAIL_PULLOFF
        else EXEC_ALARM_HOMING_FAIL_RESET := by
  have hex : (w.m.sys_rt_exec_state ||| E.rt w.m.clock) &&&
      (K.EXEC_RESET ||| K.EXEC_CYCLE_STOP) ≠ 0 := by
    intro h0
    exact hreset ((land_lor_eq_zero_iff _ _ _).mp h0).1
  cases approach
  · have hm : ((w.arrive E).on (call .st_prep_buffer)).m.sys_rt_exec_state
        = w.m.sys_rt_exec_state ||| E.rt w.m.clock := by simp [World.arrive]
    refine ⟨{ (w.arrive E).on (call .st_prep_buffer) with
      m := homing_exit_alarm K false cycle_mask
        (limits_get_state S.flags (E.LIMIT_PIN w.m.clock))
        ((w.arrive E).on (call .st_prep_buffer)).m }, ?_, ?_⟩
    · unfold homing_poll
      simp only [Bool.false_eq_true, if_false]
      rw [if_pos (by rw [hm]; exact hex), if_pos (homing_exit_alarm_ne_zero _ _ _ _ _
        (by rw [hm]; exact hreset))]
    · rw [homing_exit_alarm_of_reset _ _ _ _ _ (by rw [hm]; exact hreset), hm]
  · have hm : (((w.arrive E).on (set_homing_axis_lock (homing_lock_update
        (limits_get_state S.flags (E.LIMIT_PIN w.m.clock)) axislock))).on
          (call .st_prep_buffer)).m.sys_rt_exec_state
        = w.m.sys_rt_exec_state ||| E.rt w.m.clock := by simp [World.arrive]
    refine ⟨{ ((w.arrive E).on (set_homing_axis_lock (homing_lock_update
        (limits_get_state S.flags (E.LIMIT_PIN w.m.clock)) axislock))).on
          (call .st_prep_buffer) with
      m := homing_exit_alarm K true cycle_mask
        (limits_get_state S.flags (E.LIMIT_PIN w.m.clock))
        (((w.arrive E).on (set_homing_axis_lock (homing_lock_update
        (limits_get_state S.flags (E.LIMIT_PIN w.m.clock)) axislock))).on
          (call .st_prep_buffer)).m }, ?_, ?_⟩
    · unfold homing_poll
      simp only [if_true]
      rw [if_pos (by rw [hm]; exact hex), if_pos (homing_exit_alarm_ne_zero _ _ _ _ _
        (by rw [hm]; exact hreset))]
    · rw [homing_exit_alarm_of_reset _ _ _ _ _ (by rw [hm]; exact hreset), hm]

/-- C14, an instance: a reset alone, delivered during a pull-off pass with the
switches released, leaves `EXEC_ALARM_HOMING_FAIL_RESET`. -/
theorem C14_homing_reset_alarm_witness :
    (idle_world.m.sys_rt_exec_state ||| (flags_outside grbl11.EXEC_RESET).rt idle_world.m.clock)
        &&& grbl11.EXEC_RESET ≠ 0 ∧
    ∃ w', homing_poll grbl11 default_limits_settings (flags_outside grbl11.EXEC_RESET) id 1
          false 1 4 idle_world
        = .failed w' (protocol_execute_realtime grbl11 (flags_outside grbl11.EXEC_RESET).rt 1
            (mc_reset id w'.m)) ∧
      w'.m.sys_rt_exec_alarm =
        if false = true ∧
            (idle_world.m.sys_rt_exec_state |||
              (flags_outside grbl11.EXEC_RESET).rt idle_world.m.clock)
              &&& grbl11.EXEC_CYCLE_STOP ≠ 0 then
          EXEC_ALARM_HOMING_FAIL_APPROACH
        else if false = false ∧
            limits_get_state default_limits_settings.flags
              ((flags_outside grbl11.EXEC_RESET).LIMIT_PIN idle_world.m.clock) &&& 1 ≠ 0 then
          EXEC_ALARM_HOMING_FAIL_PULLOFF
        else EXEC_ALARM_HOMING_FAIL_RESET :=
  ⟨by decide, C14_homing_reset_alarm grbl11 default_limits_settings
    (flags_outside grbl11.EXEC_RESET) id 1 false 1 4 idle_world (by decide)⟩

/-- C14 as stated fails: homing the X axis from rest, with `EXEC_RESET` and
`EXEC_CYCLE_STOP` both delivered before the first poll of the first approach,
`limits_go_home` calls `mc_reset` and returns with `EXEC_RESET` pending and the
alarm code `EXEC_ALARM_HOMING_FAIL_APPROACH`, not `EXEC_ALARM_HOMING_FAIL_RESET`. -/
theorem C14_homing_reset_counterexample :
    ∃ w r, limits_go_home grbl11 default_limits_settings
        (flags_outside (grbl11.EXEC_RESET ||| grbl11.EXEC_CYCLE_STOP)) id (fun _ => 1) 1 1 1
        idle_world = .failed w r ∧
      w.m.sys_rt_exec_state &&& grbl11.EXEC_RESET ≠ 0 ∧
      w.m.sys_rt_exec_alarm = EXEC_ALARM_HOMING_FAIL_APPROACH ∧
      w.m.sys_rt_exec_alarm ≠ EXEC_ALARM_HOMING_FAIL_RESET :=
  ⟨_, _, rfl, by decide, by decide, by decide⟩

/-! ## Homing: the axis lock mask -/

theorem one_shiftLeft_eq_bit (n : Nat) : 1 <<< n = bit n := rfl

/-- The lock update never sets a bit, and it clears the step bit of an axis
exactly when the axis is enabled and its limit switch is tripped. -/
theorem homing_lock_update_testBit (ls a : Nat) :
    (∀ j, (homing_lock_update ls a).testBit j = true → a.testBit j = true) ∧
    (homing_lock_update ls a).testBit 2 = (a.testBit 2 && !ls.testBit 0) ∧
    (homing_lock_update ls a).testBit 3 = (a.testBit 3 && !ls.testBit 1) ∧
    (homing_lock_update ls a).testBit 4 = (a.testBit 4 && !ls.testBit 2) := by
  simp only [homing_lock_update, get_step_pin_mask, X_AXIS, Y_AXIS, X_STEP_BIT, Y_STEP_BIT,
    Z_STEP_BIT, one_shiftLeft_eq_bit, N_AXIS]
  by_cases h2 : a.testBit 2 = true <;> by_cases h3 : a.testBit 3 = true <;>
  by_cases h4 : a.testBit 4 = true <;> by_cases l0 : ls.testBit 0 = true <;>
  by_cases l1 : ls.testBit 1 = true <;> by_cases l2 : ls.testBit 2 = true <;>
  simp [List.range_succ, h2, h3, h4, l0, l1, l2, -Nat.testBit_zero] <;>
  (intro j hj; intros; exact hj)

theorem homing_exit_alarm_sys (K : SystemH) (approach : Bool) (cycle_mask limit_state : Nat)
    (m : Machine) :
    (homing_exit_alarm K approach cycle_mask limit_state m).sys = m.sys ∧
    (homing_exit_alarm K approach cycle_mask limit_state m).trace = m.trace ∧
    (homing_exit_alarm K approach cycle_mask limit_state m).clock = m.clock ∧
    (homing_exit_alarm K approach cycle_mask limit_state m).sys_rt_exec_state
      = m.sys_rt_exec_state := by
  unfold homing_exit_alarm
  simp only [system_set_exec_alarm]
  split_ifs <;> exact ⟨rfl, rfl, rfl, rfl⟩

theorem homing_exit_alarm_approach (K : SystemH) (cycle_mask limit_state : Nat) (m : Machine)
    (h : m.sys_rt_exec_state &&& (K.EXEC_RESET ||| K.EXEC_CYCLE_STOP) ≠ 0) :
    (homing_exit_alarm K true cycle_mask limit_state m).sys_rt_exec_alarm ≠ 0 := by
  unfold homing_exit_alarm
  by_cases hc : m.sys_rt_exec_state &&& K.EXEC_CYCLE_STOP = 0
  · have hr : m.sys_rt_exec_state &&& K.EXEC_RESET ≠ 0 := fun h0 =>
      h ((land_lor_eq_zero_iff _ _ _).mpr ⟨h0, hc⟩)
    simp only [hr, hc, ne_eq, not_true_eq_false, not_false_eq_true, and_true, and_false,
      true_and, false_and, if_true, if_false, Bool.false_eq_true, Bool.true_eq_false,
      system_set_exec_alarm]
    decide
  · simp only [hc, ne_eq, not_true_eq_false, not_false_eq_true, and_true, and_false,
      true_and, false_and, if_true, if_false, Bool.false_eq_true, Bool.true_eq_false,
      system_set_exec_alarm]
    decide

/-- One pass through the body of the motion loop in an approach pass. -/
theorem homing_poll_approach (K : SystemH) (S : limits_settings_t) (E : Outside)
    (fx : Machine → Machine) (fuel : Nat) (cycle_mask axislock : Nat) (w : World) :
    homing_poll K S E fx fuel true cycle_mask axislock w =
      if (w.m.sys_rt_exec_state ||| E.rt w.m.clock) &&& (K.EXEC_RESET ||| K.EXEC_CYCLE_STOP) ≠ 0
      then
        .failed
          { ((w.arrive E).on (set_homing_axis_lock (homing_lock_update
              (limits_get_state S.flags (E.LIMIT_PIN w.m.clock)) axislock))).on
                (call .st_prep_buffer) with
            m := homing_exit_alarm K true cycle_mask
              (limits_get_state S.flags (E.LIMIT_PIN w.m.clock))
              (((w.arrive E).on (set_homing_axis_lock (homing_lock_update
                (limits_get_state S.flags (E.LIMIT_PIN w.m.clock)) axislock))).on
                  (call .st_prep_buffer)).m }
          (protocol_execute_realtime K E.rt fuel (mc_reset fx
            (homing_exit_alarm K true cycle_mask
              (limits_get_state S.flags (E.LIMIT_PIN w.m.clock))
              (((w.arrive E).on (set_homing_axis_lock (homing_lock_update
                (limits_get_state S.flags (E.LIMIT_PIN w.m.clock)) axislock))).on
                  (call .st_prep_buffer)).m)))
      else if STEP_MASK &&& homing_lock_update
          (limits_get_state S.flags (E.LIMIT_PIN w.m.clock)) axislock ≠ 0 then
        .next (homing_lock_update (limits_get_state S.flags (E.LIMIT_PIN w.m.clock)) axislock)
          (((w.arrive E).on (set_homing_axis_lock (homing_lock_update
              (limits_get_state S.flags (E.LIMIT_PIN w.m.clock)) axislock))).on
                (call .st_prep_buffer))
      else
        .locked (homing_lock_update (limits_get_state S.flags (E.LIMIT_PIN w.m.clock)) axislock)
          (((w.arrive E).on (set_homing_axis_lock (homing_lock_update
              (limits_get_state S.flags (E.LIMIT_PIN w.m.clock)) axislock))).on
                (call .st_prep_buffer)) := by
  have hm : (((w.arrive E).on (set_homing_axis_lock (homing_lock_update
      (limits_get_state S.flags (E.LIMIT_PIN w.m.clock)) axislock))).on
        (call .st_prep_buffer)).m.sys_rt_exec_state
      = w.m.sys_rt_exec_state ||| E.rt w.m.clock := by simp [World.arrive]
  unfold homing_poll
  simp only [if_true]
  rw [hm]
  by_cases hex : (w.m.sys_rt_exec_state ||| E.rt w.m.clock) &&&
      (K.EXEC_RESET ||| K.EXEC_CYCLE_STOP) = 0
  · rw [if_neg (not_not.mpr hex), if_neg (not_not.mpr hex)]
  · rw [if_pos hex, if_pos hex, if_pos (homing_exit_alarm_approach _ _ _ _ (by rw [hm]; exact hex))]

/-- One pass through the body of the motion loop in a pull-off pass: neither
`axislock` nor `sys.homing_axis_lock` is written. -/
theorem homing_poll_pulloff (K : SystemH) (S : limits_settings_t) (E : Outside)
    (fx : Machine → Machine) (fuel : Nat) (cycle_mask axislock : Nat) (w : World) :
    (homing_poll K S E fx fuel false cycle_mask axislock w).world.m.sys.homing_axis_lock
        = w.m.sys.homing_axis_lock ∧
      ∀ a w', homing_poll K S E fx fuel false cycle_mask axislock w = .next a w' →
        a = axislock := by
  unfold homing_poll
  simp only [Bool.false_eq_true, if_false]
  split_ifs
  · exact ⟨by simp [Poll.world, (homing_exit_alarm_sys _ _ _ _ _).1, World.arrive],
      fun a w' h => by cases h⟩
  · exact ⟨by simp [Poll.world, (homing_exit_alarm_sys _ _ _ _ _).1, World.arrive],
      fun a w' h => by cases h⟩
  · exact ⟨by simp [Poll.world, World.arrive], fun a w' h => by cases h; rfl⟩
  · exact ⟨by simp [Poll.world, World.arrive], fun a w' h => by cases h⟩

theorem bit_istrue_eq_testBit (x i : Nat) : (x &&& bit i != 0) = x.testBit i := by
  cases h : x.testBit i
  · simp [h]
  · simp [h]

theorem lt_three_cases (idx : Nat) : idx = 0 ∨ idx = 1 ∨ idx = 2 ∨ 3 ≤ idx := by omega

/-- The `for` loop of limits.c 169-188, one axis after the other. -/
theorem homing_pass_axes_eq (S : limits_settings_t) (cycle_mask : Nat) (approach : Bool)
    (max_travel : ℚ) (v : pass_vars) :
    (homing_pass_axes S cycle_mask approach max_travel v).axislock =
      ((v.axislock ||| (if cycle_mask.testBit 0 then 4 else 0))
        ||| (if cycle_mask.testBit 1 then 8 else 0)) ||| (if cycle_mask.testBit 2 then 16 else 0) ∧
    (homing_pass_axes S cycle_mask approach max_travel v).n_active_axis =
      v.n_active_axis + n_active_axes cycle_mask ∧
    (∀ idx, (homing_pass_axes S cycle_mask approach max_travel v).sys_position idx =
      if idx < N_AXIS ∧ cycle_mask.testBit idx = true then 0 else v.sys_position idx) ∧
    (∀ idx, (homing_pass_axes S cycle_mask approach max_travel v).target idx =
      if idx < N_AXIS ∧ cycle_mask.testBit idx = true then
        (if S.homing_dir_mask.testBit idx = true then
          if approach = true then -max_travel else max_travel
        else if approach = true then max_travel else -max_travel)
      else v.target idx) := by
  refine ⟨?_, ?_, ?_, ?_⟩
  · by_cases h0 : cycle_mask.testBit 0 = true <;> by_cases h1 : cycle_mask.testBit 1 = true <;>
    by_cases h2 : cycle_mask.testBit 2 = true <;>
    simp [homing_pass_axes, N_AXIS, List.range_succ, get_step_pin_mask, X_AXIS,
      Y_AXIS, X_STEP_BIT, Y_STEP_BIT, Z_STEP_BIT, h0, h1, h2, -Nat.testBit_zero]
  · by_cases h0 : cycle_mask.testBit 0 = true <;> by_cases h1 : cycle_mask.testBit 1 = true <;>
    by_cases h2 : cycle_mask.testBit 2 = true <;>
    simp [homing_pass_axes, n_active_axes, N_AXIS, List.range_succ, bit_istrue_eq_testBit,
      h0, h1, h2, -Nat.testBit_zero, List.filter, -land_bit_eq_zero_iff]
  · intro idx
    rcases lt_three_cases idx with h | h | h | h <;>
    by_cases h0 : cycle_mask.testBit 0 = true <;> by_cases h1 : cycle_mask.testBit 1 = true <;>
    by_cases h2 : cycle_mask.testBit 2 = true <;>
    first
    | (subst h
       simp [homing_pass_axes, N_AXIS, List.range_succ, h0, h1, h2, -Nat.testBit_zero,
         Function.update_apply])
    | (have e0 : idx ≠ 0 := by omega
       have e1 : idx ≠ 1 := by omega
       have e2 : idx ≠ 2 := by omega
       have e3 : ¬ idx < 3 := by omega
       simp [homing_pass_axes, N_AXIS, List.range_succ, h0, h1, h2, -Nat.testBit_zero,
         Function.update_apply, e0, e1, e2, e3])
  · intro idx
    rcases lt_three_cases idx with h | h | h | h <;>
    by_cases h0 : cycle_mask.testBit 0 = true <;> by_cases h1 : cycle_mask.testBit 1 = true <;>
    by_cases h2 : cycle_mask.testBit 2 = true <;>
    first
    | (subst h
       simp [homing_pass_axes, N_AXIS, List.range_succ, h0, h1, h2, -Nat.testBit_zero,
         Function.update_apply])
    | (have e0 : idx ≠ 0 := by omega
       have e1 : idx ≠ 1 := by omega
       have e2 : idx ≠ 2 := by omega
       have e3 : ¬ idx < 3 := by omega
       simp [homing_pass_axes, N_AXIS, List.range_succ, h0, h1, h2, -Nat.testBit_zero,
         Function.update_apply, e0, e1, e2, e3])

/-- The start of a pass (limits.c 164-198). -/
theorem homing_pass_start_eq (K : SystemH) (S : limits_settings_t) (sqrt : Nat → ℚ)
    (cycle_mask : Nat) (approach : Bool) (max_travel homing_rate : ℚ) (w : World) :
    (homing_pass_start K S sqrt cycle_mask approach max_travel homing_rate w).2.1 =
      ((if cycle_mask.testBit 0 then 4 else 0) ||| (if cycle_mask.testBit 1 then 8 else 0))
        ||| (if cycle_mask.testBit 2 then 16 else 0) ∧
    (homing_pass_start K S sqrt cycle_mask approach max_travel homing_rate w).1.m.sys.homing_axis_lock
      = (homing_pass_start K S sqrt cycle_mask approach max_travel homing_rate w).2.1 ∧
    (∀ idx, (homing_pass_start K S sqrt cycle_mask approach max_travel homing_rate w).1.sys_position
        idx = if idx < N_AXIS ∧ cycle_mask.testBit idx = true then 0 else w.sys_position idx) := by
  refine ⟨?_, ?_, ?_⟩
  · simp only [homing_pass_start, (homing_pass_axes_eq _ _ _ _ _).1, Nat.zero_or]
  · simp only [homing_pass_start, set_homing_axis_lock, call, set_step_control]
  · intro idx
    simp only [homing_pass_start, (homing_pass_axes_eq _ _ _ _ _).2.2.1 idx]

/-- The lock mask through the motion loop of an approach pass: no bit is ever
set, the loop is left through its `while` condition only with every step bit
cleared, and it is never left through `break`. -/
theorem homing_motion_approach_lock (K : SystemH) (S : limits_settings_t) (E : Outside)
    (fx : Machine → Machine) (fuel cycle_mask : Nat) :
    ∀ (polls axislock : Nat) (w : World), w.m.sys.homing_axis_lock = axislock →
      (∀ j, (homing_motion K S E fx fuel true cycle_mask polls axislock w).world.m.sys.homing_axis_lock.testBit
          j = true → axislock.testBit j = true) ∧
      (∀ a w', homing_motion K S E fx fuel true cycle_mask polls axislock w = .locked a w' →
        STEP_MASK &&& w'.m.sys.homing_axis_lock = 0) ∧
      (∀ a w', homing_motion K S E fx fuel true cycle_mask polls axislock w ≠ .stopped a w') := by
  intro polls
  induction polls with
  | zero =>
    intro a w hw
    refine ⟨fun j hj => ?_, fun a' w' h => ?_, fun a' w' h => ?_⟩
    · simpa [homing_motion, Motion.world, hw] using hj
    · simp [homing_motion] at h
    · simp [homing_motion] at h
  | succ polls ih =>
    intro a w hw
    have hmono := (homing_lock_update_testBit
      (limits_get_state S.flags (E.LIMIT_PIN w.m.clock)) a).1
    rw [homing_motion, homing_poll_approach]
    split_ifs with hex hstep
    · refine ⟨fun j hj => ?_, fun a' w' h => ?_, fun a' w' h => ?_⟩
      · apply hmono
        simpa [Motion.world, (homing_exit_alarm_sys _ _ _ _ _).1, World.arrive] using hj
      · cases h
      · cases h
    · have := ih (homing_lock_update (limits_get_state S.flags (E.LIMIT_PIN w.m.clock)) a)
        (((w.arrive E).on (set_homing_axis_lock (homing_lock_update
          (limits_get_state S.flags (E.LIMIT_PIN w.m.clock)) a))).on (call .st_prep_buffer))
        (by simp [World.arrive])
      exact ⟨fun j hj => hmono j (this.1 j hj), this.2.1, this.2.2⟩
    · refine ⟨fun j hj => ?_, fun a' w' h => ?_, fun a' w' h => ?_⟩
      · apply hmono
        simpa [Motion.world, World.arrive] using hj
      · cases h
        simpa [World.arrive] using hstep
      · cases h

/-- The lock mask through the motion loop of a pull-off pass: never written. -/
theorem homing_motion_pulloff_lock (K : SystemH) (S : limits_settings_t) (E : Outside)
    (fx : Machine → Machine) (fuel cycle_mask : Nat) :
    ∀ (polls axislock : Nat) (w : World),
      (homing_motion K S E fx fuel false cycle_mask polls axislock w).world.m.sys.homing_axis_lock
        = w.m.sys.homing_axis_lock := by
  intro polls
  induction polls with
  | zero => intro a w; rfl
  | succ polls ih =>
    intro a w
    have hp := (homing_poll_pulloff K S E fx fuel cycle_mask a w).1
    rw [homing_motion]
    cases hr : homing_poll K S E fx fuel false cycle_mask a w with
    | next a' w' =>
      rw [hr] at hp
      simp only [Poll.world] at hp
      simp only [ih, hp]
    | locked a' w' => rw [hr] at hp; exact hp
    | stopped a' w' => rw [hr] at hp; exact hp
    | failed w' r => rw [hr] at hp; exact hp

theorem get_step_pin_mask_land (x idx : Nat) (h : idx < N_AXIS) :
    (x &&& get_step_pin_mask idx ≠ 0) ↔ x.testBit (idx + 2) = true := by
  have : idx = 0 ∨ idx = 1 ∨ idx = 2 := by unfold N_AXIS at h; omega
  rcases this with h | h | h <;> subst h <;>
  simp [get_step_pin_mask, X_AXIS, Y_AXIS, X_STEP_BIT, Y_STEP_BIT, Z_STEP_BIT, one_shiftLeft_eq_bit]

theorem homing_lock_update_axis (ls a idx : Nat) (h : idx < N_AXIS) :
    (homing_lock_update ls a &&& get_step_pin_mask idx ≠ 0) ↔
      (a &&& get_step_pin_mask idx ≠ 0 ∧ ls &&& (1 <<< idx) = 0) := by
  rw [get_step_pin_mask_land _ _ h, get_step_pin_mask_land _ _ h, one_shiftLeft_eq_bit,
    land_bit_eq_zero_iff]
  have hu := homing_lock_update_testBit ls a
  have : idx = 0 ∨ idx = 1 ∨ idx = 2 := by unfold N_AXIS at h; omega
  rcases this with h | h | h <;> subst h
  · rw [hu.2.1]; simp
  · rw [hu.2.2.1]; simp
  · rw [hu.2.2.2]; simp

theorem homing_start_lock_axis (cycle_mask idx : Nat) (h : idx < N_AXIS) :
    ((((if cycle_mask.testBit 0 then 4 else 0) ||| (if cycle_mask.testBit 1 then 8 else 0))
        ||| (if cycle_mask.testBit 2 then 16 else 0)) &&& get_step_pin_mask idx ≠ 0) ↔
      cycle_mask &&& bit idx ≠ 0 := by
  have : idx = 0 ∨ idx = 1 ∨ idx = 2 := by unfold N_AXIS at h; omega
  rcases this with h | h | h <;> subst h <;>
  by_cases h0 : cycle_mask.testBit 0 = true <;> by_cases h1 : cycle_mask.testBit 1 = true <;>
  by_cases h2 : cycle_mask.testBit 2 = true <;>
  simp [get_step_pin_mask, X_AXIS, Y_AXIS, X_STEP_BIT, Y_STEP_BIT, Z_STEP_BIT, h0, h1, h2,
    -Nat.testBit_zero] <;> decide

theorem homing_start_lock_step (cycle_mask : Nat) :
    (((if cycle_mask.testBit 0 then 4 else 0) ||| (if cycle_mask.testBit 1 then 8 else 0))
        ||| (if cycle_mask.testBit 2 then 16 else 0)) ||| STEP_MASK = STEP_MASK := by
  by_cases h0 : cycle_mask.testBit 0 = true <;> by_cases h1 : cycle_mask.testBit 1 = true <;>
  by_cases h2 : cycle_mask.testBit 2 = true <;>
  simp only [h0, h1, h2, if_true, if_false, Bool.false_eq_true] <;> decide

/-- C15 (amended): in an approach pass of `limits_go_home`,
`sys.homing_axis_lock` starts as the set of step-pin bits of the axes in
`cycle_mask`; at every poll the bit of an axis stays set exactly when it was
set and the bit of the axis is clear in `limits_get_state()`, and no bit is
ever set, so that bits of axes outside `cycle_mask` stay clear throughout the
pass; a poll leaves the loop without alarm exactly when no step-pin bit remains
set and neither `EXEC_RESET` nor `EXEC_CYCLE_STOP` is pending at that poll,
and it ends the pass with an alarm exactly when one of the two is pending
(also when no step-pin bit remains set); a pass that ends without alarm ends
with no step-pin bit set. During a pull-off pass the lock mask is never
changed. -/
theorem C15_axis_lock (K : SystemH) (S : limits_settings_t) (E : Outside)
    (fx : Machine → Machine) (sqrt : Nat → ℚ) (fuel cycle_mask : Nat)
    (max_travel homing_rate : ℚ) (w : World) :
    ((homing_pass_start K S sqrt cycle_mask true max_travel homing_rate w).1.m.sys.homing_axis_lock
        = (homing_pass_start K S sqrt cycle_mask true max_travel homing_rate w).2.1 ∧
      (∀ idx, idx < N_AXIS →
        ((homing_pass_start K S sqrt cycle_mask true max_travel homing_rate w).2.1
            &&& get_step_pin_mask idx ≠ 0 ↔ cycle_mask &&& bit idx ≠ 0)) ∧
      (homing_pass_start K S sqrt cycle_mask true max_travel homing_rate w).2.1 ||| STEP_MASK
        = STEP_MASK) ∧
    (∀ (axislock : Nat) (w : World),
      (homing_poll K S E fx fuel true cycle_mask axislock w).world.m.sys.homing_axis_lock
        = homing_lock_update (limits_get_state S.flags (E.LIMIT_PIN w.m.clock)) axislock ∧
      (∀ idx, idx < N_AXIS →
        (homing_lock_update (limits_get_state S.flags (E.LIMIT_PIN w.m.clock)) axislock
            &&& get_step_pin_mask idx ≠ 0 ↔
          (axislock &&& get_step_pin_mask idx ≠ 0 ∧
            limits_get_state S.flags (E.LIMIT_PIN w.m.clock) &&& (1 <<< idx) = 0))) ∧
      (∀ j, (homing_lock_update (limits_get_state S.flags (E.LIMIT_PIN w.m.clock))
          axislock).testBit j = true → axislock.testBit j = true) ∧
      ((∃ a w', homing_poll K S E fx fuel true cycle_mask axislock w = .locked a w') ↔
        (STEP_MASK &&& homing_lock_update (limits_get_state S.flags (E.LIMIT_PIN w.m.clock))
            axislock = 0 ∧
          (w.m.sys_rt_exec_state ||| E.rt w.m.clock) &&& (K.EXEC_RESET ||| K.EXEC_CYCLE_STOP)
            = 0)) ∧
      ((∃ w' r, homing_poll K S E fx fuel true cycle_mask axislock w = .failed w' r ∧
          w'.m.sys_rt_exec_alarm ≠ 0) ↔
        (w.m.sys_rt_exec_state ||| E.rt w.m.clock) &&& (K.EXEC_RESET ||| K.EXEC_CYCLE_STOP)
          ≠ 0) ∧
      (∀ a w', homing_poll K S E fx fuel true cycle_mask axislock w ≠ .stopped a w')) ∧
    (∀ polls,
      (∀ j, (homing_motion K S E fx fuel true cycle_mask polls
          (homing_pass_start K S sqrt cycle_mask true max_travel homing_rate w).2.1
          (homing_pass_start K S sqrt cycle_mask true max_travel homing_rate
            w).1).world.m.sys.homing_axis_lock.testBit j = true →
        (homing_pass_start K S sqrt cycle_mask true max_travel homing_rate w).2.1.testBit j
          = true) ∧
      (∀ idx, idx < N_AXIS → cycle_mask &&& bit idx = 0 →
        (homing_motion K S E fx fuel true cycle_mask polls
          (homing_pass_start K S sqrt cycle_mask true max_travel homing_rate w).2.1
          (homing_pass_start K S sqrt cycle_mask true max_travel homing_rate
            w).1).world.m.sys.homing_axis_lock &&& get_step_pin_mask idx = 0) ∧
      (∀ w', homing_pass K S E fx sqrt fuel polls cycle_mask true max_travel homing_rate w
          = .homed w' → STEP_MASK &&& w'.m.sys.homing_axis_lock = 0)) ∧
    (∀ (polls axislock : Nat) (w : World),
      (homing_motion K S E fx fuel false cycle_mask polls axislock w).world.m.sys.homing_axis_lock
        = w.m.sys.homing_axis_lock) := by
  have hs := homing_pass_start_eq K S sqrt cycle_mask true max_travel homing_rate w
  refine ⟨⟨hs.2.1, fun idx hidx => ?_, ?_⟩, fun a w => ⟨?_, fun idx hidx => ?_, ?_, ?_, ?_, ?_⟩,
    fun polls => ?_, homing_motion_pulloff_lock K S E fx fuel cycle_mask⟩
  · rw [hs.1]; exact homing_start_lock_axis cycle_mask idx hidx
  · rw [hs.1]; exact homing_start_lock_step cycle_mask
  · rw [homing_poll_approach]
    split_ifs <;> simp [Poll.world, (homing_exit_alarm_sys _ _ _ _ _).1, World.arrive]
  · exact homing_lock_update_axis _ _ idx hidx
  · exact (homing_lock_update_testBit _ _).1
  · rw [homing_poll_approach]
    split_ifs with hex hstep
    · exact ⟨fun ⟨_, _, h⟩ => (by cases h), fun h => absurd h.2 hex⟩
    · exact ⟨fun ⟨_, _, h⟩ => (by cases h), fun h => absurd h.1 hstep⟩
    · exact ⟨fun _ => ⟨not_not.mp hstep, not_not.mp hex⟩, fun _ => ⟨_, _, rfl⟩⟩
  · rw [homing_poll_approach]
    split_ifs with hex hstep
    · refine ⟨fun _ => hex, fun _ => ⟨_, _, rfl, ?_⟩⟩
      exact homing_exit_alarm_approach _ _ _ _ (by simpa [World.arrive] using hex)
    · exact ⟨fun ⟨_, _, h, _⟩ => (by cases h), fun h => absurd h hex⟩
    · exact ⟨fun ⟨_, _, h, _⟩ => (by cases h), fun h => absurd h hex⟩
  · intro a' w' h
    rw [homing_poll_approach] at h
    split_ifs at h
  · have hm := homing_motion_approach_lock K S E fx fuel cycle_mask polls _ _ hs.2.1
    refine ⟨hm.1, fun idx hidx hc => ?_, fun w' h => ?_⟩
    · by_contra hne
      have h1 := (get_step_pin_mask_land _ _ hidx).mp hne
      have h2 := hm.1 _ h1
      have h3 := (get_step_pin_mask_land _ _ hidx).mpr h2
      rw [hs.1] at h3
      exact (homing_start_lock_axis cycle_mask idx hidx).mp h3 hc
    · simp only [homing_pass] at h
      cases hr : homing_motion K S E fx fuel true cycle_mask polls
        (homing_pass_start K S sqrt cycle_mask true max_travel homing_rate w).2.1
        (homing_pass_start K S sqrt cycle_mask true max_travel homing_rate w).1 with
      | locked a w1 =>
        rw [hr] at h
        simp only [Homing.homed.injEq] at h
        subst h
        simpa using hm.2.1 _ _ hr
      | stopped a w1 => exact absurd hr (hm.2.2 _ _)
      | failed w1 r => rw [hr] at h; cases h
      | waiting a w1 => rw [hr] at h; cases h

/-- C15 as stated fails: homing the X axis from rest with the switch already
tripped and `EXEC_CYCLE_STOP` delivered before the first poll, the first poll
of the approach pass clears the last step-pin bit of the lock mask, and the
pass nevertheless ends with the alarm `EXEC_ALARM_HOMING_FAIL_APPROACH`. -/
theorem C15_axis_lock_counterexample :
    ∃ w r, homing_pass grbl11 default_limits_settings (tripped_outside grbl11.EXEC_CYCLE_STOP)
        id (fun _ => 1) 1 1 1 true 100 2000 idle_world = .failed w r ∧
      STEP_MASK &&& w.m.sys.homing_axis_lock = 0 ∧
      w.m.sys_rt_exec_alarm = EXEC_ALARM_HOMING_FAIL_APPROACH :=
  ⟨_, _, rfl, by decide, by decide⟩

/-! ## Homing: the machine position -/

/-- A value less than one half above the integer `f` is rounded to `f`. -/
theorem round_half_even_of_lt (y : ℚ) (f : ℤ) (h1 : (f : ℚ) ≤ y) (h2 : y - f < 1 / 2) :
    round_half_even y = f := by
  have hf : ⌊y⌋ = f := Int.floor_eq_iff.mpr ⟨h1, by linarith⟩
  unfold round_half_even
  rw [hf, if_pos h2]

/-- The binary32 value of `x` from its exponent `e` and the rounded
significand `k`. -/
theorem binary32_eq (x : ℚ) (e k : ℤ) (h1 : (2 : ℚ) ^ e ≤ |x|) (h2 : |x| < 2 ^ (e + 1))
    (he : -126 ≤ e) (hk : round_half_even (x / 2 ^ (e - 23)) = k) :
    binary32 x = k * 2 ^ (e - 23) := by
  have hpos : (0 : ℚ) < |x| := lt_of_lt_of_le (zpow_pos (by norm_num) e) h1
  have hx : x ≠ 0 := abs_pos.mp hpos
  have hlog : Int.log 2 |x| = e := by
    have a := (Int.zpow_le_iff_le_log (b := 2) (by norm_num) hpos).mp (by exact_mod_cast h1)
    have b := (Int.lt_zpow_iff_log_lt (b := 2) (by norm_num) hpos).mp (by exact_mod_cast h2)
    omega
  unfold binary32
  rw [if_neg hx]
  simp only [hlog, max_eq_left he, hk]

/-- Limits.c 271-286, axis by axis. -/
theorem homing_set_positions_eq (S : limits_settings_t) (cycle_mask : Nat) (w : World)
    (idx : Nat) :
    (homing_set_positions S cycle_mask w).sys_position idx =
      if idx < N_AXIS ∧ cycle_mask.testBit idx = true then
        (if S.homing_dir_mask.testBit idx = true then
          lround (binary32 (binary32 (S.max_travel idx + S.homing_pulloff) * S.steps_per_mm idx))
        else lround (binary32 (-S.homing_pulloff * S.steps_per_mm idx)))
      else w.sys_position idx := by
  rcases lt_three_cases idx with h | h | h | h <;>
  by_cases h0 : cycle_mask.testBit 0 = true <;> by_cases h1 : cycle_mask.testBit 1 = true <;>
  by_cases h2 : cycle_mask.testBit 2 = true <;>
  by_cases d0 : S.homing_dir_mask.testBit 0 = true <;>
  by_cases d1 : S.homing_dir_mask.testBit 1 = true <;>
  by_cases d2 : S.homing_dir_mask.testBit 2 = true <;>
  first
  | (subst h
     simp [homing_set_positions, N_AXIS, List.range_succ, h0, h1, h2, d0, d1, d2,
       -Nat.testBit_zero, Function.update_apply])
  | (have e0 : idx ≠ 0 := by omega
     have e1 : idx ≠ 1 := by omega
     have e2 : idx ≠ 2 := by omega
     have e3 : ¬ idx < 3 := by omega
     simp [homing_set_positions, N_AXIS, List.range_succ, h0, h1, h2, d0, d1, d2,
       -Nat.testBit_zero, Function.update_apply, e0, e1, e2, e3])

/-- The `float` operations of limits.c 278 with `$130=299.995`, `$27=0.5` and
`$100=100`: the sum -299.4949951171875 is exact, the product
-29949.49951171875 is rounded to -29949.5. -/
theorem binary32_fine_position :
    binary32 (binary32 (-9830236 / 32768 + 1 / 2) * 100) = -59899 / 2 := by
  have e1 : binary32 (-9830236 / 32768 + 1 / 2) = -9813852 / 32768 := by
    rw [binary32_eq (-9830236 / 32768 + 1 / 2) 8 (-9813852)
      (by rw [abs_of_neg (by norm_num)]; norm_num)
      (by rw [abs_of_neg (by norm_num)]; norm_num) (by norm_num)
      (round_half_even_of_lt _ _ (by norm_num) (by norm_num))]
    norm_num
  rw [e1, binary32_eq (-9813852 / 32768 * 100) 14 (-15334144)
    (by rw [abs_of_neg (by norm_num)]; norm_num)
    (by rw [abs_of_neg (by norm_num)]; norm_num) (by norm_num)
    (round_half_even_of_lt _ _ (by norm_num) (by norm_num))]
  norm_num

/-- C12, the code at the input of limits.c 278 with `$130=299.995` and
`$100=100`: the rounded product is -29949.5 and the position stored is -29950
steps, where the exact product -29949.49951171875 is nearer to -29949; the
position is still less than one step from the exact value. -/
theorem homing_position_fine :
    (limits_go_home grbl11 fine_limits_settings homing_outside id (fun _ => 1) 1 1 1
      idle_world).world.sys_position 0 = -29950 ∧
    (fine_limits_settings.max_travel 0 + fine_limits_settings.homing_pulloff)
      * fine_limits_settings.steps_per_mm 0 = -29949 - 1023 / 2048 := by
  constructor
  · have e := homing_set_positions_eq fine_limits_settings 1
      (homing_passes grbl11 fine_limits_settings homing_outside id (fun _ => 1) 1 1 1
        (2 * N_HOMING_LOCATE_CYCLE + 1) true (homing_search_travel fine_limits_settings 1)
        fine_limits_settings.homing_seek_rate idle_world).world 0
    rw [if_pos (by decide)] at e
    have hw : (limits_go_home grbl11 fine_limits_settings homing_outside id (fun _ => 1) 1 1 1
        idle_world).world
        = homing_set_positions fine_limits_settings 1
          (homing_passes grbl11 fine_limits_settings homing_outside id (fun _ => 1) 1 1 1
            (2 * N_HOMING_LOCATE_CYCLE + 1) true (homing_search_travel fine_limits_settings 1)
            fine_limits_settings.homing_seek_rate idle_world).world := rfl
    rw [hw, e]
    simp only [fine_limits_settings, default_limits_settings]
    rw [if_pos (by decide)]
    rw [binary32_fine_position]
    norm_num [lround]
  · norm_num [fine_limits_settings, default_limits_settings]

theorem planned_axis_append (idx : Nat) (l1 l2 : List Call) :
    planned_axis idx (l1 ++ l2) = planned_axis idx l1 ++ planned_axis idx l2 := by
  induction l1 with
  | nil => rfl
  | cons c l ih => cases c <;> simp [planned_axis, ih]

theorem homing_poll_planned (K : SystemH) (S : limits_settings_t) (E : Outside)
    (fx : Machine → Machine) (fuel : Nat) (approach : Bool) (cycle_mask axislock : Nat)
    (w : World) (idx : Nat) :
    planned_axis idx (homing_poll K S E fx fuel approach cycle_mask axislock w).world.m.trace
      = planned_axis idx w.m.trace := by
  unfold homing_poll
  cases approach <;> simp only [Bool.false_eq_true, if_false, if_true] <;>
  split_ifs <;>
  simp [Poll.world, World.arrive, (homing_exit_alarm_sys _ _ _ _ _).2.1, planned_axis_append,
    planned_axis]

theorem homing_motion_planned (K : SystemH) (S : limits_settings_t) (E : Outside)
    (fx : Machine → Machine) (fuel : Nat) (approach : Bool) (cycle_mask : Nat) (idx : Nat) :
    ∀ (polls axislock : Nat) (w : World),
      planned_axis idx
          (homing_motion K S E fx fuel approach cycle_mask polls axislock w).world.m.trace
        = planned_axis idx w.m.trace := by
  intro polls
  induction polls with
  | zero => intro a w; rfl
  | succ polls ih =>
    intro a w
    have hp := homing_poll_planned K S E fx fuel approach cycle_mask a w idx
    rw [homing_motion]
    cases hr : homing_poll K S E fx fuel approach cycle_mask a w with
    | next a' w' =>
      rw [hr] at hp
      simp only [Poll.world] at hp
      simp only [ih, hp]
    | locked a' w' => rw [hr] at hp; exact hp
    | stopped a' w' => rw [hr] at hp; exact hp
    | failed w' r => rw [hr] at hp; exact hp

theorem homing_pass_start_planned (K : SystemH) (S : limits_settings_t) (sqrt : Nat → ℚ)
    (cycle_mask : Nat) (approach : Bool) (max_travel homing_rate : ℚ) (w : World) (idx : Nat)
    (hidx : idx < N_AXIS) (hc : cycle_mask.testBit idx = true) :
    planned_axis idx
        (homing_pass_start K S sqrt cycle_mask approach max_travel homing_rate w).1.m.trace
      = planned_axis idx w.m.trace
        ++ [(|max_travel|, homing_rate * sqrt (n_active_axes cycle_mask))] := by
  have ht := (homing_pass_axes_eq S cycle_mask approach max_travel
    { axislock := 0, n_active_axis := 0, sys_position := w.sys_position,
      target := system_convert_array_steps_to_mpos S w.sys_position }).2.2.2 idx
  have hn := (homing_pass_axes_eq S cycle_mask approach max_travel
    { axislock := 0, n_active_axis := 0, sys_position := w.sys_position,
      target := system_convert_array_steps_to_mpos S w.sys_position }).2.1
  rw [if_pos ⟨hidx, hc⟩] at ht
  simp only [Nat.zero_add] at hn
  have hget : ((List.range N_AXIS).map (homing_pass_axes S cycle_mask approach max_travel
      { axislock := 0, n_active_axis := 0, sys_position := w.sys_position,
        target := system_convert_array_steps_to_mpos S w.sys_position }).target).getD idx 0
      = (homing_pass_axes S cycle_mask approach max_travel
      { axislock := 0, n_active_axis := 0, sys_position := w.sys_position,
        target := system_convert_array_steps_to_mpos S w.sys_position }).target idx := by
    rcases lt_three_cases idx with h | h | h | h
    · subst h; rfl
    · subst h; rfl
    · subst h; rfl
    · unfold N_AXIS at hidx; omega
  have habs : |(homing_pass_axes S cycle_mask approach max_travel
      { axislock := 0, n_active_axis := 0, sys_position := w.sys_position,
        target := system_convert_array_steps_to_mpos S w.sys_position }).target idx|
      = |max_travel| := by
    rw [ht]; split_ifs <;> simp
  simp only [homing_pass_start, call, set_step_control, set_homing_axis_lock, planned_axis_append,
    planned_axis, List.append_assoc, List.nil_append, List.append_nil, List.singleton_append,
    hget, habs, hn, List.cons_append]

/-- Every pass plans one line, whatever its end. -/
theorem homing_pass_planned (K : SystemH) (S : limits_settings_t) (E : Outside)
    (fx : Machine → Machine) (sqrt : Nat → ℚ) (fuel polls cycle_mask : Nat) (approach : Bool)
    (max_travel homing_rate : ℚ) (w : World) (idx : Nat)
    (hidx : idx < N_AXIS) (hc : cycle_mask.testBit idx = true) :
    planned_axis idx (homing_pass K S E fx sqrt fuel polls cycle_mask approach max_travel
        homing_rate w).world.m.trace
      = planned_axis idx w.m.trace
        ++ [(|max_travel|, homing_rate * sqrt (n_active_axes cycle_mask))] := by
  have hs := homing_pass_start_planned K S sqrt cycle_mask approach max_travel homing_rate w idx
    hidx hc
  have hm := homing_motion_planned K S E fx fuel approach cycle_mask idx polls
    (homing_pass_start K S sqrt cycle_mask approach max_travel homing_rate w).2.1
    (homing_pass_start K S sqrt cycle_mask approach max_travel homing_rate w).1
  rw [hs] at hm
  simp only [homing_pass]
  cases hr : homing_motion K S E fx fuel approach cycle_mask polls
    (homing_pass_start K S sqrt cycle_mask approach max_travel homing_rate w).2.1
    (homing_pass_start K S sqrt cycle_mask approach max_travel homing_rate w).1 with
  | locked a w1 =>
    rw [hr] at hm
    simpa [Homing.world, Motion.world, planned_axis_append, planned_axis] using hm
  | stopped a w1 =>
    rw [hr] at hm
    simpa [Homing.world, Motion.world, planned_axis_append, planned_axis] using hm
  | failed w1 r => rw [hr] at hm; simpa [Homing.world, Motion.world] using hm
  | waiting a w1 => rw [hr] at hm; simpa [Homing.world, Motion.world] using hm

/-- The lines planned by the outer loop: a prefix of the schedule, and all of
it when the loop runs to its end. -/
theorem homing_passes_planned (K : SystemH) (S : limits_settings_t) (E : Outside)
    (fx : Machine → Machine) (sqrt : Nat → ℚ) (fuel polls cycle_mask : Nat) (idx : Nat)
    (hidx : idx < N_AXIS) (hc : cycle_mask.testBit idx = true) :
    ∀ (n_cycle : Nat) (approach : Bool) (max_travel homing_rate : ℚ) (w : World),
      ∃ k, planned_axis idx (homing_passes K S E fx sqrt fuel polls cycle_mask n_cycle approach
            max_travel homing_rate w).world.m.trace
          = planned_axis idx w.m.trace ++
            ((homing_schedule S n_cycle approach max_travel homing_rate).take k).map
              (fun p => (|p.1|, p.2 * sqrt (n_active_axes cycle_mask))) ∧
        (∀ w', homing_passes K S E fx sqrt fuel polls cycle_mask n_cycle approach
            max_travel homing_rate w = .homed w' → k = n_cycle + 1) := by
  intro n_cycle
  induction n_cycle with
  | zero =>
    intro approach max_travel homing_rate w
    refine ⟨1, ?_, fun _ _ => rfl⟩
    rw [homing_passes, homing_pass_planned K S E fx sqrt fuel polls cycle_mask approach max_travel
      homing_rate w idx hidx hc]
    rfl
  | succ n ih =>
    intro approach max_travel homing_rate w
    have hp := homing_pass_planned K S E fx sqrt fuel polls cycle_mask approach max_travel
      homing_rate w idx hidx hc
    rw [homing_passes]
    cases hr : homing_pass K S E fx sqrt fuel polls cycle_mask approach max_travel homing_rate
      w with
    | homed w1 =>
      rw [hr] at hp
      simp only [Homing.world] at hp
      obtain ⟨k, hk, hk'⟩ := ih (!approach) (homing_next S (n + 1) (!approach)).1
        (homing_next S (n + 1) (!approach)).2 w1
      refine ⟨k + 1, ?_, fun w' h => ?_⟩
      · simp only [hk, hp, homing_schedule, List.take_succ_cons, List.map_cons,
          List.append_assoc, List.singleton_append]
      · simp only at h
        rw [hk' w' h]
    | skipped w1 =>
      rw [hr] at hp
      exact ⟨1, by simpa [homing_schedule] using hp, fun w' h => by cases h⟩
    | failed w1 r =>
      rw [hr] at hp
      exact ⟨1, by simpa [homing_schedule] using hp, fun w' h => by cases h⟩
    | waiting w1 =>
      rw [hr] at hp
      exact ⟨1, by simpa [homing_schedule] using hp, fun w' h => by cases h⟩

theorem homing_schedule_eq (S : limits_settings_t) (max_travel : ℚ) :
    homing_schedule S (2 * N_HOMING_LOCATE_CYCLE + 1) true max_travel S.homing_seek_rate =
      [(max_travel, S.homing_seek_rate),
       (DISTANCE_FIRST_PULLAWAY, S.homing_seek_rate),
       (S.homing_pulloff * HOMING_AXIS_LOCATE_SCALAR + DISTANCE_FIRST_PULLAWAY,
         S.homing_seek_rate),
       (S.homing_pulloff, S.homing_seek_rate),
       (S.homing_pulloff * HOMING_AXIS_LOCATE_SCALAR, S.homing_feed_rate),
       (S.homing_pulloff, S.homing_seek_rate)] := by
  simp [homing_schedule, homing_next, N_HOMING_LOCATE_CYCLE]

/-- The lines `limits_go_home` plans for an axis of the cycle. -/
theorem limits_go_home_planned (K : SystemH) (S : limits_settings_t) (E : Outside)
    (fx : Machine → Machine) (sqrt : Nat → ℚ) (fuel polls cycle_mask : Nat) (w : World)
    (idx : Nat) (hidx : idx < N_AXIS) (hc : cycle_mask &&& bit idx ≠ 0) :
    ∃ k, planned_axis idx
          (limits_go_home K S E fx sqrt fuel polls cycle_mask w).world.m.trace
        = planned_axis idx w.m.trace ++
          ([(|homing_search_travel S cycle_mask|,
              S.homing_seek_rate * sqrt (n_active_axes cycle_mask)),
            (|DISTANCE_FIRST_PULLAWAY|, S.homing_seek_rate * sqrt (n_active_axes cycle_mask)),
            (|S.homing_pulloff * HOMING_AXIS_LOCATE_SCALAR + DISTANCE_FIRST_PULLAWAY|,
              S.homing_seek_rate * sqrt (n_active_axes cycle_mask)),
            (|S.homing_pulloff|, S.homing_seek_rate * sqrt (n_active_axes cycle_mask)),
            (|S.homing_pulloff * HOMING_AXIS_LOCATE_SCALAR|,
              S.homing_feed_rate * sqrt (n_active_axes cycle_mask)),
            (|S.homing_pulloff|, S.homing_seek_rate * sqrt (n_active_axes cycle_mask))].take k) ∧
      (∀ w', limits_go_home K S E fx sqrt fuel polls cycle_mask w = .homed w' → k = 6) := by
  have hc' : cycle_mask.testBit idx = true := by
    cases hb : cycle_mask.testBit idx
    · exact absurd ((land_bit_eq_zero_iff _ _).mpr hb) hc
    · rfl
  unfold limits_go_home
  split_ifs with hab
  · exact ⟨0, by simp [Homing.world], fun w' h => by cases h⟩
  · obtain ⟨k, hk, hk'⟩ := homing_passes_planned K S E fx sqrt fuel polls cycle_mask idx hidx hc'
      (2 * N_HOMING_LOCATE_CYCLE + 1) true (homing_search_travel S cycle_mask)
      S.homing_seek_rate w
    rw [homing_schedule_eq, List.map_take] at hk
    simp only [List.map_cons, List.map_nil] at hk
    refine ⟨k, ?_, ?_⟩
    · cases hr : homing_passes K S E fx sqrt fuel polls cycle_mask
        (2 * N_HOMING_LOCATE_CYCLE + 1) true (homing_search_travel S cycle_mask)
        S.homing_seek_rate w with
      | homed w1 =>
        rw [hr] at hk
        simpa [Homing.world, homing_set_positions] using hk
      | skipped w1 => rw [hr] at hk; exact hk
      | failed w1 r => rw [hr] at hk; exact hk
      | waiting w1 => rw [hr] at hk; exact hk
    · intro w' h
      cases hr : homing_passes K S E fx sqrt fuel polls cycle_mask
        (2 * N_HOMING_LOCATE_CYCLE + 1) true (homing_search_travel S cycle_mask)
        S.homing_seek_rate w with
      | homed w1 => exact hk' w1 hr
      | skipped w1 => rw [hr] at h; cases h
      | failed w1 r => rw [hr] at h; cases h
      | waiting w1 => rw [hr] at h; cases h

/-- C13 (amended): for an axis of the cycle, `limits_go_home` plans its passes
in this order, each with its feed rate multiplied by `sqrt(n_active_axis)`:
the first approach at `settings.homing_seek_rate` over the search distance, the
first pull-off at `settings.homing_seek_rate` over `DISTANCE_FIRST_PULLAWAY`,
the second approach at `settings.homing_seek_rate` over
`settings.homing_pulloff * HOMING_AXIS_LOCATE_SCALAR + DISTANCE_FIRST_PULLAWAY`,
a pull-off at `settings.homing_seek_rate` over `settings.homing_pulloff`, the
third approach at `settings.homing_feed_rate` over
`settings.homing_pulloff * HOMING_AXIS_LOCATE_SCALAR`, and a last pull-off at
`settings.homing_seek_rate` over `settings.homing_pulloff`. A call that is cut
short plans a leading part of this list, a call that runs to its end all six. -/
theorem C13_homing_plan (K : SystemH) (S : limits_settings_t) (E : Outside)
    (fx : Machine → Machine) (sqrt : Nat → ℚ) (fuel polls cycle_mask : Nat) (w : World)
    (idx : Nat) (hidx : idx < N_AXIS) (hc : cycle_mask &&& bit idx ≠ 0) :
    ∃ k, planned_axis idx
          (limits_go_home K S E fx sqrt fuel polls cycle_mask w).world.m.trace
        = planned_axis idx w.m.trace ++
          ([(|homing_search_travel S cycle_mask|,
              S.homing_seek_rate * sqrt (n_active_axes cycle_mask)),
            (|DISTANCE_FIRST_PULLAWAY|, S.homing_seek_rate * sqrt (n_active_axes cycle_mask)),
            (|S.homing_pulloff * HOMING_AXIS_LOCATE_SCALAR + DISTANCE_FIRST_PULLAWAY|,
              S.homing_seek_rate * sqrt (n_active_axes cycle_mask)),
            (|S.homing_pulloff|, S.homing_seek_rate * sqrt (n_active_axes cycle_mask)),
            (|S.homing_pulloff * HOMING_AXIS_LOCATE_SCALAR|,
              S.homing_feed_rate * sqrt (n_active_axes cycle_mask)),
            (|S.homing_pulloff|, S.homing_seek_rate * sqrt (n_active_axes cycle_mask))].take k) ∧
      (∀ w', limits_go_home K S E fx sqrt fuel polls cycle_mask w = .homed w' → k = 6) :=
  limits_go_home_planned K S E fx sqrt fuel polls cycle_mask w idx hidx hc

/-- C13, an instance: the X axis of a CR1 homed from rest with its default
settings. -/
theorem C13_homing_plan_witness :
    0 < N_AXIS ∧ 1 &&& bit 0 ≠ 0 ∧
    ∃ k, planned_axis 0
          (limits_go_home grbl11 default_limits_settings homing_outside id (fun _ => 1) 1 1 1
            idle_world).world.m.trace
        = planned_axis 0 idle_world.m.trace ++
          ([(|homing_search_travel default_limits_settings 1|,
              default_limits_settings.homing_seek_rate * (fun _ => 1) (n_active_axes 1)),
            (|DISTANCE_FIRST_PULLAWAY|,
              default_limits_settings.homing_seek_rate * (fun _ => 1) (n_active_axes 1)),
            (|default_limits_settings.homing_pulloff * HOMING_AXIS_LOCATE_SCALAR
                + DISTANCE_FIRST_PULLAWAY|,
              default_limits_settings.homing_seek_rate * (fun _ => 1) (n_active_axes 1)),
            (|default_limits_settings.homing_pulloff|,
              default_limits_settings.homing_seek_rate * (fun _ => 1) (n_active_axes 1)),
            (|default_limits_settings.homing_pulloff * HOMING_AXIS_LOCATE_SCALAR|,
              default_limits_settings.homing_feed_rate * (fun _ => 1) (n_active_axes 1)),
            (|default_limits_settings.homing_pulloff|,
              default_limits_settings.homing_seek_rate * (fun _ => 1) (n_active_axes 1))].take
                k) ∧
      (∀ w', limits_go_home grbl11 default_limits_settings homing_outside id (fun _ => 1) 1 1 1
          idle_world = .homed w' → k = 6) :=
  ⟨by decide, by decide, C13_homing_plan grbl11 default_limits_settings homing_outside id
    (fun _ => 1) 1 1 1 idle_world 0 (by decide) (by decide)⟩

/-- C13 as stated fails: homing the X axis of a CR1 from rest with its default
settings runs to its end, and the second approach (the third line planned) has
the feed rate `settings.homing_seek_rate` = 2000 and the distance
`0.5 * 5 + 5` = 7.5, not `settings.homing_feed_rate` = 30 and
`settings.homing_pulloff * HOMING_AXIS_LOCATE_SCALAR` = 2.5. -/
theorem C13_homing_plan_counterexample :
    limits_go_home grbl11 default_limits_settings homing_outside id (fun _ => 1) 1 1 1 idle_world
      = .homed (limits_go_home grbl11 default_limits_settings homing_outside id (fun _ => 1) 1 1
          1 idle_world).world ∧
    (planned_axis 0 (limits_go_home grbl11 default_limits_settings homing_outside id
        (fun _ => 1) 1 1 1 idle_world).world.m.trace).get? 2 = some (15 / 2, 2000) ∧
    default_limits_settings.homing_pulloff * HOMING_AXIS_LOCATE_SCALAR = 5 / 2 ∧
    default_limits_settings.homing_feed_rate * (fun _ => (1 : ℚ)) (n_active_axes 1) = 30 := by
  obtain ⟨k, hk, hk'⟩ := limits_go_home_planned grbl11 default_limits_settings homing_outside id
    (fun _ => 1) 1 1 1 idle_world 0 (by decide) (by decide)
  have h6 := hk' _ rfl
  subst h6
  refine ⟨rfl, ?_, ?_, ?_⟩
  · rw [hk]
    have : planned_axis 0 idle_world.m.trace = [] := rfl
    rw [this]
    norm_num [default_limits_settings, HOMING_AXIS_LOCATE_SCALAR, DISTANCE_FIRST_PULLAWAY]
  · norm_num [default_limits_settings, HOMING_AXIS_LOCATE_SCALAR]
  · norm_num [default_limits_settings]

/-! ## The trip positions of the two X switches -/

theorem toInt16_sub (a b : ℤ) : toInt16 (toInt16 a - toInt16 b) = toInt16 (a - b) := by
  unfold toInt16; omega

theorem toInt16_of_fits (x : ℤ) (h1 : -32768 ≤ x) (h2 : x ≤ 32767) : toInt16 x = x := by
  unfold toInt16; omega

/-- The loop of limits.c 350-355 is left at the first poll at which both
switches read released. -/
theorem trip_clear_loop_done (S : limits_settings_t) (E : Outside) :
    ∀ (k polls : Nat) (w : World),
      (∀ j, j < k → limit_X1_tripped S E (w.m.clock + j) ≠ 0 ∨
        limit_X2_tripped S E (w.m.clock + j) ≠ 0) →
      limit_X1_tripped S E (w.m.clock + k) = 0 → limit_X2_tripped S E (w.m.clock + k) = 0 →
      k < polls →
      ∃ w', trip_clear_loop S E polls w = .done w' ∧ w'.m.clock = w.m.clock + k + 1 ∧
        w'.sys_position = stepper_run E (k + 1) w.m.clock w.sys_position ∧
        w'.m.sys = w.m.sys := by
  intro k
  induction k with
  | zero =>
    intro polls w _ h1 h2 hp
    obtain ⟨polls, rfl⟩ : ∃ q, polls = q + 1 := ⟨polls - 1, by omega⟩
    simp only [Nat.add_zero] at h1 h2
    refine ⟨(w.arrive E).on (call .st_prep_buffer), ?_, ?_, ?_, ?_⟩
    · rw [trip_clear_loop]
      simp only [h1, h2, ne_eq, not_true_eq_false, or_self, if_false]
    · simp [World.arrive]
    · simp [World.arrive, stepper_run]
    · simp [World.arrive]
  | succ k ih =>
    intro polls w hk h1 h2 hp
    obtain ⟨polls, rfl⟩ : ∃ q, polls = q + 1 := ⟨polls - 1, by omega⟩
    have h0 := hk 0 (by omega)
    simp only [Nat.add_zero] at h0
    have hc : ((w.arrive E).on (call .st_prep_buffer)).m.clock = w.m.clock + 1 := by
      simp [World.arrive]
    obtain ⟨w', e, e1, e2, e3⟩ := ih polls ((w.arrive E).on (call .st_prep_buffer))
      (fun j hj => by
        have := hk (j + 1) (by omega)
        rw [hc]; rwa [show w.m.clock + 1 + j = w.m.clock + (j + 1) by omega])
      (by rw [hc]; rwa [show w.m.clock + 1 + k = w.m.clock + (k + 1) by omega])
      (by rw [hc]; rwa [show w.m.clock + 1 + k = w.m.clock + (k + 1) by omega])
      (by omega)
    refine ⟨w', ?_, ?_, ?_, ?_⟩
    · rw [trip_clear_loop]
      simp only [h0, if_true]
      exact e
    · rw [e1, hc]; omega
    · rw [e2, hc]
      simp [World.arrive, stepper_run]
    · rw [e3]; simp [World.arrive]

/-- The loop of limits.c 409-415 is left once `EXEC_RESET` or
`EXEC_CYCLE_STOP` has been delivered. -/
theorem trip_stop_loop_done (K : SystemH) (E : Outside) :
    ∀ (r polls : Nat) (w : World),
      E.rt (w.m.clock + r) &&& (K.EXEC_RESET ||| K.EXEC_CYCLE_STOP) ≠ 0 → r < polls →
      ∃ w', trip_stop_loop K E polls w = .done w' := by
  intro r
  induction r with
  | zero =>
    intro polls w h hp
    obtain ⟨polls, rfl⟩ : ∃ q, polls = q + 1 := ⟨polls - 1, by omega⟩
    simp only [Nat.add_zero] at h
    have hs : ((w.arrive E).on (call .st_prep_buffer)).m.sys_rt_exec_state &&&
        (K.EXEC_RESET ||| K.EXEC_CYCLE_STOP) ≠ 0 := by
      intro h0
      apply h
      have e : ((w.arrive E).on (call .st_prep_buffer)).m.sys_rt_exec_state
          = w.m.sys_rt_exec_state ||| E.rt w.m.clock := by simp [World.arrive]
      rw [e, Nat.and_comm, Nat.and_or_distrib_left] at h0
      rw [Nat.and_comm]
      exact ((lor_eq_zero_iff _ _).mp h0).2
    rw [trip_stop_loop]
    exact ⟨_, if_pos hs⟩
  | succ r ih =>
    intro polls w h hp
    obtain ⟨polls, rfl⟩ : ∃ q, polls = q + 1 := ⟨polls - 1, by omega⟩
    rw [trip_stop_loop]
    by_cases hs : ((w.arrive E).on (call .st_prep_buffer)).m.sys_rt_exec_state &&&
        (K.EXEC_RESET ||| K.EXEC_CYCLE_STOP) = 0
    · have hc : ((w.arrive E).on (call .st_prep_buffer)).m.clock = w.m.clock + 1 := by
        simp [World.arrive]
      obtain ⟨w', hw'⟩ := ih polls ((w.arrive E).on (call .st_prep_buffer))
        (by rw [hc]; rwa [show w.m.clock + 1 + r = w.m.clock + (r + 1) by omega]) (by omega)
      exact ⟨w', (if_neg (not_not.mpr hs)).trans hw'⟩
    · exact ⟨_, if_pos hs⟩

theorem trip_latch_X1 (X1 X2 : Nat) (p : ℤ) (v : trip_vars) :
    (trip_latch X1 X2 p v).trip_position_X1 =
        (if X1 ≠ 0 ∧ v.helper_X1 = true then toInt16 p else v.trip_position_X1) ∧
      (trip_latch X1 X2 p v).helper_X1 = (if X1 ≠ 0 then false else v.helper_X1) := by
  unfold trip_latch
  by_cases h1 : X1 = 0 <;> by_cases h2 : X2 = 0 <;> cases h : v.helper_X1 <;>
  cases h' : v.helper_X2 <;> simp [h1, h2, h, h']

theorem trip_latch_X2 (X1 X2 : Nat) (p : ℤ) (v : trip_vars) :
    (trip_latch X1 X2 p v).trip_position_X2 =
        (if X2 ≠ 0 ∧ v.helper_X2 = true then toInt16 p else v.trip_position_X2) ∧
      (trip_latch X1 X2 p v).helper_X2 = (if X2 ≠ 0 then false else v.helper_X2) := by
  unfold trip_latch
  by_cases h1 : X1 = 0 <;> by_cases h2 : X2 = 0 <;> cases h : v.helper_X1 <;>
  cases h' : v.helper_X2 <;> simp [h1, h2, h, h']

/-- The approach loop of limits.c 379-392 is left at the first poll at which
both switches read tripped; each trip position then holds the position read at
the first poll at which its switch read tripped, if it had not been latched
when the loop was entered, and the value it had otherwise. -/
theorem trip_approach_loop_done (S : limits_settings_t) (E : Outside) :
    ∀ (n polls : Nat) (v : trip_vars) (w : World),
      (∀ j, j < n → ¬ (limit_X1_tripped S E (w.m.clock + j) ≠ 0 ∧
        limit_X2_tripped S E (w.m.clock + j) ≠ 0)) →
      limit_X1_tripped S E (w.m.clock + n) ≠ 0 → limit_X2_tripped S E (w.m.clock + n) ≠ 0 →
      n < polls →
      ∃ v' w', trip_approach_loop S E polls v w = .done v' w' ∧
        w'.m.clock = w.m.clock + n + 1 ∧
        (v.helper_X1 = false → v'.trip_position_X1 = v.trip_position_X1) ∧
        (v.helper_X2 = false → v'.trip_position_X2 = v.trip_position_X2) ∧
        (∀ i, i ≤ n → v.helper_X1 = true → limit_X1_tripped S E (w.m.clock + i) ≠ 0 →
          (∀ j, j < i → limit_X1_tripped S E (w.m.clock + j) = 0) →
          v'.trip_position_X1 = toInt16 (stepper_run E (i + 1) w.m.clock w.sys_position X_AXIS)) ∧
        (∀ i, i ≤ n → v.helper_X2 = true → limit_X2_tripped S E (w.m.clock + i) ≠ 0 →
          (∀ j, j < i → limit_X2_tripped S E (w.m.clock + j) = 0) →
          v'.trip_position_X2 = toInt16 (stepper_run E (i + 1) w.m.clock w.sys_position X_AXIS)) := by
  intro n
  induction n with
  | zero =>
    intro polls v w _ h1 h2 hp
    obtain ⟨polls, rfl⟩ : ∃ q, polls = q + 1 := ⟨polls - 1, by omega⟩
    simp only [Nat.add_zero] at h1 h2
    have l1 := trip_latch_X1 (limit_X1_tripped S E w.m.clock) (limit_X2_tripped S E w.m.clock)
      ((w.arrive E).sys_position X_AXIS) v
    have l2 := trip_latch_X2 (limit_X1_tripped S E w.m.clock) (limit_X2_tripped S E w.m.clock)
      ((w.arrive E).sys_position X_AXIS) v
    refine ⟨trip_latch (limit_X1_tripped S E w.m.clock) (limit_X2_tripped S E w.m.clock)
      ((w.arrive E).sys_position X_AXIS) v, (w.arrive E).on (call .st_prep_buffer),
      ?_, ?_, ?_, ?_, ?_, ?_⟩
    · rw [trip_approach_loop]
      exact if_neg (not_not.mpr ⟨h1, h2⟩)
    · simp [World.arrive]
    · intro hf; rw [l1.1, hf]; simp
    · intro hf; rw [l2.1, hf]; simp
    · intro i hi hv _ _
      obtain rfl : i = 0 := by omega
      rw [l1.1, if_pos ⟨h1, hv⟩]
      rfl
    · intro i hi hv _ _
      obtain rfl : i = 0 := by omega
      rw [l2.1, if_pos ⟨h2, hv⟩]
      rfl
  | succ n ih =>
    intro polls v w hn h1 h2 hp
    obtain ⟨polls, rfl⟩ : ∃ q, polls = q + 1 := ⟨polls - 1, by omega⟩
    have l1 := trip_latch_X1 (limit_X1_tripped S E w.m.clock) (limit_X2_tripped S E w.m.clock)
      ((w.arrive E).sys_position X_AXIS) v
    have l2 := trip_latch_X2 (limit_X1_tripped S E w.m.clock) (limit_X2_tripped S E w.m.clock)
      ((w.arrive E).sys_position X_AXIS) v
    have h0 := hn 0 (by omega)
    simp only [Nat.add_zero] at h0
    have hc : ((w.arrive E).on (call .st_prep_buffer)).m.clock = w.m.clock + 1 := by
      simp [World.arrive]
    have hpos : ((w.arrive E).on (call .st_prep_buffer)).sys_position
        = E.stepper w.m.clock w.sys_position := by simp [World.arrive]
    have hshift : ∀ j, w.m.clock + 1 + j = w.m.clock + (j + 1) := fun j => by omega
    obtain ⟨v', w', e, e1, e2, e3, e4, e5⟩ := ih polls
      (trip_latch (limit_X1_tripped S E w.m.clock) (limit_X2_tripped S E w.m.clock)
        ((w.arrive E).sys_position X_AXIS) v)
      ((w.arrive E).on (call .st_prep_buffer))
      (fun j hj => by rw [hc, hshift]; exact hn (j + 1) (by omega))
      (by rw [hc, hshift]; exact h1)
      (by rw [hc, hshift]; exact h2)
      (by omega)
    refine ⟨v', w', ?_, ?_, ?_, ?_, ?_, ?_⟩
    · rw [trip_approach_loop]
      exact (if_pos h0).trans e
    · rw [e1, hc]; omega
    · intro hf
      rw [e2 (by rw [l1.2, hf]; simp), l1.1, hf]; simp
    · intro hf
      rw [e3 (by rw [l2.2, hf]; simp), l2.1, hf]; simp
    · intro i hi hv hX hfirst
      rcases Nat.eq_zero_or_pos i with h | h
      · subst h
        simp only [Nat.add_zero] at hX
        rw [e2 (by rw [l1.2, if_pos hX]), l1.1, if_pos ⟨hX, hv⟩]
        rfl
      · obtain ⟨i, rfl⟩ : ∃ q, i = q + 1 := ⟨i - 1, by omega⟩
        have hX0 := hfirst 0 (by omega)
        simp only [Nat.add_zero] at hX0
        have := e4 i (by omega) (by rw [l1.2, hX0]; simpa using hv)
          (by rw [hc, hshift]; exact hX)
          (fun j hj => by rw [hc, hshift]; exact hfirst (j + 1) (by omega))
        rw [this, hc, hpos]
        rfl
    · intro i hi hv hX hfirst
      rcases Nat.eq_zero_or_pos i with h | h
      · subst h
        simp only [Nat.add_zero] at hX
        rw [e3 (by rw [l2.2, if_pos hX]), l2.1, if_pos ⟨hX, hv⟩]
        rfl
      · obtain ⟨i, rfl⟩ : ∃ q, i = q + 1 := ⟨i - 1, by omega⟩
        have hX0 := hfirst 0 (by omega)
        simp only [Nat.add_zero] at hX0
        have := e5 i (by omega) (by rw [l2.2, hX0]; simpa using hv)
          (by rw [hc, hshift]; exact hX)
          (fun j hj => by rw [hc, hshift]; exact hfirst (j + 1) (by omega))
        rw [this, hc, hpos]
        rfl

theorem trip_motion_start_frame (K : SystemH) (S : limits_settings_t) (target_X feed_rate : ℚ)
    (w : World) :
    (trip_motion_start K S target_X feed_rate w).m.clock = w.m.clock ∧
    (trip_motion_start K S target_X feed_rate w).sys_position
      = Function.update w.sys_position X_AXIS 0 ∧
    (trip_motion_start K S target_X feed_rate w).m.sys.abort = w.m.sys.abort := by
  simp [trip_motion_start]

/-- C16: `limits_find_trip_delta_X1X2`, entered without abort, in an
environment in which its first loop is left at the poll `k` (the first at
which both X switches read released), its approach loop at the poll `n` (the
first at which both read tripped) and its last loop after `EXEC_RESET` or
`EXEC_CYCLE_STOP` was delivered, returns. With `p_X1` and `p_X2` the values of
the 32-bit `sys_position[X_AXIS]` at the first poll of the approach loop at
which X1, and X2, read tripped, the value returned is the difference of the two
16-bit trip positions, which is `p_X1 - p_X2` reduced to 16 bits, and is
`p_X1 - p_X2` itself whenever that difference fits in 16 bits, whatever the
size of `p_X1` and `p_X2`. With `sys.abort` set the function returns 0 and
changes nothing. -/
theorem C16_trip_delta (K : SystemH) (S : limits_settings_t) (E : Outside) (polls : Nat)
    (w : World) (k n i1 i2 r : Nat)
    (hab : w.m.sys.abort = false)
    (hk : ∀ j, j < k → limit_X1_tripped S E (w.m.clock + j) ≠ 0 ∨
      limit_X2_tripped S E (w.m.clock + j) ≠ 0)
    (hk1 : limit_X1_tripped S E (w.m.clock + k) = 0)
    (hk2 : limit_X2_tripped S E (w.m.clock + k) = 0)
    (hn : ∀ j, j < n → ¬ (limit_X1_tripped S E (w.m.clock + k + 1 + j) ≠ 0 ∧
      limit_X2_tripped S E (w.m.clock + k + 1 + j) ≠ 0))
    (hn1 : limit_X1_tripped S E (w.m.clock + k + 1 + n) ≠ 0)
    (hn2 : limit_X2_tripped S E (w.m.clock + k + 1 + n) ≠ 0)
    (hi1 : i1 ≤ n) (hX1 : limit_X1_tripped S E (w.m.clock + k + 1 + i1) ≠ 0)
    (hfirst1 : ∀ j, j < i1 → limit_X1_tripped S E (w.m.clock + k + 1 + j) = 0)
    (hi2 : i2 ≤ n) (hX2 : limit_X2_tripped S E (w.m.clock + k + 1 + i2) ≠ 0)
    (hfirst2 : ∀ j, j < i2 → limit_X2_tripped S E (w.m.clock + k + 1 + j) = 0)
    (hr : E.rt (w.m.clock + k + 1 + n + 1 + r) &&& (K.EXEC_RESET ||| K.EXEC_CYCLE_STOP) ≠ 0)
    (hpolls : k < polls ∧ n < polls ∧ r < polls) :
    (∃ w', limits_find_trip_delta_X1X2 K S E polls w
        = .returned (toInt16 (toInt16 (trip_position E w k i1)
            - toInt16 (trip_position E w k i2))) w') ∧
      toInt16 (toInt16 (trip_position E w k i1) - toInt16 (trip_position E w k i2))
        = toInt16 (trip_position E w k i1 - trip_position E w k i2) ∧
      (-32768 ≤ trip_position E w k i1 - trip_position E w k i2 →
        trip_position E w k i1 - trip_position E w k i2 ≤ 32767 →
        toInt16 (toInt16 (trip_position E w k i1) - toInt16 (trip_position E w k i2))
          = trip_position E w k i1 - trip_position E w k i2) ∧
      (∀ w0 : World, w0.m.sys.abort = true →
        limits_find_trip_delta_X1X2 K S E polls w0 = .returned 0 w0) := by
  refine ⟨?_, toInt16_sub _ _, fun h1 h2 => ?_, fun w0 h0 => ?_⟩
  · -- the first motion
    have f0 := trip_motion_start_frame K S
      (if bit_istrue S.homing_dir_mask (bit X_AXIS) then DISTANCE_FIRST_PULLAWAY
        else -DISTANCE_FIRST_PULLAWAY) S.homing_seek_rate w
    obtain ⟨w1, e1, c1, p1, -⟩ := trip_clear_loop_done S E k polls
      (trip_motion_start K S
        (if bit_istrue S.homing_dir_mask (bit X_AXIS) then DISTANCE_FIRST_PULLAWAY
          else -DISTANCE_FIRST_PULLAWAY) S.homing_seek_rate w)
      (by rw [f0.1]; exact hk) (by rw [f0.1]; exact hk1) (by rw [f0.1]; exact hk2) hpolls.1
    rw [f0.1] at c1
    rw [f0.1, f0.2.1] at p1
    -- the approach
    have f1 := trip_motion_start_frame K S
      (if bit_istrue S.homing_dir_mask (bit X_AXIS) then
          -(-HOMING_AXIS_SEARCH_SCALAR * S.max_travel X_AXIS)
        else -HOMING_AXIS_SEARCH_SCALAR * S.max_travel X_AXIS) S.homing_feed_rate
      (w1.on (fun m => call (.delay_ms S.homing_debounce_delay) (call .st_reset m)))
    have c2 : (trip_motion_start K S
        (if bit_istrue S.homing_dir_mask (bit X_AXIS) then
            -(-HOMING_AXIS_SEARCH_SCALAR * S.max_travel X_AXIS)
          else -HOMING_AXIS_SEARCH_SCALAR * S.max_travel X_AXIS) S.homing_feed_rate
        (w1.on (fun m => call (.delay_ms S.homing_debounce_delay) (call .st_reset m)))).m.clock
        = w.m.clock + k + 1 := by rw [f1.1]; simpa using c1
    have p2 : (trip_motion_start K S
        (if bit_istrue S.homing_dir_mask (bit X_AXIS) then
            -(-HOMING_AXIS_SEARCH_SCALAR * S.max_travel X_AXIS)
          else -HOMING_AXIS_SEARCH_SCALAR * S.max_travel X_AXIS) S.homing_feed_rate
        (w1.on (fun m => call (.delay_ms S.homing_debounce_delay)
          (call .st_reset m)))).sys_position
        = Function.update
          (stepper_run E (k + 1) w.m.clock (Function.update w.sys_position X_AXIS 0))
          X_AXIS 0 := by rw [f1.2.1]; simp [p1]
    obtain ⟨v, w2, e2, c3, -, -, t1, t2⟩ := trip_approach_loop_done S E n polls
      { helper_X1 := true, helper_X2 := true, trip_position_X1 := 0, trip_position_X2 := 0 }
      (trip_motion_start K S
        (if bit_istrue S.homing_dir_mask (bit X_AXIS) then
            -(-HOMING_AXIS_SEARCH_SCALAR * S.max_travel X_AXIS)
          else -HOMING_AXIS_SEARCH_SCALAR * S.max_travel X_AXIS) S.homing_feed_rate
        (w1.on (fun m => call (.delay_ms S.homing_debounce_delay) (call .st_reset m))))
      (by rw [c2]; exact hn) (by rw [c2]; exact hn1) (by rw [c2]; exact hn2) hpolls.2.1
    have t1' := t1 i1 hi1 rfl (by rw [c2]; exact hX1) (by rw [c2]; exact hfirst1)
    have t2' := t2 i2 hi2 rfl (by rw [c2]; exact hX2) (by rw [c2]; exact hfirst2)
    rw [c2, p2] at t1' t2'
    rw [c2] at c3
    -- the last motion
    have f2 := trip_motion_start_frame K S
      (if bit_istrue S.homing_dir_mask (bit X_AXIS) then DISTANCE_FIRST_PULLAWAY
        else -DISTANCE_FIRST_PULLAWAY) S.homing_seek_rate
      (w2.on (fun m => call (.delay_ms S.homing_debounce_delay) (call .st_reset m)))
    obtain ⟨w3, e3⟩ := trip_stop_loop_done K E r polls
      (trip_motion_start K S
        (if bit_istrue S.homing_dir_mask (bit X_AXIS) then DISTANCE_FIRST_PULLAWAY
          else -DISTANCE_FIRST_PULLAWAY) S.homing_seek_rate
        (w2.on (fun m => call (.delay_ms S.homing_debounce_delay) (call .st_reset m))))
      (by
        rw [f2.1]
        have : (w2.on (fun m => call (.delay_ms S.homing_debounce_delay)
            (call .st_reset m))).m.clock = w.m.clock + k + 1 + n + 1 := by simpa using c3
        rw [this]; exact hr) hpolls.2.2
    refine ⟨(w3.on (fun m => call (.delay_ms S.homing_debounce_delay) (call .st_reset m))).on
      (set_step_control STEP_CONTROL_NORMAL_OP), ?_⟩
    unfold limits_find_trip_delta_X1X2 trip_position
    rw [if_neg (by rw [hab]; exact Bool.false_ne_true)]
    simp only [e1, e2, e3]
    rw [t1', t2']
  · rw [toInt16_sub]; exact toInt16_of_fits _ h1 h2
  · unfold limits_find_trip_delta_X1X2
    rw [if_pos h0]

/-- C16, an instance: on a CR1 at rest X1 trips at 20000 steps from the start
of the approach and X2 at 40000 steps, which is beyond the range of
`int16_t`; the function returns the difference, 20000. -/
theorem C16_trip_delta_witness :
    trip_position squaring_outside idle_world 0 0 = -20000 ∧
    trip_position squaring_outside idle_world 0 1 = -40000 ∧
    toInt16 (toInt16 (trip_position squaring_outside idle_world 0 0)
      - toInt16 (trip_position squaring_outside idle_world 0 1)) = 20000 ∧
    ((∃ w', limits_find_trip_delta_X1X2 grbl11 default_limits_settings squaring_outside 2
        idle_world
        = .returned (toInt16 (toInt16 (trip_position squaring_outside idle_world 0 0)
            - toInt16 (trip_position squaring_outside idle_world 0 1))) w') ∧
      toInt16 (toInt16 (trip_position squaring_outside idle_world 0 0)
          - toInt16 (trip_position squaring_outside idle_world 0 1))
        = toInt16 (trip_position squaring_outside idle_world 0 0
          - trip_position squaring_outside idle_world 0 1) ∧
      (-32768 ≤ trip_position squaring_outside idle_world 0 0
          - trip_position squaring_outside idle_world 0 1 →
        trip_position squaring_outside idle_world 0 0
          - trip_position squaring_outside idle_world 0 1 ≤ 32767 →
        toInt16 (toInt16 (trip_position squaring_outside idle_world 0 0)
            - toInt16 (trip_position squaring_outside idle_world 0 1))
          = trip_position squaring_outside idle_world 0 0
            - trip_position squaring_outside idle_world 0 1) ∧
      (∀ w0 : World, w0.m.sys.abort = true →
        limits_find_trip_delta_X1X2 grbl11 default_limits_settings squaring_outside 2 w0
          = .returned 0 w0)) :=
  ⟨by decide, by decide, by decide,
    C16_trip_delta grbl11 default_limits_settings squaring_outside 2 idle_world 0 1 0 1 0
      (by decide) (by decide) (by decide) (by decide) (by decide) (by decide) (by decide)
      (by decide) (by decide) (by decide) (by decide) (by decide) (by decide) (by decide)
      (by decide)⟩

/-! ## The line filter: what reaches the executor -/

theorem filtered_content_in_semi (input : List Char) :
    ∀ p, filtered_content p true input = [] := by
  induction input with
  | nil => intro p; rfl
  | cons c cs ih =>
    intro p
    simp only [filtered_content, Bool.or_true, if_true, or_true]
    split_ifs <;> exact ih _

/-- The one-pass filter and the description in three steps agree. -/
theorem filtered_content_eq (input : List Char) :
    ∀ p, filtered_content p false input
      = ((strip_comments p input).filter (fun c => ¬ c ≤ ' ' ∧ c ≠ '/')).map upcase := by
  induction input with
  | nil => intro p; cases p <;> rfl
  | cons c cs ih =>
    intro p
    cases p
    · by_cases h1 : c ≤ ' '
      · by_cases h3 : c = '('
        · subst h3; exact absurd h1 (by decide)
        by_cases h4 : c = ';'
        · subst h4; exact absurd h1 (by decide)
        simp [filtered_content, strip_comments, h1, h3, h4, ih]
      by_cases h2 : c = '/'
      · subst h2
        simp [filtered_content, strip_comments, ih]
      by_cases h3 : c = '('
      · subst h3
        simp [filtered_content, strip_comments, ih]
      by_cases h4 : c = ';'
      · subst h4
        simp [filtered_content, strip_comments, filtered_content_in_semi]
      have h1' : ' ' < c := not_le.mp h1
      by_cases h5 : c ≥ 'a' ∧ c ≤ 'z'
      · simp [filtered_content, strip_comments, h1, h1', h2, h3, h4, h5, ih, upcase,
          List.filter_cons]
      · simp [filtered_content, strip_comments, h1, h1', h2, h3, h4, h5, ih, upcase,
          List.filter_cons]
    · by_cases h : c = ')'
      · simp [filtered_content, strip_comments, h, ih]
      · simp [filtered_content, strip_comments, h, ih]

/-- Once `LINE_FLAG_OVERFLOW` is set, the rest of the line stores nothing and
leaves the flag set. -/
theorem protocol_overflow_sticky (input : List Char) :
    ∀ (s : line_state), s.line_flags &&& LINE_FLAG_OVERFLOW ≠ 0 →
      (input.foldl (fun s c => protocol_add_char c s) s).line = s.line ∧
      (input.foldl (fun s c => protocol_add_char c s) s).char_counter = s.char_counter ∧
      (input.foldl (fun s c => protocol_add_char c s) s).line_flags &&& LINE_FLAG_OVERFLOW
        ≠ 0 := by
  induction input with
  | nil => intro s h; exact ⟨rfl, rfl, h⟩
  | cons c cs ih =>
    intro s h
    have hne : s.line_flags ≠ 0 := by
      intro h0; rw [h0] at h; exact h (Nat.zero_and _)
    have hb : s.line_flags.testBit 0 = true := by
      cases hb : s.line_flags.testBit 0
      · exact absurd ((land_bit_eq_zero_iff _ _).mpr hb) h
      · rfl
    simp only [List.foldl_cons]
    by_cases h1 : c = ')'
    · by_cases h2 : s.line_flags &&& LINE_FLAG_COMMENT_PARENTHESES ≠ 0
      · have e : protocol_add_char c s
            = { s with line_flags := s.line_flags &&& (255 ^^^ LINE_FLAG_COMMENT_PARENTHESES) } := by
          simp only [protocol_add_char, hne, h1, h2, ne_eq, not_false_eq_true, if_true]
        rw [e]
        have := ih { s with line_flags := s.line_flags &&& (255 ^^^ LINE_FLAG_COMMENT_PARENTHESES) }
          (by
            rw [LINE_FLAG_OVERFLOW, ne_eq, land_bit_eq_zero_iff]
            simpa [LINE_FLAG_COMMENT_PARENTHESES, bit] using hb)
        simpa using this
      · have e : protocol_add_char c s = s := by
          simp only [protocol_add_char, hne, h1, h2, ne_eq, not_false_eq_true, if_true, if_false]
        rw [e]; exact ih s h
    · have e : protocol_add_char c s = s := by
        simp only [protocol_add_char, hne, h1, ne_eq, not_false_eq_true, if_true, if_false]
      rw [e]; exact ih s h

/-- The line buffer after reading `input`, when no overflow was flagged at the
end: the filtered content was appended, and the buffer is not longer than
`LINE_BUFFER_SIZE - 1`. `p` and `q` say whether the state is inside a `(` `)`
comment or a `;` comment. -/
theorem protocol_read_no_overflow (input : List Char) :
    ∀ (s : line_state) (p q : Bool),
      s.char_counter = s.line.length →
      s.line.length ≤ LINE_BUFFER_SIZE - 1 →
      ((s.line_flags = 0 ∧ p = false ∧ q = false) ∨
        (s.line_flags = LINE_FLAG_COMMENT_PARENTHESES ∧ p = true ∧ q = false) ∨
        (s.line_flags = LINE_FLAG_COMMENT_SEMICOLON ∧ p = false ∧ q = true)) →
      (input.foldl (fun s c => protocol_add_char c s) s).line_flags &&& LINE_FLAG_OVERFLOW
        = 0 →
      (input.foldl (fun s c => protocol_add_char c s) s).line
          = s.line ++ filtered_content p q input ∧
        (input.foldl (fun s c => protocol_add_char c s) s).line.length
          ≤ LINE_BUFFER_SIZE - 1 := by
  induction input with
  | nil =>
    intro s p q _ hle _ _
    simpa [filtered_content] using hle
  | cons c cs ih =>
    intro s p q hcnt hle hfl hno
    simp only [List.foldl_cons] at hno ⊢
    rcases hfl with ⟨h, hp, hq⟩ | ⟨h, hp, hq⟩ | ⟨h, hp, hq⟩
    · subst hp hq
      by_cases h1 : c ≤ ' '
      · have e : protocol_add_char c s = s := by simp [protocol_add_char, h, h1]
        rw [e] at hno ⊢
        have := ih s false false hcnt hle (Or.inl ⟨h, rfl, rfl⟩) hno
        simpa [filtered_content, h1] using this
      by_cases h2 : c = '/'
      · have e : protocol_add_char c s = s := by simp [protocol_add_char, h, h1, h2]
        rw [e] at hno ⊢
        have := ih s false false hcnt hle (Or.inl ⟨h, rfl, rfl⟩) hno
        simpa [filtered_content, h1, h2] using this
      by_cases h3 : c = '('
      · have e : protocol_add_char c s
            = { s with line_flags := s.line_flags ||| LINE_FLAG_COMMENT_PARENTHESES } := by
          simp [protocol_add_char, h, h1, h2, h3]
        rw [e] at hno ⊢
        have := ih { s with line_flags := s.line_flags ||| LINE_FLAG_COMMENT_PARENTHESES }
          true false hcnt hle (Or.inr (Or.inl ⟨by simp [h], rfl, rfl⟩)) hno
        simpa [filtered_content, h1, h2, h3] using this
      by_cases h4 : c = ';'
      · have e : protocol_add_char c s
            = { s with line_flags := s.line_flags ||| LINE_FLAG_COMMENT_SEMICOLON } := by
          simp [protocol_add_char, h, h1, h2, h3, h4]
        rw [e] at hno ⊢
        have := ih { s with line_flags := s.line_flags ||| LINE_FLAG_COMMENT_SEMICOLON }
          false true hcnt hle (Or.inr (Or.inr ⟨by simp [h], rfl, rfl⟩)) hno
        simpa [filtered_content, h1, h2, h3, h4] using this
      by_cases hov : s.char_counter ≥ LINE_BUFFER_SIZE - 1
      · exfalso
        have e : protocol_add_char c s
            = { s with line_flags := s.line_flags ||| LINE_FLAG_OVERFLOW } := by
          simp [protocol_add_char, h, h1, h2, h3, h4, hov]
        rw [e] at hno
        exact (protocol_overflow_sticky cs
          { s with line_flags := s.line_flags ||| LINE_FLAG_OVERFLOW }
          (by simp [h, LINE_FLAG_OVERFLOW])).2.2 hno
      have hle' : s.line.length + 1 ≤ LINE_BUFFER_SIZE - 1 := by
        simp only [LINE_BUFFER_SIZE] at hov ⊢; omega
      by_cases h5 : c ≥ 'a' ∧ c ≤ 'z'
      · have e : protocol_add_char c s
            = { s with
                line := s.line ++ [Char.ofNat (c.toNat - 'a'.toNat + 'A'.toNat)]
                char_counter := s.char_counter + 1 } := by
          simp [protocol_add_char, h, h1, h2, h3, h4, h5, hov]
        rw [e] at hno ⊢
        have := ih { s with
            line := s.line ++ [Char.ofNat (c.toNat - 'a'.toNat + 'A'.toNat)]
            char_counter := s.char_counter + 1 } false false (by simp [hcnt])
          (by simpa using hle') (Or.inl ⟨h, rfl, rfl⟩) hno
        simpa [filtered_content, h1, h2, h3, h4, h5] using this
      · have e : protocol_add_char c s
            = { s with line := s.line ++ [c], char_counter := s.char_counter + 1 } := by
          simp [protocol_add_char, h, h1, h2, h3, h4, h5, hov]
        rw [e] at hno ⊢
        have := ih { s with line := s.line ++ [c], char_counter := s.char_counter + 1 }
          false false (by simp [hcnt]) (by simpa using hle') (Or.inl ⟨h, rfl, rfl⟩) hno
        simpa [filtered_content, h1, h2, h3, h4, h5] using this
    · subst hp hq
      have hne : s.line_flags ≠ 0 := by
        rw [h]; simp [LINE_FLAG_COMMENT_PARENTHESES]
      by_cases h1 : c = ')'
      · have e : protocol_add_char c s
            = { s with line_flags := s.line_flags &&& (255 ^^^ LINE_FLAG_COMMENT_PARENTHESES) } := by
          have h2 : s.line_flags &&& LINE_FLAG_COMMENT_PARENTHESES ≠ 0 := by rw [h]; decide
          simp only [protocol_add_char, hne, h1, h2, ne_eq, not_false_eq_true, if_true]
        rw [e] at hno ⊢
        have := ih
          { s with line_flags := s.line_flags &&& (255 ^^^ LINE_FLAG_COMMENT_PARENTHESES) }
          false false hcnt hle
          (Or.inl ⟨by show s.line_flags &&& (255 ^^^ LINE_FLAG_COMMENT_PARENTHESES) = 0
                      rw [h]; rfl, rfl, rfl⟩) hno
        simpa [filtered_content, h1] using this
      · have e : protocol_add_char c s = s := by simp [protocol_add_char, hne, h1]
        rw [e] at hno ⊢
        have := ih s true false hcnt hle (Or.inr (Or.inl ⟨h, rfl, rfl⟩)) hno
        simpa [filtered_content, h1] using this
    · subst hp hq
      have hne : s.line_flags ≠ 0 := by
        rw [h]; simp [LINE_FLAG_COMMENT_SEMICOLON]
      by_cases h1 : c = ')'
      · have e : protocol_add_char c s = s := by
          simp [protocol_add_char, hne, h1, h, LINE_FLAG_COMMENT_SEMICOLON,
            LINE_FLAG_COMMENT_PARENTHESES]
        rw [e] at hno ⊢
        have := ih s false true hcnt hle (Or.inr (Or.inr ⟨h, rfl, rfl⟩)) hno
        simpa [filtered_content, h1] using this
      · have e : protocol_add_char c s = s := by simp [protocol_add_char, hne, h1]
        rw [e] at hno ⊢
        have := ih s false true hcnt hle (Or.inr (Or.inr ⟨h, rfl, rfl⟩)) hno
        simpa [filtered_content, h1] using this

/-- The capital written for a letter `a` ... `z` is none of the characters the
filter drops or changes. -/
theorem upcase_letter (c : Char) (h : c ≥ 'a' ∧ c ≤ 'z') :
    ¬ (Char.ofNat (c.toNat - 'a'.toNat + 'A'.toNat) ≥ 'a' ∧
        Char.ofNat (c.toNat - 'a'.toNat + 'A'.toNat) ≤ 'z') ∧
      ¬ Char.ofNat (c.toNat - 'a'.toNat + 'A'.toNat) ≤ ' ' ∧
      Char.ofNat (c.toNat - 'a'.toNat + 'A'.toNat) ≠ '/' ∧
      Char.ofNat (c.toNat - 'a'.toNat + 'A'.toNat) ≠ '(' ∧
      Char.ofNat (c.toNat - 'a'.toNat + 'A'.toNat) ≠ ';' := by
  have h1 : 97 ≤ c.toNat := by
    have := Char.le_def.mp h.1
    simpa [Char.toNat, UInt32.le_def] using this
  have h2 : c.toNat ≤ 122 := by
    have := Char.le_def.mp h.2
    simpa [Char.toNat, UInt32.le_def] using this
  generalize c.toNat = n at h1 h2 ⊢
  interval_cases n <;> decide

/-- What the filter keeps: no small letter, nothing up to the blank, no `/`,
`(` or `;`. -/
theorem filtered_content_mem (input : List Char) :
    ∀ (p q : Bool) (c : Char), c ∈ filtered_content p q input →
      ¬ (c ≥ 'a' ∧ c ≤ 'z') ∧ ¬ c ≤ ' ' ∧ c ≠ '/' ∧ c ≠ '(' ∧ c ≠ ';' := by
  induction input with
  | nil => intro p q c hc; simp [filtered_content] at hc
  | cons d ds ih =>
    intro p q c hc
    unfold filtered_content at hc
    split_ifs at hc with h0 h1 h2 h3 h4 h5 h6
    · exact ih _ _ c hc
    · exact ih _ _ c hc
    · exact ih _ _ c hc
    · exact ih _ _ c hc
    · exact ih _ _ c hc
    · exact ih _ _ c hc
    · rcases List.mem_cons.mp hc with rfl | hc
      · exact upcase_letter d h6
      · exact ih _ _ c hc
    · rcases List.mem_cons.mp hc with rfl | hc
      · exact ⟨h6, h2, h3, h4, h5⟩
      · exact ih _ _ c hc

/-- A line that holds none of the characters the filter drops or changes is
its own filtered content. -/
theorem filtered_content_of_clean (line : List Char)
    (h : ∀ c, c ∈ line → ¬ (c ≥ 'a' ∧ c ≤ 'z') ∧ ¬ c ≤ ' ' ∧ c ≠ '/' ∧ c ≠ '(' ∧ c ≠ ';') :
    filtered_content false false line = line := by
  induction line with
  | nil => rfl
  | cons d ds ih =>
    have hd := h d (List.mem_cons_self _ _)
    have := ih (fun c hc => h c (List.mem_cons_of_mem _ hc))
    simp [filtered_content, hd.1, hd.2.1, hd.2.2.1, hd.2.2.2.1, hd.2.2.2.2, this]

/-- C21: for every received line that does not overflow, the string that
`protocol_main_loop` hands to the executor is the input without its comments
(from a `(` to the next `)`, or to the end of the line when there is none, and
from a `;` to the end of the line), without the characters up to the blank and
without `/`, with the letters `a` ... `z` made capitals. That string holds no
small letter, no character up to the blank, no `/`, `(` or `;`, and filtering
it again returns it unchanged, without overflow. -/
theorem C21_filtered_line (input : List Char)
    (h : (protocol_read_line input).line_flags &&& LINE_FLAG_OVERFLOW = 0) :
    (protocol_read_line input).line = line_filter input ∧
    (∀ (K : SystemH) (X : Extern) (m : Machine),
      protocol_dispatch_line K X (protocol_read_line input) m
        = protocol_handle_line K X (line_filter input) m) ∧
    (∀ c, c ∈ (protocol_read_line input).line →
      ¬ (c ≥ 'a' ∧ c ≤ 'z') ∧ ¬ c ≤ ' ' ∧ c ≠ '/' ∧ c ≠ '(' ∧ c ≠ ';') ∧
    (protocol_read_line (protocol_read_line input).line).line = (protocol_read_line input).line ∧
    (protocol_read_line (protocol_read_line input).line).line_flags &&& LINE_FLAG_OVERFLOW
      = 0 := by
  have hr := protocol_read_no_overflow input line_start false false rfl (by decide)
    (Or.inl ⟨rfl, rfl, rfl⟩) h
  have h1 : (protocol_read_line input).line = filtered_content false false input := by
    simpa [protocol_read_line, line_start] using hr.1
  have hlen : (protocol_read_line input).line.length ≤ LINE_BUFFER_SIZE - 1 := hr.2
  have hmem : ∀ c, c ∈ (protocol_read_line input).line →
      ¬ (c ≥ 'a' ∧ c ≤ 'z') ∧ ¬ c ≤ ' ' ∧ c ≠ '/' ∧ c ≠ '(' ∧ c ≠ ';' := by
    intro c hc
    rw [h1] at hc
    exact filtered_content_mem input false false c hc
  have hclean := filtered_content_of_clean (protocol_read_line input).line hmem
  have hagain := protocol_read_fits (protocol_read_line input).line line_start false false rfl
    (Or.inl ⟨rfl, rfl, rfl⟩) (by rw [hclean]; simpa [line_start] using hlen)
  have h2 : (protocol_read_line input).line = line_filter input := by
    rw [h1, line_filter, filtered_content_eq]
  refine ⟨h2, fun K X m => ?_, hmem, ?_, hagain.2⟩
  · simp only [protocol_dispatch_line, h, ne_eq, not_true_eq_false, if_false, h2]
  · have := hagain.1
    rw [hclean] at this
    simpa [protocol_read_line, line_start] using this

/-- C21, the example of config.h 239: `g1 x1.032 y2.45 (test comment)` reaches
the executor as `G1X1.032Y2.45`. -/
theorem C21_filtered_line_witness :
    (protocol_read_line echo_example_line).line_flags &&& LINE_FLAG_OVERFLOW = 0 ∧
    (protocol_read_line echo_example_line).line
      = line_filter echo_example_line ∧
    line_filter echo_example_line
      = ['G', '1', 'X', '1', '.', '0', '3', '2', 'Y', '2', '.', '4', '5'] :=
  ⟨by decide,
    (C21_filtered_line echo_example_line (by decide)).1,
    by decide⟩

/-! ## The line buffer is never overrun -/

/-- One character received: the counter stays the length of what is stored and
stays at most `LINE_BUFFER_SIZE - 1`. -/
theorem protocol_feed_bound (c : Char) (s : line_state)
    (h : s.char_counter = s.line.length ∧ s.char_counter ≤ LINE_BUFFER_SIZE - 1) :
    (protocol_feed c s).char_counter = (protocol_feed c s).line.length ∧
      (protocol_feed c s).char_counter ≤ LINE_BUFFER_SIZE - 1 := by
  obtain ⟨h1, h2⟩ := h
  simp only [LINE_BUFFER_SIZE] at h2 ⊢
  unfold protocol_feed protocol_add_char
  simp only [LINE_BUFFER_SIZE]
  split_ifs <;> simp [line_start, h1] <;> omega

theorem protocol_feed_stream_bound (input : List Char) :
    ∀ s : line_state, s.char_counter = s.line.length ∧ s.char_counter ≤ LINE_BUFFER_SIZE - 1 →
      (input.foldl (fun s c => protocol_feed c s) s).char_counter
          = (input.foldl (fun s c => protocol_feed c s) s).line.length ∧
        (input.foldl (fun s c => protocol_feed c s) s).char_counter ≤ LINE_BUFFER_SIZE - 1 := by
  induction input with
  | nil => intro s h; exact h
  | cons c cs ih => intro s h; exact ih _ (protocol_feed_bound c s h)

/-- A character is stored only below `LINE_BUFFER_SIZE - 1`, at the index
`char_counter`, which is then incremented; nothing is stored while a flag is
set. -/
theorem protocol_add_char_store (c : Char) (s : line_state) :
    ((protocol_add_char c s).line = s.line ∧
        (protocol_add_char c s).char_counter = s.char_counter) ∨
      (s.line_flags = 0 ∧ s.char_counter < LINE_BUFFER_SIZE - 1 ∧
        (∃ d, (protocol_add_char c s).line = s.line ++ [d]) ∧
        (protocol_add_char c s).char_counter = s.char_counter + 1) := by
  unfold protocol_add_char
  split_ifs with h0 h1 h2 h3 h4 h5 h6 h7 h8
  all_goals first
    | exact Or.inl ⟨rfl, rfl⟩
    | exact Or.inr ⟨not_not.mp h0, not_le.mp h7, ⟨_, rfl⟩, rfl⟩

/-- C30: after any sequence of received characters (ends of line included),
`char_counter` is the number of characters stored in the line and is at most
`LINE_BUFFER_SIZE - 1` = 79, so that the terminating zero written at
`line[char_counter]` lies inside the buffer of `LINE_BUFFER_SIZE` bytes; the
next character is either not stored or stored at the index `char_counter`
< 79, with no flag set, and the counter is incremented by one; once
`LINE_FLAG_OVERFLOW` is set, the rest of the line stores nothing and leaves the
flag set. -/
theorem C30_line_buffer_bound (input : List Char) :
    (input.foldl (fun s c => protocol_feed c s) line_start).char_counter
      = (input.foldl (fun s c => protocol_feed c s) line_start).line.length ∧
    (input.foldl (fun s c => protocol_feed c s) line_start).char_counter
      ≤ LINE_BUFFER_SIZE - 1 ∧
    (input.foldl (fun s c => protocol_feed c s) line_start).char_counter < LINE_BUFFER_SIZE ∧
    (∀ c,
      ((protocol_add_char c (input.foldl (fun s c => protocol_feed c s) line_start)).line
          = (input.foldl (fun s c => protocol_feed c s) line_start).line ∧
        (protocol_add_char c (input.foldl (fun s c => protocol_feed c s) line_start)).char_counter
          = (input.foldl (fun s c => protocol_feed c s) line_start).char_counter) ∨
      ((input.foldl (fun s c => protocol_feed c s) line_start).line_flags = 0 ∧
        (input.foldl (fun s c => protocol_feed c s) line_start).char_counter
          < LINE_BUFFER_SIZE - 1 ∧
        (∃ d, (protocol_add_char c (input.foldl (fun s c => protocol_feed c s) line_start)).line
          = (input.foldl (fun s c => protocol_feed c s) line_start).line ++ [d]) ∧
        (protocol_add_char c (input.foldl (fun s c => protocol_feed c s) line_start)).char_counter
          = (input.foldl (fun s c => protocol_feed c s) line_start).char_counter + 1)) ∧
    ((input.foldl (fun s c => protocol_feed c s) line_start).line_flags &&& LINE_FLAG_OVERFLOW
        ≠ 0 →
      ∀ rest : List Char,
        (rest.foldl (fun s c => protocol_add_char c s)
            (input.foldl (fun s c => protocol_feed c s) line_start)).line
          = (input.foldl (fun s c => protocol_feed c s) line_start).line ∧
        (rest.foldl (fun s c => protocol_add_char c s)
            (input.foldl (fun s c => protocol_feed c s) line_start)).char_counter
          = (input.foldl (fun s c => protocol_feed c s) line_start).char_counter ∧
        (rest.foldl (fun s c => protocol_add_char c s)
            (input.foldl (fun s c => protocol_feed c s) line_start)).line_flags
          &&& LINE_FLAG_OVERFLOW ≠ 0) := by
  have hb := protocol_feed_stream_bound input line_start ⟨rfl, by decide⟩
  refine ⟨hb.1, hb.2, ?_, fun c => protocol_add_char_store c _,
    fun h rest => protocol_overflow_sticky rest _ h⟩
  have := hb.2
  simp only [LINE_BUFFER_SIZE] at this ⊢
  omega

/-! ## `$B=` and `$I=`: the string that is stored -/

theorem system_execute_line_B (K : SystemH) (X : Extern) (rest : List Char) (m : Machine)
    (hst : m.sys.state = STATE_IDLE ∨ m.sys.state = K.STATE_ALARM) :
    system_execute_line K X ('$' :: 'B' :: '=' :: rest) m
      = (.OK, call (.settings_store_manf_notes rest) m) := by
  rcases hst with h | h <;> simp [system_execute_line, char_at, NUL, h]

theorem system_execute_line_I (K : SystemH) (X : Extern) (rest : List Char) (m : Machine)
    (hst : m.sys.state = STATE_IDLE ∨ m.sys.state = K.STATE_ALARM) :
    system_execute_line K X ('$' :: 'I' :: '=' :: rest) m
      = (.OK, call (.settings_store_build_info rest) m) := by
  rcases hst with h | h <;> simp [system_execute_line, char_at, NUL, h]

/-- C24: for every line that `protocol_main_loop` accepts without overflow and
whose filtered content begins with `$B=` (with `$I=`), in state `IDLE` or
`ALARM`, the line is answered by one call of `settings_store_manf_notes` (of
`settings_store_build_info`) followed by the status `STATUS_OK`; the string
passed is the filtered line without its first three characters, and it is at
most 76 characters long. -/
theorem C24_stored_string (K : SystemH) (X : Extern) (input : List Char) (m : Machine)
    (hov : (protocol_read_line input).line_flags &&& LINE_FLAG_OVERFLOW = 0)
    (hst : m.sys.state = STATE_IDLE ∨ m.sys.state = K.STATE_ALARM) :
    ((protocol_read_line input).line.take 3 = ['$', 'B', '='] →
      calls_since m (protocol_dispatch_line K X (protocol_read_line input) m)
          = [Call.settings_store_manf_notes ((line_filter input).drop 3),
              Call.report_status_message .OK] ∧
        ((line_filter input).drop 3).length ≤ 76) ∧
    ((protocol_read_line input).line.take 3 = ['$', 'I', '='] →
      calls_since m (protocol_dispatch_line K X (protocol_read_line input) m)
          = [Call.settings_store_build_info ((line_filter input).drop 3),
              Call.report_status_message .OK] ∧
        ((line_filter input).drop 3).length ≤ 76) := by
  have hr := protocol_read_no_overflow input line_start false false rfl (by decide)
    (Or.inl ⟨rfl, rfl, rfl⟩) hov
  have h1 : (protocol_read_line input).line = line_filter input := by
    have : (protocol_read_line input).line = filtered_content false false input := by
      simpa [protocol_read_line, line_start] using hr.1
    rw [this, line_filter, filtered_content_eq]
  have hlen : (line_filter input).length ≤ LINE_BUFFER_SIZE - 1 := by rw [← h1]; exact hr.2
  have hd : ∀ m', protocol_dispatch_line K X (protocol_read_line input) m'
      = protocol_handle_line K X (line_filter input) m' := by
    intro m'
    simp only [protocol_dispatch_line, hov, ne_eq, not_true_eq_false, if_false, h1]
  have hdrop : ((line_filter input).drop 3).length ≤ 76 := by
    simp only [List.length_drop, LINE_BUFFER_SIZE] at hlen ⊢
    omega
  rw [h1]
  constructor
  · intro ht
    obtain ⟨rest, hrest⟩ : ∃ rest, line_filter input = '$' :: 'B' :: '=' :: rest := by
      generalize line_filter input = l at ht
      match l, ht with
      | a :: b :: c :: rest, ht =>
        simp only [List.take, List.cons.injEq, and_true] at ht
        obtain ⟨rfl, rfl, rfl⟩ := ht
        exact ⟨rest, rfl⟩
    refine ⟨?_, hdrop⟩
    rw [hd, hrest]
    simp [protocol_handle_line, char_at, NUL, system_execute_line_B K X rest m hst, calls_since]
  · intro ht
    obtain ⟨rest, hrest⟩ : ∃ rest, line_filter input = '$' :: 'I' :: '=' :: rest := by
      generalize line_filter input = l at ht
      match l, ht with
      | a :: b :: c :: rest, ht =>
        simp only [List.take, List.cons.injEq, and_true] at ht
        obtain ⟨rfl, rfl, rfl⟩ := ht
        exact ⟨rest, rfl⟩
    refine ⟨?_, hdrop⟩
    rw [hd, hrest]
    simp [protocol_handle_line, char_at, NUL, system_execute_line_I K X rest m hst, calls_since]

/-- C24, an instance: `$b=rev 3 (note)`, received at rest, stores `REV3` as
the manufacturing notes. -/
theorem C24_stored_string_witness :
    (line_filter notes_example_line).drop 3 = ['R', 'E', 'V', '3'] ∧
    calls_since idle_machine
        (protocol_dispatch_line grbl11 quiet_extern (protocol_read_line notes_example_line)
          idle_machine)
      = [Call.settings_store_manf_notes ((line_filter notes_example_line).drop 3),
          Call.report_status_message .OK] :=
  ⟨by decide,
    ((C24_stored_string grbl11 quiet_extern notes_example_line idle_machine (by decide)
      (Or.inl (by decide))).1 (by decide)).1⟩

/-! ## Rejected `$` commands that change `sys.state` -/

/-- C28, the code at two rejected lines (Grbl 1.1 layout): `$LX` received in
state `ALARM` is refused with `STATUS_INVALID_STATEMENT` and leaves
`sys.state = IDLE`; `$HQ` received in state `IDLE`, with homing enabled, is
refused with `STATUS_INVALID_STATEMENT` and leaves `sys.state = HOMING`, and no
homing cycle is run. -/
theorem C28_rejected_line_changes_state :
    (machine_in grbl11.STATE_ALARM 0 0 0 0 none).sys.state = grbl11.STATE_ALARM ∧
    (system_execute_line grbl11 quiet_extern ['$', 'L', 'X']
      (machine_in grbl11.STATE_ALARM 0 0 0 0 none)).1 = .INVALID_STATEMENT ∧
    (system_execute_line grbl11 quiet_extern ['$', 'L', 'X']
      (machine_in grbl11.STATE_ALARM 0 0 0 0 none)).2.sys.state = STATE_IDLE ∧
    STATE_IDLE ≠ grbl11.STATE_ALARM ∧
    idle_machine.sys.state = STATE_IDLE ∧
    (system_execute_line grbl11 quiet_extern ['$', 'H', 'Q'] idle_machine).1
      = .INVALID_STATEMENT ∧
    (system_execute_line grbl11 quiet_extern ['$', 'H', 'Q'] idle_machine).2.sys.state
      = grbl11.STATE_HOMING ∧
    (system_execute_line grbl11 quiet_extern ['$', 'H', 'Q'] idle_machine).2.trace = [] ∧
    grbl11.STATE_HOMING ≠ STATE_IDLE := by
  refine ⟨by decide, by decide, by decide, by decide, by decide, by decide, by decide,
    by decide, by decide⟩

/-! ## `$N`: the index of the startup line that is stored -/

/-- C29, the code at `$N2=G0` received in state `IDLE`: the line is accepted
(`STATUS_OK`) and `settings_store_startup_line` is called with the index 2,
which is not smaller than `N_STARTUP_LINE`. -/
theorem C29_startup_index_unchecked :
    idle_machine.sys.state = STATE_IDLE ∧
    (system_execute_line grbl11 digit_extern ['$', 'N', '2', '=', 'G', '0'] idle_machine).1
      = .OK ∧
    (system_execute_line grbl11 digit_extern ['$', 'N', '2', '=', 'G', '0'] idle_machine).2.trace
      = [Call.gc_execute_line ['G', '0'], Call.settings_store_startup_line 2 ['G', '0']] ∧
    ¬ ((2 : ℤ) < N_STARTUP_LINE) := by
  refine ⟨by decide, by decide, ?_, by decide⟩
  decide

/-! ## Override decrements at the lower end -/

/-- The feed override after decrements alone: it is not raised, except that
from 10 % the coarse and the fine decrement together wrap around below zero
and give 200 %. -/
theorem new_f_override_decrements (K : SystemH) (hK : K.WF) (f : Nat) (coarse fine : Bool)
    (hf : MIN_FEED_RATE_OVERRIDE ≤ f ∧ f ≤ MAX_FEED_RATE_OVERRIDE) :
    new_f_override K
        ((if coarse then K.EXEC_FEED_OVR_COARSE_MINUS else 0) |||
          (if fine then K.EXEC_FEED_OVR_FINE_MINUS else 0)) f ≤ f ∨
      (f = MIN_FEED_RATE_OVERRIDE ∧ coarse = true ∧ fine = true ∧
        new_f_override K (K.EXEC_FEED_OVR_COARSE_MINUS ||| K.EXEC_FEED_OVR_FINE_MINUS) f
          = MAX_FEED_RATE_OVERRIDE) := by
  simp only [MIN_FEED_RATE_OVERRIDE, MAX_FEED_RATE_OVERRIDE] at hf
  cases coarse <;> cases fine <;>
  simp [new_f_override, hK.motion_ovr_eq, MAX_FEED_RATE_OVERRIDE, MIN_FEED_RATE_OVERRIDE,
    FEED_OVERRIDE_COARSE_INCREMENT, FEED_OVERRIDE_FINE_INCREMENT, DEFAULT_FEED_OVERRIDE] <;>
  omega

/-- C27, the code at the lower end (Grbl 1.1 layout): with `sys.f_override` at
10 % and both feed decrements pending, `protocol_exec_rt_system` returns with
`sys.f_override` at 200 %; with `sys.spindle_speed_ovr` at 10 % and both
spindle decrements pending it returns with `sys.spindle_speed_ovr` at 200 %. -/
theorem C27_decrement_wraps :
    ({ idle_machine with
        sys := { idle_machine.sys with f_override := 10 }
        sys_rt_exec_motion_override :=
          grbl11.EXEC_FEED_OVR_COARSE_MINUS ||| grbl11.EXEC_FEED_OVR_FINE_MINUS }
      : Machine).sys.f_override = 10 ∧
    (protocol_exec_rt_system grbl11 (fun _ => 0) 0
      { idle_machine with
        sys := { idle_machine.sys with f_override := 10 }
        sys_rt_exec_motion_override :=
          grbl11.EXEC_FEED_OVR_COARSE_MINUS ||| grbl11.EXEC_FEED_OVR_FINE_MINUS
      }).machine.sys.f_override = 200 ∧
    (protocol_exec_rt_system grbl11 (fun _ => 0) 0
      { idle_machine with
        sys := { idle_machine.sys with spindle_speed_ovr := 10 }
        sys_rt_exec_accessory_override :=
          grbl11.EXEC_SPINDLE_OVR_COARSE_MINUS ||| grbl11.EXEC_SPINDLE_OVR_FINE_MINUS
      }).machine.sys.spindle_speed_ovr = 200 := by
  refine ⟨by decide, by decide, by decide⟩

/-! ## The spindle PWM value -/

/-- The linear part of the PWM value lies in `[0, 253]` before
`SPINDLE_PWM_MIN_VALUE` is added. -/
theorem pwm_linear_bound (rpm_min rpm_max r : ℚ) (h1 : rpm_min < r) (h2 : r < rpm_max) :
    0 ≤ ⌊(r - rpm_min) * ((SPINDLE_PWM_RANGE : ℚ) / (rpm_max - rpm_min))⌋ ∧
      ⌊(r - rpm_min) * ((SPINDLE_PWM_RANGE : ℚ) / (rpm_max - rpm_min))⌋ ≤ 253 := by
  have hd : 0 < rpm_max - rpm_min := by linarith
  have hr : (SPINDLE_PWM_RANGE : ℚ) = 254 := by
    simp [SPINDLE_PWM_RANGE, SPINDLE_PWM_MAX_VALUE, SPINDLE_PWM_MIN_VALUE]
  have e : (r - rpm_min) * ((SPINDLE_PWM_RANGE : ℚ) / (rpm_max - rpm_min))
      = 254 * ((r - rpm_min) / (rpm_max - rpm_min)) := by
    rw [hr]; field_simp; ring
  have hq0 : 0 ≤ (r - rpm_min) / (rpm_max - rpm_min) := by
    apply div_nonneg <;> linarith
  have hq1 : (r - rpm_min) / (rpm_max - rpm_min) < 1 := by
    rw [div_lt_one hd]; linarith
  rw [e]
  constructor
  · apply Int.floor_nonneg.mpr; positivity
  · have : ⌊254 * ((r - rpm_min) / (rpm_max - rpm_min))⌋ < 254 := by
      rw [Int.floor_lt]; push_cast; linarith
    omega

/-- The PWM value in closed form. -/
theorem spindle_compute_pwm_value_eq (rpm : ℚ) (m : Machine)
    (hlt : m.settings.rpm_min < m.settings.rpm_max)
    (hg : m.pwm_gradient
      = (SPINDLE_PWM_RANGE : ℚ) / (m.settings.rpm_max - m.settings.rpm_min)) :
    ((spindle_compute_pwm_value rpm m).2 : ℤ) =
      if rpm * ((1 / 100 : ℚ) * (m.sys.spindle_speed_ovr : ℚ)) ≥ m.settings.rpm_max then 255
      else if rpm * ((1 / 100 : ℚ) * (m.sys.spindle_speed_ovr : ℚ)) ≤ m.settings.rpm_min then
        (if rpm * ((1 / 100 : ℚ) * (m.sys.spindle_speed_ovr : ℚ)) = 0 then 0 else 1)
      else
        1 + ⌊(rpm * ((1 / 100 : ℚ) * (m.sys.spindle_speed_ovr : ℚ)) - m.settings.rpm_min)
          * m.pwm_gradient⌋ := by
  simp only [spindle_compute_pwm_value]
  generalize rpm * ((1 / 100 : ℚ) * (m.sys.spindle_speed_ovr : ℚ)) = r
  have hnge : ¬ m.settings.rpm_min ≥ m.settings.rpm_max := not_le.mpr hlt
  by_cases h1 : r ≥ m.settings.rpm_max
  · rw [if_pos (Or.inr h1), if_pos h1]; rfl
  rw [if_neg (not_or.mpr ⟨hnge, h1⟩), if_neg h1]
  by_cases h2 : r ≤ m.settings.rpm_min
  · rw [if_pos h2, if_pos h2]
    by_cases h3 : r = 0
    · rw [if_pos h3, if_pos h3]; rfl
    · rw [if_neg h3, if_neg h3]; rfl
  · rw [if_neg h2, if_neg h2]
    have hb := pwm_linear_bound m.settings.rpm_min m.settings.rpm_max r (not_le.mp h2)
      (not_le.mp h1)
    rw [← hg] at hb
    simp only [SPINDLE_PWM_MIN_VALUE]
    push_cast
    omega

/-- The closed form of the PWM value does not decrease with the speed. -/
theorem pwm_closed_form_mono (rpm_min rpm_max g r r' : ℚ)
    (hlt : rpm_min < rpm_max) (hg : g = (SPINDLE_PWM_RANGE : ℚ) / (rpm_max - rpm_min))
    (hr : 0 ≤ r) (hrr : r ≤ r') :
    (if r ≥ rpm_max then (255 : ℤ)
      else if r ≤ rpm_min then (if r = 0 then 0 else 1)
      else 1 + ⌊(r - rpm_min) * g⌋) ≤
    (if r' ≥ rpm_max then (255 : ℤ)
      else if r' ≤ rpm_min then (if r' = 0 then 0 else 1)
      else 1 + ⌊(r' - rpm_min) * g⌋) := by
  have hgpos : 0 < g := by
    rw [hg]
    apply div_pos
    · simp [SPINDLE_PWM_RANGE, SPINDLE_PWM_MAX_VALUE, SPINDLE_PWM_MIN_VALUE]
    · linarith
  by_cases a1 : r ≥ rpm_max
  · have b1 : r' ≥ rpm_max := le_trans a1 hrr
    rw [if_pos a1, if_pos b1]
  rw [if_neg a1]
  by_cases b1 : r' ≥ rpm_max
  · rw [if_pos b1]
    by_cases a2 : r ≤ rpm_min
    · rw [if_pos a2]; split_ifs <;> norm_num
    · rw [if_neg a2]
      have hb := pwm_linear_bound rpm_min rpm_max r (not_le.mp a2) (not_le.mp a1)
      rw [← hg] at hb
      omega
  rw [if_neg b1]
  by_cases b2 : r' ≤ rpm_min
  · have a2 : r ≤ rpm_min := le_trans hrr b2
    rw [if_pos a2, if_pos b2]
    by_cases b3 : r' = 0
    · have a3 : r = 0 := le_antisymm (by rw [← b3]; exact hrr) hr
      rw [if_pos a3, if_pos b3]
    · rw [if_neg b3]; split_ifs <;> norm_num
  rw [if_neg b2]
  have hb' := pwm_linear_bound rpm_min rpm_max r' (not_le.mp b2) (not_le.mp b1)
  rw [← hg] at hb'
  by_cases a2 : r ≤ rpm_min
  · rw [if_pos a2]; split_ifs <;> omega
  · rw [if_neg a2]
    have : ⌊(r - rpm_min) * g⌋ ≤ ⌊(r' - rpm_min) * g⌋ := by
      apply Int.floor_le_floor
      apply mul_le_mul_of_nonneg_right _ hgpos.le
      linarith
    omega

/-- C25: over exact arithmetic, with `0 <= rpm_min < rpm_max`,
`pwm_gradient = SPINDLE_PWM_RANGE/(rpm_max - rpm_min)` and
`r = rpm * sys.spindle_speed_ovr / 100` for `rpm >= 0`,
`spindle_compute_pwm_value` returns 0 exactly when `r = 0`,
`SPINDLE_PWM_MIN_VALUE` when `0 < r <= rpm_min`, 255 when `r >= rpm_max`, and
`1 + floor((r - rpm_min) * pwm_gradient)` otherwise, a value in `[1,254]`; the
value does not decrease when `rpm` grows, and `sys.spindle_speed` is set to 0
when `r = 0` and to `r` clamped to `[rpm_min, rpm_max]` otherwise. -/
theorem C25_spindle_pwm (rpm : ℚ) (m : Machine)
    (hmin : 0 ≤ m.settings.rpm_min) (hlt : m.settings.rpm_min < m.settings.rpm_max)
    (hg : m.pwm_gradient
      = (SPINDLE_PWM_RANGE : ℚ) / (m.settings.rpm_max - m.settings.rpm_min))
    (hrpm : 0 ≤ rpm) :
    ((spindle_compute_pwm_value rpm m).2 = SPINDLE_PWM_OFF_VALUE ↔
      rpm * m.sys.spindle_speed_ovr / 100 = 0) ∧
    (0 < rpm * m.sys.spindle_speed_ovr / 100 ∧
        rpm * m.sys.spindle_speed_ovr / 100 ≤ m.settings.rpm_min →
      (spindle_compute_pwm_value rpm m).2 = SPINDLE_PWM_MIN_VALUE) ∧
    (rpm * m.sys.spindle_speed_ovr / 100 ≥ m.settings.rpm_max →
      (spindle_compute_pwm_value rpm m).2 = SPINDLE_PWM_MAX_VALUE) ∧
    (m.settings.rpm_min < rpm * m.sys.spindle_speed_ovr / 100 ∧
        rpm * m.sys.spindle_speed_ovr / 100 < m.settings.rpm_max →
      ((spindle_compute_pwm_value rpm m).2 : ℤ)
          = 1 + ⌊(rpm * m.sys.spindle_speed_ovr / 100 - m.settings.rpm_min) * m.pwm_gradient⌋ ∧
        1 ≤ (spindle_compute_pwm_value rpm m).2 ∧ (spindle_compute_pwm_value rpm m).2 ≤ 254) ∧
    (∀ rpm' : ℚ, rpm ≤ rpm' →
      (spindle_compute_pwm_value rpm m).2 ≤ (spindle_compute_pwm_value rpm' m).2) ∧
    (spindle_compute_pwm_value rpm m).1.sys.spindle_speed =
      (if rpm * m.sys.spindle_speed_ovr / 100 = 0 then 0
        else max m.settings.rpm_min (min (rpm * m.sys.spindle_speed_ovr / 100)
          m.settings.rpm_max)) := by
  have hr : ∀ x : ℚ, x * ((1 / 100 : ℚ) * (m.sys.spindle_speed_ovr : ℚ))
      = x * m.sys.spindle_speed_ovr / 100 := by intro x; ring
  have hv := spindle_compute_pwm_value_eq rpm m hlt hg
  rw [hr] at hv
  have hovr : (0 : ℚ) ≤ m.sys.spindle_speed_ovr := Nat.cast_nonneg _
  have hr0 : 0 ≤ rpm * m.sys.spindle_speed_ovr / 100 := by positivity
  refine ⟨?_, ?_, ?_, ?_, ?_, ?_⟩
  · rw [← Int.ofNat_inj, hv]
    simp only [SPINDLE_PWM_OFF_VALUE]
    by_cases h1 : rpm * m.sys.spindle_speed_ovr / 100 ≥ m.settings.rpm_max
    · rw [if_pos h1]
      constructor
      · intro h; norm_num at h
      · intro h; rw [h] at h1; linarith
    rw [if_neg h1]
    by_cases h2 : rpm * m.sys.spindle_speed_ovr / 100 ≤ m.settings.rpm_min
    · rw [if_pos h2]
      by_cases h3 : rpm * m.sys.spindle_speed_ovr / 100 = 0
      · rw [if_pos h3]; exact ⟨fun _ => h3, fun _ => rfl⟩
      · rw [if_neg h3]
        exact ⟨fun h => by norm_num at h, fun h => absurd h h3⟩
    · rw [if_neg h2]
      have hb := pwm_linear_bound m.settings.rpm_min m.settings.rpm_max _ (not_le.mp h2)
        (not_le.mp h1)
      rw [← hg] at hb
      constructor
      · intro h; push_cast at h; omega
      · intro h; rw [h] at h2; exact absurd hmin h2
  · rintro ⟨h0, h2⟩
    have h1 : ¬ rpm * m.sys.spindle_speed_ovr / 100 ≥ m.settings.rpm_max := by
      intro h; linarith
    rw [if_neg h1, if_pos h2, if_neg (ne_of_gt h0)] at hv
    simp only [SPINDLE_PWM_MIN_VALUE]
    exact_mod_cast hv
  · intro h1
    rw [if_pos h1] at hv
    simp only [SPINDLE_PWM_MAX_VALUE]
    exact_mod_cast hv
  · rintro ⟨h2, h1⟩
    rw [if_neg (not_le.mpr h1), if_neg (not_le.mpr h2)] at hv
    have hb := pwm_linear_bound m.settings.rpm_min m.settings.rpm_max _ h2 h1
    rw [← hg] at hb
    refine ⟨hv, ?_, ?_⟩ <;> omega
  · intro rpm' hle
    have hv' := spindle_compute_pwm_value_eq rpm' m hlt hg
    rw [hr] at hv'
    have hmono := pwm_closed_form_mono m.settings.rpm_min m.settings.rpm_max m.pwm_gradient
      (rpm * m.sys.spindle_speed_ovr / 100) (rpm' * m.sys.spindle_speed_ovr / 100) hlt hg
      hr0 (by gcongr)
    rw [← hv, ← hv'] at hmono
    exact_mod_cast hmono
  · simp only [spindle_compute_pwm_value, hr]
    have hnge : ¬ m.settings.rpm_min ≥ m.settings.rpm_max := not_le.mpr hlt
    generalize rpm * m.sys.spindle_speed_ovr / 100 = r at hr0
    by_cases h1 : r ≥ m.settings.rpm_max
    · rw [if_pos (Or.inr h1)]
      have hne : r ≠ 0 := by intro h; rw [h] at h1; linarith
      rw [if_neg hne, min_eq_right h1, max_eq_right hlt.le]
      rfl
    rw [if_neg (not_or.mpr ⟨hnge, h1⟩)]
    by_cases h2 : r ≤ m.settings.rpm_min
    · rw [if_pos h2]
      by_cases h3 : r = 0
      · rw [if_pos h3, if_pos h3]; rfl
      · rw [if_neg h3, if_neg h3, min_eq_left (le_of_lt (not_le.mp h1)), max_eq_left h2]
        rfl
    · rw [if_neg h2]
      have hne : r ≠ 0 := by intro h; rw [h] at h2; exact h2 hmin
      rw [if_neg hne, min_eq_left (le_of_lt (not_le.mp h1)),
        max_eq_right (le_of_lt (not_le.mp h2))]
      rfl

/-- C25, an instance: with the CR1 defaults (1360 to 8500 rpm) and the override
at 100 %, 4930 rpm gives the PWM value 1 + floor(3570 * 254 / 7140) = 128. -/
theorem C25_spindle_pwm_witness :
    (0 : ℚ) ≤ idle_machine.settings.rpm_min ∧
    idle_machine.settings.rpm_min < idle_machine.settings.rpm_max ∧
    idle_machine.pwm_gradient
      = (SPINDLE_PWM_RANGE : ℚ) / (idle_machine.settings.rpm_max - idle_machine.settings.rpm_min) ∧
    ((spindle_compute_pwm_value 4930 idle_machine).2 : ℤ)
      = 1 + ⌊((4930 : ℚ) * idle_machine.sys.spindle_speed_ovr / 100
          - idle_machine.settings.rpm_min) * idle_machine.pwm_gradient⌋ ∧
    ⌊((4930 : ℚ) * idle_machine.sys.spindle_speed_ovr / 100
        - idle_machine.settings.rpm_min) * idle_machine.pwm_gradient⌋ = 127 :=
  have h0 : (0 : ℚ) ≤ idle_machine.settings.rpm_min := by norm_num [idle_machine]
  have h1 : idle_machine.settings.rpm_min < idle_machine.settings.rpm_max := by
    norm_num [idle_machine]
  have h2 : idle_machine.pwm_gradient
      = (SPINDLE_PWM_RANGE : ℚ)
        / (idle_machine.settings.rpm_max - idle_machine.settings.rpm_min) := by
    norm_num [idle_machine, SPINDLE_PWM_RANGE, SPINDLE_PWM_MAX_VALUE, SPINDLE_PWM_MIN_VALUE]
  ⟨h0, h1, h2,
    ((C25_spindle_pwm 4930 idle_machine h0 h1 h2 (by norm_num)).2.2.2.1
      (by norm_num [idle_machine, DEFAULT_SPINDLE_SPEED_OVERRIDE])).1,
    by
      rw [Int.floor_eq_iff]
      norm_num [idle_machine, DEFAULT_SPINDLE_SPEED_OVERRIDE]⟩

/-! ## `limits_init`: pull-ups and data directions -/

/-- What `limits_init` does to the ports: it sets bit `LIMIT_X1_BIT` of
`LIMIT_PORT` and of `LIMIT_X1_PORT`, and clears the bits of `LIMIT_MASK` in
`LIMIT_DDR` and in `LIMIT_X1_DDR`. -/
theorem limits_init_ports (flags : Nat) (r : limit_regs) :
    (limits_init flags r).PORTB = r.PORTB ||| LIMIT_X1_MASK ∧
    (limits_init flags r).PORTC = r.PORTC ||| LIMIT_X1_MASK ∧
    (limits_init flags r).DDRB = r.DDRB &&& (255 ^^^ LIMIT_MASK) ∧
    (limits_init flags r).DDRC = r.DDRC &&& (255 ^^^ LIMIT_MASK) := by
  unfold limits_init limits_disable
  split_ifs <;> exact ⟨rfl, rfl, rfl, rfl⟩

/-- C26, the code after a reset of the processor, with every register zero:
`limits_init` leaves the `LIMIT_PORT` bits of `X_LIMIT_BIT` and `Z_LIMIT_BIT`
clear, so that the pull-ups of the X and Z limit inputs are not enabled (only
bit 2, `Y_LIMIT_BIT`, is set); and called with every bit of `LIMIT_X1_DDR` set,
it clears the bits 1 and 4 of that register, which are not the data direction
of a limit input (the X1 limit input is bit 2). -/
theorem C26_limits_init_pull_ups :
    (limits_init 0 reset_limit_regs).PORTB = 1 <<< Y_LIMIT_BIT ∧
    (limits_init 0 reset_limit_regs).PORTB &&& (1 <<< X_LIMIT_BIT) = 0 ∧
    (limits_init 0 reset_limit_regs).PORTB &&& (1 <<< Z_LIMIT_BIT) = 0 ∧
    (limits_init 0 reset_limit_regs).PORTB &&& LIMIT_MASK ≠ LIMIT_MASK ∧
    (limits_init 0 { reset_limit_regs with DDRC := 255 }).DDRC &&& (1 <<< 1) = 0 ∧
    (limits_init 0 { reset_limit_regs with DDRC := 255 }).DDRC &&& (1 <<< 4) = 0 ∧
    (1 <<< 1) &&& LIMIT_X1_MASK = 0 ∧ (1 <<< 4) &&& LIMIT_X1_MASK = 0 := by
  refine ⟨by decide, by decide, by decide, by decide, by decide, by decide, by decide,
    by decide⟩

/-! ## `report_status_message` -/

/-- C22, amended: for `STATUS_OK`, `report_status_message` writes `ok\r\n` when
`sys.report_ok_mode` is `REPORT_RESPONSE_OK`; in the other mode it writes
`k\r\n` preceded by the character of the spindle speed status (`0`, `1`, `2`
or `3`, or none). For every other status code `n` it writes `[MSG:<short>]\r\n`
followed by `error:<n>\r\n`, with `n` in decimal. -/
theorem C22_status_message (R : ReportH) (report_ok_mode PINC n : Nat) :
    (n = R.STATUS .OK → report_ok_mode = R.REPORT_RESPONSE_OK →
      report_status_message R report_ok_mode PINC n = ['o', 'k', '\r', '\n']) ∧
    (n = R.STATUS .OK → report_ok_mode ≠ R.REPORT_RESPONSE_OK →
      ∃ c, c ∈ [[], ['0'], ['1'], ['2'], ['3']] ∧
        report_status_message R report_ok_mode PINC n = c ++ ['k', '\r', '\n']) ∧
    (n ≠ R.STATUS .OK →
      report_status_message R report_ok_mode PINC n =
        ['[', 'M', 'S', 'G', ':'] ++ report_status_text R n ++ [']', '\r', '\n'] ++
        ['e', 'r', 'r', 'o', 'r', ':'] ++ print_uint8_base10 n ++ ['\r', '\n']) := by
  refine ⟨fun h1 h2 => ?_, fun h1 h2 => ?_, fun h1 => ?_⟩
  · unfold report_status_message
    rw [if_pos h1, if_pos h2]
    rfl
  · refine ⟨report_actual_RPM_char R (spindle_get_actual_RPM_status R PINC), ?_, ?_⟩
    · unfold report_actual_RPM_char
      split_ifs <;> simp
    · unfold report_status_message
      rw [if_pos h1, if_neg h2]
      rfl
  · unfold report_status_message
    rw [if_neg h1]
    simp [List.append_assoc]

/-- C22, the three cases at concrete inputs: `ok` in the standard mode,
`[MSG:$UNK]` and `error:3` for `STATUS_INVALID_STATEMENT`, and `[MSG:2long]`
and `error:14` for `STATUS_LINE_LENGTH_EXCEEDED`. -/
theorem C22_status_message_examples :
    report_status_message report11 0 0 0 = "ok\r\n".toList ∧
    report_status_message report11 0 0 3 = "[MSG:$UNK]\r\nerror:3\r\n".toList ∧
    report_status_message report11 1 0 14 = "[MSG:2long]\r\nerror:14\r\n".toList ∧
    report_status_message report11 0 0 200 = "[MSG:]\r\nerror:200\r\n".toList := by
  refine ⟨by decide, by decide, by decide, by decide⟩

/-- C22, counterexample: with `sys.report_ok_mode` not `REPORT_RESPONSE_OK` (the
"M105 mode") the response to `STATUS_OK` is `0k\r\n` when both pins of the
spindle speed status are low, and `3k\r\n` when both are high: not `ok\r\n`. -/
theorem C22_status_message_counterexample :
    report_status_message report11 1 0 (report11.STATUS .OK) = ['0', 'k', '\r', '\n'] ∧
    report_status_message report11 1 (LIMIT_X1_MASK ||| SPINDLE_RPM_STATUS_MASK)
      (report11.STATUS .OK) = ['3', 'k', '\r', '\n'] ∧
    report_status_message report11 1 0 (report11.STATUS .OK) ≠ ['o', 'k', '\r', '\n'] := by
  refine ⟨by decide, by decide, by decide⟩

/-- C22, an instance: the response to `STATUS_INVALID_STATEMENT` (code 3 of
Grbl 1.1). -/
theorem C22_status_message_witness :
    3 ≠ report11.STATUS .OK ∧
    report_status_message report11 0 0 3 =
      ['[', 'M', 'S', 'G', ':'] ++ report_status_text report11 3 ++ [']', '\r', '\n'] ++
      ['e', 'r', 'r', 'o', 'r', ':'] ++ print_uint8_base10 3 ++ ['\r', '\n'] :=
  ⟨by decide, (C22_status_message report11 0 0 3).2.2 (by decide)⟩

/-! ## The `$$` dump -/

/-- The dump is the concatenation of the lines of `setting_values`. -/
theorem report_grbl_settings_eq (pf : ℚ → Nat → List Char) (S : global_settings_t) :
    report_grbl_settings pf S = (setting_values pf S).flatMap setting_line := by
  have h4 : List.range AXIS_N_SETTINGS = [0, 1, 2, 3] := by decide
  have h3 : List.range N_AXIS = [0, 1, 2] := by decide
  simp [report_grbl_settings, setting_values, h4, h3, setting_line, report_util_uint8_setting,
    report_util_float_setting, report_axis_setting, N_DECIMAL_SETTINGVALUE, N_DECIMAL_RPMVALUE,
    AXIS_SETTINGS_START_VAL, AXIS_SETTINGS_INCREMENT]

/-- A decimal digit is not a blank. -/
theorem digit_char_ne_space (d : Nat) (h : d < 10) : digit_char d ≠ ' ' := by
  interval_cases d <;> decide

/-- Different digits have different characters. -/
theorem digit_char_inj (a b : Nat) (ha : a < 10) (hb : b < 10)
    (h : digit_char a = digit_char b) : a = b := by
  have key : ∀ d, d < 10 → (digit_char d).toNat = 48 + d := by
    intro d hd
    interval_cases d <;> rfl
  have := congrArg Char.toNat h
  rw [key a ha, key b hb] at this
  omega

/-- The text of `print_uint8_base10` holds no blank. -/
theorem print_uint8_base10_no_space (n : Nat) : ' ' ∉ print_uint8_base10 n := by
  have hn : n % 256 < 256 := Nat.mod_lt _ (by norm_num)
  have e : ∀ d, d < 10 → ¬ ' ' = digit_char d := fun d hd h => digit_char_ne_space d hd h.symm
  unfold print_uint8_base10
  simp only
  split_ifs with h1 h2
  · simp only [List.mem_cons, List.mem_singleton, List.not_mem_nil, or_false, not_or]
    exact ⟨e _ (by omega), e _ (by omega), e _ (by omega)⟩
  · simp only [List.mem_cons, List.mem_singleton, List.not_mem_nil, or_false, not_or]
    exact ⟨e _ (by omega), e _ (by omega)⟩
  · simp only [List.mem_cons, List.mem_singleton, List.not_mem_nil, or_false]
    exact e _ (by omega)

/-- The text of `print_uint8_base10` determines the low eight bits of its
argument. -/
theorem print_uint8_base10_inj (a b : Nat) (h : print_uint8_base10 a = print_uint8_base10 b) :
    a % 256 = b % 256 := by
  have ha : a % 256 < 256 := Nat.mod_lt _ (by norm_num)
  have hb : b % 256 < 256 := Nat.mod_lt _ (by norm_num)
  unfold print_uint8_base10 at h
  simp only at h
  generalize a % 256 = x at h ha ⊢
  generalize b % 256 = y at h hb ⊢
  split_ifs at h with h1 h2 h3 h4 h5 h6
  · simp only [List.cons.injEq, and_true] at h
    have e1 := digit_char_inj _ _ (by omega) (by omega) h.1
    have e2 := digit_char_inj _ _ (by omega) (by omega) h.2.1
    have e3 := digit_char_inj _ _ (by omega) (by omega) h.2.2
    omega
  · simp at h
  · simp at h
  · simp at h
  · simp only [List.cons.injEq, and_true] at h
    have e1 := digit_char_inj _ _ (by omega) (by omega) h.1
    have e2 := digit_char_inj _ _ (by omega) (by omega) h.2
    omega
  · simp at h
  · simp at h
  · simp at h
  · simp only [List.cons.injEq, and_true] at h
    exact digit_char_inj _ _ (by omega) (by omega) h

/-- Two texts without a blank, each followed by a blank, are equal when what
they begin is equal, and so is what follows. -/
theorem split_at_space (v1 v2 t1 t2 : List Char) (h1 : ' ' ∉ v1) (h2 : ' ' ∉ v2)
    (h : v1 ++ ' ' :: t1 = v2 ++ ' ' :: t2) : v1 = v2 ∧ t1 = t2 := by
  induction v1 generalizing v2 with
  | nil =>
    cases v2 with
    | nil => simpa using h
    | cons c v2 =>
      simp only [List.nil_append, List.cons_append, List.cons.injEq] at h
      exact absurd (h.1 ▸ List.mem_cons_self _ _) h2
  | cons a v1 ih =>
    cases v2 with
    | nil =>
      simp only [List.nil_append, List.cons_append, List.cons.injEq] at h
      exact absurd (h.1 ▸ List.mem_cons_self _ _) h1
    | cons c v2 =>
      simp only [List.cons_append, List.cons.injEq] at h
      have := ih v2 (fun m => h1 (List.mem_cons_of_mem _ m))
        (fun m => h2 (List.mem_cons_of_mem _ m)) h.2
      exact ⟨by rw [h.1, this.1], this.2⟩

/-- The lines of two lists with the same setting numbers and no blank in a
value are the same text only when the values are the same. -/
theorem setting_lines_inj (l1 l2 : List (Nat × List Char))
    (hn : l1.map Prod.fst = l2.map Prod.fst)
    (h1 : ∀ p ∈ l1, ' ' ∉ p.2) (h2 : ∀ p ∈ l2, ' ' ∉ p.2)
    (h : l1.flatMap setting_line = l2.flatMap setting_line) : l1 = l2 := by
  induction l1 generalizing l2 with
  | nil =>
    cases l2 with
    | nil => rfl
    | cons q l2 => simp at hn
  | cons p l1 ih =>
    cases l2 with
    | nil => simp at hn
    | cons q l2 =>
      obtain ⟨n, v⟩ := p
      obtain ⟨n2, v2⟩ := q
      simp only [List.map_cons, List.cons.injEq] at hn
      obtain ⟨hnn, hn⟩ := hn
      subst hnn
      simp only [List.flatMap_cons, setting_line, List.append_assoc,
        report_util_setting_string, List.cons_append] at h
      have h' := List.append_cancel_left h
      obtain ⟨ev, et⟩ := split_at_space _ _ _ _ (h1 _ (List.mem_cons_self _ _))
        (h2 _ (List.mem_cons_self _ _)) h'
      simp only [List.cons.injEq, true_and] at et
      have et' := List.append_cancel_left et
      simp only [List.cons.injEq, true_and] at et'
      have := ih l2 hn (fun p m => h1 p (List.mem_cons_of_mem _ m))
        (fun p m => h2 p (List.mem_cons_of_mem _ m)) (List.append_cancel_left et')
      simp only at ev
      rw [ev, this]

/-- The bit printed for a flag determines the flag. -/
theorem bit_value_inj (x y mask : Nat)
    (h : print_uint8_base10 (bit_value x mask) = print_uint8_base10 (bit_value y mask)) :
    bit_istrue x mask = bit_istrue y mask := by
  have := print_uint8_base10_inj _ _ h
  unfold bit_value at this
  cases hx : bit_istrue x mask <;> cases hy : bit_istrue y mask <;> rw [hx, hy] at this <;>
    simp at this ⊢

/-- No value text of the dump holds a blank when `printFloat` prints none. -/
theorem setting_values_no_space (pf : ℚ → Nat → List Char) (S : global_settings_t)
    (hpf : ∀ x d, ' ' ∉ pf x d) : ∀ p ∈ setting_values pf S, ' ' ∉ p.2 := by
  simp [setting_values, print_uint8_base10_no_space, hpf]

/-- What the `$$` dump does determine: two settings records that print the
same dump (with a `printFloat` that prints no blank) have the same 8-bit fields
`$0`-`$3`, `$10` and `$23`, the same low eight bits of `homing_debounce_delay`,
the same flag bits `$4`, `$5`, `$6`, `$13`, `$20`, `$21`, `$22`, and each of
their `float` fields is printed as the same text. -/
theorem report_grbl_settings_determines (pf : ℚ → Nat → List Char) (S1 S2 : global_settings_t)
    (hpf : ∀ x d, ' ' ∉ pf x d)
    (h : report_grbl_settings pf S1 = report_grbl_settings pf S2) :
    (S1.pulse_microseconds % 256 = S2.pulse_microseconds % 256 ∧
      S1.stepper_idle_lock_time % 256 = S2.stepper_idle_lock_time % 256 ∧
      S1.step_invert_mask % 256 = S2.step_invert_mask % 256 ∧
      S1.dir_invert_mask % 256 = S2.dir_invert_mask % 256 ∧
      S1.status_report_mask % 256 = S2.status_report_mask % 256 ∧
      S1.homing_dir_mask % 256 = S2.homing_dir_mask % 256) ∧
    S1.homing_debounce_delay % 256 = S2.homing_debounce_delay % 256 ∧
    (bit_istrue S1.flags BITFLAG_INVERT_ST_ENABLE = bit_istrue S2.flags BITFLAG_INVERT_ST_ENABLE ∧
      bit_istrue S1.flags BITFLAG_INVERT_LIMIT_PINS =
        bit_istrue S2.flags BITFLAG_INVERT_LIMIT_PINS ∧
      bit_istrue S1.flags BITFLAG_INVERT_PROBE_PIN = bit_istrue S2.flags BITFLAG_INVERT_PROBE_PIN ∧
      bit_istrue S1.flags BITFLAG_REPORT_INCHES = bit_istrue S2.flags BITFLAG_REPORT_INCHES ∧
      bit_istrue S1.flags BITFLAG_SOFT_LIMIT_ENABLE =
        bit_istrue S2.flags BITFLAG_SOFT_LIMIT_ENABLE ∧
      bit_istrue S1.flags BITFLAG_HARD_LIMIT_ENABLE =
        bit_istrue S2.flags BITFLAG_HARD_LIMIT_ENABLE ∧
      bit_istrue S1.flags BITFLAG_HOMING_ENABLE = bit_istrue S2.flags BITFLAG_HOMING_ENABLE) ∧
    (pf S1.junction_deviation N_DECIMAL_SETTINGVALUE =
        pf S2.junction_deviation N_DECIMAL_SETTINGVALUE ∧
      pf S1.arc_tolerance N_DECIMAL_SETTINGVALUE = pf S2.arc_tolerance N_DECIMAL_SETTINGVALUE ∧
      pf S1.homing_feed_rate N_DECIMAL_SETTINGVALUE =
        pf S2.homing_feed_rate N_DECIMAL_SETTINGVALUE ∧
      pf S1.homing_seek_rate N_DECIMAL_SETTINGVALUE =
        pf S2.homing_seek_rate N_DECIMAL_SETTINGVALUE ∧
      pf S1.homing_pulloff N_DECIMAL_SETTINGVALUE = pf S2.homing_pulloff N_DECIMAL_SETTINGVALUE ∧
      pf S1.rpm_max N_DECIMAL_RPMVALUE = pf S2.rpm_max N_DECIMAL_RPMVALUE ∧
      pf S1.rpm_min N_DECIMAL_RPMVALUE = pf S2.rpm_min N_DECIMAL_RPMVALUE) ∧
    (∀ idx, idx < N_AXIS →
      pf (S1.steps_per_mm idx) N_DECIMAL_SETTINGVALUE =
        pf (S2.steps_per_mm idx) N_DECIMAL_SETTINGVALUE ∧
      pf (S1.max_rate idx) N_DECIMAL_SETTINGVALUE = pf (S2.max_rate idx) N_DECIMAL_SETTINGVALUE ∧
      pf (S1.acceleration idx / (60 * 60)) N_DECIMAL_SETTINGVALUE =
        pf (S2.acceleration idx / (60 * 60)) N_DECIMAL_SETTINGVALUE ∧
      pf (-(S1.max_travel idx)) N_DECIMAL_SETTINGVALUE =
        pf (-(S2.max_travel idx)) N_DECIMAL_SETTINGVALUE) := by
  have hv : setting_values pf S1 = setting_values pf S2 := by
    apply setting_lines_inj _ _ _ (setting_values_no_space pf S1 hpf)
      (setting_values_no_space pf S2 hpf)
    · rw [← report_grbl_settings_eq, ← report_grbl_settings_eq]
      exact h
    · simp [setting_values]
  simp only [setting_values, List.cons.injEq, Prod.mk.injEq, true_and, and_true] at hv
  obtain ⟨e0, e1, e2, e3, e4, e5, e6, e10, e11, e12, e13, e20, e21, e22, e23, e24, e25, e26,
    e27, e30, e31, x0, x1, x2, r0, r1, r2, a0, a1, a2, t0, t1, t2⟩ := hv
  refine ⟨⟨print_uint8_base10_inj _ _ e0, print_uint8_base10_inj _ _ e1,
    print_uint8_base10_inj _ _ e2, print_uint8_base10_inj _ _ e3,
    print_uint8_base10_inj _ _ e10, print_uint8_base10_inj _ _ e23⟩,
    print_uint8_base10_inj _ _ e26,
    ⟨bit_value_inj _ _ _ e4, bit_value_inj _ _ _ e5, bit_value_inj _ _ _ e6,
      bit_value_inj _ _ _ e13, bit_value_inj _ _ _ e20, bit_value_inj _ _ _ e21,
      bit_value_inj _ _ _ e22⟩,
    ⟨e11, e12, e24, e25, e27, e30, e31⟩, ?_⟩
  · intro idx hidx
    have hidx' : idx < 3 := hidx
    interval_cases idx
    · exact ⟨x0, r0, a0, t0⟩
    · exact ⟨x1, r1, a1, t1⟩
    · exact ⟨x2, r2, a2, t2⟩

/-- An instance: the defaults and the defaults with the unused flag bit set
print the same dump, and agree on the seven flag bits that it lists. -/
theorem report_grbl_settings_determines_example :
    report_grbl_settings print_whole default_global_settings =
      report_grbl_settings print_whole unused_flag_settings ∧
    default_global_settings.flags ≠ unused_flag_settings.flags ∧
    bit_istrue default_global_settings.flags BITFLAG_HOMING_ENABLE =
      bit_istrue unused_flag_settings.flags BITFLAG_HOMING_ENABLE ∧
    bit_istrue default_global_settings.flags BITFLAG_REPORT_INCHES =
      bit_istrue unused_flag_settings.flags BITFLAG_REPORT_INCHES := by
  have h : report_grbl_settings print_whole default_global_settings =
      report_grbl_settings print_whole unused_flag_settings := by
    rw [report_grbl_settings_eq, report_grbl_settings_eq]
    rfl
  have key := report_grbl_settings_determines print_whole default_global_settings
    unused_flag_settings
    (fun _ _ => print_uint8_base10_no_space _) h
  exact ⟨h, by decide, key.2.2.1.2.2.2.2.2.2, key.2.2.1.2.2.2.1⟩

/-- C23, the code at `settings.homing_debounce_delay = 300`: the dump holds the
line `$26=44 (homeDelay)`, and the settings of defaults.h with the delay 300
print the same dump as with the delay 44, whatever `printFloat` prints,
although the two records differ in a field that the dump lists. -/
theorem C23_dump_truncates_delay :
    (delay_settings 44).homing_debounce_delay ≠ (delay_settings 300).homing_debounce_delay ∧
    (∀ pf : ℚ → Nat → List Char,
      report_grbl_settings pf (delay_settings 44) =
        report_grbl_settings pf (delay_settings 300)) ∧
    report_util_uint8_setting 26 (delay_settings 300).homing_debounce_delay =
      "$26=44 (homeDelay)\r\n".toList := by
  refine ⟨by decide, fun pf => ?_, by decide⟩
  rw [report_grbl_settings_eq, report_grbl_settings_eq]
  rfl

/-! ## The echo after an error of `system_execute_line` -/

/-- The line `$n0=g999`, received at rest with a parser that refuses the block:
the block is moved to the start of the buffer before it is parsed, and the echo
that follows the error shows `G999`. -/
theorem protocol_echo_after_shift :
    calls_since idle_machine
        (protocol_dispatch_line grbl11 refusing_extern
          (protocol_read_line ['$', 'n', '0', '=', 'g', '9', '9', '9']) idle_machine)
      = [Call.gc_execute_line ['G', '9', '9', '9'],
          Call.report_echo_line_received ['G', '9', '9', '9'],
          Call.report_status_message (.other 20)] := by
  decide

end GrblCR
